import Mathlib

/-!
IIS3DWB register driver: shallow embedding.

Embedding of `iis3dwb_reg.c` / `iis3dwb_reg.h`.

* A byte is a `Nat`; the `uint8_t` casts of the source are explicit `% 256`, the
  `uint16_t` and `uint32_t` arithmetic is explicit `% 65536` and `% 4294967296`.
* A register bit-field struct is a Lean structure; `ofByte` is the overlay of the
  struct on a byte read from the bus (`DRV_LITTLE_ENDIAN` declaration order: the
  first declared field sits at the least significant bits), `toByte` the overlay in
  the other direction. Assigning to a bit-field of width `w` truncates modulo `2 ^ w`.
* The transport callbacks of `stmdev_ctx_t` are state transformers on a world
  state `σ`; a null context is `none`.
* A driver function returns its `int32_t` status together with the values it
  stores through its out-pointers and the world state after the call. The
  consecutive `if (ret == 0)` blocks of the source are nested here: once `ret` is
  non-zero every later block is skipped. A `switch` is the chain of its case tests
  in source order, ending in its `default`.
* A getter of the source decodes its local buffer whatever the status of the read.
  The bytes a read did not deliver are indeterminate in C and read as 0 here; no
  statement below depends on them.
-/

/-! ## Transport -/

/-- One bus transaction as the transport sees it. -/
inductive Txn where
  | read (reg len : Nat)
  | write (reg : Nat) (data : List Nat) (len : Nat)
  deriving DecidableEq

/-- Device context `stmdev_ctx_t`: the two mandatory callbacks. The opaque handle and
what it designates are the world state `σ` the callbacks act on. A read callback
gives back its status, the bytes it stored in the buffer, and the next state. -/
structure stmdev_ctx_t (σ : Type) where
  write_reg : σ → Nat → List Nat → Nat → Int × σ
  read_reg : σ → Nat → Nat → Int × List Nat × σ

/-- Source `iis3dwb_read_reg`: `-1` on a null context, else the callback. -/
def iis3dwb_read_reg {σ : Type} (ctx : Option (stmdev_ctx_t σ)) (reg len : Nat) (s : σ) :
    Int × List Nat × σ :=
  match ctx with
  | none => (-1, [], s)
  | some c => c.read_reg s reg len

/-- Source `iis3dwb_write_reg`: `-1` on a null context, else the callback. -/
def iis3dwb_write_reg {σ : Type} (ctx : Option (stmdev_ctx_t σ)) (reg : Nat) (data : List Nat)
    (len : Nat) (s : σ) : Int × σ :=
  match ctx with
  | none => (-1, s)
  | some c => c.write_reg s reg data len

/-- Element `i` of a `uint8_t` buffer. -/
def byteAt (data : List Nat) (i : Nat) : Nat := data.getD i 0 % 256

/-- Bit `i` of a byte, as 0 or 1. -/
def bitOf (b i : Nat) : Nat := b / 2 ^ i % 2

/-! ## A register-file device behind the transport -/

/-- A device on the bus: its register file, the transactions issued so far (oldest
first) and the status the transport reports for the n-th transaction. A transaction
that reports a non-zero status leaves the registers alone and delivers no byte. -/
structure Device where
  regs : Nat → Nat
  log : List Txn
  status : Nat → Int

/-- Read callback of the device: `len` consecutive registers from `reg`. -/
def Device.read (d : Device) (reg len : Nat) : Int × List Nat × Device :=
  let st := d.status d.log.length
  let d1 : Device := { d with log := d.log ++ [Txn.read reg len] }
  if st = 0 then (0, (List.range len).map (fun i => d.regs (reg + i)), d1)
  else (st, [], d1)

/-- Write callback of the device: `len` consecutive registers from `reg`. -/
def Device.write (d : Device) (reg : Nat) (data : List Nat) (len : Nat) : Int × Device :=
  let st := d.status d.log.length
  let lg := d.log ++ [Txn.write reg (data.take len) len]
  if st = 0 then
    (0, { d with
            regs := fun a => if reg ≤ a ∧ a < reg + len then data.getD (a - reg) 0 else d.regs a
            log := lg })
  else (st, { d with log := lg })

/-- The context a caller builds over a `Device`. -/
def devCtx : stmdev_ctx_t Device where
  write_reg := Device.write
  read_reg := Device.read

/-- The transport never reports a failure. -/
def Device.alwaysOk (d : Device) : Prop := ∀ n, d.status n = 0

/-- A device with the given register file, an empty log and a transport that never
fails. -/
def Device.fresh (regs : Nat → Nat) : Device where
  regs := regs
  log := []
  status := fun _ => 0

/-! ## Register map: addresses -/

def IIS3DWB_PIN_CTRL : Nat := 0x02
def IIS3DWB_FIFO_CTRL1 : Nat := 0x07
def IIS3DWB_FIFO_CTRL2 : Nat := 0x08
def IIS3DWB_FIFO_CTRL3 : Nat := 0x09
def IIS3DWB_FIFO_CTRL4 : Nat := 0x0A
def IIS3DWB_COUNTER_BDR_REG1 : Nat := 0x0B
def IIS3DWB_COUNTER_BDR_REG2 : Nat := 0x0C
def IIS3DWB_INT1_CTRL : Nat := 0x0D
def IIS3DWB_INT2_CTRL : Nat := 0x0E
def IIS3DWB_WHO_AM_I : Nat := 0x0F
def IIS3DWB_CTRL1_XL : Nat := 0x10
def IIS3DWB_CTRL3_C : Nat := 0x12
def IIS3DWB_CTRL4_C : Nat := 0x13
def IIS3DWB_CTRL5_C : Nat := 0x14
def IIS3DWB_CTRL6_C : Nat := 0x15
def IIS3DWB_CTRL7_C : Nat := 0x16
def IIS3DWB_CTRL8_XL : Nat := 0x17
def IIS3DWB_CTRL10_C : Nat := 0x19
def IIS3DWB_ALL_INT_SRC : Nat := 0x1A
def IIS3DWB_WAKE_UP_SRC : Nat := 0x1B
def IIS3DWB_STATUS_REG : Nat := 0x1E
def IIS3DWB_OUT_TEMP_L : Nat := 0x20
def IIS3DWB_OUT_TEMP_H : Nat := 0x21
def IIS3DWB_OUTX_L_A : Nat := 0x28
def IIS3DWB_OUTX_H_A : Nat := 0x29
def IIS3DWB_OUTY_L_A : Nat := 0x2A
def IIS3DWB_OUTY_H_A : Nat := 0x2B
def IIS3DWB_OUTZ_L_A : Nat := 0x2C
def IIS3DWB_OUTZ_H_A : Nat := 0x2D
def IIS3DWB_FIFO_STATUS1 : Nat := 0x3A
def IIS3DWB_FIFO_STATUS2 : Nat := 0x3B
def IIS3DWB_TIMESTAMP0 : Nat := 0x40
def IIS3DWB_TIMESTAMP1 : Nat := 0x41
def IIS3DWB_TIMESTAMP2 : Nat := 0x42
def IIS3DWB_TIMESTAMP3 : Nat := 0x43
def IIS3DWB_SLOPE_EN : Nat := 0x56
def IIS3DWB_INTERRUPTS_EN : Nat := 0x58
def IIS3DWB_WAKE_UP_THS : Nat := 0x5B
def IIS3DWB_WAKE_UP_DUR : Nat := 0x5C
def IIS3DWB_MD1_CFG : Nat := 0x5E
def IIS3DWB_MD2_CFG : Nat := 0x5F
def IIS3DWB_INTERNAL_FREQ_FINE : Nat := 0x63
def IIS3DWB_X_OFS_USR : Nat := 0x73
def IIS3DWB_Y_OFS_USR : Nat := 0x74
def IIS3DWB_Z_OFS_USR : Nat := 0x75
def IIS3DWB_FIFO_DATA_OUT_TAG : Nat := 0x78
def IIS3DWB_FIFO_DATA_OUT_X_L : Nat := 0x79
def IIS3DWB_FIFO_DATA_OUT_X_H : Nat := 0x7A
def IIS3DWB_FIFO_DATA_OUT_Y_L : Nat := 0x7B
def IIS3DWB_FIFO_DATA_OUT_Y_H : Nat := 0x7C
def IIS3DWB_FIFO_DATA_OUT_Z_L : Nat := 0x7D
def IIS3DWB_FIFO_DATA_OUT_Z_H : Nat := 0x7E

/-! ## Register map: bit-field layouts (`DRV_LITTLE_ENDIAN` declaration order) -/

/-- Layout `iis3dwb_pin_ctrl_t`. -/
structure iis3dwb_pin_ctrl_t where
  not_used_01 : Nat
  sdo_pu_en : Nat
  not_used_02 : Nat
  deriving DecidableEq

/-- Overlay of `iis3dwb_pin_ctrl_t` on a byte. -/
def iis3dwb_pin_ctrl_t.ofByte (b : Nat) : iis3dwb_pin_ctrl_t where
  not_used_01 := b % 64
  sdo_pu_en := b / 64 % 2
  not_used_02 := b / 128 % 2

/-- The byte a `iis3dwb_pin_ctrl_t` overlays. -/
def iis3dwb_pin_ctrl_t.toByte (r : iis3dwb_pin_ctrl_t) : Nat :=
  r.not_used_01 + 64 * r.sdo_pu_en + 128 * r.not_used_02

/-- Layout `iis3dwb_fifo_ctrl1_t`. -/
structure iis3dwb_fifo_ctrl1_t where
  wtm : Nat
  deriving DecidableEq

/-- Overlay of `iis3dwb_fifo_ctrl1_t` on a byte. -/
def iis3dwb_fifo_ctrl1_t.ofByte (b : Nat) : iis3dwb_fifo_ctrl1_t where
  wtm := b % 256

/-- The byte a `iis3dwb_fifo_ctrl1_t` overlays. -/
def iis3dwb_fifo_ctrl1_t.toByte (r : iis3dwb_fifo_ctrl1_t) : Nat :=
  r.wtm

/-- Layout `iis3dwb_fifo_ctrl2_t`. -/
structure iis3dwb_fifo_ctrl2_t where
  wtm : Nat
  not_used_01 : Nat
  stop_on_wtm : Nat
  deriving DecidableEq

/-- Overlay of `iis3dwb_fifo_ctrl2_t` on a byte. -/
def iis3dwb_fifo_ctrl2_t.ofByte (b : Nat) : iis3dwb_fifo_ctrl2_t where
  wtm := b % 2
  not_used_01 := b / 2 % 64
  stop_on_wtm := b / 128 % 2

/-- The byte a `iis3dwb_fifo_ctrl2_t` overlays. -/
def iis3dwb_fifo_ctrl2_t.toByte (r : iis3dwb_fifo_ctrl2_t) : Nat :=
  r.wtm + 2 * r.not_used_01 + 128 * r.stop_on_wtm

/-- Layout `iis3dwb_fifo_ctrl3_t`. -/
structure iis3dwb_fifo_ctrl3_t where
  bdr_xl : Nat
  not_used_01 : Nat
  deriving DecidableEq

/-- Overlay of `iis3dwb_fifo_ctrl3_t` on a byte. -/
def iis3dwb_fifo_ctrl3_t.ofByte (b : Nat) : iis3dwb_fifo_ctrl3_t where
  bdr_xl := b % 16
  not_used_01 := b / 16 % 16

/-- The byte a `iis3dwb_fifo_ctrl3_t` overlays. -/
def iis3dwb_fifo_ctrl3_t.toByte (r : iis3dwb_fifo_ctrl3_t) : Nat :=
  r.bdr_xl + 16 * r.not_used_01

/-- Layout `iis3dwb_fifo_ctrl4_t`. -/
structure iis3dwb_fifo_ctrl4_t where
  fifo_mode : Nat
  not_used_01 : Nat
  odr_t_batch : Nat
  odr_ts_batch : Nat
  deriving DecidableEq

/-- Overlay of `iis3dwb_fifo_ctrl4_t` on a byte. -/
def iis3dwb_fifo_ctrl4_t.ofByte (b : Nat) : iis3dwb_fifo_ctrl4_t where
  fifo_mode := b % 8
  not_used_01 := b / 8 % 2
  odr_t_batch := b / 16 % 4
  odr_ts_batch := b / 64 % 4

/-- The byte a `iis3dwb_fifo_ctrl4_t` overlays. -/
def iis3dwb_fifo_ctrl4_t.toByte (r : iis3dwb_fifo_ctrl4_t) : Nat :=
  r.fifo_mode + 8 * r.not_used_01 + 16 * r.odr_t_batch + 64 * r.odr_ts_batch

/-- Layout `iis3dwb_counter_bdr_reg1_t`. -/
structure iis3dwb_counter_bdr_reg1_t where
  cnt_bdr_th : Nat
  not_used_01 : Nat
  rst_counter_bdr : Nat
  dataready_pulsed : Nat
  deriving DecidableEq

/-- Overlay of `iis3dwb_counter_bdr_reg1_t` on a byte. -/
def iis3dwb_counter_bdr_reg1_t.ofByte (b : Nat) : iis3dwb_counter_bdr_reg1_t where
  cnt_bdr_th := b % 8
  not_used_01 := b / 8 % 8
  rst_counter_bdr := b / 64 % 2
  dataready_pulsed := b / 128 % 2

/-- The byte a `iis3dwb_counter_bdr_reg1_t` overlays. -/
def iis3dwb_counter_bdr_reg1_t.toByte (r : iis3dwb_counter_bdr_reg1_t) : Nat :=
  r.cnt_bdr_th + 8 * r.not_used_01 + 64 * r.rst_counter_bdr + 128 * r.dataready_pulsed

/-- Layout `iis3dwb_counter_bdr_reg2_t`. -/
structure iis3dwb_counter_bdr_reg2_t where
  cnt_bdr_th : Nat
  deriving DecidableEq

/-- Overlay of `iis3dwb_counter_bdr_reg2_t` on a byte. -/
def iis3dwb_counter_bdr_reg2_t.ofByte (b : Nat) : iis3dwb_counter_bdr_reg2_t where
  cnt_bdr_th := b % 256

/-- The byte a `iis3dwb_counter_bdr_reg2_t` overlays. -/
def iis3dwb_counter_bdr_reg2_t.toByte (r : iis3dwb_counter_bdr_reg2_t) : Nat :=
  r.cnt_bdr_th

/-- Layout `iis3dwb_int1_ctrl_t`. -/
structure iis3dwb_int1_ctrl_t where
  int1_drdy_xl : Nat
  not_used_01 : Nat
  int1_boot : Nat
  int1_fifo_th : Nat
  int1_fifo_ovr : Nat
  int1_fifo_full : Nat
  int1_cnt_bdr : Nat
  not_used_02 : Nat
  deriving DecidableEq

/-- Overlay of `iis3dwb_int1_ctrl_t` on a byte. -/
def iis3dwb_int1_ctrl_t.ofByte (b : Nat) : iis3dwb_int1_ctrl_t where
  int1_drdy_xl := b % 2
  not_used_01 := b / 2 % 2
  int1_boot := b / 4 % 2
  int1_fifo_th := b / 8 % 2
  int1_fifo_ovr := b / 16 % 2
  int1_fifo_full := b / 32 % 2
  int1_cnt_bdr := b / 64 % 2
  not_used_02 := b / 128 % 2

/-- The byte a `iis3dwb_int1_ctrl_t` overlays. -/
def iis3dwb_int1_ctrl_t.toByte (r : iis3dwb_int1_ctrl_t) : Nat :=
  r.int1_drdy_xl + 2 * r.not_used_01 + 4 * r.int1_boot + 8 * r.int1_fifo_th +
    16 * r.int1_fifo_ovr + 32 * r.int1_fifo_full + 64 * r.int1_cnt_bdr + 128 * r.not_used_02

/-- Layout `iis3dwb_int2_ctrl_t`. -/
structure iis3dwb_int2_ctrl_t where
  int2_drdy_xl : Nat
  not_used_01 : Nat
  int2_drdy_temp : Nat
  int2_fifo_th : Nat
  int2_fifo_ovr : Nat
  int2_fifo_full : Nat
  int2_cnt_bdr : Nat
  not_used_02 : Nat
  deriving DecidableEq

/-- Overlay of `iis3dwb_int2_ctrl_t` on a byte. -/
def iis3dwb_int2_ctrl_t.ofByte (b : Nat) : iis3dwb_int2_ctrl_t where
  int2_drdy_xl := b % 2
  not_used_01 := b / 2 % 2
  int2_drdy_temp := b / 4 % 2
  int2_fifo_th := b / 8 % 2
  int2_fifo_ovr := b / 16 % 2
  int2_fifo_full := b / 32 % 2
  int2_cnt_bdr := b / 64 % 2
  not_used_02 := b / 128 % 2

/-- The byte a `iis3dwb_int2_ctrl_t` overlays. -/
def iis3dwb_int2_ctrl_t.toByte (r : iis3dwb_int2_ctrl_t) : Nat :=
  r.int2_drdy_xl + 2 * r.not_used_01 + 4 * r.int2_drdy_temp + 8 * r.int2_fifo_th +
    16 * r.int2_fifo_ovr + 32 * r.int2_fifo_full + 64 * r.int2_cnt_bdr + 128 * r.not_used_02

/-- Layout `iis3dwb_ctrl1_xl_t`. -/
structure iis3dwb_ctrl1_xl_t where
  not_used_01 : Nat
  lpf2_xl_en : Nat
  fs_xl : Nat
  not_used_02 : Nat
  xl_en : Nat
  deriving DecidableEq

/-- Overlay of `iis3dwb_ctrl1_xl_t` on a byte. -/
def iis3dwb_ctrl1_xl_t.ofByte (b : Nat) : iis3dwb_ctrl1_xl_t where
  not_used_01 := b % 2
  lpf2_xl_en := b / 2 % 2
  fs_xl := b / 4 % 4
  not_used_02 := b / 16 % 2
  xl_en := b / 32 % 8

/-- The byte a `iis3dwb_ctrl1_xl_t` overlays. -/
def iis3dwb_ctrl1_xl_t.toByte (r : iis3dwb_ctrl1_xl_t) : Nat :=
  r.not_used_01 + 2 * r.lpf2_xl_en + 4 * r.fs_xl + 16 * r.not_used_02 + 32 * r.xl_en

/-- Layout `iis3dwb_ctrl3_c_t`. -/
structure iis3dwb_ctrl3_c_t where
  sw_reset : Nat
  not_used_01 : Nat
  if_inc : Nat
  sim : Nat
  pp_od : Nat
  h_lactive : Nat
  bdu : Nat
  boot : Nat
  deriving DecidableEq

/-- Overlay of `iis3dwb_ctrl3_c_t` on a byte. -/
def iis3dwb_ctrl3_c_t.ofByte (b : Nat) : iis3dwb_ctrl3_c_t where
  sw_reset := b % 2
  not_used_01 := b / 2 % 2
  if_inc := b / 4 % 2
  sim := b / 8 % 2
  pp_od := b / 16 % 2
  h_lactive := b / 32 % 2
  bdu := b / 64 % 2
  boot := b / 128 % 2

/-- The byte a `iis3dwb_ctrl3_c_t` overlays. -/
def iis3dwb_ctrl3_c_t.toByte (r : iis3dwb_ctrl3_c_t) : Nat :=
  r.sw_reset + 2 * r.not_used_01 + 4 * r.if_inc + 8 * r.sim + 16 * r.pp_od + 32 * r.h_lactive +
    64 * r.bdu + 128 * r.boot

/-- Layout `iis3dwb_ctrl4_c_t`. -/
structure iis3dwb_ctrl4_c_t where
  _1ax_to_3regout : Nat
  lpf1_sel_g : Nat
  i2c_disable : Nat
  drdy_mask : Nat
  not_used_02 : Nat
  int2_on_int1 : Nat
  not_used_03 : Nat
  deriving DecidableEq

/-- Overlay of `iis3dwb_ctrl4_c_t` on a byte. -/
def iis3dwb_ctrl4_c_t.ofByte (b : Nat) : iis3dwb_ctrl4_c_t where
  _1ax_to_3regout := b % 2
  lpf1_sel_g := b / 2 % 2
  i2c_disable := b / 4 % 2
  drdy_mask := b / 8 % 2
  not_used_02 := b / 16 % 2
  int2_on_int1 := b / 32 % 2
  not_used_03 := b / 64 % 4

/-- The byte a `iis3dwb_ctrl4_c_t` overlays. -/
def iis3dwb_ctrl4_c_t.toByte (r : iis3dwb_ctrl4_c_t) : Nat :=
  r._1ax_to_3regout + 2 * r.lpf1_sel_g + 4 * r.i2c_disable + 8 * r.drdy_mask +
    16 * r.not_used_02 + 32 * r.int2_on_int1 + 64 * r.not_used_03

/-- Layout `iis3dwb_ctrl5_c_t`. The declared widths add up to 9, so the last declared
field `i2c_disable` lies outside the byte that is transferred: the overlay does not
fill it and `toByte` does not emit it. -/
structure iis3dwb_ctrl5_c_t where
  st_xl : Nat
  not_used_01 : Nat
  rounding : Nat
  not_used_02 : Nat
  i2c_disable : Nat
  deriving DecidableEq

/-- Overlay of `iis3dwb_ctrl5_c_t` on a byte. -/
def iis3dwb_ctrl5_c_t.ofByte (b : Nat) : iis3dwb_ctrl5_c_t where
  st_xl := b % 4
  not_used_01 := b / 4 % 8
  rounding := b / 32 % 4
  not_used_02 := b / 128 % 2
  i2c_disable := 0

/-- The byte a `iis3dwb_ctrl5_c_t` overlays. -/
def iis3dwb_ctrl5_c_t.toByte (r : iis3dwb_ctrl5_c_t) : Nat :=
  r.st_xl + 4 * r.not_used_01 + 32 * r.rounding + 128 * r.not_used_02

/-- Layout `iis3dwb_ctrl6_c_t`. -/
structure iis3dwb_ctrl6_c_t where
  xl_axis_sel : Nat
  not_used_01 : Nat
  usr_off_w : Nat
  not_used_02 : Nat
  deriving DecidableEq

/-- Overlay of `iis3dwb_ctrl6_c_t` on a byte. -/
def iis3dwb_ctrl6_c_t.ofByte (b : Nat) : iis3dwb_ctrl6_c_t where
  xl_axis_sel := b % 4
  not_used_01 := b / 4 % 2
  usr_off_w := b / 8 % 2
  not_used_02 := b / 16 % 16

/-- The byte a `iis3dwb_ctrl6_c_t` overlays. -/
def iis3dwb_ctrl6_c_t.toByte (r : iis3dwb_ctrl6_c_t) : Nat :=
  r.xl_axis_sel + 4 * r.not_used_01 + 8 * r.usr_off_w + 16 * r.not_used_02

/-- Layout `iis3dwb_ctrl7_c_t`. -/
structure iis3dwb_ctrl7_c_t where
  not_used_01 : Nat
  usr_off_on_out : Nat
  not_used_02 : Nat
  deriving DecidableEq

/-- Overlay of `iis3dwb_ctrl7_c_t` on a byte. -/
def iis3dwb_ctrl7_c_t.ofByte (b : Nat) : iis3dwb_ctrl7_c_t where
  not_used_01 := b % 2
  usr_off_on_out := b / 2 % 2
  not_used_02 := b / 4 % 64

/-- The byte a `iis3dwb_ctrl7_c_t` overlays. -/
def iis3dwb_ctrl7_c_t.toByte (r : iis3dwb_ctrl7_c_t) : Nat :=
  r.not_used_01 + 2 * r.usr_off_on_out + 4 * r.not_used_02

/-- Layout `iis3dwb_ctrl8_xl_t`. -/
structure iis3dwb_ctrl8_xl_t where
  not_used_01 : Nat
  fds : Nat
  fastsettl_mode_xl : Nat
  hp_ref_mode_xl : Nat
  hpcf_xl : Nat
  deriving DecidableEq

/-- Overlay of `iis3dwb_ctrl8_xl_t` on a byte. -/
def iis3dwb_ctrl8_xl_t.ofByte (b : Nat) : iis3dwb_ctrl8_xl_t where
  not_used_01 := b % 4
  fds := b / 4 % 2
  fastsettl_mode_xl := b / 8 % 2
  hp_ref_mode_xl := b / 16 % 2
  hpcf_xl := b / 32 % 8

/-- The byte a `iis3dwb_ctrl8_xl_t` overlays. -/
def iis3dwb_ctrl8_xl_t.toByte (r : iis3dwb_ctrl8_xl_t) : Nat :=
  r.not_used_01 + 4 * r.fds + 8 * r.fastsettl_mode_xl + 16 * r.hp_ref_mode_xl + 32 * r.hpcf_xl

/-- Layout `iis3dwb_ctrl10_c_t`. -/
structure iis3dwb_ctrl10_c_t where
  not_used_01 : Nat
  timestamp_en : Nat
  not_used_02 : Nat
  deriving DecidableEq

/-- Overlay of `iis3dwb_ctrl10_c_t` on a byte. -/
def iis3dwb_ctrl10_c_t.ofByte (b : Nat) : iis3dwb_ctrl10_c_t where
  not_used_01 := b % 32
  timestamp_en := b / 32 % 2
  not_used_02 := b / 64 % 4

/-- The byte a `iis3dwb_ctrl10_c_t` overlays. -/
def iis3dwb_ctrl10_c_t.toByte (r : iis3dwb_ctrl10_c_t) : Nat :=
  r.not_used_01 + 32 * r.timestamp_en + 64 * r.not_used_02

/-- Layout `iis3dwb_all_int_src_t`. -/
structure iis3dwb_all_int_src_t where
  not_used_01 : Nat
  wu_ia : Nat
  not_used_02 : Nat
  sleep_change : Nat
  not_used_03 : Nat
  timestamp_endcount : Nat
  deriving DecidableEq

/-- Overlay of `iis3dwb_all_int_src_t` on a byte. -/
def iis3dwb_all_int_src_t.ofByte (b : Nat) : iis3dwb_all_int_src_t where
  not_used_01 := b % 2
  wu_ia := b / 2 % 2
  not_used_02 := b / 4 % 8
  sleep_change := b / 32 % 2
  not_used_03 := b / 64 % 2
  timestamp_endcount := b / 128 % 2

/-- The byte a `iis3dwb_all_int_src_t` overlays. -/
def iis3dwb_all_int_src_t.toByte (r : iis3dwb_all_int_src_t) : Nat :=
  r.not_used_01 + 2 * r.wu_ia + 4 * r.not_used_02 + 32 * r.sleep_change + 64 * r.not_used_03 +
    128 * r.timestamp_endcount

/-- Layout `iis3dwb_wake_up_src_t`. -/
structure iis3dwb_wake_up_src_t where
  z_wu : Nat
  y_wu : Nat
  x_wu : Nat
  wu_ia : Nat
  sleep_state_ia : Nat
  not_used_01 : Nat
  sleep_change_ia : Nat
  not_used_02 : Nat
  deriving DecidableEq

/-- Overlay of `iis3dwb_wake_up_src_t` on a byte. -/
def iis3dwb_wake_up_src_t.ofByte (b : Nat) : iis3dwb_wake_up_src_t where
  z_wu := b % 2
  y_wu := b / 2 % 2
  x_wu := b / 4 % 2
  wu_ia := b / 8 % 2
  sleep_state_ia := b / 16 % 2
  not_used_01 := b / 32 % 2
  sleep_change_ia := b / 64 % 2
  not_used_02 := b / 128 % 2

/-- The byte a `iis3dwb_wake_up_src_t` overlays. -/
def iis3dwb_wake_up_src_t.toByte (r : iis3dwb_wake_up_src_t) : Nat :=
  r.z_wu + 2 * r.y_wu + 4 * r.x_wu + 8 * r.wu_ia + 16 * r.sleep_state_ia + 32 * r.not_used_01 +
    64 * r.sleep_change_ia + 128 * r.not_used_02

/-- Layout `iis3dwb_status_reg_t`. -/
structure iis3dwb_status_reg_t where
  xlda : Nat
  not_used_01 : Nat
  tda : Nat
  not_used_02 : Nat
  deriving DecidableEq

/-- Overlay of `iis3dwb_status_reg_t` on a byte. -/
def iis3dwb_status_reg_t.ofByte (b : Nat) : iis3dwb_status_reg_t where
  xlda := b % 2
  not_used_01 := b / 2 % 2
  tda := b / 4 % 2
  not_used_02 := b / 8 % 32

/-- The byte a `iis3dwb_status_reg_t` overlays. -/
def iis3dwb_status_reg_t.toByte (r : iis3dwb_status_reg_t) : Nat :=
  r.xlda + 2 * r.not_used_01 + 4 * r.tda + 8 * r.not_used_02

/-- Layout `iis3dwb_fifo_status1_t`. -/
structure iis3dwb_fifo_status1_t where
  diff_fifo : Nat
  deriving DecidableEq

/-- Overlay of `iis3dwb_fifo_status1_t` on a byte. -/
def iis3dwb_fifo_status1_t.ofByte (b : Nat) : iis3dwb_fifo_status1_t where
  diff_fifo := b % 256

/-- The byte a `iis3dwb_fifo_status1_t` overlays. -/
def iis3dwb_fifo_status1_t.toByte (r : iis3dwb_fifo_status1_t) : Nat :=
  r.diff_fifo

/-- Layout `iis3dwb_fifo_status2_t`. -/
structure iis3dwb_fifo_status2_t where
  diff_fifo : Nat
  not_used_01 : Nat
  fifo_ovr_latched : Nat
  counter_bdr_ia : Nat
  fifo_full_ia : Nat
  fifo_ovr_ia : Nat
  fifo_wtm_ia : Nat
  deriving DecidableEq

/-- Overlay of `iis3dwb_fifo_status2_t` on a byte. -/
def iis3dwb_fifo_status2_t.ofByte (b : Nat) : iis3dwb_fifo_status2_t where
  diff_fifo := b % 4
  not_used_01 := b / 4 % 2
  fifo_ovr_latched := b / 8 % 2
  counter_bdr_ia := b / 16 % 2
  fifo_full_ia := b / 32 % 2
  fifo_ovr_ia := b / 64 % 2
  fifo_wtm_ia := b / 128 % 2

/-- The byte a `iis3dwb_fifo_status2_t` overlays. -/
def iis3dwb_fifo_status2_t.toByte (r : iis3dwb_fifo_status2_t) : Nat :=
  r.diff_fifo + 4 * r.not_used_01 + 8 * r.fifo_ovr_latched + 16 * r.counter_bdr_ia +
    32 * r.fifo_full_ia + 64 * r.fifo_ovr_ia + 128 * r.fifo_wtm_ia

/-- Layout `iis3dwb_slope_en_t`. -/
structure iis3dwb_slope_en_t where
  lir : Nat
  not_used_01 : Nat
  slope_fds : Nat
  sleep_status_on_int : Nat
  not_used_02 : Nat
  deriving DecidableEq

/-- Overlay of `iis3dwb_slope_en_t` on a byte. -/
def iis3dwb_slope_en_t.ofByte (b : Nat) : iis3dwb_slope_en_t where
  lir := b % 2
  not_used_01 := b / 2 % 8
  slope_fds := b / 16 % 2
  sleep_status_on_int := b / 32 % 2
  not_used_02 := b / 64 % 4

/-- The byte a `iis3dwb_slope_en_t` overlays. -/
def iis3dwb_slope_en_t.toByte (r : iis3dwb_slope_en_t) : Nat :=
  r.lir + 2 * r.not_used_01 + 16 * r.slope_fds + 32 * r.sleep_status_on_int + 64 * r.not_used_02

/-- Layout `iis3dwb_interrupts_en_t`. -/
structure iis3dwb_interrupts_en_t where
  not_used_01 : Nat
  interrupts_enable : Nat
  deriving DecidableEq

/-- Overlay of `iis3dwb_interrupts_en_t` on a byte. -/
def iis3dwb_interrupts_en_t.ofByte (b : Nat) : iis3dwb_interrupts_en_t where
  not_used_01 := b % 128
  interrupts_enable := b / 128 % 2

/-- The byte a `iis3dwb_interrupts_en_t` overlays. -/
def iis3dwb_interrupts_en_t.toByte (r : iis3dwb_interrupts_en_t) : Nat :=
  r.not_used_01 + 128 * r.interrupts_enable

/-- Layout `iis3dwb_wake_up_ths_t`. -/
structure iis3dwb_wake_up_ths_t where
  wk_ths : Nat
  usr_off_on_wu : Nat
  not_used_01 : Nat
  deriving DecidableEq

/-- Overlay of `iis3dwb_wake_up_ths_t` on a byte. -/
def iis3dwb_wake_up_ths_t.ofByte (b : Nat) : iis3dwb_wake_up_ths_t where
  wk_ths := b % 64
  usr_off_on_wu := b / 64 % 2
  not_used_01 := b / 128 % 2

/-- The byte a `iis3dwb_wake_up_ths_t` overlays. -/
def iis3dwb_wake_up_ths_t.toByte (r : iis3dwb_wake_up_ths_t) : Nat :=
  r.wk_ths + 64 * r.usr_off_on_wu + 128 * r.not_used_01

/-- Layout `iis3dwb_wake_up_dur_t`. -/
structure iis3dwb_wake_up_dur_t where
  sleep_dur : Nat
  wake_ths_w : Nat
  wake_dur : Nat
  not_used_01 : Nat
  deriving DecidableEq

/-- Overlay of `iis3dwb_wake_up_dur_t` on a byte. -/
def iis3dwb_wake_up_dur_t.ofByte (b : Nat) : iis3dwb_wake_up_dur_t where
  sleep_dur := b % 16
  wake_ths_w := b / 16 % 2
  wake_dur := b / 32 % 4
  not_used_01 := b / 128 % 2

/-- The byte a `iis3dwb_wake_up_dur_t` overlays. -/
def iis3dwb_wake_up_dur_t.toByte (r : iis3dwb_wake_up_dur_t) : Nat :=
  r.sleep_dur + 16 * r.wake_ths_w + 32 * r.wake_dur + 128 * r.not_used_01

/-- Layout `iis3dwb_md1_cfg_t`. -/
structure iis3dwb_md1_cfg_t where
  not_used_01 : Nat
  int1_wu : Nat
  not_used_02 : Nat
  int1_sleep_change : Nat
  deriving DecidableEq

/-- Overlay of `iis3dwb_md1_cfg_t` on a byte. -/
def iis3dwb_md1_cfg_t.ofByte (b : Nat) : iis3dwb_md1_cfg_t where
  not_used_01 := b % 32
  int1_wu := b / 32 % 2
  not_used_02 := b / 64 % 2
  int1_sleep_change := b / 128 % 2

/-- The byte a `iis3dwb_md1_cfg_t` overlays. -/
def iis3dwb_md1_cfg_t.toByte (r : iis3dwb_md1_cfg_t) : Nat :=
  r.not_used_01 + 32 * r.int1_wu + 64 * r.not_used_02 + 128 * r.int1_sleep_change

/-- Layout `iis3dwb_md2_cfg_t`. -/
structure iis3dwb_md2_cfg_t where
  int2_timestamp : Nat
  not_used_01 : Nat
  int2_wu : Nat
  not_used_02 : Nat
  int2_sleep_change : Nat
  deriving DecidableEq

/-- Overlay of `iis3dwb_md2_cfg_t` on a byte. -/
def iis3dwb_md2_cfg_t.ofByte (b : Nat) : iis3dwb_md2_cfg_t where
  int2_timestamp := b % 2
  not_used_01 := b / 2 % 16
  int2_wu := b / 32 % 2
  not_used_02 := b / 64 % 2
  int2_sleep_change := b / 128 % 2

/-- The byte a `iis3dwb_md2_cfg_t` overlays. -/
def iis3dwb_md2_cfg_t.toByte (r : iis3dwb_md2_cfg_t) : Nat :=
  r.int2_timestamp + 2 * r.not_used_01 + 32 * r.int2_wu + 64 * r.not_used_02 +
    128 * r.int2_sleep_change

/-- Layout `iis3dwb_internal_freq_fine_t`. -/
structure iis3dwb_internal_freq_fine_t where
  freq_fine : Nat
  deriving DecidableEq

/-- Overlay of `iis3dwb_internal_freq_fine_t` on a byte. -/
def iis3dwb_internal_freq_fine_t.ofByte (b : Nat) : iis3dwb_internal_freq_fine_t where
  freq_fine := b % 256

/-- The byte a `iis3dwb_internal_freq_fine_t` overlays. -/
def iis3dwb_internal_freq_fine_t.toByte (r : iis3dwb_internal_freq_fine_t) : Nat :=
  r.freq_fine

/-- Layout `iis3dwb_fifo_data_out_tag_t`. -/
structure iis3dwb_fifo_data_out_tag_t where
  tag_parity : Nat
  tag_cnt : Nat
  tag_sensor : Nat
  deriving DecidableEq

/-- Overlay of `iis3dwb_fifo_data_out_tag_t` on a byte. -/
def iis3dwb_fifo_data_out_tag_t.ofByte (b : Nat) : iis3dwb_fifo_data_out_tag_t where
  tag_parity := b % 2
  tag_cnt := b / 2 % 4
  tag_sensor := b / 8 % 32

/-- The byte a `iis3dwb_fifo_data_out_tag_t` overlays. -/
def iis3dwb_fifo_data_out_tag_t.toByte (r : iis3dwb_fifo_data_out_tag_t) : Nat :=
  r.tag_parity + 2 * r.tag_cnt + 8 * r.tag_sensor

/-! ## Enumerations -/

/-- Enumeration `iis3dwb_dataready_pulsed_t`. -/
inductive iis3dwb_dataready_pulsed_t where
  | IIS3DWB_DRDY_LATCHED
  | IIS3DWB_DRDY_PULSED
  deriving DecidableEq

/-- Numeric value of an `iis3dwb_dataready_pulsed_t`. -/
def iis3dwb_dataready_pulsed_t.toNat : iis3dwb_dataready_pulsed_t → Nat
  | .IIS3DWB_DRDY_LATCHED => 0
  | .IIS3DWB_DRDY_PULSED => 1

/-- Enumeration `iis3dwb_fifo_tag_t`. -/
inductive iis3dwb_fifo_tag_t where
  | IIS3DWB_XL_TAG
  | IIS3DWB_TEMPERATURE_TAG
  | IIS3DWB_TIMESTAMP_TAG
  deriving DecidableEq

/-- Numeric value of an `iis3dwb_fifo_tag_t`. -/
def iis3dwb_fifo_tag_t.toNat : iis3dwb_fifo_tag_t → Nat
  | .IIS3DWB_XL_TAG => 2
  | .IIS3DWB_TEMPERATURE_TAG => 3
  | .IIS3DWB_TIMESTAMP_TAG => 4

/-- Enumeration `iis3dwb_filt_xl_en_t`. -/
inductive iis3dwb_filt_xl_en_t where
  | IIS3DWB_SLOPE_ODR_DIV_4
  | IIS3DWB_HP_REF_MODE
  | IIS3DWB_HP_ODR_DIV_10
  | IIS3DWB_HP_ODR_DIV_20
  | IIS3DWB_HP_ODR_DIV_45
  | IIS3DWB_HP_ODR_DIV_100
  | IIS3DWB_HP_ODR_DIV_200
  | IIS3DWB_HP_ODR_DIV_400
  | IIS3DWB_HP_ODR_DIV_800
  | IIS3DWB_LP_6k3Hz
  | IIS3DWB_LP_ODR_DIV_4
  | IIS3DWB_LP_ODR_DIV_10
  | IIS3DWB_LP_ODR_DIV_20
  | IIS3DWB_LP_ODR_DIV_45
  | IIS3DWB_LP_ODR_DIV_100
  | IIS3DWB_LP_ODR_DIV_200
  | IIS3DWB_LP_ODR_DIV_400
  | IIS3DWB_LP_ODR_DIV_800
  deriving DecidableEq

/-- Numeric value of an `iis3dwb_filt_xl_en_t`. -/
def iis3dwb_filt_xl_en_t.toNat : iis3dwb_filt_xl_en_t → Nat
  | .IIS3DWB_SLOPE_ODR_DIV_4 => 0x10
  | .IIS3DWB_HP_REF_MODE => 0x37
  | .IIS3DWB_HP_ODR_DIV_10 => 0x11
  | .IIS3DWB_HP_ODR_DIV_20 => 0x12
  | .IIS3DWB_HP_ODR_DIV_45 => 0x13
  | .IIS3DWB_HP_ODR_DIV_100 => 0x14
  | .IIS3DWB_HP_ODR_DIV_200 => 0x15
  | .IIS3DWB_HP_ODR_DIV_400 => 0x16
  | .IIS3DWB_HP_ODR_DIV_800 => 0x17
  | .IIS3DWB_LP_6k3Hz => 0x00
  | .IIS3DWB_LP_ODR_DIV_4 => 0x80
  | .IIS3DWB_LP_ODR_DIV_10 => 0x81
  | .IIS3DWB_LP_ODR_DIV_20 => 0x82
  | .IIS3DWB_LP_ODR_DIV_45 => 0x83
  | .IIS3DWB_LP_ODR_DIV_100 => 0x84
  | .IIS3DWB_LP_ODR_DIV_200 => 0x85
  | .IIS3DWB_LP_ODR_DIV_400 => 0x86
  | .IIS3DWB_LP_ODR_DIV_800 => 0x87

/-- Interrupt routing request `iis3dwb_pin_int1_route_t` (nine 1-bit fields). -/
structure iis3dwb_pin_int1_route_t where
  drdy_xl : Nat
  boot : Nat
  fifo_th : Nat
  fifo_ovr : Nat
  fifo_full : Nat
  fifo_bdr : Nat
  wake_up : Nat
  sleep_change : Nat
  sleep_status : Nat
  deriving DecidableEq

/-- Interrupt routing request `iis3dwb_pin_int2_route_t` (ten 1-bit fields). -/
structure iis3dwb_pin_int2_route_t where
  drdy_xl : Nat
  drdy_temp : Nat
  fifo_th : Nat
  fifo_ovr : Nat
  fifo_full : Nat
  fifo_bdr : Nat
  timestamp : Nat
  wake_up : Nat
  sleep_change : Nat
  sleep_status : Nat
  deriving DecidableEq

/-- Constant `PROPERTY_DISABLE`. -/
def PROPERTY_DISABLE : Nat := 0

/-- Constant `PROPERTY_ENABLE`. -/
def PROPERTY_ENABLE : Nat := 1

/-- Enumeration `iis3dwb_fs_xl_t`. -/
inductive iis3dwb_fs_xl_t where
  | IIS3DWB_2g
  | IIS3DWB_16g
  | IIS3DWB_4g
  | IIS3DWB_8g
  deriving DecidableEq

/-- Numeric value of an `iis3dwb_fs_xl_t`. -/
def iis3dwb_fs_xl_t.toNat : iis3dwb_fs_xl_t → Nat
  | .IIS3DWB_2g => 0
  | .IIS3DWB_16g => 1
  | .IIS3DWB_4g => 2
  | .IIS3DWB_8g => 3

/-- Enumeration `iis3dwb_odr_xl_t`. -/
inductive iis3dwb_odr_xl_t where
  | IIS3DWB_XL_ODR_OFF
  | IIS3DWB_XL_ODR_26k7Hz
  deriving DecidableEq

/-- Numeric value of an `iis3dwb_odr_xl_t`. -/
def iis3dwb_odr_xl_t.toNat : iis3dwb_odr_xl_t → Nat
  | .IIS3DWB_XL_ODR_OFF => 0
  | .IIS3DWB_XL_ODR_26k7Hz => 5

/-- Enumeration `iis3dwb_usr_off_w_t`. -/
inductive iis3dwb_usr_off_w_t where
  | IIS3DWB_LSb_1mg
  | IIS3DWB_LSb_16mg
  deriving DecidableEq

/-- Numeric value of an `iis3dwb_usr_off_w_t`. -/
def iis3dwb_usr_off_w_t.toNat : iis3dwb_usr_off_w_t → Nat
  | .IIS3DWB_LSb_1mg => 0
  | .IIS3DWB_LSb_16mg => 1

/-- Enumeration `iis3dwb_xl_axis_sel_t`. -/
inductive iis3dwb_xl_axis_sel_t where
  | IIS3DWB_ENABLE_ALL
  | IIS3DWB_ONLY_X_ON_ONE_OUT_REG
  | IIS3DWB_ONLY_Y_ON_ONE_OUT_REG
  | IIS3DWB_ONLY_Z_ON_ONE_OUT_REG
  | IIS3DWB_ONLY_X_ON_ALL_OUT_REG
  | IIS3DWB_ONLY_Y_ON_ALL_OUT_REG
  | IIS3DWB_ONLY_Z_ON_ALL_OUT_REG
  deriving DecidableEq

/-- Numeric value of an `iis3dwb_xl_axis_sel_t`. -/
def iis3dwb_xl_axis_sel_t.toNat : iis3dwb_xl_axis_sel_t → Nat
  | .IIS3DWB_ENABLE_ALL => 0x00
  | .IIS3DWB_ONLY_X_ON_ONE_OUT_REG => 0x01
  | .IIS3DWB_ONLY_Y_ON_ONE_OUT_REG => 0x02
  | .IIS3DWB_ONLY_Z_ON_ONE_OUT_REG => 0x03
  | .IIS3DWB_ONLY_X_ON_ALL_OUT_REG => 0x11
  | .IIS3DWB_ONLY_Y_ON_ALL_OUT_REG => 0x12
  | .IIS3DWB_ONLY_Z_ON_ALL_OUT_REG => 0x13

/-- Enumeration `iis3dwb_rounding_t`. -/
inductive iis3dwb_rounding_t where
  | IIS3DWB_NO_ROUND
  | IIS3DWB_ROUND
  deriving DecidableEq

/-- Numeric value of an `iis3dwb_rounding_t`. -/
def iis3dwb_rounding_t.toNat : iis3dwb_rounding_t → Nat
  | .IIS3DWB_NO_ROUND => 0
  | .IIS3DWB_ROUND => 1

/-- Enumeration `iis3dwb_st_xl_t`. -/
inductive iis3dwb_st_xl_t where
  | IIS3DWB_XL_ST_DISABLE
  | IIS3DWB_XL_ST_POSITIVE
  | IIS3DWB_XL_ST_NEGATIVE
  deriving DecidableEq

/-- Numeric value of an `iis3dwb_st_xl_t`. -/
def iis3dwb_st_xl_t.toNat : iis3dwb_st_xl_t → Nat
  | .IIS3DWB_XL_ST_DISABLE => 0
  | .IIS3DWB_XL_ST_POSITIVE => 1
  | .IIS3DWB_XL_ST_NEGATIVE => 2

/-- Enumeration `iis3dwb_slope_fds_t`. -/
inductive iis3dwb_slope_fds_t where
  | IIS3DWB_USE_SLOPE
  | IIS3DWB_USE_HPF
  deriving DecidableEq

/-- Numeric value of an `iis3dwb_slope_fds_t`. -/
def iis3dwb_slope_fds_t.toNat : iis3dwb_slope_fds_t → Nat
  | .IIS3DWB_USE_SLOPE => 0
  | .IIS3DWB_USE_HPF => 1

/-- Enumeration `iis3dwb_sdo_pu_en_t`. -/
inductive iis3dwb_sdo_pu_en_t where
  | IIS3DWB_PULL_UP_DISC
  | IIS3DWB_PULL_UP_CONNECT
  deriving DecidableEq

/-- Numeric value of an `iis3dwb_sdo_pu_en_t`. -/
def iis3dwb_sdo_pu_en_t.toNat : iis3dwb_sdo_pu_en_t → Nat
  | .IIS3DWB_PULL_UP_DISC => 0
  | .IIS3DWB_PULL_UP_CONNECT => 1

/-- Enumeration `iis3dwb_sim_t`. -/
inductive iis3dwb_sim_t where
  | IIS3DWB_SPI_4_WIRE
  | IIS3DWB_SPI_3_WIRE
  deriving DecidableEq

/-- Numeric value of an `iis3dwb_sim_t`. -/
def iis3dwb_sim_t.toNat : iis3dwb_sim_t → Nat
  | .IIS3DWB_SPI_4_WIRE => 0
  | .IIS3DWB_SPI_3_WIRE => 1

/-- Enumeration `iis3dwb_i2c_disable_t`. -/
inductive iis3dwb_i2c_disable_t where
  | IIS3DWB_I2C_ENABLE
  | IIS3DWB_I2C_DISABLE
  deriving DecidableEq

/-- Numeric value of an `iis3dwb_i2c_disable_t`. -/
def iis3dwb_i2c_disable_t.toNat : iis3dwb_i2c_disable_t → Nat
  | .IIS3DWB_I2C_ENABLE => 0
  | .IIS3DWB_I2C_DISABLE => 1

/-- Enumeration `iis3dwb_pp_od_t`. -/
inductive iis3dwb_pp_od_t where
  | IIS3DWB_PUSH_PULL
  | IIS3DWB_OPEN_DRAIN
  deriving DecidableEq

/-- Numeric value of an `iis3dwb_pp_od_t`. -/
def iis3dwb_pp_od_t.toNat : iis3dwb_pp_od_t → Nat
  | .IIS3DWB_PUSH_PULL => 0
  | .IIS3DWB_OPEN_DRAIN => 1

/-- Enumeration `iis3dwb_h_lactive_t`. -/
inductive iis3dwb_h_lactive_t where
  | IIS3DWB_ACTIVE_HIGH
  | IIS3DWB_ACTIVE_LOW
  deriving DecidableEq

/-- Numeric value of an `iis3dwb_h_lactive_t`. -/
def iis3dwb_h_lactive_t.toNat : iis3dwb_h_lactive_t → Nat
  | .IIS3DWB_ACTIVE_HIGH => 0
  | .IIS3DWB_ACTIVE_LOW => 1

/-- Enumeration `iis3dwb_lir_t`. -/
inductive iis3dwb_lir_t where
  | IIS3DWB_INT_PULSED
  | IIS3DWB_INT_LATCHED
  deriving DecidableEq

/-- Numeric value of an `iis3dwb_lir_t`. -/
def iis3dwb_lir_t.toNat : iis3dwb_lir_t → Nat
  | .IIS3DWB_INT_PULSED => 0
  | .IIS3DWB_INT_LATCHED => 1

/-- Enumeration `iis3dwb_wake_ths_w_t`. -/
inductive iis3dwb_wake_ths_w_t where
  | IIS3DWB_LSb_FS_DIV_64
  | IIS3DWB_LSb_FS_DIV_256
  deriving DecidableEq

/-- Numeric value of an `iis3dwb_wake_ths_w_t`. -/
def iis3dwb_wake_ths_w_t.toNat : iis3dwb_wake_ths_w_t → Nat
  | .IIS3DWB_LSb_FS_DIV_64 => 0
  | .IIS3DWB_LSb_FS_DIV_256 => 1

/-- Enumeration `iis3dwb_bdr_xl_t`. -/
inductive iis3dwb_bdr_xl_t where
  | IIS3DWB_XL_NOT_BATCHED
  | IIS3DWB_XL_BATCHED_AT_26k7Hz
  deriving DecidableEq

/-- Numeric value of an `iis3dwb_bdr_xl_t`. -/
def iis3dwb_bdr_xl_t.toNat : iis3dwb_bdr_xl_t → Nat
  | .IIS3DWB_XL_NOT_BATCHED => 0
  | .IIS3DWB_XL_BATCHED_AT_26k7Hz => 10

/-- Enumeration `iis3dwb_fifo_mode_t`. -/
inductive iis3dwb_fifo_mode_t where
  | IIS3DWB_BYPASS_MODE
  | IIS3DWB_FIFO_MODE
  | IIS3DWB_STREAM_TO_FIFO_MODE
  | IIS3DWB_BYPASS_TO_STREAM_MODE
  | IIS3DWB_STREAM_MODE
  | IIS3DWB_BYPASS_TO_FIFO_MODE
  deriving DecidableEq

/-- Numeric value of an `iis3dwb_fifo_mode_t`. -/
def iis3dwb_fifo_mode_t.toNat : iis3dwb_fifo_mode_t → Nat
  | .IIS3DWB_BYPASS_MODE => 0
  | .IIS3DWB_FIFO_MODE => 1
  | .IIS3DWB_STREAM_TO_FIFO_MODE => 3
  | .IIS3DWB_BYPASS_TO_STREAM_MODE => 4
  | .IIS3DWB_STREAM_MODE => 6
  | .IIS3DWB_BYPASS_TO_FIFO_MODE => 7

/-- Enumeration `iis3dwb_odr_t_batch_t`. -/
inductive iis3dwb_odr_t_batch_t where
  | IIS3DWB_TEMP_NOT_BATCHED
  | IIS3DWB_TEMP_BATCHED_AT_104Hz
  deriving DecidableEq

/-- Numeric value of an `iis3dwb_odr_t_batch_t`. -/
def iis3dwb_odr_t_batch_t.toNat : iis3dwb_odr_t_batch_t → Nat
  | .IIS3DWB_TEMP_NOT_BATCHED => 0
  | .IIS3DWB_TEMP_BATCHED_AT_104Hz => 3

/-- Enumeration `iis3dwb_fifo_timestamp_batch_t`. -/
inductive iis3dwb_fifo_timestamp_batch_t where
  | IIS3DWB_NO_DECIMATION
  | IIS3DWB_DEC_1
  | IIS3DWB_DEC_8
  | IIS3DWB_DEC_32
  deriving DecidableEq

/-- Numeric value of an `iis3dwb_fifo_timestamp_batch_t`. -/
def iis3dwb_fifo_timestamp_batch_t.toNat : iis3dwb_fifo_timestamp_batch_t → Nat
  | .IIS3DWB_NO_DECIMATION => 0
  | .IIS3DWB_DEC_1 => 1
  | .IIS3DWB_DEC_8 => 2
  | .IIS3DWB_DEC_32 => 3

/-- Result structure `iis3dwb_all_sources_t`. -/
structure iis3dwb_all_sources_t where
  all_int_src : iis3dwb_all_int_src_t
  wake_up_src : iis3dwb_wake_up_src_t
  status_reg : iis3dwb_status_reg_t
  deriving DecidableEq

/-- Result structure `iis3dwb_fifo_status_t` (`fifo_level` is 10 bits wide, the other
fields 1 bit). -/
structure iis3dwb_fifo_status_t where
  fifo_level : Nat
  fifo_bdr : Nat
  fifo_full : Nat
  fifo_ovr : Nat
  fifo_th : Nat
  deriving DecidableEq

/-- Size in bytes of `iis3dwb_fifo_out_raw_t`: one `uint8_t` tag and six `uint8_t`
data bytes. -/
def sizeof_iis3dwb_fifo_out_raw_t : Nat := 7

/-- Conversion of an integer to `int16_t` (two's complement, modulo 65536). -/
def toInt16 (x : Int) : Int := (x + 32768) % 65536 - 32768

/-- Source `bytecpy`, for non-null pointers: the source byte is copied to the target. -/
def bytecpy (source : Nat) : Nat := source

/-! ## Single-register read-modify-write setters -/

/-- Source `iis3dwb_xl_full_scale_set` (`val` is the numeric value of an `iis3dwb_fs_xl_t`). -/
def iis3dwb_xl_full_scale_set {σ : Type} (ctx : Option (stmdev_ctx_t σ)) (val : Nat) (s : σ) :
    Int × σ :=
  match iis3dwb_read_reg ctx IIS3DWB_CTRL1_XL 1 s with
  | (ret, buf, s1) =>
    if ret = 0 then
      let ctrl1_xl := iis3dwb_ctrl1_xl_t.ofByte (byteAt buf 0)
      let ctrl1_xl := { ctrl1_xl with fs_xl := val % 256 % 4 }
      iis3dwb_write_reg ctx IIS3DWB_CTRL1_XL [ctrl1_xl.toByte] 1 s1
    else (ret, s1)

/-- Source `iis3dwb_xl_data_rate_set` (`val` is the numeric value of an `iis3dwb_odr_xl_t`). -/
def iis3dwb_xl_data_rate_set {σ : Type} (ctx : Option (stmdev_ctx_t σ)) (val : Nat) (s : σ) :
    Int × σ :=
  match iis3dwb_read_reg ctx IIS3DWB_CTRL1_XL 1 s with
  | (ret, buf, s1) =>
    if ret = 0 then
      let ctrl1_xl := iis3dwb_ctrl1_xl_t.ofByte (byteAt buf 0)
      let ctrl1_xl := { ctrl1_xl with xl_en := val % 256 % 8 }
      iis3dwb_write_reg ctx IIS3DWB_CTRL1_XL [ctrl1_xl.toByte] 1 s1
    else (ret, s1)

/-- Source `iis3dwb_block_data_update_set`. -/
def iis3dwb_block_data_update_set {σ : Type} (ctx : Option (stmdev_ctx_t σ)) (val : Nat) (s : σ) :
    Int × σ :=
  match iis3dwb_read_reg ctx IIS3DWB_CTRL3_C 1 s with
  | (ret, buf, s1) =>
    if ret = 0 then
      let ctrl3_c := iis3dwb_ctrl3_c_t.ofByte (byteAt buf 0)
      let ctrl3_c := { ctrl3_c with bdu := val % 256 % 2 }
      iis3dwb_write_reg ctx IIS3DWB_CTRL3_C [ctrl3_c.toByte] 1 s1
    else (ret, s1)

/-- Source `iis3dwb_xl_offset_weight_set`
(`val` is the numeric value of an `iis3dwb_usr_off_w_t`). -/
def iis3dwb_xl_offset_weight_set {σ : Type} (ctx : Option (stmdev_ctx_t σ)) (val : Nat) (s : σ) :
    Int × σ :=
  match iis3dwb_read_reg ctx IIS3DWB_CTRL6_C 1 s with
  | (ret, buf, s1) =>
    if ret = 0 then
      let ctrl6_c := iis3dwb_ctrl6_c_t.ofByte (byteAt buf 0)
      let ctrl6_c := { ctrl6_c with usr_off_w := val % 256 % 2 }
      iis3dwb_write_reg ctx IIS3DWB_CTRL6_C [ctrl6_c.toByte] 1 s1
    else (ret, s1)

/-- Source `iis3dwb_usr_offset_block_set`. -/
def iis3dwb_usr_offset_block_set {σ : Type} (ctx : Option (stmdev_ctx_t σ)) (val : Nat) (s : σ) :
    Int × σ :=
  match iis3dwb_read_reg ctx IIS3DWB_CTRL7_C 1 s with
  | (ret, buf, s1) =>
    if ret = 0 then
      let ctrl7_c := iis3dwb_ctrl7_c_t.ofByte (byteAt buf 0)
      let ctrl7_c := { ctrl7_c with usr_off_on_out := val % 256 % 2 }
      iis3dwb_write_reg ctx IIS3DWB_CTRL7_C [ctrl7_c.toByte] 1 s1
    else (ret, s1)

/-- Source `iis3dwb_timestamp_set`. -/
def iis3dwb_timestamp_set {σ : Type} (ctx : Option (stmdev_ctx_t σ)) (val : Nat) (s : σ) :
    Int × σ :=
  match iis3dwb_read_reg ctx IIS3DWB_CTRL10_C 1 s with
  | (ret, buf, s1) =>
    if ret = 0 then
      let ctrl10_c := iis3dwb_ctrl10_c_t.ofByte (byteAt buf 0)
      let ctrl10_c := { ctrl10_c with timestamp_en := val % 256 % 2 }
      iis3dwb_write_reg ctx IIS3DWB_CTRL10_C [ctrl10_c.toByte] 1 s1
    else (ret, s1)

/-- Source `iis3dwb_rounding_mode_set` (`val` is the numeric value of an `iis3dwb_rounding_t`). -/
def iis3dwb_rounding_mode_set {σ : Type} (ctx : Option (stmdev_ctx_t σ)) (val : Nat) (s : σ) :
    Int × σ :=
  match iis3dwb_read_reg ctx IIS3DWB_CTRL5_C 1 s with
  | (ret, buf, s1) =>
    if ret = 0 then
      let ctrl5_c := iis3dwb_ctrl5_c_t.ofByte (byteAt buf 0)
      let ctrl5_c := { ctrl5_c with rounding := val % 256 % 4 }
      iis3dwb_write_reg ctx IIS3DWB_CTRL5_C [ctrl5_c.toByte] 1 s1
    else (ret, s1)

/-- Source `iis3dwb_odr_cal_reg_set`. -/
def iis3dwb_odr_cal_reg_set {σ : Type} (ctx : Option (stmdev_ctx_t σ)) (val : Nat) (s : σ) :
    Int × σ :=
  match iis3dwb_read_reg ctx IIS3DWB_INTERNAL_FREQ_FINE 1 s with
  | (ret, buf, s1) =>
    if ret = 0 then
      let internal_freq_fine := iis3dwb_internal_freq_fine_t.ofByte (byteAt buf 0)
      let internal_freq_fine := { internal_freq_fine with freq_fine := val % 256 % 256 }
      iis3dwb_write_reg ctx IIS3DWB_INTERNAL_FREQ_FINE [internal_freq_fine.toByte] 1 s1
    else (ret, s1)

/-- Source `iis3dwb_data_ready_mode_set`
(`val` is the numeric value of an `iis3dwb_dataready_pulsed_t`). -/
def iis3dwb_data_ready_mode_set {σ : Type} (ctx : Option (stmdev_ctx_t σ)) (val : Nat) (s : σ) :
    Int × σ :=
  match iis3dwb_read_reg ctx IIS3DWB_COUNTER_BDR_REG1 1 s with
  | (ret, buf, s1) =>
    if ret = 0 then
      let counter_bdr_reg1 := iis3dwb_counter_bdr_reg1_t.ofByte (byteAt buf 0)
      let counter_bdr_reg1 := { counter_bdr_reg1 with dataready_pulsed := val % 256 % 2 }
      iis3dwb_write_reg ctx IIS3DWB_COUNTER_BDR_REG1 [counter_bdr_reg1.toByte] 1 s1
    else (ret, s1)

/-- Source `iis3dwb_reset_set`. -/
def iis3dwb_reset_set {σ : Type} (ctx : Option (stmdev_ctx_t σ)) (val : Nat) (s : σ) :
    Int × σ :=
  match iis3dwb_read_reg ctx IIS3DWB_CTRL3_C 1 s with
  | (ret, buf, s1) =>
    if ret = 0 then
      let ctrl3_c := iis3dwb_ctrl3_c_t.ofByte (byteAt buf 0)
      let ctrl3_c := { ctrl3_c with sw_reset := val % 256 % 2 }
      iis3dwb_write_reg ctx IIS3DWB_CTRL3_C [ctrl3_c.toByte] 1 s1
    else (ret, s1)

/-- Source `iis3dwb_auto_increment_set`. -/
def iis3dwb_auto_increment_set {σ : Type} (ctx : Option (stmdev_ctx_t σ)) (val : Nat) (s : σ) :
    Int × σ :=
  match iis3dwb_read_reg ctx IIS3DWB_CTRL3_C 1 s with
  | (ret, buf, s1) =>
    if ret = 0 then
      let ctrl3_c := iis3dwb_ctrl3_c_t.ofByte (byteAt buf 0)
      let ctrl3_c := { ctrl3_c with if_inc := val % 256 % 2 }
      iis3dwb_write_reg ctx IIS3DWB_CTRL3_C [ctrl3_c.toByte] 1 s1
    else (ret, s1)

/-- Source `iis3dwb_boot_set`. -/
def iis3dwb_boot_set {σ : Type} (ctx : Option (stmdev_ctx_t σ)) (val : Nat) (s : σ) :
    Int × σ :=
  match iis3dwb_read_reg ctx IIS3DWB_CTRL3_C 1 s with
  | (ret, buf, s1) =>
    if ret = 0 then
      let ctrl3_c := iis3dwb_ctrl3_c_t.ofByte (byteAt buf 0)
      let ctrl3_c := { ctrl3_c with boot := val % 256 % 2 }
      iis3dwb_write_reg ctx IIS3DWB_CTRL3_C [ctrl3_c.toByte] 1 s1
    else (ret, s1)

/-- Source `iis3dwb_xl_self_test_set` (`val` is the numeric value of an `iis3dwb_st_xl_t`). -/
def iis3dwb_xl_self_test_set {σ : Type} (ctx : Option (stmdev_ctx_t σ)) (val : Nat) (s : σ) :
    Int × σ :=
  match iis3dwb_read_reg ctx IIS3DWB_CTRL5_C 1 s with
  | (ret, buf, s1) =>
    if ret = 0 then
      let ctrl5_c := iis3dwb_ctrl5_c_t.ofByte (byteAt buf 0)
      let ctrl5_c := { ctrl5_c with st_xl := val % 256 % 4 }
      iis3dwb_write_reg ctx IIS3DWB_CTRL5_C [ctrl5_c.toByte] 1 s1
    else (ret, s1)

/-- Source `iis3dwb_filter_settling_mask_set`. -/
def iis3dwb_filter_settling_mask_set {σ : Type} (ctx : Option (stmdev_ctx_t σ)) (val : Nat)
    (s : σ) : Int × σ :=
  match iis3dwb_read_reg ctx IIS3DWB_CTRL4_C 1 s with
  | (ret, buf, s1) =>
    if ret = 0 then
      let ctrl4_c := iis3dwb_ctrl4_c_t.ofByte (byteAt buf 0)
      let ctrl4_c := { ctrl4_c with drdy_mask := val % 256 % 2 }
      iis3dwb_write_reg ctx IIS3DWB_CTRL4_C [ctrl4_c.toByte] 1 s1
    else (ret, s1)

/-- Source `iis3dwb_xl_fast_settling_set`. -/
def iis3dwb_xl_fast_settling_set {σ : Type} (ctx : Option (stmdev_ctx_t σ)) (val : Nat) (s : σ) :
    Int × σ :=
  match iis3dwb_read_reg ctx IIS3DWB_CTRL8_XL 1 s with
  | (ret, buf, s1) =>
    if ret = 0 then
      let ctrl8_xl := iis3dwb_ctrl8_xl_t.ofByte (byteAt buf 0)
      let ctrl8_xl := { ctrl8_xl with fastsettl_mode_xl := val % 256 % 2 }
      iis3dwb_write_reg ctx IIS3DWB_CTRL8_XL [ctrl8_xl.toByte] 1 s1
    else (ret, s1)

/-- Source `iis3dwb_xl_hp_path_internal_set`
(`val` is the numeric value of an `iis3dwb_slope_fds_t`). -/
def iis3dwb_xl_hp_path_internal_set {σ : Type} (ctx : Option (stmdev_ctx_t σ)) (val : Nat) (s : σ) :
    Int × σ :=
  match iis3dwb_read_reg ctx IIS3DWB_SLOPE_EN 1 s with
  | (ret, buf, s1) =>
    if ret = 0 then
      let int_cfg0 := iis3dwb_slope_en_t.ofByte (byteAt buf 0)
      let int_cfg0 := { int_cfg0 with slope_fds := val % 256 % 2 }
      iis3dwb_write_reg ctx IIS3DWB_SLOPE_EN [int_cfg0.toByte] 1 s1
    else (ret, s1)

/-- Source `iis3dwb_sdo_sa0_mode_set` (`val` is the numeric value of an `iis3dwb_sdo_pu_en_t`). -/
def iis3dwb_sdo_sa0_mode_set {σ : Type} (ctx : Option (stmdev_ctx_t σ)) (val : Nat) (s : σ) :
    Int × σ :=
  match iis3dwb_read_reg ctx IIS3DWB_PIN_CTRL 1 s with
  | (ret, buf, s1) =>
    if ret = 0 then
      let pin_ctrl := iis3dwb_pin_ctrl_t.ofByte (byteAt buf 0)
      let pin_ctrl := { pin_ctrl with sdo_pu_en := val % 256 % 2 }
      iis3dwb_write_reg ctx IIS3DWB_PIN_CTRL [pin_ctrl.toByte] 1 s1
    else (ret, s1)

/-- Source `iis3dwb_spi_mode_set` (`val` is the numeric value of an `iis3dwb_sim_t`). -/
def iis3dwb_spi_mode_set {σ : Type} (ctx : Option (stmdev_ctx_t σ)) (val : Nat) (s : σ) :
    Int × σ :=
  match iis3dwb_read_reg ctx IIS3DWB_CTRL3_C 1 s with
  | (ret, buf, s1) =>
    if ret = 0 then
      let ctrl3_c := iis3dwb_ctrl3_c_t.ofByte (byteAt buf 0)
      let ctrl3_c := { ctrl3_c with sim := val % 256 % 2 }
      iis3dwb_write_reg ctx IIS3DWB_CTRL3_C [ctrl3_c.toByte] 1 s1
    else (ret, s1)

/-- Source `iis3dwb_i2c_interface_set`
(`val` is the numeric value of an `iis3dwb_i2c_disable_t`). -/
def iis3dwb_i2c_interface_set {σ : Type} (ctx : Option (stmdev_ctx_t σ)) (val : Nat) (s : σ) :
    Int × σ :=
  match iis3dwb_read_reg ctx IIS3DWB_CTRL4_C 1 s with
  | (ret, buf, s1) =>
    if ret = 0 then
      let ctrl4_c := iis3dwb_ctrl4_c_t.ofByte (byteAt buf 0)
      let ctrl4_c := { ctrl4_c with i2c_disable := val % 256 % 2 }
      iis3dwb_write_reg ctx IIS3DWB_CTRL4_C [ctrl4_c.toByte] 1 s1
    else (ret, s1)

/-- Source `iis3dwb_pin_mode_set` (`val` is the numeric value of an `iis3dwb_pp_od_t`). -/
def iis3dwb_pin_mode_set {σ : Type} (ctx : Option (stmdev_ctx_t σ)) (val : Nat) (s : σ) :
    Int × σ :=
  match iis3dwb_read_reg ctx IIS3DWB_CTRL3_C 1 s with
  | (ret, buf, s1) =>
    if ret = 0 then
      let ctrl3_c := iis3dwb_ctrl3_c_t.ofByte (byteAt buf 0)
      let ctrl3_c := { ctrl3_c with pp_od := val % 256 % 2 }
      iis3dwb_write_reg ctx IIS3DWB_CTRL3_C [ctrl3_c.toByte] 1 s1
    else (ret, s1)

/-- Source `iis3dwb_pin_polarity_set` (`val` is the numeric value of an `iis3dwb_h_lactive_t`). -/
def iis3dwb_pin_polarity_set {σ : Type} (ctx : Option (stmdev_ctx_t σ)) (val : Nat) (s : σ) :
    Int × σ :=
  match iis3dwb_read_reg ctx IIS3DWB_CTRL3_C 1 s with
  | (ret, buf, s1) =>
    if ret = 0 then
      let ctrl3_c := iis3dwb_ctrl3_c_t.ofByte (byteAt buf 0)
      let ctrl3_c := { ctrl3_c with h_lactive := val % 256 % 2 }
      iis3dwb_write_reg ctx IIS3DWB_CTRL3_C [ctrl3_c.toByte] 1 s1
    else (ret, s1)

/-- Source `iis3dwb_all_on_int1_set`. -/
def iis3dwb_all_on_int1_set {σ : Type} (ctx : Option (stmdev_ctx_t σ)) (val : Nat) (s : σ) :
    Int × σ :=
  match iis3dwb_read_reg ctx IIS3DWB_CTRL4_C 1 s with
  | (ret, buf, s1) =>
    if ret = 0 then
      let ctrl4_c := iis3dwb_ctrl4_c_t.ofByte (byteAt buf 0)
      let ctrl4_c := { ctrl4_c with int2_on_int1 := val % 256 % 2 }
      iis3dwb_write_reg ctx IIS3DWB_CTRL4_C [ctrl4_c.toByte] 1 s1
    else (ret, s1)

/-- Source `iis3dwb_int_notification_set` (`val` is the numeric value of an `iis3dwb_lir_t`). -/
def iis3dwb_int_notification_set {σ : Type} (ctx : Option (stmdev_ctx_t σ)) (val : Nat) (s : σ) :
    Int × σ :=
  match iis3dwb_read_reg ctx IIS3DWB_SLOPE_EN 1 s with
  | (ret, buf, s1) =>
    if ret = 0 then
      let slope_en := iis3dwb_slope_en_t.ofByte (byteAt buf 0)
      let slope_en := { slope_en with lir := val % 256 % 2 }
      iis3dwb_write_reg ctx IIS3DWB_SLOPE_EN [slope_en.toByte] 1 s1
    else (ret, s1)

/-- Source `iis3dwb_wkup_ths_weight_set`
(`val` is the numeric value of an `iis3dwb_wake_ths_w_t`). -/
def iis3dwb_wkup_ths_weight_set {σ : Type} (ctx : Option (stmdev_ctx_t σ)) (val : Nat) (s : σ) :
    Int × σ :=
  match iis3dwb_read_reg ctx IIS3DWB_WAKE_UP_DUR 1 s with
  | (ret, buf, s1) =>
    if ret = 0 then
      let wake_up_dur := iis3dwb_wake_up_dur_t.ofByte (byteAt buf 0)
      let wake_up_dur := { wake_up_dur with wake_ths_w := val % 256 % 2 }
      iis3dwb_write_reg ctx IIS3DWB_WAKE_UP_DUR [wake_up_dur.toByte] 1 s1
    else (ret, s1)

/-- Source `iis3dwb_xl_usr_offset_on_wkup_set`. -/
def iis3dwb_xl_usr_offset_on_wkup_set {σ : Type} (ctx : Option (stmdev_ctx_t σ)) (val : Nat)
    (s : σ) : Int × σ :=
  match iis3dwb_read_reg ctx IIS3DWB_WAKE_UP_THS 1 s with
  | (ret, buf, s1) =>
    if ret = 0 then
      let wake_up_ths := iis3dwb_wake_up_ths_t.ofByte (byteAt buf 0)
      let wake_up_ths := { wake_up_ths with usr_off_on_wu := val % 256 % 2 }
      iis3dwb_write_reg ctx IIS3DWB_WAKE_UP_THS [wake_up_ths.toByte] 1 s1
    else (ret, s1)

/-- Source `iis3dwb_wkup_dur_set`. -/
def iis3dwb_wkup_dur_set {σ : Type} (ctx : Option (stmdev_ctx_t σ)) (val : Nat) (s : σ) :
    Int × σ :=
  match iis3dwb_read_reg ctx IIS3DWB_WAKE_UP_DUR 1 s with
  | (ret, buf, s1) =>
    if ret = 0 then
      let wake_up_dur := iis3dwb_wake_up_dur_t.ofByte (byteAt buf 0)
      let wake_up_dur := { wake_up_dur with wake_dur := val % 256 % 4 }
      iis3dwb_write_reg ctx IIS3DWB_WAKE_UP_DUR [wake_up_dur.toByte] 1 s1
    else (ret, s1)

/-- Source `iis3dwb_act_sleep_dur_set`. -/
def iis3dwb_act_sleep_dur_set {σ : Type} (ctx : Option (stmdev_ctx_t σ)) (val : Nat) (s : σ) :
    Int × σ :=
  match iis3dwb_read_reg ctx IIS3DWB_WAKE_UP_DUR 1 s with
  | (ret, buf, s1) =>
    if ret = 0 then
      let wake_up_dur := iis3dwb_wake_up_dur_t.ofByte (byteAt buf 0)
      let wake_up_dur := { wake_up_dur with sleep_dur := val % 256 % 16 }
      iis3dwb_write_reg ctx IIS3DWB_WAKE_UP_DUR [wake_up_dur.toByte] 1 s1
    else (ret, s1)

/-- Source `iis3dwb_fifo_stop_on_wtm_set`. -/
def iis3dwb_fifo_stop_on_wtm_set {σ : Type} (ctx : Option (stmdev_ctx_t σ)) (val : Nat) (s : σ) :
    Int × σ :=
  match iis3dwb_read_reg ctx IIS3DWB_FIFO_CTRL2 1 s with
  | (ret, buf, s1) =>
    if ret = 0 then
      let fifo_ctrl2 := iis3dwb_fifo_ctrl2_t.ofByte (byteAt buf 0)
      let fifo_ctrl2 := { fifo_ctrl2 with stop_on_wtm := val % 256 % 2 }
      iis3dwb_write_reg ctx IIS3DWB_FIFO_CTRL2 [fifo_ctrl2.toByte] 1 s1
    else (ret, s1)

/-- Source `iis3dwb_fifo_xl_batch_set` (`val` is the numeric value of an `iis3dwb_bdr_xl_t`). -/
def iis3dwb_fifo_xl_batch_set {σ : Type} (ctx : Option (stmdev_ctx_t σ)) (val : Nat) (s : σ) :
    Int × σ :=
  match iis3dwb_read_reg ctx IIS3DWB_FIFO_CTRL3 1 s with
  | (ret, buf, s1) =>
    if ret = 0 then
      let fifo_ctrl3 := iis3dwb_fifo_ctrl3_t.ofByte (byteAt buf 0)
      let fifo_ctrl3 := { fifo_ctrl3 with bdr_xl := val % 256 % 16 }
      iis3dwb_write_reg ctx IIS3DWB_FIFO_CTRL3 [fifo_ctrl3.toByte] 1 s1
    else (ret, s1)

/-- Source `iis3dwb_fifo_mode_set` (`val` is the numeric value of an `iis3dwb_fifo_mode_t`). -/
def iis3dwb_fifo_mode_set {σ : Type} (ctx : Option (stmdev_ctx_t σ)) (val : Nat) (s : σ) :
    Int × σ :=
  match iis3dwb_read_reg ctx IIS3DWB_FIFO_CTRL4 1 s with
  | (ret, buf, s1) =>
    if ret = 0 then
      let fifo_ctrl4 := iis3dwb_fifo_ctrl4_t.ofByte (byteAt buf 0)
      let fifo_ctrl4 := { fifo_ctrl4 with fifo_mode := val % 256 % 8 }
      iis3dwb_write_reg ctx IIS3DWB_FIFO_CTRL4 [fifo_ctrl4.toByte] 1 s1
    else (ret, s1)

/-- Source `iis3dwb_fifo_temp_batch_set`
(`val` is the numeric value of an `iis3dwb_odr_t_batch_t`). -/
def iis3dwb_fifo_temp_batch_set {σ : Type} (ctx : Option (stmdev_ctx_t σ)) (val : Nat) (s : σ) :
    Int × σ :=
  match iis3dwb_read_reg ctx IIS3DWB_FIFO_CTRL4 1 s with
  | (ret, buf, s1) =>
    if ret = 0 then
      let fifo_ctrl4 := iis3dwb_fifo_ctrl4_t.ofByte (byteAt buf 0)
      let fifo_ctrl4 := { fifo_ctrl4 with odr_t_batch := val % 256 % 4 }
      iis3dwb_write_reg ctx IIS3DWB_FIFO_CTRL4 [fifo_ctrl4.toByte] 1 s1
    else (ret, s1)

/-- Source `iis3dwb_fifo_timestamp_batch_set`
(`val` is the numeric value of an `iis3dwb_fifo_timestamp_batch_t`). -/
def iis3dwb_fifo_timestamp_batch_set {σ : Type} (ctx : Option (stmdev_ctx_t σ)) (val : Nat)
    (s : σ) : Int × σ :=
  match iis3dwb_read_reg ctx IIS3DWB_FIFO_CTRL4 1 s with
  | (ret, buf, s1) =>
    if ret = 0 then
      let fifo_ctrl4 := iis3dwb_fifo_ctrl4_t.ofByte (byteAt buf 0)
      let fifo_ctrl4 := { fifo_ctrl4 with odr_ts_batch := val % 256 % 4 }
      iis3dwb_write_reg ctx IIS3DWB_FIFO_CTRL4 [fifo_ctrl4.toByte] 1 s1
    else (ret, s1)

/-- Source `iis3dwb_rst_batch_counter_set`. -/
def iis3dwb_rst_batch_counter_set {σ : Type} (ctx : Option (stmdev_ctx_t σ)) (val : Nat) (s : σ) :
    Int × σ :=
  match iis3dwb_read_reg ctx IIS3DWB_COUNTER_BDR_REG1 1 s with
  | (ret, buf, s1) =>
    if ret = 0 then
      let counter_bdr_reg1 := iis3dwb_counter_bdr_reg1_t.ofByte (byteAt buf 0)
      let counter_bdr_reg1 := { counter_bdr_reg1 with rst_counter_bdr := val % 256 % 2 }
      iis3dwb_write_reg ctx IIS3DWB_COUNTER_BDR_REG1 [counter_bdr_reg1.toByte] 1 s1
    else (ret, s1)

/-! ## Setters over several registers and write-only operations -/

/-- Source `iis3dwb_xl_axis_selection_set` (`val` is the numeric value of an
`iis3dwb_xl_axis_sel_t`). -/
def iis3dwb_xl_axis_selection_set {σ : Type} (ctx : Option (stmdev_ctx_t σ)) (val : Nat)
    (s : σ) : Int × σ :=
  match iis3dwb_read_reg ctx IIS3DWB_CTRL4_C 1 s with
  | (ret, buf4, s1) =>
    if ret = 0 then
      let ctrl4_c := iis3dwb_ctrl4_c_t.ofByte (byteAt buf4 0)
      let ctrl4_c := { ctrl4_c with _1ax_to_3regout := ((val % 256 &&& 0x10) >>> 4) % 2 }
      match iis3dwb_write_reg ctx IIS3DWB_CTRL4_C [ctrl4_c.toByte] 1 s1 with
      | (ret, s2) =>
        if ret = 0 then
          match iis3dwb_read_reg ctx IIS3DWB_CTRL6_C 1 s2 with
          | (ret, buf6, s3) =>
            if ret = 0 then
              let ctrl6_c := iis3dwb_ctrl6_c_t.ofByte (byteAt buf6 0)
              let ctrl6_c := { ctrl6_c with xl_axis_sel := val % 256 % 4 }
              iis3dwb_write_reg ctx IIS3DWB_CTRL6_C [ctrl6_c.toByte] 1 s3
            else (ret, s3)
        else (ret, s2)
    else (ret, s1)

/-- Source `iis3dwb_xl_usr_offset_x_set`. -/
def iis3dwb_xl_usr_offset_x_set {σ : Type} (ctx : Option (stmdev_ctx_t σ)) (buff : List Nat)
    (s : σ) : Int × σ :=
  iis3dwb_write_reg ctx IIS3DWB_X_OFS_USR buff 1 s

/-- Source `iis3dwb_xl_usr_offset_y_set`. -/
def iis3dwb_xl_usr_offset_y_set {σ : Type} (ctx : Option (stmdev_ctx_t σ)) (buff : List Nat)
    (s : σ) : Int × σ :=
  iis3dwb_write_reg ctx IIS3DWB_Y_OFS_USR buff 1 s

/-- Source `iis3dwb_xl_usr_offset_z_set`. -/
def iis3dwb_xl_usr_offset_z_set {σ : Type} (ctx : Option (stmdev_ctx_t σ)) (buff : List Nat)
    (s : σ) : Int × σ :=
  iis3dwb_write_reg ctx IIS3DWB_Z_OFS_USR buff 1 s

/-- Source `iis3dwb_timestamp_rst`. -/
def iis3dwb_timestamp_rst {σ : Type} (ctx : Option (stmdev_ctx_t σ)) (s : σ) : Int × σ :=
  let rst_val := 0xAA
  iis3dwb_write_reg ctx IIS3DWB_TIMESTAMP2 [rst_val] 1 s

/-- Source `iis3dwb_xl_filt_path_on_out_set` (`val` is the numeric value of an
`iis3dwb_filt_xl_en_t`). -/
def iis3dwb_xl_filt_path_on_out_set {σ : Type} (ctx : Option (stmdev_ctx_t σ)) (val : Nat)
    (s : σ) : Int × σ :=
  match iis3dwb_read_reg ctx IIS3DWB_CTRL1_XL 1 s with
  | (ret, buf1, s1) =>
    if ret = 0 then
      let ctrl1_xl := iis3dwb_ctrl1_xl_t.ofByte (byteAt buf1 0)
      let ctrl1_xl := { ctrl1_xl with lpf2_xl_en := ((val % 256 &&& 0x80) >>> 7) % 2 }
      match iis3dwb_write_reg ctx IIS3DWB_CTRL1_XL [ctrl1_xl.toByte] 1 s1 with
      | (ret, s2) =>
        if ret = 0 then
          match iis3dwb_read_reg ctx IIS3DWB_CTRL8_XL 1 s2 with
          | (ret, buf8, s3) =>
            if ret = 0 then
              let ctrl8_xl := iis3dwb_ctrl8_xl_t.ofByte (byteAt buf8 0)
              let ctrl8_xl := { ctrl8_xl with fds := ((val % 256 &&& 0x10) >>> 4) % 2 }
              let ctrl8_xl :=
                { ctrl8_xl with hp_ref_mode_xl := ((val % 256 &&& 0x20) >>> 5) % 2 }
              let ctrl8_xl := { ctrl8_xl with hpcf_xl := (val % 256 &&& 0x07) % 8 }
              iis3dwb_write_reg ctx IIS3DWB_CTRL8_XL [ctrl8_xl.toByte] 1 s3
            else (ret, s3)
        else (ret, s2)
    else (ret, s1)

/-- Source `iis3dwb_pin_int1_route_set`. -/
def iis3dwb_pin_int1_route_set {σ : Type} (ctx : Option (stmdev_ctx_t σ))
    (val : iis3dwb_pin_int1_route_t) (s : σ) : Int × σ :=
  match iis3dwb_read_reg ctx IIS3DWB_INT1_CTRL 1 s with
  | (ret, b1, s1) =>
    if ret ≠ 0 then (ret, s1) else
    match iis3dwb_read_reg ctx IIS3DWB_MD1_CFG 1 s1 with
    | (ret, b2, s2) =>
      if ret ≠ 0 then (ret, s2) else
      match iis3dwb_read_reg ctx IIS3DWB_SLOPE_EN 1 s2 with
      | (ret, b3, s3) =>
        if ret ≠ 0 then (ret, s3) else
        let int1_ctrl := iis3dwb_int1_ctrl_t.ofByte (byteAt b1 0)
        let md1_cfg := iis3dwb_md1_cfg_t.ofByte (byteAt b2 0)
        let slope_en := iis3dwb_slope_en_t.ofByte (byteAt b3 0)
        let int1_ctrl := { int1_ctrl with int1_drdy_xl := val.drdy_xl % 2 }
        let int1_ctrl := { int1_ctrl with int1_boot := val.boot % 2 }
        let int1_ctrl := { int1_ctrl with int1_fifo_th := val.fifo_th % 2 }
        let int1_ctrl := { int1_ctrl with int1_fifo_ovr := val.fifo_ovr % 2 }
        let int1_ctrl := { int1_ctrl with int1_fifo_full := val.fifo_full % 2 }
        let int1_ctrl := { int1_ctrl with int1_cnt_bdr := val.fifo_bdr % 2 }
        let md1_cfg := { md1_cfg with int1_wu := val.wake_up % 2 }
        let md1_cfg :=
          { md1_cfg with int1_sleep_change := (val.sleep_change ||| val.sleep_status) % 2 }
        let slope_en := { slope_en with sleep_status_on_int := val.sleep_status % 2 }
        match iis3dwb_write_reg ctx IIS3DWB_INT1_CTRL [int1_ctrl.toByte] 1 s3 with
        | (ret, s4) =>
          if ret ≠ 0 then (ret, s4) else
          match iis3dwb_write_reg ctx IIS3DWB_MD1_CFG [md1_cfg.toByte] 1 s4 with
          | (ret, s5) =>
            if ret ≠ 0 then (ret, s5) else
            iis3dwb_write_reg ctx IIS3DWB_SLOPE_EN [slope_en.toByte] 1 s5

/-- Source `iis3dwb_pin_int2_route_set`. -/
def iis3dwb_pin_int2_route_set {σ : Type} (ctx : Option (stmdev_ctx_t σ))
    (val : iis3dwb_pin_int2_route_t) (s : σ) : Int × σ :=
  match iis3dwb_read_reg ctx IIS3DWB_INT2_CTRL 1 s with
  | (ret, b1, s1) =>
    if ret ≠ 0 then (ret, s1) else
    match iis3dwb_read_reg ctx IIS3DWB_MD2_CFG 1 s1 with
    | (ret, b2, s2) =>
      if ret ≠ 0 then (ret, s2) else
      match iis3dwb_read_reg ctx IIS3DWB_SLOPE_EN 1 s2 with
      | (ret, b3, s3) =>
        if ret ≠ 0 then (ret, s3) else
        let int2_ctrl := iis3dwb_int2_ctrl_t.ofByte (byteAt b1 0)
        let md2_cfg := iis3dwb_md2_cfg_t.ofByte (byteAt b2 0)
        let slope_en := iis3dwb_slope_en_t.ofByte (byteAt b3 0)
        let int2_ctrl := { int2_ctrl with int2_drdy_xl := val.drdy_xl % 2 }
        let int2_ctrl := { int2_ctrl with int2_drdy_temp := val.drdy_temp % 2 }
        let int2_ctrl := { int2_ctrl with int2_fifo_th := val.fifo_th % 2 }
        let int2_ctrl := { int2_ctrl with int2_fifo_ovr := val.fifo_ovr % 2 }
        let int2_ctrl := { int2_ctrl with int2_fifo_full := val.fifo_full % 2 }
        let int2_ctrl := { int2_ctrl with int2_cnt_bdr := val.fifo_bdr % 2 }
        let md2_cfg := { md2_cfg with int2_timestamp := val.timestamp % 2 }
        let md2_cfg := { md2_cfg with int2_wu := val.wake_up % 2 }
        let md2_cfg :=
          { md2_cfg with int2_sleep_change := (val.sleep_change ||| val.sleep_status) % 2 }
        let slope_en := { slope_en with sleep_status_on_int := val.sleep_status % 2 }
        match iis3dwb_write_reg ctx IIS3DWB_INT2_CTRL [int2_ctrl.toByte] 1 s3 with
        | (ret, s4) =>
          if ret ≠ 0 then (ret, s4) else
          match iis3dwb_write_reg ctx IIS3DWB_MD2_CFG [md2_cfg.toByte] 1 s4 with
          | (ret, s5) =>
            if ret ≠ 0 then (ret, s5) else
            iis3dwb_write_reg ctx IIS3DWB_SLOPE_EN [slope_en.toByte] 1 s5

/-- Source `iis3dwb_wkup_threshold_set`. -/
def iis3dwb_wkup_threshold_set {σ : Type} (ctx : Option (stmdev_ctx_t σ)) (val : Nat)
    (s : σ) : Int × σ :=
  match iis3dwb_read_reg ctx IIS3DWB_WAKE_UP_THS 1 s with
  | (ret, bt, s1) =>
    if ret = 0 then
      let wake_up_ths := iis3dwb_wake_up_ths_t.ofByte (byteAt bt 0)
      let wake_up_ths := { wake_up_ths with wk_ths := val % 256 % 64 }
      match iis3dwb_write_reg ctx IIS3DWB_WAKE_UP_THS [wake_up_ths.toByte] 1 s1 with
      | (ret, s2) =>
        if ret = 0 then
          match iis3dwb_read_reg ctx IIS3DWB_INTERRUPTS_EN 1 s2 with
          | (ret, bi, s3) =>
            if ret = 0 then
              let interrupts_en := iis3dwb_interrupts_en_t.ofByte (byteAt bi 0)
              let interrupts_en :=
                { interrupts_en with interrupts_enable := PROPERTY_ENABLE % 2 }
              iis3dwb_write_reg ctx IIS3DWB_INTERRUPTS_EN [interrupts_en.toByte] 1 s3
            else (ret, s3)
        else (ret, s2)
    else (ret, s1)

/-- Source `iis3dwb_fifo_watermark_set` (`val` is a `uint16_t`). The local `fifo_ctrl1`
is declared without a read; its only field, 8 bits wide, is assigned before the
write. -/
def iis3dwb_fifo_watermark_set {σ : Type} (ctx : Option (stmdev_ctx_t σ)) (val : Nat)
    (s : σ) : Int × σ :=
  match iis3dwb_read_reg ctx IIS3DWB_FIFO_CTRL2 1 s with
  | (ret, buf2, s1) =>
    if ret = 0 then
      let fifo_ctrl2 := iis3dwb_fifo_ctrl2_t.ofByte (byteAt buf2 0)
      let fifo_ctrl1 : iis3dwb_fifo_ctrl1_t := { wtm := (0x00FF &&& val) % 256 % 256 }
      match iis3dwb_write_reg ctx IIS3DWB_FIFO_CTRL1 [fifo_ctrl1.toByte] 1 s1 with
      | (ret, s2) =>
        if ret = 0 then
          let fifo_ctrl2 := { fifo_ctrl2 with wtm := ((0x0100 &&& val) >>> 8) % 256 % 2 }
          iis3dwb_write_reg ctx IIS3DWB_FIFO_CTRL2 [fifo_ctrl2.toByte] 1 s2
        else (ret, s2)
    else (ret, s1)

/-- Source `iis3dwb_batch_counter_threshold_set` (`val` is a `uint16_t`). As in the
source, the local `counter_bdr_reg1` has the type `iis3dwb_counter_bdr_reg2_t`, whose
single field `cnt_bdr_th` is 8 bits wide. The local `counter_bdr_reg2` is declared
without a read; its only field is assigned before the write. -/
def iis3dwb_batch_counter_threshold_set {σ : Type} (ctx : Option (stmdev_ctx_t σ))
    (val : Nat) (s : σ) : Int × σ :=
  match iis3dwb_read_reg ctx IIS3DWB_COUNTER_BDR_REG1 1 s with
  | (ret, buf1, s1) =>
    if ret = 0 then
      let counter_bdr_reg1 := iis3dwb_counter_bdr_reg2_t.ofByte (byteAt buf1 0)
      let counter_bdr_reg1 :=
        { counter_bdr_reg1 with cnt_bdr_th := ((0x0700 &&& val) >>> 8) % 256 % 256 }
      match iis3dwb_write_reg ctx IIS3DWB_COUNTER_BDR_REG1 [counter_bdr_reg1.toByte] 1 s1 with
      | (ret, s2) =>
        if ret = 0 then
          let counter_bdr_reg2 : iis3dwb_counter_bdr_reg2_t :=
            { cnt_bdr_th := (0x00FF &&& val) % 256 % 256 }
          iis3dwb_write_reg ctx IIS3DWB_COUNTER_BDR_REG2 [counter_bdr_reg2.toByte] 1 s2
        else (ret, s2)
    else (ret, s1)

/-! ## Getters -/

/-- Source `iis3dwb_data_ready_mode_get`. -/
def iis3dwb_data_ready_mode_get {σ : Type} (ctx : Option (stmdev_ctx_t σ)) (s : σ) :
    Int × iis3dwb_dataready_pulsed_t × σ :=
  match iis3dwb_read_reg ctx IIS3DWB_COUNTER_BDR_REG1 1 s with
  | (ret, buf, s1) =>
    let counter_bdr_reg1 := iis3dwb_counter_bdr_reg1_t.ofByte (byteAt buf 0)
    let val : iis3dwb_dataready_pulsed_t :=
      if counter_bdr_reg1.dataready_pulsed =
          iis3dwb_dataready_pulsed_t.IIS3DWB_DRDY_LATCHED.toNat then
        .IIS3DWB_DRDY_LATCHED
      else if counter_bdr_reg1.dataready_pulsed =
          iis3dwb_dataready_pulsed_t.IIS3DWB_DRDY_PULSED.toNat then
        .IIS3DWB_DRDY_PULSED
      else .IIS3DWB_DRDY_LATCHED
    (ret, val, s1)

/-- Source `iis3dwb_rst_batch_counter_get`. -/
def iis3dwb_rst_batch_counter_get {σ : Type} (ctx : Option (stmdev_ctx_t σ)) (s : σ) :
    Int × Nat × σ :=
  match iis3dwb_read_reg ctx IIS3DWB_COUNTER_BDR_REG1 1 s with
  | (ret, buf, s1) =>
    let counter_bdr_reg1 := iis3dwb_counter_bdr_reg1_t.ofByte (byteAt buf 0)
    (ret, counter_bdr_reg1.rst_counter_bdr, s1)

/-- Source `iis3dwb_fifo_watermark_get` (the result is a `uint16_t`). -/
def iis3dwb_fifo_watermark_get {σ : Type} (ctx : Option (stmdev_ctx_t σ)) (s : σ) :
    Int × Nat × σ :=
  match iis3dwb_read_reg ctx IIS3DWB_FIFO_CTRL2 1 s with
  | (ret, buf2, s1) =>
    if ret ≠ 0 then (ret, 0, s1) else
    match iis3dwb_read_reg ctx IIS3DWB_FIFO_CTRL1 1 s1 with
    | (ret, buf1, s2) =>
      let fifo_ctrl2 := iis3dwb_fifo_ctrl2_t.ofByte (byteAt buf2 0)
      let fifo_ctrl1 := iis3dwb_fifo_ctrl1_t.ofByte (byteAt buf1 0)
      let val := fifo_ctrl2.wtm
      let val := (val <<< 8) % 65536
      let val := (val + fifo_ctrl1.wtm) % 65536
      (ret, val, s2)

/-- Source `iis3dwb_batch_counter_threshold_get` (the result is a `uint16_t`). -/
def iis3dwb_batch_counter_threshold_get {σ : Type} (ctx : Option (stmdev_ctx_t σ)) (s : σ) :
    Int × Nat × σ :=
  match iis3dwb_read_reg ctx IIS3DWB_COUNTER_BDR_REG1 1 s with
  | (ret, buf1, s1) =>
    if ret ≠ 0 then (ret, 0, s1) else
    match iis3dwb_read_reg ctx IIS3DWB_COUNTER_BDR_REG2 1 s1 with
    | (ret, buf2, s2) =>
      if ret ≠ 0 then (ret, 0, s2) else
      let counter_bdr_reg1 := iis3dwb_counter_bdr_reg1_t.ofByte (byteAt buf1 0)
      let counter_bdr_reg2 := iis3dwb_counter_bdr_reg2_t.ofByte (byteAt buf2 0)
      let val := counter_bdr_reg1.cnt_bdr_th
      let val := (val <<< 8) % 65536
      let val := (val + counter_bdr_reg2.cnt_bdr_th) % 65536
      (ret, val, s2)

/-- Source `iis3dwb_timestamp_raw_get` (the result is a `uint32_t`). -/
def iis3dwb_timestamp_raw_get {σ : Type} (ctx : Option (stmdev_ctx_t σ)) (s : σ) :
    Int × Nat × σ :=
  match iis3dwb_read_reg ctx IIS3DWB_TIMESTAMP0 4 s with
  | (ret, buff, s1) =>
    let val := byteAt buff 3
    let val := (val * 256 + byteAt buff 2) % 4294967296
    let val := (val * 256 + byteAt buff 1) % 4294967296
    let val := (val * 256 + byteAt buff 0) % 4294967296
    (ret, val, s1)

/-- Source `iis3dwb_fifo_sensor_tag_get`. -/
def iis3dwb_fifo_sensor_tag_get {σ : Type} (ctx : Option (stmdev_ctx_t σ)) (s : σ) :
    Int × iis3dwb_fifo_tag_t × σ :=
  match iis3dwb_read_reg ctx IIS3DWB_FIFO_DATA_OUT_TAG 1 s with
  | (ret, buf, s1) =>
    let fifo_data_out_tag := iis3dwb_fifo_data_out_tag_t.ofByte (byteAt buf 0)
    let val : iis3dwb_fifo_tag_t :=
      if fifo_data_out_tag.tag_sensor = iis3dwb_fifo_tag_t.IIS3DWB_XL_TAG.toNat then
        .IIS3DWB_XL_TAG
      else if fifo_data_out_tag.tag_sensor = iis3dwb_fifo_tag_t.IIS3DWB_TEMPERATURE_TAG.toNat then
        .IIS3DWB_TEMPERATURE_TAG
      else if fifo_data_out_tag.tag_sensor = iis3dwb_fifo_tag_t.IIS3DWB_TIMESTAMP_TAG.toNat then
        .IIS3DWB_TIMESTAMP_TAG
      else .IIS3DWB_XL_TAG
    (ret, val, s1)

/-- Source `iis3dwb_xl_filt_path_on_out_get`. The `switch` has no case for
`IIS3DWB_SLOPE_ODR_DIV_4`. -/
def iis3dwb_xl_filt_path_on_out_get {σ : Type} (ctx : Option (stmdev_ctx_t σ)) (s : σ) :
    Int × iis3dwb_filt_xl_en_t × σ :=
  match iis3dwb_read_reg ctx IIS3DWB_CTRL1_XL 1 s with
  | (ret, buf1, s1) =>
    if ret ≠ 0 then (ret, .IIS3DWB_HP_REF_MODE, s1) else
    match iis3dwb_read_reg ctx IIS3DWB_CTRL8_XL 1 s1 with
    | (ret, buf8, s2) =>
      if ret ≠ 0 then (ret, .IIS3DWB_HP_REF_MODE, s2) else
      let ctrl1_xl := iis3dwb_ctrl1_xl_t.ofByte (byteAt buf1 0)
      let ctrl8_xl := iis3dwb_ctrl8_xl_t.ofByte (byteAt buf8 0)
      let key := (ctrl1_xl.lpf2_xl_en <<< 7) + (ctrl8_xl.hp_ref_mode_xl <<< 5) +
        (ctrl8_xl.fds <<< 4) + ctrl8_xl.hpcf_xl
      let val : iis3dwb_filt_xl_en_t :=
        if key = iis3dwb_filt_xl_en_t.IIS3DWB_HP_REF_MODE.toNat then .IIS3DWB_HP_REF_MODE
        else if key = iis3dwb_filt_xl_en_t.IIS3DWB_HP_ODR_DIV_10.toNat then .IIS3DWB_HP_ODR_DIV_10
        else if key = iis3dwb_filt_xl_en_t.IIS3DWB_HP_ODR_DIV_20.toNat then .IIS3DWB_HP_ODR_DIV_20
        else if key = iis3dwb_filt_xl_en_t.IIS3DWB_HP_ODR_DIV_45.toNat then .IIS3DWB_HP_ODR_DIV_45
        else if key = iis3dwb_filt_xl_en_t.IIS3DWB_HP_ODR_DIV_100.toNat then .IIS3DWB_HP_ODR_DIV_100
        else if key = iis3dwb_filt_xl_en_t.IIS3DWB_HP_ODR_DIV_200.toNat then .IIS3DWB_HP_ODR_DIV_200
        else if key = iis3dwb_filt_xl_en_t.IIS3DWB_HP_ODR_DIV_400.toNat then .IIS3DWB_HP_ODR_DIV_400
        else if key = iis3dwb_filt_xl_en_t.IIS3DWB_HP_ODR_DIV_800.toNat then .IIS3DWB_HP_ODR_DIV_800
        else if key = iis3dwb_filt_xl_en_t.IIS3DWB_LP_ODR_DIV_4.toNat then .IIS3DWB_LP_ODR_DIV_4
        else if key = iis3dwb_filt_xl_en_t.IIS3DWB_LP_6k3Hz.toNat then .IIS3DWB_LP_6k3Hz
        else if key = iis3dwb_filt_xl_en_t.IIS3DWB_LP_ODR_DIV_10.toNat then .IIS3DWB_LP_ODR_DIV_10
        else if key = iis3dwb_filt_xl_en_t.IIS3DWB_LP_ODR_DIV_20.toNat then .IIS3DWB_LP_ODR_DIV_20
        else if key = iis3dwb_filt_xl_en_t.IIS3DWB_LP_ODR_DIV_45.toNat then .IIS3DWB_LP_ODR_DIV_45
        else if key = iis3dwb_filt_xl_en_t.IIS3DWB_LP_ODR_DIV_100.toNat then .IIS3DWB_LP_ODR_DIV_100
        else if key = iis3dwb_filt_xl_en_t.IIS3DWB_LP_ODR_DIV_200.toNat then .IIS3DWB_LP_ODR_DIV_200
        else if key = iis3dwb_filt_xl_en_t.IIS3DWB_LP_ODR_DIV_400.toNat then .IIS3DWB_LP_ODR_DIV_400
        else if key = iis3dwb_filt_xl_en_t.IIS3DWB_LP_ODR_DIV_800.toNat then .IIS3DWB_LP_ODR_DIV_800
        else .IIS3DWB_HP_REF_MODE
      (ret, val, s2)

/-- Source `iis3dwb_xl_full_scale_get`. -/
def iis3dwb_xl_full_scale_get {σ : Type} (ctx : Option (stmdev_ctx_t σ)) (s : σ) :
    Int × iis3dwb_fs_xl_t × σ :=
  match iis3dwb_read_reg ctx IIS3DWB_CTRL1_XL 1 s with
  | (ret, buf, s1) =>
    let ctrl1_xl := iis3dwb_ctrl1_xl_t.ofByte (byteAt buf 0)
    let val : iis3dwb_fs_xl_t :=
      if ctrl1_xl.fs_xl = iis3dwb_fs_xl_t.IIS3DWB_2g.toNat then .IIS3DWB_2g
      else if ctrl1_xl.fs_xl = iis3dwb_fs_xl_t.IIS3DWB_16g.toNat then .IIS3DWB_16g
      else if ctrl1_xl.fs_xl = iis3dwb_fs_xl_t.IIS3DWB_4g.toNat then .IIS3DWB_4g
      else if ctrl1_xl.fs_xl = iis3dwb_fs_xl_t.IIS3DWB_8g.toNat then .IIS3DWB_8g
      else .IIS3DWB_2g
    (ret, val, s1)

/-- Source `iis3dwb_xl_data_rate_get`. -/
def iis3dwb_xl_data_rate_get {σ : Type} (ctx : Option (stmdev_ctx_t σ)) (s : σ) :
    Int × iis3dwb_odr_xl_t × σ :=
  match iis3dwb_read_reg ctx IIS3DWB_CTRL1_XL 1 s with
  | (ret, buf, s1) =>
    let ctrl1_xl := iis3dwb_ctrl1_xl_t.ofByte (byteAt buf 0)
    let val : iis3dwb_odr_xl_t :=
      if ctrl1_xl.xl_en = iis3dwb_odr_xl_t.IIS3DWB_XL_ODR_OFF.toNat then .IIS3DWB_XL_ODR_OFF
      else if ctrl1_xl.xl_en = iis3dwb_odr_xl_t.IIS3DWB_XL_ODR_26k7Hz.toNat then
        .IIS3DWB_XL_ODR_26k7Hz
      else .IIS3DWB_XL_ODR_OFF
    (ret, val, s1)

/-- Source `iis3dwb_block_data_update_get`. -/
def iis3dwb_block_data_update_get {σ : Type} (ctx : Option (stmdev_ctx_t σ)) (s : σ) :
    Int × Nat × σ :=
  match iis3dwb_read_reg ctx IIS3DWB_CTRL3_C 1 s with
  | (ret, buf, s1) =>
    let ctrl3_c := iis3dwb_ctrl3_c_t.ofByte (byteAt buf 0)
    (ret, ctrl3_c.bdu, s1)

/-- Source `iis3dwb_xl_offset_weight_get`. -/
def iis3dwb_xl_offset_weight_get {σ : Type} (ctx : Option (stmdev_ctx_t σ)) (s : σ) :
    Int × iis3dwb_usr_off_w_t × σ :=
  match iis3dwb_read_reg ctx IIS3DWB_CTRL6_C 1 s with
  | (ret, buf, s1) =>
    let ctrl6_c := iis3dwb_ctrl6_c_t.ofByte (byteAt buf 0)
    let val : iis3dwb_usr_off_w_t :=
      if ctrl6_c.usr_off_w = iis3dwb_usr_off_w_t.IIS3DWB_LSb_1mg.toNat then .IIS3DWB_LSb_1mg
      else if ctrl6_c.usr_off_w = iis3dwb_usr_off_w_t.IIS3DWB_LSb_16mg.toNat then
        .IIS3DWB_LSb_16mg
      else .IIS3DWB_LSb_1mg
    (ret, val, s1)

/-- Source `iis3dwb_xl_flag_data_ready_get`. -/
def iis3dwb_xl_flag_data_ready_get {σ : Type} (ctx : Option (stmdev_ctx_t σ)) (s : σ) :
    Int × Nat × σ :=
  match iis3dwb_read_reg ctx IIS3DWB_STATUS_REG 1 s with
  | (ret, buf, s1) =>
    let status_reg := iis3dwb_status_reg_t.ofByte (byteAt buf 0)
    (ret, status_reg.xlda, s1)

/-- Source `iis3dwb_temp_flag_data_ready_get`. -/
def iis3dwb_temp_flag_data_ready_get {σ : Type} (ctx : Option (stmdev_ctx_t σ)) (s : σ) :
    Int × Nat × σ :=
  match iis3dwb_read_reg ctx IIS3DWB_STATUS_REG 1 s with
  | (ret, buf, s1) =>
    let status_reg := iis3dwb_status_reg_t.ofByte (byteAt buf 0)
    (ret, status_reg.tda, s1)

/-- Source `iis3dwb_usr_offset_block_get`. -/
def iis3dwb_usr_offset_block_get {σ : Type} (ctx : Option (stmdev_ctx_t σ)) (s : σ) :
    Int × Nat × σ :=
  match iis3dwb_read_reg ctx IIS3DWB_CTRL7_C 1 s with
  | (ret, buf, s1) =>
    let ctrl7_c := iis3dwb_ctrl7_c_t.ofByte (byteAt buf 0)
    (ret, ctrl7_c.usr_off_on_out, s1)

/-- Source `iis3dwb_xl_usr_offset_x_get`: the bytes stored in `buff` are those the read delivers. -/
def iis3dwb_xl_usr_offset_x_get {σ : Type} (ctx : Option (stmdev_ctx_t σ)) (s : σ) :
    Int × List Nat × σ :=
  iis3dwb_read_reg ctx IIS3DWB_X_OFS_USR 1 s

/-- Source `iis3dwb_xl_usr_offset_y_get`: the bytes stored in `buff` are those the read delivers. -/
def iis3dwb_xl_usr_offset_y_get {σ : Type} (ctx : Option (stmdev_ctx_t σ)) (s : σ) :
    Int × List Nat × σ :=
  iis3dwb_read_reg ctx IIS3DWB_Y_OFS_USR 1 s

/-- Source `iis3dwb_xl_usr_offset_z_get`: the bytes stored in `buff` are those the read delivers. -/
def iis3dwb_xl_usr_offset_z_get {σ : Type} (ctx : Option (stmdev_ctx_t σ)) (s : σ) :
    Int × List Nat × σ :=
  iis3dwb_read_reg ctx IIS3DWB_Z_OFS_USR 1 s

/-- Source `iis3dwb_timestamp_get`. -/
def iis3dwb_timestamp_get {σ : Type} (ctx : Option (stmdev_ctx_t σ)) (s : σ) :
    Int × Nat × σ :=
  match iis3dwb_read_reg ctx IIS3DWB_CTRL10_C 1 s with
  | (ret, buf, s1) =>
    let ctrl10_c := iis3dwb_ctrl10_c_t.ofByte (byteAt buf 0)
    (ret, ctrl10_c.timestamp_en, s1)

/-- Source `iis3dwb_rounding_mode_get`. -/
def iis3dwb_rounding_mode_get {σ : Type} (ctx : Option (stmdev_ctx_t σ)) (s : σ) :
    Int × iis3dwb_rounding_t × σ :=
  match iis3dwb_read_reg ctx IIS3DWB_CTRL5_C 1 s with
  | (ret, buf, s1) =>
    let ctrl5_c := iis3dwb_ctrl5_c_t.ofByte (byteAt buf 0)
    let val : iis3dwb_rounding_t :=
      if ctrl5_c.rounding = iis3dwb_rounding_t.IIS3DWB_NO_ROUND.toNat then .IIS3DWB_NO_ROUND
      else if ctrl5_c.rounding = iis3dwb_rounding_t.IIS3DWB_ROUND.toNat then .IIS3DWB_ROUND
      else .IIS3DWB_NO_ROUND
    (ret, val, s1)

/-- Source `iis3dwb_odr_cal_reg_get`. -/
def iis3dwb_odr_cal_reg_get {σ : Type} (ctx : Option (stmdev_ctx_t σ)) (s : σ) :
    Int × Nat × σ :=
  match iis3dwb_read_reg ctx IIS3DWB_INTERNAL_FREQ_FINE 1 s with
  | (ret, buf, s1) =>
    let internal_freq_fine := iis3dwb_internal_freq_fine_t.ofByte (byteAt buf 0)
    (ret, internal_freq_fine.freq_fine, s1)

/-- Source `iis3dwb_device_id_get`: the bytes stored in `buff` are those the read delivers. -/
def iis3dwb_device_id_get {σ : Type} (ctx : Option (stmdev_ctx_t σ)) (s : σ) :
    Int × List Nat × σ :=
  iis3dwb_read_reg ctx IIS3DWB_WHO_AM_I 1 s

/-- Source `iis3dwb_reset_get`. -/
def iis3dwb_reset_get {σ : Type} (ctx : Option (stmdev_ctx_t σ)) (s : σ) :
    Int × Nat × σ :=
  match iis3dwb_read_reg ctx IIS3DWB_CTRL3_C 1 s with
  | (ret, buf, s1) =>
    let ctrl3_c := iis3dwb_ctrl3_c_t.ofByte (byteAt buf 0)
    (ret, ctrl3_c.sw_reset, s1)

/-- Source `iis3dwb_auto_increment_get`. -/
def iis3dwb_auto_increment_get {σ : Type} (ctx : Option (stmdev_ctx_t σ)) (s : σ) :
    Int × Nat × σ :=
  match iis3dwb_read_reg ctx IIS3DWB_CTRL3_C 1 s with
  | (ret, buf, s1) =>
    let ctrl3_c := iis3dwb_ctrl3_c_t.ofByte (byteAt buf 0)
    (ret, ctrl3_c.if_inc, s1)

/-- Source `iis3dwb_boot_get`. -/
def iis3dwb_boot_get {σ : Type} (ctx : Option (stmdev_ctx_t σ)) (s : σ) :
    Int × Nat × σ :=
  match iis3dwb_read_reg ctx IIS3DWB_CTRL3_C 1 s with
  | (ret, buf, s1) =>
    let ctrl3_c := iis3dwb_ctrl3_c_t.ofByte (byteAt buf 0)
    (ret, ctrl3_c.boot, s1)

/-- Source `iis3dwb_xl_self_test_get`. -/
def iis3dwb_xl_self_test_get {σ : Type} (ctx : Option (stmdev_ctx_t σ)) (s : σ) :
    Int × iis3dwb_st_xl_t × σ :=
  match iis3dwb_read_reg ctx IIS3DWB_CTRL5_C 1 s with
  | (ret, buf, s1) =>
    let ctrl5_c := iis3dwb_ctrl5_c_t.ofByte (byteAt buf 0)
    let val : iis3dwb_st_xl_t :=
      if ctrl5_c.st_xl = iis3dwb_st_xl_t.IIS3DWB_XL_ST_DISABLE.toNat then .IIS3DWB_XL_ST_DISABLE
      else if ctrl5_c.st_xl = iis3dwb_st_xl_t.IIS3DWB_XL_ST_POSITIVE.toNat then
        .IIS3DWB_XL_ST_POSITIVE
      else if ctrl5_c.st_xl = iis3dwb_st_xl_t.IIS3DWB_XL_ST_NEGATIVE.toNat then
        .IIS3DWB_XL_ST_NEGATIVE
      else .IIS3DWB_XL_ST_DISABLE
    (ret, val, s1)

/-- Source `iis3dwb_filter_settling_mask_get`. -/
def iis3dwb_filter_settling_mask_get {σ : Type} (ctx : Option (stmdev_ctx_t σ)) (s : σ) :
    Int × Nat × σ :=
  match iis3dwb_read_reg ctx IIS3DWB_CTRL4_C 1 s with
  | (ret, buf, s1) =>
    let ctrl4_c := iis3dwb_ctrl4_c_t.ofByte (byteAt buf 0)
    (ret, ctrl4_c.drdy_mask, s1)

/-- Source `iis3dwb_xl_fast_settling_get`. -/
def iis3dwb_xl_fast_settling_get {σ : Type} (ctx : Option (stmdev_ctx_t σ)) (s : σ) :
    Int × Nat × σ :=
  match iis3dwb_read_reg ctx IIS3DWB_CTRL8_XL 1 s with
  | (ret, buf, s1) =>
    let ctrl8_xl := iis3dwb_ctrl8_xl_t.ofByte (byteAt buf 0)
    (ret, ctrl8_xl.fastsettl_mode_xl, s1)

/-- Source `iis3dwb_xl_hp_path_internal_get`. -/
def iis3dwb_xl_hp_path_internal_get {σ : Type} (ctx : Option (stmdev_ctx_t σ)) (s : σ) :
    Int × iis3dwb_slope_fds_t × σ :=
  match iis3dwb_read_reg ctx IIS3DWB_SLOPE_EN 1 s with
  | (ret, buf, s1) =>
    let int_cfg0 := iis3dwb_slope_en_t.ofByte (byteAt buf 0)
    let val : iis3dwb_slope_fds_t :=
      if int_cfg0.slope_fds = iis3dwb_slope_fds_t.IIS3DWB_USE_SLOPE.toNat then .IIS3DWB_USE_SLOPE
      else if int_cfg0.slope_fds = iis3dwb_slope_fds_t.IIS3DWB_USE_HPF.toNat then .IIS3DWB_USE_HPF
      else .IIS3DWB_USE_SLOPE
    (ret, val, s1)

/-- Source `iis3dwb_sdo_sa0_mode_get`. -/
def iis3dwb_sdo_sa0_mode_get {σ : Type} (ctx : Option (stmdev_ctx_t σ)) (s : σ) :
    Int × iis3dwb_sdo_pu_en_t × σ :=
  match iis3dwb_read_reg ctx IIS3DWB_PIN_CTRL 1 s with
  | (ret, buf, s1) =>
    let pin_ctrl := iis3dwb_pin_ctrl_t.ofByte (byteAt buf 0)
    let val : iis3dwb_sdo_pu_en_t :=
      if pin_ctrl.sdo_pu_en = iis3dwb_sdo_pu_en_t.IIS3DWB_PULL_UP_DISC.toNat then
        .IIS3DWB_PULL_UP_DISC
      else if pin_ctrl.sdo_pu_en = iis3dwb_sdo_pu_en_t.IIS3DWB_PULL_UP_CONNECT.toNat then
        .IIS3DWB_PULL_UP_CONNECT
      else .IIS3DWB_PULL_UP_DISC
    (ret, val, s1)

/-- Source `iis3dwb_spi_mode_get`. -/
def iis3dwb_spi_mode_get {σ : Type} (ctx : Option (stmdev_ctx_t σ)) (s : σ) :
    Int × iis3dwb_sim_t × σ :=
  match iis3dwb_read_reg ctx IIS3DWB_CTRL3_C 1 s with
  | (ret, buf, s1) =>
    let ctrl3_c := iis3dwb_ctrl3_c_t.ofByte (byteAt buf 0)
    let val : iis3dwb_sim_t :=
      if ctrl3_c.sim = iis3dwb_sim_t.IIS3DWB_SPI_4_WIRE.toNat then .IIS3DWB_SPI_4_WIRE
      else if ctrl3_c.sim = iis3dwb_sim_t.IIS3DWB_SPI_3_WIRE.toNat then .IIS3DWB_SPI_3_WIRE
      else .IIS3DWB_SPI_4_WIRE
    (ret, val, s1)

/-- Source `iis3dwb_i2c_interface_get`. -/
def iis3dwb_i2c_interface_get {σ : Type} (ctx : Option (stmdev_ctx_t σ)) (s : σ) :
    Int × iis3dwb_i2c_disable_t × σ :=
  match iis3dwb_read_reg ctx IIS3DWB_CTRL4_C 1 s with
  | (ret, buf, s1) =>
    let ctrl4_c := iis3dwb_ctrl4_c_t.ofByte (byteAt buf 0)
    let val : iis3dwb_i2c_disable_t :=
      if ctrl4_c.i2c_disable = iis3dwb_i2c_disable_t.IIS3DWB_I2C_ENABLE.toNat then
        .IIS3DWB_I2C_ENABLE
      else if ctrl4_c.i2c_disable = iis3dwb_i2c_disable_t.IIS3DWB_I2C_DISABLE.toNat then
        .IIS3DWB_I2C_DISABLE
      else .IIS3DWB_I2C_ENABLE
    (ret, val, s1)

/-- Source `iis3dwb_pin_mode_get`. -/
def iis3dwb_pin_mode_get {σ : Type} (ctx : Option (stmdev_ctx_t σ)) (s : σ) :
    Int × iis3dwb_pp_od_t × σ :=
  match iis3dwb_read_reg ctx IIS3DWB_CTRL3_C 1 s with
  | (ret, buf, s1) =>
    let ctrl3_c := iis3dwb_ctrl3_c_t.ofByte (byteAt buf 0)
    let val : iis3dwb_pp_od_t :=
      if ctrl3_c.pp_od = iis3dwb_pp_od_t.IIS3DWB_PUSH_PULL.toNat then .IIS3DWB_PUSH_PULL
      else if ctrl3_c.pp_od = iis3dwb_pp_od_t.IIS3DWB_OPEN_DRAIN.toNat then .IIS3DWB_OPEN_DRAIN
      else .IIS3DWB_PUSH_PULL
    (ret, val, s1)

/-- Source `iis3dwb_pin_polarity_get`. -/
def iis3dwb_pin_polarity_get {σ : Type} (ctx : Option (stmdev_ctx_t σ)) (s : σ) :
    Int × iis3dwb_h_lactive_t × σ :=
  match iis3dwb_read_reg ctx IIS3DWB_CTRL3_C 1 s with
  | (ret, buf, s1) =>
    let ctrl3_c := iis3dwb_ctrl3_c_t.ofByte (byteAt buf 0)
    let val : iis3dwb_h_lactive_t :=
      if ctrl3_c.h_lactive = iis3dwb_h_lactive_t.IIS3DWB_ACTIVE_HIGH.toNat then
        .IIS3DWB_ACTIVE_HIGH
      else if ctrl3_c.h_lactive = iis3dwb_h_lactive_t.IIS3DWB_ACTIVE_LOW.toNat then
        .IIS3DWB_ACTIVE_LOW
      else .IIS3DWB_ACTIVE_HIGH
    (ret, val, s1)

/-- Source `iis3dwb_all_on_int1_get`. -/
def iis3dwb_all_on_int1_get {σ : Type} (ctx : Option (stmdev_ctx_t σ)) (s : σ) :
    Int × Nat × σ :=
  match iis3dwb_read_reg ctx IIS3DWB_CTRL4_C 1 s with
  | (ret, buf, s1) =>
    let ctrl4_c := iis3dwb_ctrl4_c_t.ofByte (byteAt buf 0)
    (ret, ctrl4_c.int2_on_int1, s1)

/-- Source `iis3dwb_int_notification_get`. -/
def iis3dwb_int_notification_get {σ : Type} (ctx : Option (stmdev_ctx_t σ)) (s : σ) :
    Int × iis3dwb_lir_t × σ :=
  match iis3dwb_read_reg ctx IIS3DWB_SLOPE_EN 1 s with
  | (ret, buf, s1) =>
    let slope_en := iis3dwb_slope_en_t.ofByte (byteAt buf 0)
    let val : iis3dwb_lir_t :=
      if slope_en.lir = iis3dwb_lir_t.IIS3DWB_INT_PULSED.toNat then .IIS3DWB_INT_PULSED
      else if slope_en.lir = iis3dwb_lir_t.IIS3DWB_INT_LATCHED.toNat then .IIS3DWB_INT_LATCHED
      else .IIS3DWB_INT_PULSED
    (ret, val, s1)

/-- Source `iis3dwb_wkup_ths_weight_get`. -/
def iis3dwb_wkup_ths_weight_get {σ : Type} (ctx : Option (stmdev_ctx_t σ)) (s : σ) :
    Int × iis3dwb_wake_ths_w_t × σ :=
  match iis3dwb_read_reg ctx IIS3DWB_WAKE_UP_DUR 1 s with
  | (ret, buf, s1) =>
    let wake_up_dur := iis3dwb_wake_up_dur_t.ofByte (byteAt buf 0)
    let val : iis3dwb_wake_ths_w_t :=
      if wake_up_dur.wake_ths_w = iis3dwb_wake_ths_w_t.IIS3DWB_LSb_FS_DIV_64.toNat then
        .IIS3DWB_LSb_FS_DIV_64
      else if wake_up_dur.wake_ths_w = iis3dwb_wake_ths_w_t.IIS3DWB_LSb_FS_DIV_256.toNat then
        .IIS3DWB_LSb_FS_DIV_256
      else .IIS3DWB_LSb_FS_DIV_64
    (ret, val, s1)

/-- Source `iis3dwb_wkup_threshold_get`. -/
def iis3dwb_wkup_threshold_get {σ : Type} (ctx : Option (stmdev_ctx_t σ)) (s : σ) :
    Int × Nat × σ :=
  match iis3dwb_read_reg ctx IIS3DWB_WAKE_UP_THS 1 s with
  | (ret, buf, s1) =>
    let wake_up_ths := iis3dwb_wake_up_ths_t.ofByte (byteAt buf 0)
    (ret, wake_up_ths.wk_ths, s1)

/-- Source `iis3dwb_xl_usr_offset_on_wkup_get`. -/
def iis3dwb_xl_usr_offset_on_wkup_get {σ : Type} (ctx : Option (stmdev_ctx_t σ)) (s : σ) :
    Int × Nat × σ :=
  match iis3dwb_read_reg ctx IIS3DWB_WAKE_UP_THS 1 s with
  | (ret, buf, s1) =>
    let wake_up_ths := iis3dwb_wake_up_ths_t.ofByte (byteAt buf 0)
    (ret, wake_up_ths.usr_off_on_wu, s1)

/-- Source `iis3dwb_wkup_dur_get`. -/
def iis3dwb_wkup_dur_get {σ : Type} (ctx : Option (stmdev_ctx_t σ)) (s : σ) :
    Int × Nat × σ :=
  match iis3dwb_read_reg ctx IIS3DWB_WAKE_UP_DUR 1 s with
  | (ret, buf, s1) =>
    let wake_up_dur := iis3dwb_wake_up_dur_t.ofByte (byteAt buf 0)
    (ret, wake_up_dur.wake_dur, s1)

/-- Source `iis3dwb_act_sleep_dur_get`. -/
def iis3dwb_act_sleep_dur_get {σ : Type} (ctx : Option (stmdev_ctx_t σ)) (s : σ) :
    Int × Nat × σ :=
  match iis3dwb_read_reg ctx IIS3DWB_WAKE_UP_DUR 1 s with
  | (ret, buf, s1) =>
    let wake_up_dur := iis3dwb_wake_up_dur_t.ofByte (byteAt buf 0)
    (ret, wake_up_dur.sleep_dur, s1)

/-- Source `iis3dwb_fifo_stop_on_wtm_get`. -/
def iis3dwb_fifo_stop_on_wtm_get {σ : Type} (ctx : Option (stmdev_ctx_t σ)) (s : σ) :
    Int × Nat × σ :=
  match iis3dwb_read_reg ctx IIS3DWB_FIFO_CTRL2 1 s with
  | (ret, buf, s1) =>
    let fifo_ctrl2 := iis3dwb_fifo_ctrl2_t.ofByte (byteAt buf 0)
    (ret, fifo_ctrl2.stop_on_wtm, s1)

/-- Source `iis3dwb_fifo_xl_batch_get`. -/
def iis3dwb_fifo_xl_batch_get {σ : Type} (ctx : Option (stmdev_ctx_t σ)) (s : σ) :
    Int × iis3dwb_bdr_xl_t × σ :=
  match iis3dwb_read_reg ctx IIS3DWB_FIFO_CTRL3 1 s with
  | (ret, buf, s1) =>
    let fifo_ctrl3 := iis3dwb_fifo_ctrl3_t.ofByte (byteAt buf 0)
    let val : iis3dwb_bdr_xl_t :=
      if fifo_ctrl3.bdr_xl = iis3dwb_bdr_xl_t.IIS3DWB_XL_NOT_BATCHED.toNat then
        .IIS3DWB_XL_NOT_BATCHED
      else if fifo_ctrl3.bdr_xl = iis3dwb_bdr_xl_t.IIS3DWB_XL_BATCHED_AT_26k7Hz.toNat then
        .IIS3DWB_XL_BATCHED_AT_26k7Hz
      else .IIS3DWB_XL_NOT_BATCHED
    (ret, val, s1)

/-- Source `iis3dwb_fifo_mode_get`. -/
def iis3dwb_fifo_mode_get {σ : Type} (ctx : Option (stmdev_ctx_t σ)) (s : σ) :
    Int × iis3dwb_fifo_mode_t × σ :=
  match iis3dwb_read_reg ctx IIS3DWB_FIFO_CTRL4 1 s with
  | (ret, buf, s1) =>
    let fifo_ctrl4 := iis3dwb_fifo_ctrl4_t.ofByte (byteAt buf 0)
    let val : iis3dwb_fifo_mode_t :=
      if fifo_ctrl4.fifo_mode = iis3dwb_fifo_mode_t.IIS3DWB_BYPASS_MODE.toNat then
        .IIS3DWB_BYPASS_MODE
      else if fifo_ctrl4.fifo_mode = iis3dwb_fifo_mode_t.IIS3DWB_FIFO_MODE.toNat then
        .IIS3DWB_FIFO_MODE
      else if fifo_ctrl4.fifo_mode = iis3dwb_fifo_mode_t.IIS3DWB_STREAM_TO_FIFO_MODE.toNat then
        .IIS3DWB_STREAM_TO_FIFO_MODE
      else if fifo_ctrl4.fifo_mode = iis3dwb_fifo_mode_t.IIS3DWB_BYPASS_TO_STREAM_MODE.toNat then
        .IIS3DWB_BYPASS_TO_STREAM_MODE
      else if fifo_ctrl4.fifo_mode = iis3dwb_fifo_mode_t.IIS3DWB_STREAM_MODE.toNat then
        .IIS3DWB_STREAM_MODE
      else if fifo_ctrl4.fifo_mode = iis3dwb_fifo_mode_t.IIS3DWB_BYPASS_TO_FIFO_MODE.toNat then
        .IIS3DWB_BYPASS_TO_FIFO_MODE
      else .IIS3DWB_BYPASS_MODE
    (ret, val, s1)

/-- Source `iis3dwb_fifo_temp_batch_get`. -/
def iis3dwb_fifo_temp_batch_get {σ : Type} (ctx : Option (stmdev_ctx_t σ)) (s : σ) :
    Int × iis3dwb_odr_t_batch_t × σ :=
  match iis3dwb_read_reg ctx IIS3DWB_FIFO_CTRL4 1 s with
  | (ret, buf, s1) =>
    let fifo_ctrl4 := iis3dwb_fifo_ctrl4_t.ofByte (byteAt buf 0)
    let val : iis3dwb_odr_t_batch_t :=
      if fifo_ctrl4.odr_t_batch = iis3dwb_odr_t_batch_t.IIS3DWB_TEMP_NOT_BATCHED.toNat then
        .IIS3DWB_TEMP_NOT_BATCHED
      else if fifo_ctrl4.odr_t_batch = iis3dwb_odr_t_batch_t.IIS3DWB_TEMP_BATCHED_AT_104Hz.toNat then
        .IIS3DWB_TEMP_BATCHED_AT_104Hz
      else .IIS3DWB_TEMP_NOT_BATCHED
    (ret, val, s1)

/-- Source `iis3dwb_fifo_timestamp_batch_get`. -/
def iis3dwb_fifo_timestamp_batch_get {σ : Type} (ctx : Option (stmdev_ctx_t σ)) (s : σ) :
    Int × iis3dwb_fifo_timestamp_batch_t × σ :=
  match iis3dwb_read_reg ctx IIS3DWB_FIFO_CTRL4 1 s with
  | (ret, buf, s1) =>
    let fifo_ctrl4 := iis3dwb_fifo_ctrl4_t.ofByte (byteAt buf 0)
    let val : iis3dwb_fifo_timestamp_batch_t :=
      if fifo_ctrl4.odr_ts_batch = iis3dwb_fifo_timestamp_batch_t.IIS3DWB_NO_DECIMATION.toNat then
        .IIS3DWB_NO_DECIMATION
      else if fifo_ctrl4.odr_ts_batch = iis3dwb_fifo_timestamp_batch_t.IIS3DWB_DEC_1.toNat then
        .IIS3DWB_DEC_1
      else if fifo_ctrl4.odr_ts_batch = iis3dwb_fifo_timestamp_batch_t.IIS3DWB_DEC_8.toNat then
        .IIS3DWB_DEC_8
      else if fifo_ctrl4.odr_ts_batch = iis3dwb_fifo_timestamp_batch_t.IIS3DWB_DEC_32.toNat then
        .IIS3DWB_DEC_32
      else .IIS3DWB_NO_DECIMATION
    (ret, val, s1)

/-- Source `iis3dwb_xl_axis_selection_get`. -/
def iis3dwb_xl_axis_selection_get {σ : Type} (ctx : Option (stmdev_ctx_t σ)) (s : σ) :
    Int × iis3dwb_xl_axis_sel_t × σ :=
  match iis3dwb_read_reg ctx IIS3DWB_CTRL4_C 1 s with
  | (ret, buf4, s1) =>
    if ret ≠ 0 then (ret, .IIS3DWB_ENABLE_ALL, s1) else
    match iis3dwb_read_reg ctx IIS3DWB_CTRL6_C 1 s1 with
    | (ret, buf6, s2) =>
      if ret ≠ 0 then (ret, .IIS3DWB_ENABLE_ALL, s2) else
      let ctrl4_c := iis3dwb_ctrl4_c_t.ofByte (byteAt buf4 0)
      let ctrl6_c := iis3dwb_ctrl6_c_t.ofByte (byteAt buf6 0)
      let key := (ctrl4_c._1ax_to_3regout <<< 4) + ctrl6_c.xl_axis_sel
      let val : iis3dwb_xl_axis_sel_t :=
        if key = iis3dwb_xl_axis_sel_t.IIS3DWB_ENABLE_ALL.toNat then .IIS3DWB_ENABLE_ALL
        else if key = iis3dwb_xl_axis_sel_t.IIS3DWB_ONLY_X_ON_ONE_OUT_REG.toNat then
          .IIS3DWB_ONLY_X_ON_ONE_OUT_REG
        else if key = iis3dwb_xl_axis_sel_t.IIS3DWB_ONLY_Y_ON_ONE_OUT_REG.toNat then
          .IIS3DWB_ONLY_Y_ON_ONE_OUT_REG
        else if key = iis3dwb_xl_axis_sel_t.IIS3DWB_ONLY_Z_ON_ONE_OUT_REG.toNat then
          .IIS3DWB_ONLY_Z_ON_ONE_OUT_REG
        else if key = iis3dwb_xl_axis_sel_t.IIS3DWB_ONLY_X_ON_ALL_OUT_REG.toNat then
          .IIS3DWB_ONLY_X_ON_ALL_OUT_REG
        else if key = iis3dwb_xl_axis_sel_t.IIS3DWB_ONLY_Y_ON_ALL_OUT_REG.toNat then
          .IIS3DWB_ONLY_Y_ON_ALL_OUT_REG
        else if key = iis3dwb_xl_axis_sel_t.IIS3DWB_ONLY_Z_ON_ALL_OUT_REG.toNat then
          .IIS3DWB_ONLY_Z_ON_ALL_OUT_REG
        else .IIS3DWB_ENABLE_ALL
      (ret, val, s2)

/-- Content of a caller's one-byte object after a read of length 1 stored into it: the
overlay of the byte the transport delivered, or the prior content when it delivered
none. -/
def storedInto {α : Type} (ofByte : Nat → α) (buf : List Nat) (old : α) : α :=
  match buf with
  | [] => old
  | b :: _ => ofByte (b % 256)

/-- Source `iis3dwb_all_sources_get`. `val0` is the caller's structure before the call.
Each read stores straight into its member of the caller's structure, so a member whose
read is not issued, or delivers no byte, keeps its content. -/
def iis3dwb_all_sources_get {σ : Type} (ctx : Option (stmdev_ctx_t σ))
    (val0 : iis3dwb_all_sources_t) (s : σ) : Int × iis3dwb_all_sources_t × σ :=
  match iis3dwb_read_reg ctx IIS3DWB_ALL_INT_SRC 1 s with
  | (ret, b1, s1) =>
    let val := { val0 with
      all_int_src := storedInto iis3dwb_all_int_src_t.ofByte b1 val0.all_int_src }
    if ret = 0 then
      match iis3dwb_read_reg ctx IIS3DWB_WAKE_UP_SRC 1 s1 with
      | (ret, b2, s2) =>
        let val := { val with
          wake_up_src := storedInto iis3dwb_wake_up_src_t.ofByte b2 val.wake_up_src }
        if ret = 0 then
          match iis3dwb_read_reg ctx IIS3DWB_STATUS_REG 1 s2 with
          | (ret, b3, s3) =>
            let val := { val with
              status_reg := storedInto iis3dwb_status_reg_t.ofByte b3 val.status_reg }
            (ret, val, s3)
        else (ret, val, s2)
    else (ret, val, s1)

/-- Source `iis3dwb_status_reg_get`. `val0` is the caller's structure before the call;
the read stores straight into it, so it keeps its content when no byte is delivered. -/
def iis3dwb_status_reg_get {σ : Type} (ctx : Option (stmdev_ctx_t σ))
    (val0 : iis3dwb_status_reg_t) (s : σ) : Int × iis3dwb_status_reg_t × σ :=
  match iis3dwb_read_reg ctx IIS3DWB_STATUS_REG 1 s with
  | (ret, buf, s1) => (ret, storedInto iis3dwb_status_reg_t.ofByte buf val0, s1)

/-- Source `iis3dwb_temperature_raw_get` (the result is an `int16_t`). -/
def iis3dwb_temperature_raw_get {σ : Type} (ctx : Option (stmdev_ctx_t σ)) (s : σ) :
    Int × Int × σ :=
  match iis3dwb_read_reg ctx IIS3DWB_OUT_TEMP_L 2 s with
  | (ret, buff, s1) =>
    let val : Int := toInt16 (byteAt buff 1)
    let val : Int := toInt16 (val * 256 + toInt16 (byteAt buff 0))
    (ret, val, s1)

/-- Source `iis3dwb_acceleration_raw_get` (the result is an array of three
`int16_t`). -/
def iis3dwb_acceleration_raw_get {σ : Type} (ctx : Option (stmdev_ctx_t σ)) (s : σ) :
    Int × (Int × Int × Int) × σ :=
  match iis3dwb_read_reg ctx IIS3DWB_OUTX_L_A 6 s with
  | (ret, buff, s1) =>
    let val0 : Int := toInt16 (byteAt buff 1)
    let val0 : Int := toInt16 (val0 * 256 + toInt16 (byteAt buff 0))
    let val1 : Int := toInt16 (byteAt buff 3)
    let val1 : Int := toInt16 (val1 * 256 + toInt16 (byteAt buff 2))
    let val2 : Int := toInt16 (byteAt buff 5)
    let val2 : Int := toInt16 (val2 * 256 + toInt16 (byteAt buff 4))
    (ret, (val0, val1, val2), s1)

/-- Source `iis3dwb_fifo_out_multi_raw_get` (`num` is a `uint16_t`). The length
`sizeof(iis3dwb_fifo_out_raw_t) * num` is computed in `size_t` and passed to the
`uint16_t` parameter `len` of `iis3dwb_read_reg`, hence taken modulo 65536. The records
stored in `fdata` are the bytes the read delivers. -/
def iis3dwb_fifo_out_multi_raw_get {σ : Type} (ctx : Option (stmdev_ctx_t σ)) (num : Nat)
    (s : σ) : Int × List Nat × σ :=
  iis3dwb_read_reg ctx IIS3DWB_FIFO_DATA_OUT_TAG
    ((sizeof_iis3dwb_fifo_out_raw_t * num) % 65536) s

/-- Source `iis3dwb_fifo_out_raw_get`. -/
def iis3dwb_fifo_out_raw_get {σ : Type} (ctx : Option (stmdev_ctx_t σ)) (s : σ) :
    Int × List Nat × σ :=
  iis3dwb_fifo_out_multi_raw_get ctx 1 s

/-- Source `iis3dwb_pin_int1_route_get`. The result starts as the zeroed structure of
the `memset`. -/
def iis3dwb_pin_int1_route_get {σ : Type} (ctx : Option (stmdev_ctx_t σ)) (s : σ) :
    Int × iis3dwb_pin_int1_route_t × σ :=
  let val : iis3dwb_pin_int1_route_t := ⟨0, 0, 0, 0, 0, 0, 0, 0, 0⟩
  match iis3dwb_read_reg ctx IIS3DWB_INT1_CTRL 1 s with
  | (ret, b1, s1) =>
    if ret ≠ 0 then (ret, val, s1) else
    match iis3dwb_read_reg ctx IIS3DWB_MD1_CFG 1 s1 with
    | (ret, b2, s2) =>
      if ret ≠ 0 then (ret, val, s2) else
      match iis3dwb_read_reg ctx IIS3DWB_SLOPE_EN 1 s2 with
      | (ret, b3, s3) =>
        if ret ≠ 0 then (ret, val, s3) else
        let int1_ctrl := iis3dwb_int1_ctrl_t.ofByte (byteAt b1 0)
        let md1_cfg := iis3dwb_md1_cfg_t.ofByte (byteAt b2 0)
        let slope_en := iis3dwb_slope_en_t.ofByte (byteAt b3 0)
        let val := { val with drdy_xl := int1_ctrl.int1_drdy_xl % 2 }
        let val := { val with boot := int1_ctrl.int1_boot % 2 }
        let val := { val with fifo_th := int1_ctrl.int1_fifo_th % 2 }
        let val := { val with fifo_ovr := int1_ctrl.int1_fifo_ovr % 2 }
        let val := { val with fifo_full := int1_ctrl.int1_fifo_full % 2 }
        let val := { val with fifo_bdr := int1_ctrl.int1_cnt_bdr % 2 }
        let val := { val with wake_up := md1_cfg.int1_wu % 2 }
        let val :=
          if slope_en.sleep_status_on_int = PROPERTY_ENABLE then
            { val with sleep_status := PROPERTY_ENABLE % 2, sleep_change := PROPERTY_DISABLE % 2 }
          else
            { val with sleep_change := md1_cfg.int1_sleep_change % 2 }
        (ret, val, s3)

/-- Source `iis3dwb_pin_int2_route_get`. The result starts as the zeroed structure of
the `memset`. -/
def iis3dwb_pin_int2_route_get {σ : Type} (ctx : Option (stmdev_ctx_t σ)) (s : σ) :
    Int × iis3dwb_pin_int2_route_t × σ :=
  let val : iis3dwb_pin_int2_route_t := ⟨0, 0, 0, 0, 0, 0, 0, 0, 0, 0⟩
  match iis3dwb_read_reg ctx IIS3DWB_INT2_CTRL 1 s with
  | (ret, b1, s1) =>
    if ret ≠ 0 then (ret, val, s1) else
    match iis3dwb_read_reg ctx IIS3DWB_MD2_CFG 1 s1 with
    | (ret, b2, s2) =>
      if ret ≠ 0 then (ret, val, s2) else
      match iis3dwb_read_reg ctx IIS3DWB_SLOPE_EN 1 s2 with
      | (ret, b3, s3) =>
        if ret ≠ 0 then (ret, val, s3) else
        let int2_ctrl := iis3dwb_int2_ctrl_t.ofByte (byteAt b1 0)
        let md2_cfg := iis3dwb_md2_cfg_t.ofByte (byteAt b2 0)
        let slope_en := iis3dwb_slope_en_t.ofByte (byteAt b3 0)
        let val := { val with drdy_xl := int2_ctrl.int2_drdy_xl % 2 }
        let val := { val with drdy_temp := int2_ctrl.int2_drdy_temp % 2 }
        let val := { val with fifo_th := int2_ctrl.int2_fifo_th % 2 }
        let val := { val with fifo_ovr := int2_ctrl.int2_fifo_ovr % 2 }
        let val := { val with fifo_full := int2_ctrl.int2_fifo_full % 2 }
        let val := { val with fifo_bdr := int2_ctrl.int2_cnt_bdr % 2 }
        let val := { val with timestamp := md2_cfg.int2_timestamp % 2 }
        let val := { val with wake_up := md2_cfg.int2_wu % 2 }
        let val :=
          if slope_en.sleep_status_on_int = PROPERTY_ENABLE then
            { val with sleep_status := PROPERTY_ENABLE % 2, sleep_change := PROPERTY_DISABLE % 2 }
          else
            { val with sleep_change := md2_cfg.int2_sleep_change % 2 }
        (ret, val, s3)

/-- Source `iis3dwb_fifo_data_level_get` (the result is a `uint16_t`). `val0` is the
caller's variable before the call: it is left alone when the first read fails. -/
def iis3dwb_fifo_data_level_get {σ : Type} (ctx : Option (stmdev_ctx_t σ)) (val0 : Nat)
    (s : σ) : Int × Nat × σ :=
  match iis3dwb_read_reg ctx IIS3DWB_FIFO_STATUS1 1 s with
  | (ret, buf1, s1) =>
    if ret = 0 then
      match iis3dwb_read_reg ctx IIS3DWB_FIFO_STATUS2 1 s1 with
      | (ret, buf2, s2) =>
        let fifo_status1 := iis3dwb_fifo_status1_t.ofByte (byteAt buf1 0)
        let fifo_status2 := iis3dwb_fifo_status2_t.ofByte (byteAt buf2 0)
        let val := fifo_status2.diff_fifo
        let val := (val <<< 8) % 65536
        let val := (val + fifo_status1.diff_fifo) % 65536
        (ret, val, s2)
    else (ret, val0, s1)

/-- Source `iis3dwb_fifo_status_get`. -/
def iis3dwb_fifo_status_get {σ : Type} (ctx : Option (stmdev_ctx_t σ)) (s : σ) :
    Int × iis3dwb_fifo_status_t × σ :=
  match iis3dwb_read_reg ctx IIS3DWB_FIFO_STATUS1 2 s with
  | (ret, buff, s1) =>
    let status := iis3dwb_fifo_status2_t.ofByte (bytecpy (byteAt buff 1))
    let fifo_bdr := status.counter_bdr_ia % 2
    let fifo_ovr := (status.fifo_ovr_ia ||| status.fifo_ovr_latched) % 2
    let fifo_full := status.fifo_full_ia % 2
    let fifo_th := status.fifo_wtm_ia % 2
    let fifo_level := (byteAt buff 1 % 65536 &&& 0x03) % 1024
    let fifo_level := ((fifo_level * 256 + byteAt buff 0) % 4294967296) % 1024
    (ret, ⟨fifo_level, fifo_bdr, fifo_full, fifo_ovr, fifo_th⟩, s1)

/-! ## Statement vocabulary -/

/-- On a working transport the setter `set`, called with `val`, reads CTRL3_C once and
writes it once; the byte written differs from the byte read at most in bit `k`, which
becomes `val mod 2`, and no other register changes. -/
def Ctrl3OnlyBit (set : Option (stmdev_ctx_t Device) → Nat → Device → Int × Device)
    (k val : Nat) (d : Device) : Prop :=
  (set (some devCtx) val d).1 = 0 ∧
  (set (some devCtx) val d).2.log =
    d.log ++ [Txn.read IIS3DWB_CTRL3_C 1,
      Txn.write IIS3DWB_CTRL3_C [(set (some devCtx) val d).2.regs IIS3DWB_CTRL3_C] 1] ∧
  (set (some devCtx) val d).2.regs IIS3DWB_CTRL3_C < 256 ∧
  (∀ i, i < 8 → bitOf ((set (some devCtx) val d).2.regs IIS3DWB_CTRL3_C) i =
      if i = k then val % 2 else bitOf (d.regs IIS3DWB_CTRL3_C) i) ∧
  (∀ a, a ≠ IIS3DWB_CTRL3_C → (set (some devCtx) val d).2.regs a = d.regs a)

/-- The setter `set`, called with `val` on the device `d`, returns `e` after a single
transaction, the 1-byte read of `reg`; registers and transport plan are untouched. -/
def FailsFastOnRead (set : Option (stmdev_ctx_t Device) → Nat → Device → Int × Device)
    (reg val : Nat) (e : Int) (d : Device) : Prop :=
  (set (some devCtx) val d).1 = e ∧
  (set (some devCtx) val d).2.log = d.log ++ [Txn.read reg 1] ∧
  (set (some devCtx) val d).2.regs = d.regs ∧
  (set (some devCtx) val d).2.status = d.status

/-- Field ranges of an `iis3dwb_ctrl1_xl_t`. -/
def iis3dwb_ctrl1_xl_t.WF (r : iis3dwb_ctrl1_xl_t) : Prop :=
  r.not_used_01 < 2 ∧ r.lpf2_xl_en < 2 ∧ r.fs_xl < 4 ∧ r.not_used_02 < 2 ∧ r.xl_en < 8

/-- Field ranges of an `iis3dwb_ctrl8_xl_t`. -/
def iis3dwb_ctrl8_xl_t.WF (r : iis3dwb_ctrl8_xl_t) : Prop :=
  r.not_used_01 < 4 ∧ r.fds < 2 ∧ r.fastsettl_mode_xl < 2 ∧ r.hp_ref_mode_xl < 2 ∧
    r.hpcf_xl < 8

/-- The `switch` of `iis3dwb_xl_filt_path_on_out_get` as a function of its key. -/
def filt_xl_en_of_key (key : Nat) : iis3dwb_filt_xl_en_t :=
  if key = iis3dwb_filt_xl_en_t.IIS3DWB_HP_REF_MODE.toNat then .IIS3DWB_HP_REF_MODE
  else if key = iis3dwb_filt_xl_en_t.IIS3DWB_HP_ODR_DIV_10.toNat then .IIS3DWB_HP_ODR_DIV_10
  else if key = iis3dwb_filt_xl_en_t.IIS3DWB_HP_ODR_DIV_20.toNat then .IIS3DWB_HP_ODR_DIV_20
  else if key = iis3dwb_filt_xl_en_t.IIS3DWB_HP_ODR_DIV_45.toNat then .IIS3DWB_HP_ODR_DIV_45
  else if key = iis3dwb_filt_xl_en_t.IIS3DWB_HP_ODR_DIV_100.toNat then .IIS3DWB_HP_ODR_DIV_100
  else if key = iis3dwb_filt_xl_en_t.IIS3DWB_HP_ODR_DIV_200.toNat then .IIS3DWB_HP_ODR_DIV_200
  else if key = iis3dwb_filt_xl_en_t.IIS3DWB_HP_ODR_DIV_400.toNat then .IIS3DWB_HP_ODR_DIV_400
  else if key = iis3dwb_filt_xl_en_t.IIS3DWB_HP_ODR_DIV_800.toNat then .IIS3DWB_HP_ODR_DIV_800
  else if key = iis3dwb_filt_xl_en_t.IIS3DWB_LP_ODR_DIV_4.toNat then .IIS3DWB_LP_ODR_DIV_4
  else if key = iis3dwb_filt_xl_en_t.IIS3DWB_LP_6k3Hz.toNat then .IIS3DWB_LP_6k3Hz
  else if key = iis3dwb_filt_xl_en_t.IIS3DWB_LP_ODR_DIV_10.toNat then .IIS3DWB_LP_ODR_DIV_10
  else if key = iis3dwb_filt_xl_en_t.IIS3DWB_LP_ODR_DIV_20.toNat then .IIS3DWB_LP_ODR_DIV_20
  else if key = iis3dwb_filt_xl_en_t.IIS3DWB_LP_ODR_DIV_45.toNat then .IIS3DWB_LP_ODR_DIV_45
  else if key = iis3dwb_filt_xl_en_t.IIS3DWB_LP_ODR_DIV_100.toNat then .IIS3DWB_LP_ODR_DIV_100
  else if key = iis3dwb_filt_xl_en_t.IIS3DWB_LP_ODR_DIV_200.toNat then .IIS3DWB_LP_ODR_DIV_200
  else if key = iis3dwb_filt_xl_en_t.IIS3DWB_LP_ODR_DIV_400.toNat then .IIS3DWB_LP_ODR_DIV_400
  else if key = iis3dwb_filt_xl_en_t.IIS3DWB_LP_ODR_DIV_800.toNat then .IIS3DWB_LP_ODR_DIV_800
  else .IIS3DWB_HP_REF_MODE

/-- Fail-fast run from `d` to `d'` with result `ret`: the transport plan is untouched,
the log is extended, and a transaction issued during the run that reports a non-zero
status is the last one issued, its status being the result. -/
def FailFastRun (d : Device) (ret : Int) (d' : Device) : Prop :=
  d'.status = d.status ∧ (∃ l, d'.log = d.log ++ l) ∧
  ∀ k, d.log.length ≤ k → k < d'.log.length → d.status k ≠ 0 →
    k + 1 = d'.log.length ∧ ret = d.status k

/-- Read-only run from `d` to `d'`: the registers are those of `d` and every
transaction added to the log is a read. -/
def ReadsOnly (d d' : Device) : Prop :=
  d'.regs = d.regs ∧ ∃ l, d'.log = d.log ++ l ∧ ∀ t ∈ l, ∃ reg len, t = Txn.read reg len

/-- Run of a getter: fail-fast and read-only. -/
def GetterRun (d : Device) (ret : Int) (d' : Device) : Prop :=
  FailFastRun d ret d' ∧ ReadsOnly d d'

/-- The setter run `run` is fail-fast on `d`. -/
def SetterFailsFast (run : Device → Int × Device) (d : Device) : Prop :=
  FailFastRun d (run d).1 (run d).2

/-- The getter run `run` is fail-fast on `d`. -/
def GetterFailsFast {α : Type} (run : Device → Int × α × Device) (d : Device) : Prop :=
  FailFastRun d (run d).1 (run d).2.2

/-- The getter run `run` leaves the registers of `d` alone and issues reads only. -/
def GetterReadsOnly {α : Type} (run : Device → Int × α × Device) (d : Device) : Prop :=
  ReadsOnly d (run d).2.2

/-- The getter run `run` leaves the registers of `d` alone and issues exactly one
transaction, a read of length 1 at `reg`. -/
def GetterSingleRead {α : Type} (run : Device → Int × α × Device) (reg : Nat) (d : Device) :
    Prop :=
  (run d).2.2.regs = d.regs ∧ (run d).2.2.log = d.log ++ [Txn.read reg 1]

/-- The setter `set`, called with `val` on `d`, returns 0 after exactly two
transactions: a 1-byte read of `reg`, then a 1-byte write of `reg`. -/
def ReadThenWrite (set : Option (stmdev_ctx_t Device) → Nat → Device → Int × Device)
    (reg val : Nat) (d : Device) : Prop :=
  (set (some devCtx) val d).1 = 0 ∧
  (set (some devCtx) val d).2.log =
    d.log ++ [Txn.read reg 1, Txn.write reg [(set (some devCtx) val d).2.regs reg] 1]


/-- The statuses and the value a caller sees when it calls a setter with `v` and then
the matching getter, on the device `d`. -/
def setThenGet {α : Type} (set : Option (stmdev_ctx_t Device) → Nat → Device → Int × Device)
    (get : Option (stmdev_ctx_t Device) → Device → Int × α × Device) (v : Nat) (d : Device) :
    Int × Int × α :=
  ((set (some devCtx) v d).1, (get (some devCtx) (set (some devCtx) v d).2).1,
    (get (some devCtx) (set (some devCtx) v d).2).2.1)

/-- The `switch` of `iis3dwb_xl_axis_selection_get` as a function of its key. -/
def xl_axis_sel_of_key (key : Nat) : iis3dwb_xl_axis_sel_t :=
  if key = iis3dwb_xl_axis_sel_t.IIS3DWB_ENABLE_ALL.toNat then .IIS3DWB_ENABLE_ALL
  else if key = iis3dwb_xl_axis_sel_t.IIS3DWB_ONLY_X_ON_ONE_OUT_REG.toNat then
    .IIS3DWB_ONLY_X_ON_ONE_OUT_REG
  else if key = iis3dwb_xl_axis_sel_t.IIS3DWB_ONLY_Y_ON_ONE_OUT_REG.toNat then
    .IIS3DWB_ONLY_Y_ON_ONE_OUT_REG
  else if key = iis3dwb_xl_axis_sel_t.IIS3DWB_ONLY_Z_ON_ONE_OUT_REG.toNat then
    .IIS3DWB_ONLY_Z_ON_ONE_OUT_REG
  else if key = iis3dwb_xl_axis_sel_t.IIS3DWB_ONLY_X_ON_ALL_OUT_REG.toNat then
    .IIS3DWB_ONLY_X_ON_ALL_OUT_REG
  else if key = iis3dwb_xl_axis_sel_t.IIS3DWB_ONLY_Y_ON_ALL_OUT_REG.toNat then
    .IIS3DWB_ONLY_Y_ON_ALL_OUT_REG
  else if key = iis3dwb_xl_axis_sel_t.IIS3DWB_ONLY_Z_ON_ALL_OUT_REG.toNat then
    .IIS3DWB_ONLY_Z_ON_ALL_OUT_REG
  else .IIS3DWB_ENABLE_ALL


/-- An enumerated getter that read its register decodes the raw field value `raw`: it
returns status 0, the declared variant whose numeric value is `raw` when there is one,
and `dflt` when there is none. -/
def DecodesWithDefault {E : Type} (toNat : E → Nat) (dflt : E)
    (get : Option (stmdev_ctx_t Device) → Device → Int × E × Device) (raw : Nat) (d : Device) :
    Prop :=
  (get (some devCtx) d).1 = 0 ∧
  (∀ e, toNat e = raw → (get (some devCtx) d).2.1 = e) ∧
  ((∀ e, toNat e ≠ raw) → (get (some devCtx) d).2.1 = dflt)

/-- The transactions a call appended to the log of `d`, given the device `d'` after it. -/
def issuedBy (d d' : Device) : List Txn := d'.log.drop d.log.length

/-- A transaction list has the shape read, read, write, write. -/
def isReadReadWriteWrite : List Txn → Bool
  | [Txn.read _ _, Txn.read _ _, Txn.write _ _ _, Txn.write _ _ _] => true
  | _ => false

/-- A device with the given register file and an empty log whose transport reports the
code `e` for transaction number `k` (counted from 0) and 0 for every other. -/
def Device.failingAt (regs : Nat → Nat) (k : Nat) (e : Int) : Device where
  regs := regs
  log := []
  status := fun n => if n = k then e else 0

/-- The signed value of a 16-bit word read as two's complement. -/
def twosComplement16 (w : Nat) : Int := if w < 32768 then (w : Int) else (w : Int) - 65536

/-! ## Register map: the bit-field declarations as data

A declaration is the list of the fields in declared order, each with its width. -/

/-- Declaration of `iis3dwb_pin_ctrl_t` in the `DRV_LITTLE_ENDIAN` branch. -/
def iis3dwb_pin_ctrl_t.declLE : List (String × Nat) := [("not_used_01", 6), ("sdo_pu_en", 1),
    ("not_used_02", 1)]

/-- Declaration of `iis3dwb_pin_ctrl_t` in the `DRV_BIG_ENDIAN` branch. -/
def iis3dwb_pin_ctrl_t.declBE : List (String × Nat) := [("not_used_02", 1), ("sdo_pu_en", 1),
    ("not_used_01", 6)]

/-- Declaration of `iis3dwb_fifo_ctrl1_t`: one field, outside the byte-order branches. -/
def iis3dwb_fifo_ctrl1_t.decl : List (String × Nat) := [("wtm", 8)]

/-- Declaration of `iis3dwb_fifo_ctrl2_t` in the `DRV_LITTLE_ENDIAN` branch. -/
def iis3dwb_fifo_ctrl2_t.declLE : List (String × Nat) := [("wtm", 1), ("not_used_01", 6),
    ("stop_on_wtm", 1)]

/-- Declaration of `iis3dwb_fifo_ctrl2_t` in the `DRV_BIG_ENDIAN` branch. -/
def iis3dwb_fifo_ctrl2_t.declBE : List (String × Nat) := [("stop_on_wtm", 1), ("not_used_01", 6),
    ("wtm", 1)]

/-- Declaration of `iis3dwb_fifo_ctrl3_t` in the `DRV_LITTLE_ENDIAN` branch. -/
def iis3dwb_fifo_ctrl3_t.declLE : List (String × Nat) := [("bdr_xl", 4), ("not_used_01", 4)]

/-- Declaration of `iis3dwb_fifo_ctrl3_t` in the `DRV_BIG_ENDIAN` branch. -/
def iis3dwb_fifo_ctrl3_t.declBE : List (String × Nat) := [("not_used_01", 4), ("bdr_xl", 4)]

/-- Declaration of `iis3dwb_fifo_ctrl4_t` in the `DRV_LITTLE_ENDIAN` branch. -/
def iis3dwb_fifo_ctrl4_t.declLE : List (String × Nat) := [("fifo_mode", 3), ("not_used_01", 1),
    ("odr_t_batch", 2), ("odr_ts_batch", 2)]

/-- Declaration of `iis3dwb_fifo_ctrl4_t` in the `DRV_BIG_ENDIAN` branch. -/
def iis3dwb_fifo_ctrl4_t.declBE : List (String × Nat) := [("odr_ts_batch", 2), ("odr_t_batch", 2),
    ("not_used_01", 1), ("fifo_mode", 3)]

/-- Declaration of `iis3dwb_counter_bdr_reg1_t` in the `DRV_LITTLE_ENDIAN` branch. -/
def iis3dwb_counter_bdr_reg1_t.declLE : List (String × Nat) := [("cnt_bdr_th", 3), ("not_used_01",
    3), ("rst_counter_bdr", 1), ("dataready_pulsed", 1)]

/-- Declaration of `iis3dwb_counter_bdr_reg1_t` in the `DRV_BIG_ENDIAN` branch. -/
def iis3dwb_counter_bdr_reg1_t.declBE : List (String × Nat) := [("dataready_pulsed", 1),
    ("rst_counter_bdr", 1), ("not_used_01", 3), ("cnt_bdr_th", 3)]

/-- Declaration of `iis3dwb_counter_bdr_reg2_t`: one field, outside the byte-order branches. -/
def iis3dwb_counter_bdr_reg2_t.decl : List (String × Nat) := [("cnt_bdr_th", 8)]

/-- Declaration of `iis3dwb_int1_ctrl_t` in the `DRV_LITTLE_ENDIAN` branch. -/
def iis3dwb_int1_ctrl_t.declLE : List (String × Nat) := [("int1_drdy_xl", 1), ("not_used_01", 1),
    ("int1_boot", 1), ("int1_fifo_th", 1), ("int1_fifo_ovr", 1), ("int1_fifo_full", 1),
    ("int1_cnt_bdr", 1), ("not_used_02", 1)]

/-- Declaration of `iis3dwb_int1_ctrl_t` in the `DRV_BIG_ENDIAN` branch. -/
def iis3dwb_int1_ctrl_t.declBE : List (String × Nat) := [("not_used_02", 1), ("int1_cnt_bdr", 1),
    ("int1_fifo_full", 1), ("int1_fifo_ovr", 1), ("int1_fifo_th", 1), ("int1_boot", 1),
    ("not_used_01", 1), ("int1_drdy_xl", 1)]

/-- Declaration of `iis3dwb_int2_ctrl_t` in the `DRV_LITTLE_ENDIAN` branch. -/
def iis3dwb_int2_ctrl_t.declLE : List (String × Nat) := [("int2_drdy_xl", 1), ("not_used_01", 1),
    ("int2_drdy_temp", 1), ("int2_fifo_th", 1), ("int2_fifo_ovr", 1), ("int2_fifo_full", 1),
    ("int2_cnt_bdr", 1), ("not_used_02", 1)]

/-- Declaration of `iis3dwb_int2_ctrl_t` in the `DRV_BIG_ENDIAN` branch. -/
def iis3dwb_int2_ctrl_t.declBE : List (String × Nat) := [("not_used_02", 1), ("int2_cnt_bdr", 1),
    ("int2_fifo_full", 1), ("int2_fifo_ovr", 1), ("int2_fifo_th", 1), ("int2_drdy_temp", 1),
    ("not_used_01", 1), ("int2_drdy_xl", 1)]

/-- Declaration of `iis3dwb_ctrl1_xl_t` in the `DRV_LITTLE_ENDIAN` branch. -/
def iis3dwb_ctrl1_xl_t.declLE : List (String × Nat) := [("not_used_01", 1), ("lpf2_xl_en", 1),
    ("fs_xl", 2), ("not_used_02", 1), ("xl_en", 3)]

/-- Declaration of `iis3dwb_ctrl1_xl_t` in the `DRV_BIG_ENDIAN` branch. -/
def iis3dwb_ctrl1_xl_t.declBE : List (String × Nat) := [("xl_en", 3), ("not_used_02", 1),
    ("fs_xl", 2), ("lpf2_xl_en", 1), ("not_used_01", 1)]

/-- Declaration of `iis3dwb_ctrl3_c_t` in the `DRV_LITTLE_ENDIAN` branch. -/
def iis3dwb_ctrl3_c_t.declLE : List (String × Nat) := [("sw_reset", 1), ("not_used_01", 1),
    ("if_inc", 1), ("sim", 1), ("pp_od", 1), ("h_lactive", 1), ("bdu", 1), ("boot", 1)]

/-- Declaration of `iis3dwb_ctrl3_c_t` in the `DRV_BIG_ENDIAN` branch. -/
def iis3dwb_ctrl3_c_t.declBE : List (String × Nat) := [("boot", 1), ("bdu", 1), ("h_lactive", 1),
    ("pp_od", 1), ("sim", 1), ("if_inc", 1), ("not_used_01", 1), ("sw_reset", 1)]

/-- Declaration of `iis3dwb_ctrl4_c_t` in the `DRV_LITTLE_ENDIAN` branch. -/
def iis3dwb_ctrl4_c_t.declLE : List (String × Nat) := [("_1ax_to_3regout", 1), ("lpf1_sel_g", 1),
    ("i2c_disable", 1), ("drdy_mask", 1), ("not_used_02", 1), ("int2_on_int1", 1), ("not_used_03",
    2)]

/-- Declaration of `iis3dwb_ctrl4_c_t` in the `DRV_BIG_ENDIAN` branch. -/
def iis3dwb_ctrl4_c_t.declBE : List (String × Nat) := [("not_used_03", 2), ("int2_on_int1", 1),
    ("not_used_02", 1), ("drdy_mask", 1), ("i2c_disable", 1), ("lpf1_sel_g", 1),
    ("_1ax_to_3regout", 1)]

/-- Declaration of `iis3dwb_ctrl5_c_t` in the `DRV_LITTLE_ENDIAN` branch. -/
def iis3dwb_ctrl5_c_t.declLE : List (String × Nat) := [("st_xl", 2), ("not_used_01", 3),
    ("rounding", 2), ("not_used_02", 1), ("i2c_disable", 1)]

/-- Declaration of `iis3dwb_ctrl5_c_t` in the `DRV_BIG_ENDIAN` branch. -/
def iis3dwb_ctrl5_c_t.declBE : List (String × Nat) := [("i2c_disable", 1), ("not_used_02", 1),
    ("rounding", 2), ("not_used_01", 3), ("st_xl", 2)]

/-- Declaration of `iis3dwb_ctrl6_c_t` in the `DRV_LITTLE_ENDIAN` branch. -/
def iis3dwb_ctrl6_c_t.declLE : List (String × Nat) := [("xl_axis_sel", 2), ("not_used_01", 1),
    ("usr_off_w", 1), ("not_used_02", 4)]

/-- Declaration of `iis3dwb_ctrl6_c_t` in the `DRV_BIG_ENDIAN` branch. -/
def iis3dwb_ctrl6_c_t.declBE : List (String × Nat) := [("not_used_02", 4), ("usr_off_w", 1),
    ("not_used_01", 1), ("xl_axis_sel", 2)]

/-- Declaration of `iis3dwb_ctrl7_c_t` in the `DRV_LITTLE_ENDIAN` branch. -/
def iis3dwb_ctrl7_c_t.declLE : List (String × Nat) := [("not_used_01", 1), ("usr_off_on_out", 1),
    ("not_used_02", 6)]

/-- Declaration of `iis3dwb_ctrl7_c_t` in the `DRV_BIG_ENDIAN` branch. -/
def iis3dwb_ctrl7_c_t.declBE : List (String × Nat) := [("not_used_02", 6), ("usr_off_on_out", 1),
    ("not_used_01", 1)]

/-- Declaration of `iis3dwb_ctrl8_xl_t` in the `DRV_LITTLE_ENDIAN` branch. -/
def iis3dwb_ctrl8_xl_t.declLE : List (String × Nat) := [("not_used_01", 2), ("fds", 1),
    ("fastsettl_mode_xl", 1), ("hp_ref_mode_xl", 1), ("hpcf_xl", 3)]

/-- Declaration of `iis3dwb_ctrl8_xl_t` in the `DRV_BIG_ENDIAN` branch. -/
def iis3dwb_ctrl8_xl_t.declBE : List (String × Nat) := [("hpcf_xl", 3), ("hp_ref_mode_xl", 1),
    ("fastsettl_mode_xl", 1), ("fds", 1), ("not_used_01", 2)]

/-- Declaration of `iis3dwb_ctrl10_c_t` in the `DRV_LITTLE_ENDIAN` branch. -/
def iis3dwb_ctrl10_c_t.declLE : List (String × Nat) := [("not_used_01", 5), ("timestamp_en", 1),
    ("not_used_02", 2)]

/-- Declaration of `iis3dwb_ctrl10_c_t` in the `DRV_BIG_ENDIAN` branch. -/
def iis3dwb_ctrl10_c_t.declBE : List (String × Nat) := [("not_used_02", 2), ("timestamp_en", 1),
    ("not_used_01", 5)]

/-- Declaration of `iis3dwb_all_int_src_t` in the `DRV_LITTLE_ENDIAN` branch. -/
def iis3dwb_all_int_src_t.declLE : List (String × Nat) := [("not_used_01", 1), ("wu_ia", 1),
    ("not_used_02", 3), ("sleep_change", 1), ("not_used_03", 1), ("timestamp_endcount", 1)]

/-- Declaration of `iis3dwb_all_int_src_t` in the `DRV_BIG_ENDIAN` branch. -/
def iis3dwb_all_int_src_t.declBE : List (String × Nat) := [("timestamp_endcount", 1),
    ("not_used_03", 1), ("sleep_change", 1), ("not_used_02", 3), ("wu_ia", 1), ("not_used_01", 1)]

/-- Declaration of `iis3dwb_wake_up_src_t` in the `DRV_LITTLE_ENDIAN` branch. -/
def iis3dwb_wake_up_src_t.declLE : List (String × Nat) := [("z_wu", 1), ("y_wu", 1), ("x_wu", 1),
    ("wu_ia", 1), ("sleep_state_ia", 1), ("not_used_01", 1), ("sleep_change_ia", 1),
    ("not_used_02", 1)]

/-- Declaration of `iis3dwb_wake_up_src_t` in the `DRV_BIG_ENDIAN` branch. -/
def iis3dwb_wake_up_src_t.declBE : List (String × Nat) := [("not_used_02", 1), ("sleep_change_ia",
    1), ("not_used_01", 1), ("sleep_state_ia", 1), ("wu_ia", 1), ("x_wu", 1), ("y_wu", 1),
    ("z_wu", 1)]

/-- Declaration of `iis3dwb_status_reg_t` in the `DRV_LITTLE_ENDIAN` branch. -/
def iis3dwb_status_reg_t.declLE : List (String × Nat) := [("xlda", 1), ("not_used_01", 1), ("tda",
    1), ("not_used_02", 5)]

/-- Declaration of `iis3dwb_status_reg_t` in the `DRV_BIG_ENDIAN` branch. -/
def iis3dwb_status_reg_t.declBE : List (String × Nat) := [("not_used_02", 5), ("tda", 1),
    ("not_used_01", 1), ("xlda", 1)]

/-- Declaration of `iis3dwb_fifo_status1_t`: one field, outside the byte-order branches. -/
def iis3dwb_fifo_status1_t.decl : List (String × Nat) := [("diff_fifo", 8)]

/-- Declaration of `iis3dwb_fifo_status2_t` in the `DRV_LITTLE_ENDIAN` branch. -/
def iis3dwb_fifo_status2_t.declLE : List (String × Nat) := [("diff_fifo", 2), ("not_used_01", 1),
    ("fifo_ovr_latched", 1), ("counter_bdr_ia", 1), ("fifo_full_ia", 1), ("fifo_ovr_ia", 1),
    ("fifo_wtm_ia", 1)]

/-- Declaration of `iis3dwb_fifo_status2_t` in the `DRV_BIG_ENDIAN` branch. -/
def iis3dwb_fifo_status2_t.declBE : List (String × Nat) := [("fifo_wtm_ia", 1), ("fifo_ovr_ia",
    1), ("fifo_full_ia", 1), ("counter_bdr_ia", 1), ("fifo_ovr_latched", 1), ("not_used_01", 1),
    ("diff_fifo", 2)]

/-- Declaration of `iis3dwb_slope_en_t` in the `DRV_LITTLE_ENDIAN` branch. -/
def iis3dwb_slope_en_t.declLE : List (String × Nat) := [("lir", 1), ("not_used_01", 3),
    ("slope_fds", 1), ("sleep_status_on_int", 1), ("not_used_02", 2)]

/-- Declaration of `iis3dwb_slope_en_t` in the `DRV_BIG_ENDIAN` branch. -/
def iis3dwb_slope_en_t.declBE : List (String × Nat) := [("not_used_02", 2),
    ("sleep_status_on_int", 1), ("slope_fds", 1), ("not_used_01", 3), ("lir", 1)]

/-- Declaration of `iis3dwb_interrupts_en_t` in the `DRV_LITTLE_ENDIAN` branch. -/
def iis3dwb_interrupts_en_t.declLE : List (String × Nat) := [("not_used_01", 7),
    ("interrupts_enable", 1)]

/-- Declaration of `iis3dwb_interrupts_en_t` in the `DRV_BIG_ENDIAN` branch. -/
def iis3dwb_interrupts_en_t.declBE : List (String × Nat) := [("interrupts_enable", 1),
    ("not_used_01", 7)]

/-- Declaration of `iis3dwb_wake_up_ths_t` in the `DRV_LITTLE_ENDIAN` branch. -/
def iis3dwb_wake_up_ths_t.declLE : List (String × Nat) := [("wk_ths", 6), ("usr_off_on_wu", 1),
    ("not_used_01", 1)]

/-- Declaration of `iis3dwb_wake_up_ths_t` in the `DRV_BIG_ENDIAN` branch. -/
def iis3dwb_wake_up_ths_t.declBE : List (String × Nat) := [("not_used_01", 1), ("usr_off_on_wu",
    1), ("wk_ths", 6)]

/-- Declaration of `iis3dwb_wake_up_dur_t` in the `DRV_LITTLE_ENDIAN` branch. -/
def iis3dwb_wake_up_dur_t.declLE : List (String × Nat) := [("sleep_dur", 4), ("wake_ths_w", 1),
    ("wake_dur", 2), ("not_used_01", 1)]

/-- Declaration of `iis3dwb_wake_up_dur_t` in the `DRV_BIG_ENDIAN` branch. -/
def iis3dwb_wake_up_dur_t.declBE : List (String × Nat) := [("not_used_01", 1), ("wake_dur", 2),
    ("wake_ths_w", 1), ("sleep_dur", 4)]

/-- Declaration of `iis3dwb_md1_cfg_t` in the `DRV_LITTLE_ENDIAN` branch. -/
def iis3dwb_md1_cfg_t.declLE : List (String × Nat) := [("not_used_01", 5), ("int1_wu", 1),
    ("not_used_02", 1), ("int1_sleep_change", 1)]

/-- Declaration of `iis3dwb_md1_cfg_t` in the `DRV_BIG_ENDIAN` branch. -/
def iis3dwb_md1_cfg_t.declBE : List (String × Nat) := [("int1_sleep_change", 1), ("not_used_02",
    1), ("int1_wu", 1), ("not_used_01", 5)]

/-- Declaration of `iis3dwb_md2_cfg_t` in the `DRV_LITTLE_ENDIAN` branch. -/
def iis3dwb_md2_cfg_t.declLE : List (String × Nat) := [("int2_timestamp", 1), ("not_used_01", 4),
    ("int2_wu", 1), ("not_used_02", 1), ("int2_sleep_change", 1)]

/-- Declaration of `iis3dwb_md2_cfg_t` in the `DRV_BIG_ENDIAN` branch. -/
def iis3dwb_md2_cfg_t.declBE : List (String × Nat) := [("int2_sleep_change", 1), ("not_used_02",
    1), ("int2_wu", 1), ("not_used_01", 4), ("int2_timestamp", 1)]

/-- Declaration of `iis3dwb_internal_freq_fine_t`: one field, outside the byte-order branches. -/
def iis3dwb_internal_freq_fine_t.decl : List (String × Nat) := [("freq_fine", 8)]

/-- Declaration of `iis3dwb_fifo_data_out_tag_t` in the `DRV_LITTLE_ENDIAN` branch. -/
def iis3dwb_fifo_data_out_tag_t.declLE : List (String × Nat) := [("tag_parity", 1), ("tag_cnt",
    2), ("tag_sensor", 5)]

/-- Declaration of `iis3dwb_fifo_data_out_tag_t` in the `DRV_BIG_ENDIAN` branch. -/
def iis3dwb_fifo_data_out_tag_t.declBE : List (String × Nat) := [("tag_sensor", 5), ("tag_cnt",
    2), ("tag_parity", 1)]

/-- The layouts of the register map, `iis3dwb_pin_ctrl_t` through
`iis3dwb_fifo_data_out_tag_t`, in header order: name, declaration under
`DRV_LITTLE_ENDIAN`, declaration under `DRV_BIG_ENDIAN`. A layout declared outside the
byte-order branches has the same declaration under both. -/
def registerLayouts : List (String × List (String × Nat) × List (String × Nat)) :=
  [("iis3dwb_pin_ctrl_t", iis3dwb_pin_ctrl_t.declLE,
      iis3dwb_pin_ctrl_t.declBE),
    ("iis3dwb_fifo_ctrl1_t", iis3dwb_fifo_ctrl1_t.decl,
      iis3dwb_fifo_ctrl1_t.decl),
    ("iis3dwb_fifo_ctrl2_t", iis3dwb_fifo_ctrl2_t.declLE,
      iis3dwb_fifo_ctrl2_t.declBE),
    ("iis3dwb_fifo_ctrl3_t", iis3dwb_fifo_ctrl3_t.declLE,
      iis3dwb_fifo_ctrl3_t.declBE),
    ("iis3dwb_fifo_ctrl4_t", iis3dwb_fifo_ctrl4_t.declLE,
      iis3dwb_fifo_ctrl4_t.declBE),
    ("iis3dwb_counter_bdr_reg1_t", iis3dwb_counter_bdr_reg1_t.declLE,
      iis3dwb_counter_bdr_reg1_t.declBE),
    ("iis3dwb_counter_bdr_reg2_t", iis3dwb_counter_bdr_reg2_t.decl,
      iis3dwb_counter_bdr_reg2_t.decl),
    ("iis3dwb_int1_ctrl_t", iis3dwb_int1_ctrl_t.declLE,
      iis3dwb_int1_ctrl_t.declBE),
    ("iis3dwb_int2_ctrl_t", iis3dwb_int2_ctrl_t.declLE,
      iis3dwb_int2_ctrl_t.declBE),
    ("iis3dwb_ctrl1_xl_t", iis3dwb_ctrl1_xl_t.declLE,
      iis3dwb_ctrl1_xl_t.declBE),
    ("iis3dwb_ctrl3_c_t", iis3dwb_ctrl3_c_t.declLE,
      iis3dwb_ctrl3_c_t.declBE),
    ("iis3dwb_ctrl4_c_t", iis3dwb_ctrl4_c_t.declLE,
      iis3dwb_ctrl4_c_t.declBE),
    ("iis3dwb_ctrl5_c_t", iis3dwb_ctrl5_c_t.declLE,
      iis3dwb_ctrl5_c_t.declBE),
    ("iis3dwb_ctrl6_c_t", iis3dwb_ctrl6_c_t.declLE,
      iis3dwb_ctrl6_c_t.declBE),
    ("iis3dwb_ctrl7_c_t", iis3dwb_ctrl7_c_t.declLE,
      iis3dwb_ctrl7_c_t.declBE),
    ("iis3dwb_ctrl8_xl_t", iis3dwb_ctrl8_xl_t.declLE,
      iis3dwb_ctrl8_xl_t.declBE),
    ("iis3dwb_ctrl10_c_t", iis3dwb_ctrl10_c_t.declLE,
      iis3dwb_ctrl10_c_t.declBE),
    ("iis3dwb_all_int_src_t", iis3dwb_all_int_src_t.declLE,
      iis3dwb_all_int_src_t.declBE),
    ("iis3dwb_wake_up_src_t", iis3dwb_wake_up_src_t.declLE,
      iis3dwb_wake_up_src_t.declBE),
    ("iis3dwb_status_reg_t", iis3dwb_status_reg_t.declLE,
      iis3dwb_status_reg_t.declBE),
    ("iis3dwb_fifo_status1_t", iis3dwb_fifo_status1_t.decl,
      iis3dwb_fifo_status1_t.decl),
    ("iis3dwb_fifo_status2_t", iis3dwb_fifo_status2_t.declLE,
      iis3dwb_fifo_status2_t.declBE),
    ("iis3dwb_slope_en_t", iis3dwb_slope_en_t.declLE,
      iis3dwb_slope_en_t.declBE),
    ("iis3dwb_interrupts_en_t", iis3dwb_interrupts_en_t.declLE,
      iis3dwb_interrupts_en_t.declBE),
    ("iis3dwb_wake_up_ths_t", iis3dwb_wake_up_ths_t.declLE,
      iis3dwb_wake_up_ths_t.declBE),
    ("iis3dwb_wake_up_dur_t", iis3dwb_wake_up_dur_t.declLE,
      iis3dwb_wake_up_dur_t.declBE),
    ("iis3dwb_md1_cfg_t", iis3dwb_md1_cfg_t.declLE,
      iis3dwb_md1_cfg_t.declBE),
    ("iis3dwb_md2_cfg_t", iis3dwb_md2_cfg_t.declLE,
      iis3dwb_md2_cfg_t.declBE),
    ("iis3dwb_internal_freq_fine_t", iis3dwb_internal_freq_fine_t.decl,
      iis3dwb_internal_freq_fine_t.decl),
    ("iis3dwb_fifo_data_out_tag_t", iis3dwb_fifo_data_out_tag_t.declLE,
      iis3dwb_fifo_data_out_tag_t.declBE)]

/-- Sum of the declared widths of a layout. -/
def widthSum (l : List (String × Nat)) : Nat := (l.map Prod.snd).sum

/-- Modelled from the spec: bit-field allocation in an 8-bit register, least significant
bit first. The C source leaves the allocation order to the compiler; the convention is
the one the `DRV_LITTLE_ENDIAN` branch is written for. Each field gets the lowest bit it
occupies, or `none` when it does not fit the 8 bits; `off` is the number of bits already
allocated. -/
def placeLsbFirst (off : Nat) : List (String × Nat) → List (String × Option Nat × Nat)
  | [] => []
  | (n, w) :: fs =>
    (n, (if off + w ≤ 8 then some off else none), w) :: placeLsbFirst (off + w) fs

/-- Modelled from the spec: bit-field allocation in an 8-bit register, most significant
bit first, the convention the `DRV_BIG_ENDIAN` branch is written for. Each field gets the
lowest bit it occupies, or `none` when it does not fit the 8 bits. -/
def placeMsbFirst (off : Nat) : List (String × Nat) → List (String × Option Nat × Nat)
  | [] => []
  | (n, w) :: fs =>
    (n, (if off + w ≤ 8 then some (8 - (off + w)) else none), w) :: placeMsbFirst (off + w) fs

/-- The bits `lo .. lo + w - 1` of the byte `b` as a number. -/
def fieldBits (b lo w : Nat) : Nat := b / 2 ^ lo % 2 ^ w

/-- The value of the field `name` of a placed layout in the byte `b`; `none` when the
layout has no such field or the field lies outside the byte. -/
def readField (placed : List (String × Option Nat × Nat)) (name : String) (b : Nat) :
    Option Nat :=
  match placed.lookup name with
  | some (some lo, w) => some (fieldBits b lo w)
  | _ => none

/-- Field ranges of an `iis3dwb_int1_ctrl_t`. -/
def iis3dwb_int1_ctrl_t.WF (r : iis3dwb_int1_ctrl_t) : Prop :=
  r.int1_drdy_xl < 2 ∧ r.not_used_01 < 2 ∧ r.int1_boot < 2 ∧ r.int1_fifo_th < 2 ∧
    r.int1_fifo_ovr < 2 ∧ r.int1_fifo_full < 2 ∧ r.int1_cnt_bdr < 2 ∧ r.not_used_02 < 2

/-- Field ranges of an `iis3dwb_int2_ctrl_t`. -/
def iis3dwb_int2_ctrl_t.WF (r : iis3dwb_int2_ctrl_t) : Prop :=
  r.int2_drdy_xl < 2 ∧ r.not_used_01 < 2 ∧ r.int2_drdy_temp < 2 ∧ r.int2_fifo_th < 2 ∧
    r.int2_fifo_ovr < 2 ∧ r.int2_fifo_full < 2 ∧ r.int2_cnt_bdr < 2 ∧ r.not_used_02 < 2

/-- Field ranges of an `iis3dwb_md1_cfg_t`. -/
def iis3dwb_md1_cfg_t.WF (r : iis3dwb_md1_cfg_t) : Prop :=
  r.not_used_01 < 32 ∧ r.int1_wu < 2 ∧ r.not_used_02 < 2 ∧ r.int1_sleep_change < 2

/-- Field ranges of an `iis3dwb_md2_cfg_t`. -/
def iis3dwb_md2_cfg_t.WF (r : iis3dwb_md2_cfg_t) : Prop :=
  r.int2_timestamp < 2 ∧ r.not_used_01 < 16 ∧ r.int2_wu < 2 ∧ r.not_used_02 < 2 ∧
    r.int2_sleep_change < 2

/-- Field ranges of an `iis3dwb_slope_en_t`. -/
def iis3dwb_slope_en_t.WF (r : iis3dwb_slope_en_t) : Prop :=
  r.lir < 2 ∧ r.not_used_01 < 8 ∧ r.slope_fds < 2 ∧ r.sleep_status_on_int < 2 ∧
    r.not_used_02 < 4

/-- Field ranges of an `iis3dwb_pin_int1_route_t`: nine 1-bit fields. -/
def iis3dwb_pin_int1_route_t.WF (v : iis3dwb_pin_int1_route_t) : Prop :=
  v.drdy_xl < 2 ∧ v.boot < 2 ∧ v.fifo_th < 2 ∧ v.fifo_ovr < 2 ∧ v.fifo_full < 2 ∧
    v.fifo_bdr < 2 ∧ v.wake_up < 2 ∧ v.sleep_change < 2 ∧ v.sleep_status < 2

/-- Field ranges of an `iis3dwb_pin_int2_route_t`: ten 1-bit fields. -/
def iis3dwb_pin_int2_route_t.WF (v : iis3dwb_pin_int2_route_t) : Prop :=
  v.drdy_xl < 2 ∧ v.drdy_temp < 2 ∧ v.fifo_th < 2 ∧ v.fifo_ovr < 2 ∧ v.fifo_full < 2 ∧
    v.fifo_bdr < 2 ∧ v.timestamp < 2 ∧ v.wake_up < 2 ∧ v.sleep_change < 2 ∧
    v.sleep_status < 2

/-- The copy of INT1_CTRL after the assignments of `iis3dwb_pin_int1_route_set`, from the
byte `b` read. -/
def int1_ctrl_routed (b : Nat) (val : iis3dwb_pin_int1_route_t) : iis3dwb_int1_ctrl_t :=
  let int1_ctrl := iis3dwb_int1_ctrl_t.ofByte b
  let int1_ctrl := { int1_ctrl with int1_drdy_xl := val.drdy_xl % 2 }
  let int1_ctrl := { int1_ctrl with int1_boot := val.boot % 2 }
  let int1_ctrl := { int1_ctrl with int1_fifo_th := val.fifo_th % 2 }
  let int1_ctrl := { int1_ctrl with int1_fifo_ovr := val.fifo_ovr % 2 }
  let int1_ctrl := { int1_ctrl with int1_fifo_full := val.fifo_full % 2 }
  { int1_ctrl with int1_cnt_bdr := val.fifo_bdr % 2 }

/-- The copy of MD1_CFG after the assignments of `iis3dwb_pin_int1_route_set`. -/
def md1_cfg_routed (b : Nat) (val : iis3dwb_pin_int1_route_t) : iis3dwb_md1_cfg_t :=
  let md1_cfg := iis3dwb_md1_cfg_t.ofByte b
  let md1_cfg := { md1_cfg with int1_wu := val.wake_up % 2 }
  { md1_cfg with int1_sleep_change := (val.sleep_change ||| val.sleep_status) % 2 }

/-- The copy of SLOPE_EN after the assignment of `iis3dwb_pin_int1_route_set` and of
`iis3dwb_pin_int2_route_set`, for the member `sleep_status` of the request. -/
def slope_en_routed (b sleep_status : Nat) : iis3dwb_slope_en_t :=
  let slope_en := iis3dwb_slope_en_t.ofByte b
  { slope_en with sleep_status_on_int := sleep_status % 2 }

/-- The copy of INT2_CTRL after the assignments of `iis3dwb_pin_int2_route_set`. -/
def int2_ctrl_routed (b : Nat) (val : iis3dwb_pin_int2_route_t) : iis3dwb_int2_ctrl_t :=
  let int2_ctrl := iis3dwb_int2_ctrl_t.ofByte b
  let int2_ctrl := { int2_ctrl with int2_drdy_xl := val.drdy_xl % 2 }
  let int2_ctrl := { int2_ctrl with int2_drdy_temp := val.drdy_temp % 2 }
  let int2_ctrl := { int2_ctrl with int2_fifo_th := val.fifo_th % 2 }
  let int2_ctrl := { int2_ctrl with int2_fifo_ovr := val.fifo_ovr % 2 }
  let int2_ctrl := { int2_ctrl with int2_fifo_full := val.fifo_full % 2 }
  { int2_ctrl with int2_cnt_bdr := val.fifo_bdr % 2 }

/-- The copy of MD2_CFG after the assignments of `iis3dwb_pin_int2_route_set`. -/
def md2_cfg_routed (b : Nat) (val : iis3dwb_pin_int2_route_t) : iis3dwb_md2_cfg_t :=
  let md2_cfg := iis3dwb_md2_cfg_t.ofByte b
  let md2_cfg := { md2_cfg with int2_timestamp := val.timestamp % 2 }
  let md2_cfg := { md2_cfg with int2_wu := val.wake_up % 2 }
  { md2_cfg with int2_sleep_change := (val.sleep_change ||| val.sleep_status) % 2 }

/-- What `iis3dwb_pin_int1_route_get` stores in `val` from the three registers read. -/
def pin_int1_route_of (int1_ctrl : iis3dwb_int1_ctrl_t) (md1_cfg : iis3dwb_md1_cfg_t)
    (slope_en : iis3dwb_slope_en_t) : iis3dwb_pin_int1_route_t :=
  let val : iis3dwb_pin_int1_route_t := ⟨0, 0, 0, 0, 0, 0, 0, 0, 0⟩
  let val := { val with drdy_xl := int1_ctrl.int1_drdy_xl % 2 }
  let val := { val with boot := int1_ctrl.int1_boot % 2 }
  let val := { val with fifo_th := int1_ctrl.int1_fifo_th % 2 }
  let val := { val with fifo_ovr := int1_ctrl.int1_fifo_ovr % 2 }
  let val := { val with fifo_full := int1_ctrl.int1_fifo_full % 2 }
  let val := { val with fifo_bdr := int1_ctrl.int1_cnt_bdr % 2 }
  let val := { val with wake_up := md1_cfg.int1_wu % 2 }
  if slope_en.sleep_status_on_int = PROPERTY_ENABLE then
    { val with sleep_status := PROPERTY_ENABLE % 2, sleep_change := PROPERTY_DISABLE % 2 }
  else
    { val with sleep_change := md1_cfg.int1_sleep_change % 2 }

/-- What `iis3dwb_pin_int2_route_get` stores in `val` from the three registers read. -/
def pin_int2_route_of (int2_ctrl : iis3dwb_int2_ctrl_t) (md2_cfg : iis3dwb_md2_cfg_t)
    (slope_en : iis3dwb_slope_en_t) : iis3dwb_pin_int2_route_t :=
  let val : iis3dwb_pin_int2_route_t := ⟨0, 0, 0, 0, 0, 0, 0, 0, 0, 0⟩
  let val := { val with drdy_xl := int2_ctrl.int2_drdy_xl % 2 }
  let val := { val with drdy_temp := int2_ctrl.int2_drdy_temp % 2 }
  let val := { val with fifo_th := int2_ctrl.int2_fifo_th % 2 }
  let val := { val with fifo_ovr := int2_ctrl.int2_fifo_ovr % 2 }
  let val := { val with fifo_full := int2_ctrl.int2_fifo_full % 2 }
  let val := { val with fifo_bdr := int2_ctrl.int2_cnt_bdr % 2 }
  let val := { val with timestamp := md2_cfg.int2_timestamp % 2 }
  let val := { val with wake_up := md2_cfg.int2_wu % 2 }
  if slope_en.sleep_status_on_int = PROPERTY_ENABLE then
    { val with sleep_status := PROPERTY_ENABLE % 2, sleep_change := PROPERTY_DISABLE % 2 }
  else
    { val with sleep_change := md2_cfg.int2_sleep_change % 2 }

/-- Field ranges of an `iis3dwb_ctrl3_c_t`. -/
def iis3dwb_ctrl3_c_t.WF (r : iis3dwb_ctrl3_c_t) : Prop :=
  r.sw_reset < 2 ∧ r.not_used_01 < 2 ∧ r.if_inc < 2 ∧ r.sim < 2 ∧ r.pp_od < 2 ∧
    r.h_lactive < 2 ∧ r.bdu < 2 ∧ r.boot < 2

/-- Field ranges of an `iis3dwb_fifo_ctrl4_t`. -/
def iis3dwb_fifo_ctrl4_t.WF (r : iis3dwb_fifo_ctrl4_t) : Prop :=
  r.fifo_mode < 8 ∧ r.not_used_01 < 2 ∧ r.odr_t_batch < 4 ∧ r.odr_ts_batch < 4

/-! ## Floating point: single precision

The conversion functions of the source compute in `float_t`. -/

/-- Modelled from the spec: exponent of the unit in the last place of a single-precision
(IEEE-754 binary32) value of the magnitude of `x`: with a 24-bit significand it is 23
below the binary exponent of `x`, and not below -149, the exponent of the subnormal
numbers. -/
def ulpExp32 (x : ℚ) : ℤ := max (Int.log 2 |x| - 23) (-149)

/-- Modelled from the spec: the integer nearest to `s`, the even one of the two when `s`
is half way between them (the rounding of IEEE-754 in its default mode). -/
def roundNearestEven (s : ℚ) : ℤ :=
  if s - ⌊s⌋ < 1 / 2 then ⌊s⌋
  else if 1 / 2 < s - ⌊s⌋ then ⌊s⌋ + 1
  else if ⌊s⌋ % 2 = 0 then ⌊s⌋ else ⌊s⌋ + 1

/-- Modelled from the spec: the single-precision (IEEE-754 binary32) value nearest to the
number `x`, ties to even, as an exact rational. `float_t` is taken to be that format, the
one the specification names. Magnitudes of 2^128 and above, which the format rounds to
infinity, are outside the range of every function below, whose values stay under 2^47. -/
def roundF32 (x : ℚ) : ℚ := (roundNearestEven (x / 2 ^ ulpExp32 x) : ℚ) * 2 ^ ulpExp32 x

/-- Modelled from the spec: the conversion `(float_t)n` of an integer, rounded to single
precision. -/
def floatOfInt (n : ℤ) : ℚ := roundF32 n

/-- Modelled from the spec: a floating constant with the suffix `f` written as the decimal
number `q`: the single-precision value nearest to `q`. -/
def floatLit (q : ℚ) : ℚ := roundF32 q

/-- Modelled from the spec: the product of two `float_t` values, rounded to single
precision. -/
def floatMul (a b : ℚ) : ℚ := roundF32 (a * b)

/-- Modelled from the spec: the quotient of two `float_t` values, rounded to single
precision. -/
def floatDiv (a b : ℚ) : ℚ := roundF32 (a / b)

/-- Modelled from the spec: the sum of two `float_t` values, rounded to single
precision. -/
def floatAdd (a b : ℚ) : ℚ := roundF32 (a + b)

/-- Source `iis3dwb_from_fs2g_to_mg` (`lsb` is an `int16_t`). -/
def iis3dwb_from_fs2g_to_mg (lsb : ℤ) : ℚ := floatMul (floatOfInt lsb) (floatLit 0.061)

/-- Source `iis3dwb_from_fs4g_to_mg` (`lsb` is an `int16_t`). -/
def iis3dwb_from_fs4g_to_mg (lsb : ℤ) : ℚ := floatMul (floatOfInt lsb) (floatLit 0.122)

/-- Source `iis3dwb_from_fs8g_to_mg` (`lsb` is an `int16_t`). -/
def iis3dwb_from_fs8g_to_mg (lsb : ℤ) : ℚ := floatMul (floatOfInt lsb) (floatLit 0.244)

/-- Source `iis3dwb_from_fs16g_to_mg` (`lsb` is an `int16_t`). -/
def iis3dwb_from_fs16g_to_mg (lsb : ℤ) : ℚ := floatMul (floatOfInt lsb) (floatLit 0.488)

/-- Source `iis3dwb_from_lsb_to_celsius` (`lsb` is an `int16_t`). -/
def iis3dwb_from_lsb_to_celsius (lsb : ℤ) : ℚ :=
  floatAdd (floatDiv (floatOfInt lsb) (floatLit 256.0)) (floatLit 25.0)

/-- Source `iis3dwb_from_lsb_to_nsec` (`lsb` is an `int32_t`). -/
def iis3dwb_from_lsb_to_nsec (lsb : ℤ) : ℚ := floatMul (floatOfInt lsb) (floatLit 25000.0)

/-! ## Transport lemmas -/

theorem fresh_alwaysOk (regs : Nat → Nat) : (Device.fresh regs).alwaysOk := fun _ => rfl

/-! ## Arithmetic of packed bytes -/

/-- Bit `i` of a byte assembled from eight 1-bit fields is field `i`. -/
theorem bitOf_pack8 (x0 x1 x2 x3 x4 x5 x6 x7 i : Nat) (hi : i < 8) :
    bitOf (x0 % 2 + 2 * (x1 % 2) + 4 * (x2 % 2) + 8 * (x3 % 2) + 16 * (x4 % 2) +
      32 * (x5 % 2) + 64 * (x6 % 2) + 128 * (x7 % 2)) i =
    [x0 % 2, x1 % 2, x2 % 2, x3 % 2, x4 % 2, x5 % 2, x6 % 2, x7 % 2].getD i 0 := by
  have h0 := Nat.mod_lt x0 (Nat.succ_pos 1)
  have h1 := Nat.mod_lt x1 (Nat.succ_pos 1)
  have h2 := Nat.mod_lt x2 (Nat.succ_pos 1)
  have h3 := Nat.mod_lt x3 (Nat.succ_pos 1)
  have h4 := Nat.mod_lt x4 (Nat.succ_pos 1)
  have h5 := Nat.mod_lt x5 (Nat.succ_pos 1)
  have h6 := Nat.mod_lt x6 (Nat.succ_pos 1)
  have h7 := Nat.mod_lt x7 (Nat.succ_pos 1)
  generalize x0 % 2 = y0 at *
  generalize x1 % 2 = y1 at *
  generalize x2 % 2 = y2 at *
  generalize x3 % 2 = y3 at *
  generalize x4 % 2 = y4 at *
  generalize x5 % 2 = y5 at *
  generalize x6 % 2 = y6 at *
  generalize x7 % 2 = y7 at *
  interval_cases i <;> simp only [bitOf, List.getD_cons_zero, List.getD_cons_succ] <;> omega

/-- Shifting right distributes over a bitwise and. -/
theorem shiftRight_and (a b k : Nat) : (a &&& b) >>> k = (a >>> k) &&& (b >>> k) := by
  apply Nat.eq_of_testBit_eq
  intro i
  simp only [Nat.testBit_shiftRight, Nat.testBit_and]
theorem and_00FF (v : Nat) : 0x00FF &&& v = v % 256 := by
  rw [Nat.and_comm]; exact Nat.and_pow_two_sub_one_eq_mod v 8
theorem and_0100_shr (v : Nat) : (0x0100 &&& v) >>> 8 = v / 256 % 2 := by
  rw [shiftRight_and, Nat.shiftRight_eq_div_pow v 8, show (0x0100 : Nat) >>> 8 = 1 from rfl,
    Nat.one_and_eq_mod_two]
theorem and_0700_shr (v : Nat) : (0x0700 &&& v) >>> 8 = v / 256 % 8 := by
  rw [shiftRight_and, Nat.shiftRight_eq_div_pow v 8, show (0x0700 : Nat) >>> 8 = 7 from rfl,
    Nat.and_comm]
  exact Nat.and_pow_two_sub_one_eq_mod (v / 2 ^ 8) 3
theorem and_10_shr (v : Nat) : (v &&& 0x10) >>> 4 = v / 16 % 2 := by
  rw [shiftRight_and, Nat.shiftRight_eq_div_pow v 4, show (0x10 : Nat) >>> 4 = 1 from rfl,
    Nat.and_one_is_mod]
theorem and_20_shr (v : Nat) : (v &&& 0x20) >>> 5 = v / 32 % 2 := by
  rw [shiftRight_and, Nat.shiftRight_eq_div_pow v 5, show (0x20 : Nat) >>> 5 = 1 from rfl,
    Nat.and_one_is_mod]
theorem and_80_shr (v : Nat) : (v &&& 0x80) >>> 7 = v / 128 % 2 := by
  rw [shiftRight_and, Nat.shiftRight_eq_div_pow v 7, show (0x80 : Nat) >>> 7 = 1 from rfl,
    Nat.and_one_is_mod]
theorem and_07 (v : Nat) : v &&& 0x07 = v % 8 := Nat.and_pow_two_sub_one_eq_mod v 3

/-! ## C1: field isolation in CTRL3_C -/

/-- C1. Field isolation in CTRL3_C: for every initial byte of CTRL3_C and every `val`,
on a transport that succeeds each of the seven setters of CTRL3_C returns 0, issues
one read and one write of CTRL3_C, and writes a byte whose own bit (0 reset, 2
auto-increment, 3 SPI mode, 4 pin mode, 5 pin polarity, 6 block data update, 7 boot)
is `val mod 2` and whose other bits, reserved bit 1 included, are those read. -/
theorem ctrl3_c_field_isolation (d : Device) (val : Nat) (hok : d.alwaysOk)
    (hb : d.regs IIS3DWB_CTRL3_C < 256) :
    Ctrl3OnlyBit iis3dwb_reset_set 0 val d ∧
    Ctrl3OnlyBit iis3dwb_auto_increment_set 2 val d ∧
    Ctrl3OnlyBit iis3dwb_spi_mode_set 3 val d ∧
    Ctrl3OnlyBit iis3dwb_pin_mode_set 4 val d ∧
    Ctrl3OnlyBit iis3dwb_pin_polarity_set 5 val d ∧
    Ctrl3OnlyBit iis3dwb_block_data_update_set 6 val d ∧
    Ctrl3OnlyBit iis3dwb_boot_set 7 val d := by
  have hs : ∀ n, d.status n = 0 := hok
  refine ⟨?_, ?_, ?_, ?_, ?_, ?_, ?_⟩ <;>
  · simp only [Ctrl3OnlyBit, iis3dwb_reset_set, iis3dwb_auto_increment_set,
      iis3dwb_spi_mode_set, iis3dwb_pin_mode_set, iis3dwb_pin_polarity_set,
      iis3dwb_block_data_update_set, iis3dwb_boot_set]
    simp [iis3dwb_read_reg, iis3dwb_write_reg, devCtx, Device.read, Device.write, hs, byteAt,
      iis3dwb_ctrl3_c_t.ofByte, iis3dwb_ctrl3_c_t.toByte, IIS3DWB_CTRL3_C] at hb ⊢
    rw [Nat.mod_eq_of_lt hb]
    refine ⟨?_, ?_, ?_⟩
    · omega
    · intro i hi
      rw [bitOf_pack8 _ _ _ _ _ _ _ _ i hi]
      interval_cases i
      all_goals simp [bitOf]
      all_goals omega
    · intro a ha h1 h2
      omega

/-- C1 witness: CTRL3_C holding 0xA5, `val = 1`. -/
theorem ctrl3_c_field_isolation_witness :
    Ctrl3OnlyBit iis3dwb_reset_set 0 1 (Device.fresh (fun _ => 0xA5)) ∧
    Ctrl3OnlyBit iis3dwb_auto_increment_set 2 1 (Device.fresh (fun _ => 0xA5)) ∧
    Ctrl3OnlyBit iis3dwb_spi_mode_set 3 1 (Device.fresh (fun _ => 0xA5)) ∧
    Ctrl3OnlyBit iis3dwb_pin_mode_set 4 1 (Device.fresh (fun _ => 0xA5)) ∧
    Ctrl3OnlyBit iis3dwb_pin_polarity_set 5 1 (Device.fresh (fun _ => 0xA5)) ∧
    Ctrl3OnlyBit iis3dwb_block_data_update_set 6 1 (Device.fresh (fun _ => 0xA5)) ∧
    Ctrl3OnlyBit iis3dwb_boot_set 7 1 (Device.fresh (fun _ => 0xA5)) :=
  ctrl3_c_field_isolation (Device.fresh (fun _ => 0xA5)) 1 (fresh_alwaysOk _) (by decide)

/-! ## C2: the batch-counter threshold setter and its sibling fields -/

/-- On a working transport `iis3dwb_batch_counter_threshold_set` replaces the whole of
COUNTER_BDR_REG1 by bits 10-8 of `val`: bits 7-3 are written as 0. -/
theorem batch_counter_threshold_set_reg1 (d : Device) (val : Nat) (hok : d.alwaysOk) :
    (iis3dwb_batch_counter_threshold_set (some devCtx) val d).1 = 0 ∧
    (iis3dwb_batch_counter_threshold_set (some devCtx) val d).2.regs
      IIS3DWB_COUNTER_BDR_REG1 = val / 256 % 8 := by
  have hs : ∀ n, d.status n = 0 := hok
  simp [iis3dwb_batch_counter_threshold_set, iis3dwb_read_reg, iis3dwb_write_reg, devCtx,
    Device.read, Device.write, hs, byteAt, iis3dwb_counter_bdr_reg2_t.ofByte,
    iis3dwb_counter_bdr_reg2_t.toByte, IIS3DWB_COUNTER_BDR_REG1, IIS3DWB_COUNTER_BDR_REG2,
    and_00FF, and_0700_shr]
  omega

/-- C2 (the code at the failing input). With COUNTER_BDR_REG1 holding 0xC0
(`dataready_pulsed = 1`, `rst_counter_bdr = 1`) and a transport that succeeds,
`iis3dwb_batch_counter_threshold_set (0)` returns 0 and leaves 0x00 in the register:
`iis3dwb_data_ready_mode_get` gives PULSED before the call and LATCHED after it, and
`iis3dwb_rst_batch_counter_get` gives 1 before and 0 after. -/
theorem batch_counter_threshold_set_clobbers_siblings :
    (iis3dwb_data_ready_mode_get (some devCtx) (Device.fresh (fun _ => 0xC0))).2.1 =
      iis3dwb_dataready_pulsed_t.IIS3DWB_DRDY_PULSED ∧
    (iis3dwb_rst_batch_counter_get (some devCtx) (Device.fresh (fun _ => 0xC0))).2.1 = 1 ∧
    (iis3dwb_batch_counter_threshold_set (some devCtx) 0 (Device.fresh (fun _ => 0xC0))).1 = 0 ∧
    (iis3dwb_batch_counter_threshold_set (some devCtx) 0
      (Device.fresh (fun _ => 0xC0))).2.regs IIS3DWB_COUNTER_BDR_REG1 = 0 ∧
    (iis3dwb_data_ready_mode_get (some devCtx)
      (iis3dwb_batch_counter_threshold_set (some devCtx) 0
        (Device.fresh (fun _ => 0xC0))).2).2.1 =
      iis3dwb_dataready_pulsed_t.IIS3DWB_DRDY_LATCHED ∧
    (iis3dwb_rst_batch_counter_get (some devCtx)
      (iis3dwb_batch_counter_threshold_set (some devCtx) 0
        (Device.fresh (fun _ => 0xC0))).2).2.1 = 0 := by
  decide

/-! ## C3: FIFO watermark round trip -/

/-- C3. Watermark round trip: for every `w` in [0, 511] and every device state, on a
transport that always succeeds, `iis3dwb_fifo_watermark_set w` returns 0 and the
following `iis3dwb_fifo_watermark_get` returns status 0 and the value `w`. -/
theorem fifo_watermark_round_trip (d : Device) (w : Nat) (hok : d.alwaysOk) (hw : w ≤ 511) :
    (iis3dwb_fifo_watermark_set (some devCtx) w d).1 = 0 ∧
    (iis3dwb_fifo_watermark_get (some devCtx)
      (iis3dwb_fifo_watermark_set (some devCtx) w d).2).1 = 0 ∧
    (iis3dwb_fifo_watermark_get (some devCtx)
      (iis3dwb_fifo_watermark_set (some devCtx) w d).2).2.1 = w := by
  have hs : ∀ n, d.status n = 0 := hok
  simp [iis3dwb_fifo_watermark_set, iis3dwb_fifo_watermark_get,
    iis3dwb_read_reg, iis3dwb_write_reg, devCtx, Device.read, Device.write, hs, byteAt,
    iis3dwb_fifo_ctrl1_t.ofByte, iis3dwb_fifo_ctrl1_t.toByte,
    iis3dwb_fifo_ctrl2_t.ofByte, iis3dwb_fifo_ctrl2_t.toByte,
    IIS3DWB_FIFO_CTRL1, IIS3DWB_FIFO_CTRL2, and_00FF, and_0100_shr, Nat.shiftLeft_eq]
  omega

/-- C3 witness: watermark 300 on a device whose registers all hold 0xFF. -/
theorem fifo_watermark_round_trip_witness :
    (Device.fresh (fun _ => 0xFF)).alwaysOk ∧ 300 ≤ 511 ∧
    (iis3dwb_fifo_watermark_set (some devCtx) 300 (Device.fresh (fun _ => 0xFF))).1 = 0 ∧
    (iis3dwb_fifo_watermark_get (some devCtx)
      (iis3dwb_fifo_watermark_set (some devCtx) 300 (Device.fresh (fun _ => 0xFF))).2).1 = 0 ∧
    (iis3dwb_fifo_watermark_get (some devCtx)
      (iis3dwb_fifo_watermark_set (some devCtx) 300
        (Device.fresh (fun _ => 0xFF))).2).2.1 = 300 :=
  ⟨fresh_alwaysOk _, by decide,
    fifo_watermark_round_trip (Device.fresh (fun _ => 0xFF)) 300 (fresh_alwaysOk _) (by decide)⟩

/-! ## C4: batch-counter threshold round trip -/

/-- C4. Batch-counter threshold round trip: for every `t` in [0, 2047] and every
device state, on a transport that always succeeds,
`iis3dwb_batch_counter_threshold_set t` returns 0 and the following
`iis3dwb_batch_counter_threshold_get` returns status 0 and the value `t`. -/
theorem batch_counter_threshold_round_trip (d : Device) (t : Nat) (hok : d.alwaysOk)
    (ht : t ≤ 2047) :
    (iis3dwb_batch_counter_threshold_set (some devCtx) t d).1 = 0 ∧
    (iis3dwb_batch_counter_threshold_get (some devCtx)
      (iis3dwb_batch_counter_threshold_set (some devCtx) t d).2).1 = 0 ∧
    (iis3dwb_batch_counter_threshold_get (some devCtx)
      (iis3dwb_batch_counter_threshold_set (some devCtx) t d).2).2.1 = t := by
  have hs : ∀ n, d.status n = 0 := hok
  simp [iis3dwb_batch_counter_threshold_set, iis3dwb_batch_counter_threshold_get,
    iis3dwb_read_reg, iis3dwb_write_reg, devCtx, Device.read, Device.write, hs, byteAt,
    iis3dwb_counter_bdr_reg1_t.ofByte, iis3dwb_counter_bdr_reg2_t.ofByte,
    iis3dwb_counter_bdr_reg2_t.toByte, IIS3DWB_COUNTER_BDR_REG1, IIS3DWB_COUNTER_BDR_REG2,
    and_00FF, and_0700_shr, Nat.shiftLeft_eq]
  omega

/-- C4 witness: threshold 1500 on a device whose registers all hold 0xFF. -/
theorem batch_counter_threshold_round_trip_witness :
    (Device.fresh (fun _ => 0xFF)).alwaysOk ∧ 1500 ≤ 2047 ∧
    (iis3dwb_batch_counter_threshold_set (some devCtx) 1500
      (Device.fresh (fun _ => 0xFF))).1 = 0 ∧
    (iis3dwb_batch_counter_threshold_get (some devCtx)
      (iis3dwb_batch_counter_threshold_set (some devCtx) 1500
        (Device.fresh (fun _ => 0xFF))).2).1 = 0 ∧
    (iis3dwb_batch_counter_threshold_get (some devCtx)
      (iis3dwb_batch_counter_threshold_set (some devCtx) 1500
        (Device.fresh (fun _ => 0xFF))).2).2.1 = 1500 :=
  ⟨fresh_alwaysOk _, by decide,
    batch_counter_threshold_round_trip (Device.fresh (fun _ => 0xFF)) 1500 (fresh_alwaysOk _)
      (by decide)⟩

/-! ## C5: fail-fast on a failed read -/

/-- C5. Fail-fast on read failure: when the transport answers the read of a
single-register read-modify-write setter with a non-zero code `e`, the setter returns
`e`, the read is the only transaction it issues (no write), and every register of the
device keeps its content. Stated for each of the 33 single-register setters of the
driver, `iis3dwb_xl_full_scale_set`, `iis3dwb_fifo_mode_set` and
`iis3dwb_block_data_update_set` among them. -/
theorem single_register_set_fails_fast (d : Device) (val : Nat) (e : Int)
    (he : d.status d.log.length = e) (hne : e ≠ 0) :
    FailsFastOnRead iis3dwb_xl_full_scale_set IIS3DWB_CTRL1_XL val e d ∧
    FailsFastOnRead iis3dwb_xl_data_rate_set IIS3DWB_CTRL1_XL val e d ∧
    FailsFastOnRead iis3dwb_block_data_update_set IIS3DWB_CTRL3_C val e d ∧
    FailsFastOnRead iis3dwb_xl_offset_weight_set IIS3DWB_CTRL6_C val e d ∧
    FailsFastOnRead iis3dwb_usr_offset_block_set IIS3DWB_CTRL7_C val e d ∧
    FailsFastOnRead iis3dwb_timestamp_set IIS3DWB_CTRL10_C val e d ∧
    FailsFastOnRead iis3dwb_rounding_mode_set IIS3DWB_CTRL5_C val e d ∧
    FailsFastOnRead iis3dwb_odr_cal_reg_set IIS3DWB_INTERNAL_FREQ_FINE val e d ∧
    FailsFastOnRead iis3dwb_data_ready_mode_set IIS3DWB_COUNTER_BDR_REG1 val e d ∧
    FailsFastOnRead iis3dwb_reset_set IIS3DWB_CTRL3_C val e d ∧
    FailsFastOnRead iis3dwb_auto_increment_set IIS3DWB_CTRL3_C val e d ∧
    FailsFastOnRead iis3dwb_boot_set IIS3DWB_CTRL3_C val e d ∧
    FailsFastOnRead iis3dwb_xl_self_test_set IIS3DWB_CTRL5_C val e d ∧
    FailsFastOnRead iis3dwb_filter_settling_mask_set IIS3DWB_CTRL4_C val e d ∧
    FailsFastOnRead iis3dwb_xl_fast_settling_set IIS3DWB_CTRL8_XL val e d ∧
    FailsFastOnRead iis3dwb_xl_hp_path_internal_set IIS3DWB_SLOPE_EN val e d ∧
    FailsFastOnRead iis3dwb_sdo_sa0_mode_set IIS3DWB_PIN_CTRL val e d ∧
    FailsFastOnRead iis3dwb_spi_mode_set IIS3DWB_CTRL3_C val e d ∧
    FailsFastOnRead iis3dwb_i2c_interface_set IIS3DWB_CTRL4_C val e d ∧
    FailsFastOnRead iis3dwb_pin_mode_set IIS3DWB_CTRL3_C val e d ∧
    FailsFastOnRead iis3dwb_pin_polarity_set IIS3DWB_CTRL3_C val e d ∧
    FailsFastOnRead iis3dwb_all_on_int1_set IIS3DWB_CTRL4_C val e d ∧
    FailsFastOnRead iis3dwb_int_notification_set IIS3DWB_SLOPE_EN val e d ∧
    FailsFastOnRead iis3dwb_wkup_ths_weight_set IIS3DWB_WAKE_UP_DUR val e d ∧
    FailsFastOnRead iis3dwb_xl_usr_offset_on_wkup_set IIS3DWB_WAKE_UP_THS val e d ∧
    FailsFastOnRead iis3dwb_wkup_dur_set IIS3DWB_WAKE_UP_DUR val e d ∧
    FailsFastOnRead iis3dwb_act_sleep_dur_set IIS3DWB_WAKE_UP_DUR val e d ∧
    FailsFastOnRead iis3dwb_fifo_stop_on_wtm_set IIS3DWB_FIFO_CTRL2 val e d ∧
    FailsFastOnRead iis3dwb_fifo_xl_batch_set IIS3DWB_FIFO_CTRL3 val e d ∧
    FailsFastOnRead iis3dwb_fifo_mode_set IIS3DWB_FIFO_CTRL4 val e d ∧
    FailsFastOnRead iis3dwb_fifo_temp_batch_set IIS3DWB_FIFO_CTRL4 val e d ∧
    FailsFastOnRead iis3dwb_fifo_timestamp_batch_set IIS3DWB_FIFO_CTRL4 val e d ∧
    FailsFastOnRead iis3dwb_rst_batch_counter_set IIS3DWB_COUNTER_BDR_REG1 val e d := by
  refine ⟨?_, ?_, ?_, ?_, ?_, ?_, ?_, ?_, ?_, ?_, ?_, ?_, ?_, ?_, ?_, ?_, ?_, ?_, ?_, ?_, ?_,
    ?_, ?_, ?_, ?_, ?_, ?_, ?_, ?_, ?_, ?_, ?_, ?_⟩ <;>
  · unfold FailsFastOnRead
    simp [iis3dwb_read_reg, devCtx, Device.read, he, hne,
      iis3dwb_xl_full_scale_set, iis3dwb_xl_data_rate_set, iis3dwb_block_data_update_set,
      iis3dwb_xl_offset_weight_set, iis3dwb_usr_offset_block_set, iis3dwb_timestamp_set,
      iis3dwb_rounding_mode_set, iis3dwb_odr_cal_reg_set, iis3dwb_data_ready_mode_set,
      iis3dwb_reset_set, iis3dwb_auto_increment_set, iis3dwb_boot_set,
      iis3dwb_xl_self_test_set, iis3dwb_filter_settling_mask_set,
      iis3dwb_xl_fast_settling_set, iis3dwb_xl_hp_path_internal_set, iis3dwb_sdo_sa0_mode_set,
      iis3dwb_spi_mode_set, iis3dwb_i2c_interface_set, iis3dwb_pin_mode_set,
      iis3dwb_pin_polarity_set, iis3dwb_all_on_int1_set, iis3dwb_int_notification_set,
      iis3dwb_wkup_ths_weight_set, iis3dwb_xl_usr_offset_on_wkup_set, iis3dwb_wkup_dur_set,
      iis3dwb_act_sleep_dur_set, iis3dwb_fifo_stop_on_wtm_set, iis3dwb_fifo_xl_batch_set,
      iis3dwb_fifo_mode_set, iis3dwb_fifo_temp_batch_set, iis3dwb_fifo_timestamp_batch_set,
      iis3dwb_rst_batch_counter_set]

/-- C5 witness: a device whose transport answers every transaction with code 5. -/
theorem single_register_set_fails_fast_witness :
    FailsFastOnRead iis3dwb_xl_full_scale_set IIS3DWB_CTRL1_XL 3 5
      { regs := fun _ => 0x5A, log := [], status := fun _ => 5 } ∧
    FailsFastOnRead iis3dwb_fifo_mode_set IIS3DWB_FIFO_CTRL4 3 5
      { regs := fun _ => 0x5A, log := [], status := fun _ => 5 } ∧
    FailsFastOnRead iis3dwb_block_data_update_set IIS3DWB_CTRL3_C 3 5
      { regs := fun _ => 0x5A, log := [], status := fun _ => 5 } :=
  have h := single_register_set_fails_fast
    { regs := fun _ => 0x5A, log := [], status := fun _ => 5 } 3 5 rfl (by decide)
  ⟨h.1, h.2.2.2.2.2.2.2.2.2.2.2.2.2.2.2.2.2.2.2.2.2.2.2.2.2.2.2.2.2.1, h.2.2.1⟩

/-! ## C6: null context -/

/-- C6. Invalid-context precondition: with a null context `iis3dwb_read_reg` and
`iis3dwb_write_reg` return -1 for every register address, buffer and length, and so
does every setter of the driver (the 33 single-register setters, the setters over
several registers, the user-offset writes and `iis3dwb_timestamp_rst`); the world
state, on which alone a transport callback could act, is returned as it was. -/
theorem null_context_rejected {σ : Type} (s : σ) (reg len val : Nat) (data : List Nat)
    (r1 : iis3dwb_pin_int1_route_t) (r2 : iis3dwb_pin_int2_route_t) :
    iis3dwb_read_reg none reg len s = (-1, [], s) ∧
    iis3dwb_write_reg none reg data len s = (-1, s) ∧
    iis3dwb_xl_full_scale_set none val s = (-1, s) ∧
    iis3dwb_xl_data_rate_set none val s = (-1, s) ∧
    iis3dwb_block_data_update_set none val s = (-1, s) ∧
    iis3dwb_xl_offset_weight_set none val s = (-1, s) ∧
    iis3dwb_usr_offset_block_set none val s = (-1, s) ∧
    iis3dwb_timestamp_set none val s = (-1, s) ∧
    iis3dwb_rounding_mode_set none val s = (-1, s) ∧
    iis3dwb_odr_cal_reg_set none val s = (-1, s) ∧
    iis3dwb_data_ready_mode_set none val s = (-1, s) ∧
    iis3dwb_reset_set none val s = (-1, s) ∧
    iis3dwb_auto_increment_set none val s = (-1, s) ∧
    iis3dwb_boot_set none val s = (-1, s) ∧
    iis3dwb_xl_self_test_set none val s = (-1, s) ∧
    iis3dwb_filter_settling_mask_set none val s = (-1, s) ∧
    iis3dwb_xl_fast_settling_set none val s = (-1, s) ∧
    iis3dwb_xl_hp_path_internal_set none val s = (-1, s) ∧
    iis3dwb_sdo_sa0_mode_set none val s = (-1, s) ∧
    iis3dwb_spi_mode_set none val s = (-1, s) ∧
    iis3dwb_i2c_interface_set none val s = (-1, s) ∧
    iis3dwb_pin_mode_set none val s = (-1, s) ∧
    iis3dwb_pin_polarity_set none val s = (-1, s) ∧
    iis3dwb_all_on_int1_set none val s = (-1, s) ∧
    iis3dwb_int_notification_set none val s = (-1, s) ∧
    iis3dwb_wkup_ths_weight_set none val s = (-1, s) ∧
    iis3dwb_xl_usr_offset_on_wkup_set none val s = (-1, s) ∧
    iis3dwb_wkup_dur_set none val s = (-1, s) ∧
    iis3dwb_act_sleep_dur_set none val s = (-1, s) ∧
    iis3dwb_fifo_stop_on_wtm_set none val s = (-1, s) ∧
    iis3dwb_fifo_xl_batch_set none val s = (-1, s) ∧
    iis3dwb_fifo_mode_set none val s = (-1, s) ∧
    iis3dwb_fifo_temp_batch_set none val s = (-1, s) ∧
    iis3dwb_fifo_timestamp_batch_set none val s = (-1, s) ∧
    iis3dwb_rst_batch_counter_set none val s = (-1, s) ∧
    iis3dwb_xl_axis_selection_set none val s = (-1, s) ∧
    iis3dwb_xl_filt_path_on_out_set none val s = (-1, s) ∧
    iis3dwb_wkup_threshold_set none val s = (-1, s) ∧
    iis3dwb_fifo_watermark_set none val s = (-1, s) ∧
    iis3dwb_batch_counter_threshold_set none val s = (-1, s) ∧
    iis3dwb_pin_int1_route_set none r1 s = (-1, s) ∧
    iis3dwb_pin_int2_route_set none r2 s = (-1, s) ∧
    iis3dwb_xl_usr_offset_x_set none data s = (-1, s) ∧
    iis3dwb_xl_usr_offset_y_set none data s = (-1, s) ∧
    iis3dwb_xl_usr_offset_z_set none data s = (-1, s) ∧
    iis3dwb_timestamp_rst none s = (-1, s) := by
  refine ⟨?_, ?_, ?_, ?_, ?_, ?_, ?_, ?_, ?_, ?_, ?_, ?_, ?_, ?_, ?_, ?_, ?_, ?_, ?_, ?_, ?_,
    ?_, ?_, ?_, ?_, ?_, ?_, ?_, ?_, ?_, ?_, ?_, ?_, ?_, ?_, ?_, ?_, ?_, ?_, ?_, ?_, ?_, ?_, ?_,
    ?_, ?_⟩ <;>
  simp [iis3dwb_read_reg, iis3dwb_write_reg,
    iis3dwb_xl_full_scale_set, iis3dwb_xl_data_rate_set, iis3dwb_block_data_update_set,
    iis3dwb_xl_offset_weight_set, iis3dwb_usr_offset_block_set, iis3dwb_timestamp_set,
    iis3dwb_rounding_mode_set, iis3dwb_odr_cal_reg_set, iis3dwb_data_ready_mode_set,
    iis3dwb_reset_set, iis3dwb_auto_increment_set, iis3dwb_boot_set, iis3dwb_xl_self_test_set,
    iis3dwb_filter_settling_mask_set, iis3dwb_xl_fast_settling_set,
    iis3dwb_xl_hp_path_internal_set, iis3dwb_sdo_sa0_mode_set, iis3dwb_spi_mode_set,
    iis3dwb_i2c_interface_set, iis3dwb_pin_mode_set, iis3dwb_pin_polarity_set,
    iis3dwb_all_on_int1_set, iis3dwb_int_notification_set, iis3dwb_wkup_ths_weight_set,
    iis3dwb_xl_usr_offset_on_wkup_set, iis3dwb_wkup_dur_set, iis3dwb_act_sleep_dur_set,
    iis3dwb_fifo_stop_on_wtm_set, iis3dwb_fifo_xl_batch_set, iis3dwb_fifo_mode_set,
    iis3dwb_fifo_temp_batch_set, iis3dwb_fifo_timestamp_batch_set,
    iis3dwb_rst_batch_counter_set, iis3dwb_xl_axis_selection_set,
    iis3dwb_xl_filt_path_on_out_set, iis3dwb_wkup_threshold_set, iis3dwb_fifo_watermark_set,
    iis3dwb_batch_counter_threshold_set, iis3dwb_pin_int1_route_set,
    iis3dwb_pin_int2_route_set, iis3dwb_xl_usr_offset_x_set, iis3dwb_xl_usr_offset_y_set,
    iis3dwb_xl_usr_offset_z_set, iis3dwb_timestamp_rst]

/-! ## C7, C8: FIFO tag -/

/-- C7. FIFO tag classification: for every tag byte read successfully from
FIFO_DATA_OUT_TAG, written as the overlay of its three fields `tag_parity`, `tag_cnt`
and the 5-bit `tag_sensor = s`, `iis3dwb_fifo_sensor_tag_get` returns status 0 and the
tag XL when `s = 2`, TEMPERATURE when `s = 3`, TIMESTAMP when `s = 4` and XL for every
other `s`; the result is a function of `s` alone, whatever `tag_cnt` and `tag_parity`
are. -/
theorem fifo_sensor_tag_classification (d : Device) (p c s : Nat) (hok : d.alwaysOk)
    (hp : p < 2) (hc : c < 4) (hs : s < 32)
    (hreg : d.regs IIS3DWB_FIFO_DATA_OUT_TAG =
      (iis3dwb_fifo_data_out_tag_t.mk p c s).toByte) :
    (iis3dwb_fifo_sensor_tag_get (some devCtx) d).1 = 0 ∧
    (iis3dwb_fifo_sensor_tag_get (some devCtx) d).2.1 =
      (if s = 2 then iis3dwb_fifo_tag_t.IIS3DWB_XL_TAG
       else if s = 3 then iis3dwb_fifo_tag_t.IIS3DWB_TEMPERATURE_TAG
       else if s = 4 then iis3dwb_fifo_tag_t.IIS3DWB_TIMESTAMP_TAG
       else iis3dwb_fifo_tag_t.IIS3DWB_XL_TAG) := by
  have hst : ∀ n, d.status n = 0 := hok
  have hs' : (p + 2 * c + 8 * s) % 256 / 8 % 32 = s := by omega
  simp [iis3dwb_fifo_sensor_tag_get, iis3dwb_read_reg, devCtx, Device.read, hst, byteAt,
    iis3dwb_fifo_data_out_tag_t.ofByte, iis3dwb_fifo_data_out_tag_t.toByte,
    iis3dwb_fifo_tag_t.toNat, hs'] at hreg ⊢
  simp [hreg, hs']

/-- C7 witness: tag byte 0x1F (`tag_sensor = 3`, `tag_cnt = 3`, `tag_parity = 1`). -/
theorem fifo_sensor_tag_classification_witness :
    (iis3dwb_fifo_sensor_tag_get (some devCtx) (Device.fresh (fun _ => 0x1F))).1 = 0 ∧
    (iis3dwb_fifo_sensor_tag_get (some devCtx) (Device.fresh (fun _ => 0x1F))).2.1 =
      (if 3 = 2 then iis3dwb_fifo_tag_t.IIS3DWB_XL_TAG
       else if 3 = 3 then iis3dwb_fifo_tag_t.IIS3DWB_TEMPERATURE_TAG
       else if 3 = 4 then iis3dwb_fifo_tag_t.IIS3DWB_TIMESTAMP_TAG
       else iis3dwb_fifo_tag_t.IIS3DWB_XL_TAG) :=
  fifo_sensor_tag_classification (Device.fresh (fun _ => 0x1F)) 1 3 3 (fresh_alwaysOk _)
    (by decide) (by decide) (by decide) (by decide)

/-- C8 (counterexample). The tag byte 0x18 has `0x18 mod 32 = 24`, which is none of the
tags 2, 3, 4, yet the sub-field the driver classifies is `tag_sensor = 3` and
`iis3dwb_fifo_sensor_tag_get` answers TEMPERATURE; and in the byte 0x80, whose bit 7 is
set, the parity field is 0. -/
theorem fifo_tag_layout_counterexample :
    (iis3dwb_fifo_data_out_tag_t.ofByte 0x18).tag_sensor ≠ 0x18 % 32 ∧
    (iis3dwb_fifo_data_out_tag_t.ofByte 0x18).tag_sensor = 3 ∧
    (iis3dwb_fifo_sensor_tag_get (some devCtx) (Device.fresh (fun _ => 0x18))).2.1 =
      iis3dwb_fifo_tag_t.IIS3DWB_TEMPERATURE_TAG ∧
    (iis3dwb_fifo_data_out_tag_t.ofByte 0x80).tag_parity = 0 := by
  decide

/-- C8 (amended). FIFO tag byte layout: in the tag byte `t` read by
`iis3dwb_fifo_sensor_tag_get` the parity is bit 0, the rolling counter is bits 2-1 and
the sensor tag is bits 7-3, so that the sub-field that is classified equals `t / 8`:
on a transport that succeeds the getter returns status 0 and the tag XL when
`t / 8 = 2`, TEMPERATURE when `t / 8 = 3`, TIMESTAMP when `t / 8 = 4`, XL otherwise. -/
theorem fifo_tag_layout (d : Device) (t : Nat) (hok : d.alwaysOk) (ht : t < 256)
    (hreg : d.regs IIS3DWB_FIFO_DATA_OUT_TAG = t) :
    (iis3dwb_fifo_data_out_tag_t.ofByte t).tag_parity = bitOf t 0 ∧
    (iis3dwb_fifo_data_out_tag_t.ofByte t).tag_cnt = bitOf t 1 + 2 * bitOf t 2 ∧
    (iis3dwb_fifo_data_out_tag_t.ofByte t).tag_sensor =
      bitOf t 3 + 2 * bitOf t 4 + 4 * bitOf t 5 + 8 * bitOf t 6 + 16 * bitOf t 7 ∧
    (iis3dwb_fifo_data_out_tag_t.ofByte t).tag_sensor = t / 8 ∧
    (iis3dwb_fifo_sensor_tag_get (some devCtx) d).1 = 0 ∧
    (iis3dwb_fifo_sensor_tag_get (some devCtx) d).2.1 =
      (if t / 8 = 2 then iis3dwb_fifo_tag_t.IIS3DWB_XL_TAG
       else if t / 8 = 3 then iis3dwb_fifo_tag_t.IIS3DWB_TEMPERATURE_TAG
       else if t / 8 = 4 then iis3dwb_fifo_tag_t.IIS3DWB_TIMESTAMP_TAG
       else iis3dwb_fifo_tag_t.IIS3DWB_XL_TAG) := by
  have hst : ∀ n, d.status n = 0 := hok
  have h8 : t % 256 / 8 % 32 = t / 8 := by omega
  refine ⟨?_, ?_, ?_, ?_, ?_, ?_⟩
  · simp [iis3dwb_fifo_data_out_tag_t.ofByte, bitOf]
  · simp [iis3dwb_fifo_data_out_tag_t.ofByte, bitOf]
    omega
  · simp [iis3dwb_fifo_data_out_tag_t.ofByte, bitOf]
    omega
  · simp [iis3dwb_fifo_data_out_tag_t.ofByte]
    omega
  · simp [iis3dwb_fifo_sensor_tag_get, iis3dwb_read_reg, devCtx, Device.read, hst]
  · simp [iis3dwb_fifo_sensor_tag_get, iis3dwb_read_reg, devCtx, Device.read, hst, byteAt,
      iis3dwb_fifo_data_out_tag_t.ofByte, iis3dwb_fifo_tag_t.toNat] at hreg ⊢
    simp [hreg, h8]

/-- C8 witness (amended claim): tag byte 0x18. -/
theorem fifo_tag_layout_witness :
    (iis3dwb_fifo_data_out_tag_t.ofByte 0x18).tag_sensor = 0x18 / 8 ∧
    (iis3dwb_fifo_sensor_tag_get (some devCtx) (Device.fresh (fun _ => 0x18))).2.1 =
      (if 0x18 / 8 = 2 then iis3dwb_fifo_tag_t.IIS3DWB_XL_TAG
       else if 0x18 / 8 = 3 then iis3dwb_fifo_tag_t.IIS3DWB_TEMPERATURE_TAG
       else if 0x18 / 8 = 4 then iis3dwb_fifo_tag_t.IIS3DWB_TIMESTAMP_TAG
       else iis3dwb_fifo_tag_t.IIS3DWB_XL_TAG) :=
  have h := fifo_tag_layout (Device.fresh (fun _ => 0x18)) 0x18 (fresh_alwaysOk _)
    (by decide) rfl
  ⟨h.2.2.2.1, h.2.2.2.2.2⟩

/-! ## C9: timestamp assembly -/

/-- C9. Timestamp assembly: for all bytes `b0 b1 b2 b3` delivered by a successful
4-byte read at TIMESTAMP0, on any transport, `iis3dwb_timestamp_raw_get` returns status
0 and the value `b0 + 256 * b1 + 65536 * b2 + 16777216 * b3`, which is below `2 ^ 32`,
so the `uint32_t` arithmetic does not wrap; in particular the bytes 01 00 00 00 give 1
and the bytes FF FF FF FF give 4294967295. -/
theorem timestamp_raw_get_little_endian {σ : Type} (ctx : stmdev_ctx_t σ) (s s1 : σ)
    (b0 b1 b2 b3 : Nat) (h0 : b0 < 256) (h1 : b1 < 256) (h2 : b2 < 256) (h3 : b3 < 256)
    (hread : ctx.read_reg s IIS3DWB_TIMESTAMP0 4 = (0, [b0, b1, b2, b3], s1)) :
    iis3dwb_timestamp_raw_get (some ctx) s =
      (0, b0 + 256 * b1 + 65536 * b2 + 16777216 * b3, s1) ∧
    b0 + 256 * b1 + 65536 * b2 + 16777216 * b3 < 4294967296 ∧
    (iis3dwb_timestamp_raw_get (some devCtx)
      (Device.fresh (fun a => if a = IIS3DWB_TIMESTAMP0 then 0x01 else 0x00))).2.1 = 1 ∧
    (iis3dwb_timestamp_raw_get (some devCtx)
      (Device.fresh (fun _ => 0xFF))).2.1 = 4294967295 := by
  refine ⟨?_, by omega, by decide, by decide⟩
  simp only [iis3dwb_timestamp_raw_get, iis3dwb_read_reg, hread, byteAt]
  simp only [List.getD_cons_zero, List.getD_cons_succ, Nat.mod_eq_of_lt h0,
    Nat.mod_eq_of_lt h1, Nat.mod_eq_of_lt h2, Nat.mod_eq_of_lt h3]
  have e : ((b3 * 256 + b2) % 4294967296 * 256 + b1) % 4294967296 * 256 + b0 =
      b0 + 256 * b1 + 65536 * b2 + 16777216 * b3 := by omega
  have e' : (((b3 * 256 + b2) % 4294967296 * 256 + b1) % 4294967296 * 256 + b0) % 4294967296 =
      b0 + 256 * b1 + 65536 * b2 + 16777216 * b3 := by omega
  rw [e']

/-- C9 witness: the registers TIMESTAMP0..3 holding 78 56 34 12 give 0x12345678. -/
theorem timestamp_raw_get_little_endian_witness :
    iis3dwb_timestamp_raw_get (some devCtx)
      (Device.fresh (fun a => if a = 0x40 then 0x78 else if a = 0x41 then 0x56
        else if a = 0x42 then 0x34 else 0x12)) =
      (0, 0x78 + 256 * 0x56 + 65536 * 0x34 + 16777216 * 0x12,
        { Device.fresh (fun a => if a = 0x40 then 0x78 else if a = 0x41 then 0x56
            else if a = 0x42 then 0x34 else 0x12) with
          log := [Txn.read IIS3DWB_TIMESTAMP0 4] }) :=
  (timestamp_raw_get_little_endian devCtx
    (Device.fresh (fun a => if a = 0x40 then 0x78 else if a = 0x41 then 0x56
      else if a = 0x42 then 0x34 else 0x12))
    { Device.fresh (fun a => if a = 0x40 then 0x78 else if a = 0x41 then 0x56
        else if a = 0x42 then 0x34 else 0x12) with
      log := [Txn.read IIS3DWB_TIMESTAMP0 4] }
    0x78 0x56 0x34 0x12 (by decide) (by decide) (by decide) (by decide) rfl).1

/-! ## Single-byte transactions on a working transport -/

theorem byteAt_singleton (x : Nat) : byteAt [x] 0 = x % 256 := by
  simp [byteAt]

theorem dev_read1 (regs : Nat → Nat) (log : List Txn) (status : Nat → Int)
    (hs : ∀ n, status n = 0) (reg : Nat) :
    iis3dwb_read_reg (some devCtx) reg 1 ⟨regs, log, status⟩ =
      (0, [regs reg], ⟨regs, log ++ [Txn.read reg 1], status⟩) := by
  simp [iis3dwb_read_reg, devCtx, Device.read, hs, List.range_succ]

theorem dev_write1 (regs : Nat → Nat) (log : List Txn) (status : Nat → Int)
    (hs : ∀ n, status n = 0) (reg x : Nat) :
    iis3dwb_write_reg (some devCtx) reg [x] 1 ⟨regs, log, status⟩ =
      (0, ⟨Function.update regs reg x, log ++ [Txn.write reg [x] 1], status⟩) := by
  simp only [iis3dwb_write_reg, devCtx, Device.write, hs, if_true, List.take_succ_cons,
    List.take_zero]
  congr 2
  funext a
  by_cases h : a = reg
  · subst h
    simp
  · have : ¬ (reg ≤ a ∧ a < reg + 1) := by omega
    simp [Function.update, h, this]

/-! ## Overlay laws for CTRL1_XL and CTRL8_XL -/

theorem ctrl1_xl_ofByte_WF (b : Nat) : (iis3dwb_ctrl1_xl_t.ofByte b).WF := by
  simp only [iis3dwb_ctrl1_xl_t.WF, iis3dwb_ctrl1_xl_t.ofByte]
  refine ⟨?_, ?_, ?_, ?_, ?_⟩ <;> omega

theorem ctrl1_xl_ofByte_toByte (r : iis3dwb_ctrl1_xl_t) (h : r.WF) :
    iis3dwb_ctrl1_xl_t.ofByte (r.toByte % 256) = r := by
  obtain ⟨a, b, c, e, f⟩ := r
  simp only [iis3dwb_ctrl1_xl_t.WF] at h
  obtain ⟨h1, h2, h3, h4, h5⟩ := h
  simp only [iis3dwb_ctrl1_xl_t.ofByte, iis3dwb_ctrl1_xl_t.toByte, iis3dwb_ctrl1_xl_t.mk.injEq]
  refine ⟨?_, ?_, ?_, ?_, ?_⟩ <;> omega

theorem ctrl8_xl_ofByte_WF (b : Nat) : (iis3dwb_ctrl8_xl_t.ofByte b).WF := by
  simp only [iis3dwb_ctrl8_xl_t.WF, iis3dwb_ctrl8_xl_t.ofByte]
  refine ⟨?_, ?_, ?_, ?_, ?_⟩ <;> omega

theorem ctrl8_xl_ofByte_toByte (r : iis3dwb_ctrl8_xl_t) (h : r.WF) :
    iis3dwb_ctrl8_xl_t.ofByte (r.toByte % 256) = r := by
  obtain ⟨a, b, c, e, f⟩ := r
  simp only [iis3dwb_ctrl8_xl_t.WF] at h
  obtain ⟨h1, h2, h3, h4, h5⟩ := h
  simp only [iis3dwb_ctrl8_xl_t.ofByte, iis3dwb_ctrl8_xl_t.toByte, iis3dwb_ctrl8_xl_t.mk.injEq]
  refine ⟨?_, ?_, ?_, ?_, ?_⟩ <;> omega

/-! ## Filter-path selection: what the setter stores and what the getter decodes -/

theorem filt_path_get_eq (regs : Nat → Nat) (log : List Txn) (status : Nat → Int)
    (hs : ∀ n, status n = 0) :
    iis3dwb_xl_filt_path_on_out_get (some devCtx) ⟨regs, log, status⟩ =
      ((0 : Int),
        filt_xl_en_of_key
          (((iis3dwb_ctrl1_xl_t.ofByte (regs IIS3DWB_CTRL1_XL % 256)).lpf2_xl_en <<< 7) +
           ((iis3dwb_ctrl8_xl_t.ofByte (regs IIS3DWB_CTRL8_XL % 256)).hp_ref_mode_xl <<< 5) +
           ((iis3dwb_ctrl8_xl_t.ofByte (regs IIS3DWB_CTRL8_XL % 256)).fds <<< 4) +
           (iis3dwb_ctrl8_xl_t.ofByte (regs IIS3DWB_CTRL8_XL % 256)).hpcf_xl),
        (⟨regs, log ++ [Txn.read IIS3DWB_CTRL1_XL 1, Txn.read IIS3DWB_CTRL8_XL 1],
          status⟩ : Device)) := by
  simp only [iis3dwb_xl_filt_path_on_out_get, dev_read1 _ _ _ hs, ne_eq, not_true_eq_false,
    if_false, byteAt_singleton, filt_xl_en_of_key, List.append_assoc, List.cons_append,
    List.nil_append]

theorem filt_path_set_eq (regs : Nat → Nat) (log : List Txn) (status : Nat → Int)
    (hs : ∀ n, status n = 0) (val : Nat) :
    iis3dwb_xl_filt_path_on_out_set (some devCtx) val ⟨regs, log, status⟩ =
      ((0 : Int),
        (⟨Function.update
          (Function.update regs IIS3DWB_CTRL1_XL
            ({ iis3dwb_ctrl1_xl_t.ofByte (regs IIS3DWB_CTRL1_XL % 256) with
                lpf2_xl_en := val / 128 % 2 }).toByte)
          IIS3DWB_CTRL8_XL
          ({ iis3dwb_ctrl8_xl_t.ofByte (regs IIS3DWB_CTRL8_XL % 256) with
              fds := val / 16 % 2, hp_ref_mode_xl := val / 32 % 2, hpcf_xl := val % 8 }).toByte,
        log ++ [Txn.read IIS3DWB_CTRL1_XL 1,
          Txn.write IIS3DWB_CTRL1_XL
            [({ iis3dwb_ctrl1_xl_t.ofByte (regs IIS3DWB_CTRL1_XL % 256) with
                lpf2_xl_en := val / 128 % 2 }).toByte] 1,
          Txn.read IIS3DWB_CTRL8_XL 1,
          Txn.write IIS3DWB_CTRL8_XL
            [({ iis3dwb_ctrl8_xl_t.ofByte (regs IIS3DWB_CTRL8_XL % 256) with
                fds := val / 16 % 2, hp_ref_mode_xl := val / 32 % 2,
                hpcf_xl := val % 8 }).toByte] 1],
        status⟩ : Device)) := by
  have e1 : ((val % 256 &&& 0x80) >>> 7) % 2 = val / 128 % 2 := by rw [and_80_shr]; omega
  have e2 : ((val % 256 &&& 0x10) >>> 4) % 2 = val / 16 % 2 := by rw [and_10_shr]; omega
  have e3 : ((val % 256 &&& 0x20) >>> 5) % 2 = val / 32 % 2 := by rw [and_20_shr]; omega
  have e4 : (val % 256 &&& 0x07) % 8 = val % 8 := by rw [and_07]; omega
  have ne : IIS3DWB_CTRL8_XL ≠ IIS3DWB_CTRL1_XL := by decide
  simp only [iis3dwb_xl_filt_path_on_out_set, dev_read1 _ _ _ hs, dev_write1 _ _ _ hs, if_true,
    byteAt_singleton, e1, e2, e3, e4, Function.update_noteq ne, List.append_assoc,
    List.cons_append, List.nil_append]

/-- What `iis3dwb_xl_filt_path_on_out_get` answers after
`iis3dwb_xl_filt_path_on_out_set val`, on a working transport: both calls return 0 and
the value is the `switch` applied to bits 7, 5, 4 and 2-0 of `val`. -/
theorem filt_path_get_after_set (d : Device) (val : Nat) (hok : d.alwaysOk) :
    (iis3dwb_xl_filt_path_on_out_set (some devCtx) val d).1 = 0 ∧
    (iis3dwb_xl_filt_path_on_out_get (some devCtx)
      (iis3dwb_xl_filt_path_on_out_set (some devCtx) val d).2).1 = 0 ∧
    (iis3dwb_xl_filt_path_on_out_get (some devCtx)
      (iis3dwb_xl_filt_path_on_out_set (some devCtx) val d).2).2.1 =
      filt_xl_en_of_key
        (128 * (val / 128 % 2) + 32 * (val / 32 % 2) + 16 * (val / 16 % 2) + val % 8) := by
  obtain ⟨regs, log, status⟩ := d
  have hs : ∀ n, status n = 0 := hok
  have ne : IIS3DWB_CTRL1_XL ≠ IIS3DWB_CTRL8_XL := by decide
  have w1 := ctrl1_xl_ofByte_WF (regs IIS3DWB_CTRL1_XL % 256)
  have w8 := ctrl8_xl_ofByte_WF (regs IIS3DWB_CTRL8_XL % 256)
  have r1 := ctrl1_xl_ofByte_toByte
    { iis3dwb_ctrl1_xl_t.ofByte (regs IIS3DWB_CTRL1_XL % 256) with
      lpf2_xl_en := val / 128 % 2 }
    ⟨w1.1, Nat.mod_lt _ (by decide), w1.2.2.1, w1.2.2.2.1, w1.2.2.2.2⟩
  have r8 := ctrl8_xl_ofByte_toByte
    { iis3dwb_ctrl8_xl_t.ofByte (regs IIS3DWB_CTRL8_XL % 256) with
      fds := val / 16 % 2, hp_ref_mode_xl := val / 32 % 2, hpcf_xl := val % 8 }
    ⟨w8.1, Nat.mod_lt _ (by decide), w8.2.2.1, Nat.mod_lt _ (by decide),
      Nat.mod_lt _ (by decide)⟩
  rw [filt_path_set_eq regs log status hs val]
  simp only [filt_path_get_eq _ _ _ hs, Function.update_same, Function.update_noteq ne, r1, r8,
    Nat.shiftLeft_eq, true_and]
  congr 1
  omega

/-! ## C10: filter-path selection -/

/-- C10 (the code at the failing input). On a device whose registers all hold 0 and a
transport that succeeds, `iis3dwb_xl_filt_path_on_out_set (IIS3DWB_SLOPE_ODR_DIV_4)`
returns 0 and leaves CTRL1_XL = 0x00 and CTRL8_XL = 0x04 (key 0x10), and the following
`iis3dwb_xl_filt_path_on_out_get` returns status 0 and `IIS3DWB_HP_REF_MODE`, not
`IIS3DWB_SLOPE_ODR_DIV_4`: the `switch` of the getter has no case for that variant. -/
theorem filt_path_slope_odr_div_4_not_read_back :
    (iis3dwb_xl_filt_path_on_out_set (some devCtx)
      iis3dwb_filt_xl_en_t.IIS3DWB_SLOPE_ODR_DIV_4.toNat (Device.fresh (fun _ => 0))).1 = 0 ∧
    (iis3dwb_xl_filt_path_on_out_set (some devCtx)
      iis3dwb_filt_xl_en_t.IIS3DWB_SLOPE_ODR_DIV_4.toNat
      (Device.fresh (fun _ => 0))).2.regs IIS3DWB_CTRL1_XL = 0x00 ∧
    (iis3dwb_xl_filt_path_on_out_set (some devCtx)
      iis3dwb_filt_xl_en_t.IIS3DWB_SLOPE_ODR_DIV_4.toNat
      (Device.fresh (fun _ => 0))).2.regs IIS3DWB_CTRL8_XL = 0x04 ∧
    (iis3dwb_xl_filt_path_on_out_get (some devCtx)
      (iis3dwb_xl_filt_path_on_out_set (some devCtx)
        iis3dwb_filt_xl_en_t.IIS3DWB_SLOPE_ODR_DIV_4.toNat
        (Device.fresh (fun _ => 0))).2).1 = 0 ∧
    (iis3dwb_xl_filt_path_on_out_get (some devCtx)
      (iis3dwb_xl_filt_path_on_out_set (some devCtx)
        iis3dwb_filt_xl_en_t.IIS3DWB_SLOPE_ODR_DIV_4.toNat
        (Device.fresh (fun _ => 0))).2).2.1 = iis3dwb_filt_xl_en_t.IIS3DWB_HP_REF_MODE := by
  decide

/-- Every declared variant other than `IIS3DWB_SLOPE_ODR_DIV_4` is read back: for every
device state, on a transport that always succeeds, `iis3dwb_xl_filt_path_on_out_set v`
followed by `iis3dwb_xl_filt_path_on_out_get` returns status 0 and `v`. -/
theorem filt_path_round_trip_except_slope (d : Device) (v : iis3dwb_filt_xl_en_t)
    (hok : d.alwaysOk) (hv : v ≠ iis3dwb_filt_xl_en_t.IIS3DWB_SLOPE_ODR_DIV_4) :
    (iis3dwb_xl_filt_path_on_out_set (some devCtx) v.toNat d).1 = 0 ∧
    (iis3dwb_xl_filt_path_on_out_get (some devCtx)
      (iis3dwb_xl_filt_path_on_out_set (some devCtx) v.toNat d).2).1 = 0 ∧
    (iis3dwb_xl_filt_path_on_out_get (some devCtx)
      (iis3dwb_xl_filt_path_on_out_set (some devCtx) v.toNat d).2).2.1 = v := by
  obtain ⟨h1, h2, h3⟩ := filt_path_get_after_set d v.toNat hok
  refine ⟨h1, h2, ?_⟩
  rw [h3]
  cases v
  · exact absurd rfl hv
  all_goals decide

/-! ## Fail-fast and read-only runs: transactions and their composition -/

theorem ff_read (d : Device) (reg len : Nat) :
    FailFastRun d (iis3dwb_read_reg (some devCtx) reg len d).1
      (iis3dwb_read_reg (some devCtx) reg len d).2.2 := by
  obtain ⟨regs, log, status⟩ := d
  simp only [iis3dwb_read_reg, devCtx, Device.read, FailFastRun]
  split_ifs with h
  · refine ⟨rfl, ⟨_, rfl⟩, ?_⟩
    intro k h1 h2 h3
    simp only [List.length_append, List.length_singleton] at h2
    have : k = log.length := by omega
    subst this
    exact absurd h h3
  · refine ⟨rfl, ⟨_, rfl⟩, ?_⟩
    intro k h1 h2 h3
    simp only [List.length_append, List.length_singleton] at h2
    have : k = log.length := by omega
    subst this
    exact ⟨by simp, rfl⟩

theorem ff_write (d : Device) (reg : Nat) (data : List Nat) (len : Nat) :
    FailFastRun d (iis3dwb_write_reg (some devCtx) reg data len d).1
      (iis3dwb_write_reg (some devCtx) reg data len d).2 := by
  obtain ⟨regs, log, status⟩ := d
  simp only [iis3dwb_write_reg, devCtx, Device.write, FailFastRun]
  split_ifs with h
  · refine ⟨rfl, ⟨_, rfl⟩, ?_⟩
    intro k h1 h2 h3
    simp only [List.length_append, List.length_singleton] at h2
    have : k = log.length := by omega
    subst this
    exact absurd h h3
  · refine ⟨rfl, ⟨_, rfl⟩, ?_⟩
    intro k h1 h2 h3
    simp only [List.length_append, List.length_singleton] at h2
    have : k = log.length := by omega
    subst this
    exact ⟨by simp, rfl⟩

theorem ff_seq {d d1 d2 : Device} {r : Int} (h1 : FailFastRun d 0 d1)
    (h2 : FailFastRun d1 r d2) : FailFastRun d r d2 := by
  obtain ⟨hs1, ⟨l1, hl1⟩, hk1⟩ := h1
  obtain ⟨hs2, ⟨l2, hl2⟩, hk2⟩ := h2
  refine ⟨hs2.trans hs1, ⟨l1 ++ l2, by rw [hl2, hl1, List.append_assoc]⟩, ?_⟩
  intro k hk hk' hne
  by_cases hlt : k < d1.log.length
  · exact absurd (hk1 k hk hlt hne).2.symm hne
  · have := hk2 k (by omega) hk' (by rw [hs1]; exact hne)
    rw [hs1] at this
    exact this

theorem ro_read (d : Device) (reg len : Nat) :
    ReadsOnly d (iis3dwb_read_reg (some devCtx) reg len d).2.2 := by
  obtain ⟨regs, log, status⟩ := d
  simp only [iis3dwb_read_reg, devCtx, Device.read, ReadsOnly]
  split_ifs with h
  · exact ⟨rfl, _, rfl, fun t ht => ⟨reg, len, List.mem_singleton.mp ht⟩⟩
  · exact ⟨rfl, _, rfl, fun t ht => ⟨reg, len, List.mem_singleton.mp ht⟩⟩

theorem ro_seq {d d1 d2 : Device} (h1 : ReadsOnly d d1) (h2 : ReadsOnly d1 d2) :
    ReadsOnly d d2 := by
  obtain ⟨hr1, l1, hl1, hm1⟩ := h1
  obtain ⟨hr2, l2, hl2, hm2⟩ := h2
  refine ⟨hr2.trans hr1, l1 ++ l2, by rw [hl2, hl1, List.append_assoc], ?_⟩
  intro t ht
  rcases List.mem_append.mp ht with h | h
  · exact hm1 t h
  · exact hm2 t h

theorem gr_read (d : Device) (reg len : Nat) :
    GetterRun d (iis3dwb_read_reg (some devCtx) reg len d).1
      (iis3dwb_read_reg (some devCtx) reg len d).2.2 :=
  ⟨ff_read d reg len, ro_read d reg len⟩

theorem gr_seq {d d1 d2 : Device} {r : Int} (h1 : GetterRun d 0 d1)
    (h2 : GetterRun d1 r d2) : GetterRun d r d2 :=
  ⟨ff_seq h1.1 h2.1, ro_seq h1.2 h2.2⟩

/-- Setter shape: a read, then on status 0 the continuation `K`. -/
theorem ff_read_then (d : Device) (r : Int × List Nat × Device)
    (hr : FailFastRun d r.1 r.2.2) (K : List Nat → Device → Int × Device)
    (hK : ∀ buf s, FailFastRun s (K buf s).1 (K buf s).2) :
    FailFastRun d
      (match r with | (ret, buf, s1) => if ret = 0 then K buf s1 else (ret, s1)).1
      (match r with | (ret, buf, s1) => if ret = 0 then K buf s1 else (ret, s1)).2 := by
  obtain ⟨ret, buf, s1⟩ := r
  by_cases hz : ret = 0
  · subst hz
    simp only [if_true]
    exact ff_seq hr (hK buf s1)
  · simp only [hz, if_false]
    exact hr

/-- Setter shape: a read, an early return on a non-zero status, else `K`. -/
theorem ff_read_else (d : Device) (r : Int × List Nat × Device)
    (hr : FailFastRun d r.1 r.2.2) (K : List Nat → Device → Int × Device)
    (hK : ∀ buf s, FailFastRun s (K buf s).1 (K buf s).2) :
    FailFastRun d
      (match r with | (ret, buf, s1) => if ret ≠ 0 then (ret, s1) else K buf s1).1
      (match r with | (ret, buf, s1) => if ret ≠ 0 then (ret, s1) else K buf s1).2 := by
  obtain ⟨ret, buf, s1⟩ := r
  by_cases hz : ret = 0
  · subst hz
    simp only [ne_eq, not_true_eq_false, if_false]
    exact ff_seq hr (hK buf s1)
  · simp only [ne_eq, hz, not_false_eq_true, if_true]
    exact hr

/-- Setter shape: a write, then on status 0 the continuation `K`. -/
theorem ff_write_then (d : Device) (r : Int × Device)
    (hr : FailFastRun d r.1 r.2) (K : Device → Int × Device)
    (hK : ∀ s, FailFastRun s (K s).1 (K s).2) :
    FailFastRun d
      (match r with | (ret, s2) => if ret = 0 then K s2 else (ret, s2)).1
      (match r with | (ret, s2) => if ret = 0 then K s2 else (ret, s2)).2 := by
  obtain ⟨ret, s2⟩ := r
  by_cases hz : ret = 0
  · subst hz
    simp only [if_true]
    exact ff_seq hr (hK s2)
  · simp only [hz, if_false]
    exact hr

/-- Setter shape: a write, an early return on a non-zero status, else `K`. -/
theorem ff_write_else (d : Device) (r : Int × Device)
    (hr : FailFastRun d r.1 r.2) (K : Device → Int × Device)
    (hK : ∀ s, FailFastRun s (K s).1 (K s).2) :
    FailFastRun d
      (match r with | (ret, s2) => if ret ≠ 0 then (ret, s2) else K s2).1
      (match r with | (ret, s2) => if ret ≠ 0 then (ret, s2) else K s2).2 := by
  obtain ⟨ret, s2⟩ := r
  by_cases hz : ret = 0
  · subst hz
    simp only [ne_eq, not_true_eq_false, if_false]
    exact ff_seq hr (hK s2)
  · simp only [ne_eq, hz, not_false_eq_true, if_true]
    exact hr

/-! ## Every setter is fail-fast; every getter is fail-fast and read-only -/

theorem gr_chain {d d1 d2 : Device} {r0 r : Int} (h1 : GetterRun d r0 d1) (hz : r0 = 0)
    (h2 : GetterRun d1 r d2) : GetterRun d r d2 := by
  subst hz
  exact gr_seq h1 h2

theorem setters_fail_fast (d : Device) (val : Nat) (buff : List Nat)
    (r1 : iis3dwb_pin_int1_route_t) (r2 : iis3dwb_pin_int2_route_t) :
    SetterFailsFast (iis3dwb_xl_full_scale_set (some devCtx) val) d ∧
    SetterFailsFast (iis3dwb_xl_data_rate_set (some devCtx) val) d ∧
    SetterFailsFast (iis3dwb_block_data_update_set (some devCtx) val) d ∧
    SetterFailsFast (iis3dwb_xl_offset_weight_set (some devCtx) val) d ∧
    SetterFailsFast (iis3dwb_usr_offset_block_set (some devCtx) val) d ∧
    SetterFailsFast (iis3dwb_timestamp_set (some devCtx) val) d ∧
    SetterFailsFast (iis3dwb_rounding_mode_set (some devCtx) val) d ∧
    SetterFailsFast (iis3dwb_odr_cal_reg_set (some devCtx) val) d ∧
    SetterFailsFast (iis3dwb_data_ready_mode_set (some devCtx) val) d ∧
    SetterFailsFast (iis3dwb_reset_set (some devCtx) val) d ∧
    SetterFailsFast (iis3dwb_auto_increment_set (some devCtx) val) d ∧
    SetterFailsFast (iis3dwb_boot_set (some devCtx) val) d ∧
    SetterFailsFast (iis3dwb_xl_self_test_set (some devCtx) val) d ∧
    SetterFailsFast (iis3dwb_filter_settling_mask_set (some devCtx) val) d ∧
    SetterFailsFast (iis3dwb_xl_fast_settling_set (some devCtx) val) d ∧
    SetterFailsFast (iis3dwb_xl_hp_path_internal_set (some devCtx) val) d ∧
    SetterFailsFast (iis3dwb_sdo_sa0_mode_set (some devCtx) val) d ∧
    SetterFailsFast (iis3dwb_spi_mode_set (some devCtx) val) d ∧
    SetterFailsFast (iis3dwb_i2c_interface_set (some devCtx) val) d ∧
    SetterFailsFast (iis3dwb_pin_mode_set (some devCtx) val) d ∧
    SetterFailsFast (iis3dwb_pin_polarity_set (some devCtx) val) d ∧
    SetterFailsFast (iis3dwb_all_on_int1_set (some devCtx) val) d ∧
    SetterFailsFast (iis3dwb_int_notification_set (some devCtx) val) d ∧
    SetterFailsFast (iis3dwb_wkup_ths_weight_set (some devCtx) val) d ∧
    SetterFailsFast (iis3dwb_xl_usr_offset_on_wkup_set (some devCtx) val) d ∧
    SetterFailsFast (iis3dwb_wkup_dur_set (some devCtx) val) d ∧
    SetterFailsFast (iis3dwb_act_sleep_dur_set (some devCtx) val) d ∧
    SetterFailsFast (iis3dwb_fifo_stop_on_wtm_set (some devCtx) val) d ∧
    SetterFailsFast (iis3dwb_fifo_xl_batch_set (some devCtx) val) d ∧
    SetterFailsFast (iis3dwb_fifo_mode_set (some devCtx) val) d ∧
    SetterFailsFast (iis3dwb_fifo_temp_batch_set (some devCtx) val) d ∧
    SetterFailsFast (iis3dwb_fifo_timestamp_batch_set (some devCtx) val) d ∧
    SetterFailsFast (iis3dwb_rst_batch_counter_set (some devCtx) val) d ∧
    SetterFailsFast (iis3dwb_xl_axis_selection_set (some devCtx) val) d ∧
    SetterFailsFast (iis3dwb_xl_filt_path_on_out_set (some devCtx) val) d ∧
    SetterFailsFast (iis3dwb_wkup_threshold_set (some devCtx) val) d ∧
    SetterFailsFast (iis3dwb_fifo_watermark_set (some devCtx) val) d ∧
    SetterFailsFast (iis3dwb_batch_counter_threshold_set (some devCtx) val) d ∧
    SetterFailsFast (iis3dwb_pin_int1_route_set (some devCtx) r1) d ∧
    SetterFailsFast (iis3dwb_pin_int2_route_set (some devCtx) r2) d ∧
    SetterFailsFast (iis3dwb_xl_usr_offset_x_set (some devCtx) buff) d ∧
    SetterFailsFast (iis3dwb_xl_usr_offset_y_set (some devCtx) buff) d ∧
    SetterFailsFast (iis3dwb_xl_usr_offset_z_set (some devCtx) buff) d ∧
    SetterFailsFast (iis3dwb_timestamp_rst (some devCtx)) d := by
  refine ⟨?_, ?_, ?_, ?_, ?_, ?_, ?_, ?_, ?_, ?_, ?_, ?_, ?_, ?_, ?_, ?_, ?_, ?_, ?_, ?_, ?_,
    ?_, ?_, ?_, ?_, ?_, ?_, ?_, ?_, ?_, ?_, ?_, ?_, ?_, ?_, ?_, ?_, ?_, ?_, ?_, ?_, ?_, ?_, ?_⟩
  · unfold SetterFailsFast iis3dwb_xl_full_scale_set
    exact ff_read_then d _ (ff_read d _ _) _ (fun _ s => ff_write s _ _ _)
  · unfold SetterFailsFast iis3dwb_xl_data_rate_set
    exact ff_read_then d _ (ff_read d _ _) _ (fun _ s => ff_write s _ _ _)
  · unfold SetterFailsFast iis3dwb_block_data_update_set
    exact ff_read_then d _ (ff_read d _ _) _ (fun _ s => ff_write s _ _ _)
  · unfold SetterFailsFast iis3dwb_xl_offset_weight_set
    exact ff_read_then d _ (ff_read d _ _) _ (fun _ s => ff_write s _ _ _)
  · unfold SetterFailsFast iis3dwb_usr_offset_block_set
    exact ff_read_then d _ (ff_read d _ _) _ (fun _ s => ff_write s _ _ _)
  · unfold SetterFailsFast iis3dwb_timestamp_set
    exact ff_read_then d _ (ff_read d _ _) _ (fun _ s => ff_write s _ _ _)
  · unfold SetterFailsFast iis3dwb_rounding_mode_set
    exact ff_read_then d _ (ff_read d _ _) _ (fun _ s => ff_write s _ _ _)
  · unfold SetterFailsFast iis3dwb_odr_cal_reg_set
    exact ff_read_then d _ (ff_read d _ _) _ (fun _ s => ff_write s _ _ _)
  · unfold SetterFailsFast iis3dwb_data_ready_mode_set
    exact ff_read_then d _ (ff_read d _ _) _ (fun _ s => ff_write s _ _ _)
  · unfold SetterFailsFast iis3dwb_reset_set
    exact ff_read_then d _ (ff_read d _ _) _ (fun _ s => ff_write s _ _ _)
  · unfold SetterFailsFast iis3dwb_auto_increment_set
    exact ff_read_then d _ (ff_read d _ _) _ (fun _ s => ff_write s _ _ _)
  · unfold SetterFailsFast iis3dwb_boot_set
    exact ff_read_then d _ (ff_read d _ _) _ (fun _ s => ff_write s _ _ _)
  · unfold SetterFailsFast iis3dwb_xl_self_test_set
    exact ff_read_then d _ (ff_read d _ _) _ (fun _ s => ff_write s _ _ _)
  · unfold SetterFailsFast iis3dwb_filter_settling_mask_set
    exact ff_read_then d _ (ff_read d _ _) _ (fun _ s => ff_write s _ _ _)
  · unfold SetterFailsFast iis3dwb_xl_fast_settling_set
    exact ff_read_then d _ (ff_read d _ _) _ (fun _ s => ff_write s _ _ _)
  · unfold SetterFailsFast iis3dwb_xl_hp_path_internal_set
    exact ff_read_then d _ (ff_read d _ _) _ (fun _ s => ff_write s _ _ _)
  · unfold SetterFailsFast iis3dwb_sdo_sa0_mode_set
    exact ff_read_then d _ (ff_read d _ _) _ (fun _ s => ff_write s _ _ _)
  · unfold SetterFailsFast iis3dwb_spi_mode_set
    exact ff_read_then d _ (ff_read d _ _) _ (fun _ s => ff_write s _ _ _)
  · unfold SetterFailsFast iis3dwb_i2c_interface_set
    exact ff_read_then d _ (ff_read d _ _) _ (fun _ s => ff_write s _ _ _)
  · unfold SetterFailsFast iis3dwb_pin_mode_set
    exact ff_read_then d _ (ff_read d _ _) _ (fun _ s => ff_write s _ _ _)
  · unfold SetterFailsFast iis3dwb_pin_polarity_set
    exact ff_read_then d _ (ff_read d _ _) _ (fun _ s => ff_write s _ _ _)
  · unfold SetterFailsFast iis3dwb_all_on_int1_set
    exact ff_read_then d _ (ff_read d _ _) _ (fun _ s => ff_write s _ _ _)
  · unfold SetterFailsFast iis3dwb_int_notification_set
    exact ff_read_then d _ (ff_read d _ _) _ (fun _ s => ff_write s _ _ _)
  · unfold SetterFailsFast iis3dwb_wkup_ths_weight_set
    exact ff_read_then d _ (ff_read d _ _) _ (fun _ s => ff_write s _ _ _)
  · unfold SetterFailsFast iis3dwb_xl_usr_offset_on_wkup_set
    exact ff_read_then d _ (ff_read d _ _) _ (fun _ s => ff_write s _ _ _)
  · unfold SetterFailsFast iis3dwb_wkup_dur_set
    exact ff_read_then d _ (ff_read d _ _) _ (fun _ s => ff_write s _ _ _)
  · unfold SetterFailsFast iis3dwb_act_sleep_dur_set
    exact ff_read_then d _ (ff_read d _ _) _ (fun _ s => ff_write s _ _ _)
  · unfold SetterFailsFast iis3dwb_fifo_stop_on_wtm_set
    exact ff_read_then d _ (ff_read d _ _) _ (fun _ s => ff_write s _ _ _)
  · unfold SetterFailsFast iis3dwb_fifo_xl_batch_set
    exact ff_read_then d _ (ff_read d _ _) _ (fun _ s => ff_write s _ _ _)
  · unfold SetterFailsFast iis3dwb_fifo_mode_set
    exact ff_read_then d _ (ff_read d _ _) _ (fun _ s => ff_write s _ _ _)
  · unfold SetterFailsFast iis3dwb_fifo_temp_batch_set
    exact ff_read_then d _ (ff_read d _ _) _ (fun _ s => ff_write s _ _ _)
  · unfold SetterFailsFast iis3dwb_fifo_timestamp_batch_set
    exact ff_read_then d _ (ff_read d _ _) _ (fun _ s => ff_write s _ _ _)
  · unfold SetterFailsFast iis3dwb_rst_batch_counter_set
    exact ff_read_then d _ (ff_read d _ _) _ (fun _ s => ff_write s _ _ _)
  · unfold SetterFailsFast iis3dwb_xl_axis_selection_set
    exact ff_read_then d _ (ff_read d _ _) _ (fun _ s =>
      ff_write_then s _ (ff_write s _ _ _) _ (fun s =>
        ff_read_then s _ (ff_read s _ _) _ (fun _ s => ff_write s _ _ _)))
  · unfold SetterFailsFast iis3dwb_xl_filt_path_on_out_set
    exact ff_read_then d _ (ff_read d _ _) _ (fun _ s =>
      ff_write_then s _ (ff_write s _ _ _) _ (fun s =>
        ff_read_then s _ (ff_read s _ _) _ (fun _ s => ff_write s _ _ _)))
  · unfold SetterFailsFast iis3dwb_wkup_threshold_set
    exact ff_read_then d _ (ff_read d _ _) _ (fun _ s =>
      ff_write_then s _ (ff_write s _ _ _) _ (fun s =>
        ff_read_then s _ (ff_read s _ _) _ (fun _ s => ff_write s _ _ _)))
  · unfold SetterFailsFast iis3dwb_fifo_watermark_set
    exact ff_read_then d _ (ff_read d _ _) _ (fun _ s =>
      ff_write_then s _ (ff_write s _ _ _) _ (fun s => ff_write s _ _ _))
  · unfold SetterFailsFast iis3dwb_batch_counter_threshold_set
    exact ff_read_then d _ (ff_read d _ _) _ (fun _ s =>
      ff_write_then s _ (ff_write s _ _ _) _ (fun s => ff_write s _ _ _))
  · unfold SetterFailsFast iis3dwb_pin_int1_route_set
    exact ff_read_else d _ (ff_read d _ _) _ (fun _ s =>
      ff_read_else s _ (ff_read s _ _) _ (fun _ s =>
        ff_read_else s _ (ff_read s _ _) _ (fun _ s =>
          ff_write_else s _ (ff_write s _ _ _) _ (fun s =>
            ff_write_else s _ (ff_write s _ _ _) _ (fun s => ff_write s _ _ _)))))
  · unfold SetterFailsFast iis3dwb_pin_int2_route_set
    exact ff_read_else d _ (ff_read d _ _) _ (fun _ s =>
      ff_read_else s _ (ff_read s _ _) _ (fun _ s =>
        ff_read_else s _ (ff_read s _ _) _ (fun _ s =>
          ff_write_else s _ (ff_write s _ _ _) _ (fun s =>
            ff_write_else s _ (ff_write s _ _ _) _ (fun s => ff_write s _ _ _)))))
  · unfold SetterFailsFast iis3dwb_xl_usr_offset_x_set
    exact ff_write d _ _ _
  · unfold SetterFailsFast iis3dwb_xl_usr_offset_y_set
    exact ff_write d _ _ _
  · unfold SetterFailsFast iis3dwb_xl_usr_offset_z_set
    exact ff_write d _ _ _
  · unfold SetterFailsFast iis3dwb_timestamp_rst
    exact ff_write d _ _ _

theorem getters_run (d : Device) (src0 : iis3dwb_all_sources_t)
    (st0 : iis3dwb_status_reg_t) (lvl0 num : Nat) :
    GetterRun d ((iis3dwb_xl_full_scale_get (some devCtx)) d).1 ((iis3dwb_xl_full_scale_get (some devCtx)) d).2.2 ∧
    GetterRun d ((iis3dwb_xl_data_rate_get (some devCtx)) d).1 ((iis3dwb_xl_data_rate_get (some devCtx)) d).2.2 ∧
    GetterRun d ((iis3dwb_block_data_update_get (some devCtx)) d).1 ((iis3dwb_block_data_update_get (some devCtx)) d).2.2 ∧
    GetterRun d ((iis3dwb_xl_offset_weight_get (some devCtx)) d).1 ((iis3dwb_xl_offset_weight_get (some devCtx)) d).2.2 ∧
    GetterRun d ((iis3dwb_xl_axis_selection_get (some devCtx)) d).1 ((iis3dwb_xl_axis_selection_get (some devCtx)) d).2.2 ∧
    GetterRun d ((iis3dwb_all_sources_get (some devCtx) src0) d).1 ((iis3dwb_all_sources_get (some devCtx) src0) d).2.2 ∧
    GetterRun d ((iis3dwb_status_reg_get (some devCtx) st0) d).1 ((iis3dwb_status_reg_get (some devCtx) st0) d).2.2 ∧
    GetterRun d ((iis3dwb_xl_flag_data_ready_get (some devCtx)) d).1 ((iis3dwb_xl_flag_data_ready_get (some devCtx)) d).2.2 ∧
    GetterRun d ((iis3dwb_temp_flag_data_ready_get (some devCtx)) d).1 ((iis3dwb_temp_flag_data_ready_get (some devCtx)) d).2.2 ∧
    GetterRun d ((iis3dwb_usr_offset_block_get (some devCtx)) d).1 ((iis3dwb_usr_offset_block_get (some devCtx)) d).2.2 ∧
    GetterRun d ((iis3dwb_xl_usr_offset_x_get (some devCtx)) d).1 ((iis3dwb_xl_usr_offset_x_get (some devCtx)) d).2.2 ∧
    GetterRun d ((iis3dwb_xl_usr_offset_y_get (some devCtx)) d).1 ((iis3dwb_xl_usr_offset_y_get (some devCtx)) d).2.2 ∧
    GetterRun d ((iis3dwb_xl_usr_offset_z_get (some devCtx)) d).1 ((iis3dwb_xl_usr_offset_z_get (some devCtx)) d).2.2 ∧
    GetterRun d ((iis3dwb_timestamp_get (some devCtx)) d).1 ((iis3dwb_timestamp_get (some devCtx)) d).2.2 ∧
    GetterRun d ((iis3dwb_timestamp_raw_get (some devCtx)) d).1 ((iis3dwb_timestamp_raw_get (some devCtx)) d).2.2 ∧
    GetterRun d ((iis3dwb_rounding_mode_get (some devCtx)) d).1 ((iis3dwb_rounding_mode_get (some devCtx)) d).2.2 ∧
    GetterRun d ((iis3dwb_temperature_raw_get (some devCtx)) d).1 ((iis3dwb_temperature_raw_get (some devCtx)) d).2.2 ∧
    GetterRun d ((iis3dwb_acceleration_raw_get (some devCtx)) d).1 ((iis3dwb_acceleration_raw_get (some devCtx)) d).2.2 ∧
    GetterRun d ((iis3dwb_fifo_out_raw_get (some devCtx)) d).1 ((iis3dwb_fifo_out_raw_get (some devCtx)) d).2.2 ∧
    GetterRun d ((iis3dwb_fifo_out_multi_raw_get (some devCtx) num) d).1 ((iis3dwb_fifo_out_multi_raw_get (some devCtx) num) d).2.2 ∧
    GetterRun d ((iis3dwb_fifo_sensor_tag_get (some devCtx)) d).1 ((iis3dwb_fifo_sensor_tag_get (some devCtx)) d).2.2 ∧
    GetterRun d ((iis3dwb_odr_cal_reg_get (some devCtx)) d).1 ((iis3dwb_odr_cal_reg_get (some devCtx)) d).2.2 ∧
    GetterRun d ((iis3dwb_data_ready_mode_get (some devCtx)) d).1 ((iis3dwb_data_ready_mode_get (some devCtx)) d).2.2 ∧
    GetterRun d ((iis3dwb_device_id_get (some devCtx)) d).1 ((iis3dwb_device_id_get (some devCtx)) d).2.2 ∧
    GetterRun d ((iis3dwb_reset_get (some devCtx)) d).1 ((iis3dwb_reset_get (some devCtx)) d).2.2 ∧
    GetterRun d ((iis3dwb_auto_increment_get (some devCtx)) d).1 ((iis3dwb_auto_increment_get (some devCtx)) d).2.2 ∧
    GetterRun d ((iis3dwb_boot_get (some devCtx)) d).1 ((iis3dwb_boot_get (some devCtx)) d).2.2 ∧
    GetterRun d ((iis3dwb_xl_self_test_get (some devCtx)) d).1 ((iis3dwb_xl_self_test_get (some devCtx)) d).2.2 ∧
    GetterRun d ((iis3dwb_filter_settling_mask_get (some devCtx)) d).1 ((iis3dwb_filter_settling_mask_get (some devCtx)) d).2.2 ∧
    GetterRun d ((iis3dwb_xl_filt_path_on_out_get (some devCtx)) d).1 ((iis3dwb_xl_filt_path_on_out_get (some devCtx)) d).2.2 ∧
    GetterRun d ((iis3dwb_xl_fast_settling_get (some devCtx)) d).1 ((iis3dwb_xl_fast_settling_get (some devCtx)) d).2.2 ∧
    GetterRun d ((iis3dwb_xl_hp_path_internal_get (some devCtx)) d).1 ((iis3dwb_xl_hp_path_internal_get (some devCtx)) d).2.2 ∧
    GetterRun d ((iis3dwb_sdo_sa0_mode_get (some devCtx)) d).1 ((iis3dwb_sdo_sa0_mode_get (some devCtx)) d).2.2 ∧
    GetterRun d ((iis3dwb_spi_mode_get (some devCtx)) d).1 ((iis3dwb_spi_mode_get (some devCtx)) d).2.2 ∧
    GetterRun d ((iis3dwb_i2c_interface_get (some devCtx)) d).1 ((iis3dwb_i2c_interface_get (some devCtx)) d).2.2 ∧
    GetterRun d ((iis3dwb_pin_int1_route_get (some devCtx)) d).1 ((iis3dwb_pin_int1_route_get (some devCtx)) d).2.2 ∧
    GetterRun d ((iis3dwb_pin_int2_route_get (some devCtx)) d).1 ((iis3dwb_pin_int2_route_get (some devCtx)) d).2.2 ∧
    GetterRun d ((iis3dwb_pin_mode_get (some devCtx)) d).1 ((iis3dwb_pin_mode_get (some devCtx)) d).2.2 ∧
    GetterRun d ((iis3dwb_pin_polarity_get (some devCtx)) d).1 ((iis3dwb_pin_polarity_get (some devCtx)) d).2.2 ∧
    GetterRun d ((iis3dwb_all_on_int1_get (some devCtx)) d).1 ((iis3dwb_all_on_int1_get (some devCtx)) d).2.2 ∧
    GetterRun d ((iis3dwb_int_notification_get (some devCtx)) d).1 ((iis3dwb_int_notification_get (some devCtx)) d).2.2 ∧
    GetterRun d ((iis3dwb_wkup_ths_weight_get (some devCtx)) d).1 ((iis3dwb_wkup_ths_weight_get (some devCtx)) d).2.2 ∧
    GetterRun d ((iis3dwb_wkup_threshold_get (some devCtx)) d).1 ((iis3dwb_wkup_threshold_get (some devCtx)) d).2.2 ∧
    GetterRun d ((iis3dwb_xl_usr_offset_on_wkup_get (some devCtx)) d).1 ((iis3dwb_xl_usr_offset_on_wkup_get (some devCtx)) d).2.2 ∧
    GetterRun d ((iis3dwb_wkup_dur_get (some devCtx)) d).1 ((iis3dwb_wkup_dur_get (some devCtx)) d).2.2 ∧
    GetterRun d ((iis3dwb_act_sleep_dur_get (some devCtx)) d).1 ((iis3dwb_act_sleep_dur_get (some devCtx)) d).2.2 ∧
    GetterRun d ((iis3dwb_fifo_watermark_get (some devCtx)) d).1 ((iis3dwb_fifo_watermark_get (some devCtx)) d).2.2 ∧
    GetterRun d ((iis3dwb_fifo_stop_on_wtm_get (some devCtx)) d).1 ((iis3dwb_fifo_stop_on_wtm_get (some devCtx)) d).2.2 ∧
    GetterRun d ((iis3dwb_fifo_xl_batch_get (some devCtx)) d).1 ((iis3dwb_fifo_xl_batch_get (some devCtx)) d).2.2 ∧
    GetterRun d ((iis3dwb_fifo_mode_get (some devCtx)) d).1 ((iis3dwb_fifo_mode_get (some devCtx)) d).2.2 ∧
    GetterRun d ((iis3dwb_fifo_temp_batch_get (some devCtx)) d).1 ((iis3dwb_fifo_temp_batch_get (some devCtx)) d).2.2 ∧
    GetterRun d ((iis3dwb_fifo_timestamp_batch_get (some devCtx)) d).1 ((iis3dwb_fifo_timestamp_batch_get (some devCtx)) d).2.2 ∧
    GetterRun d ((iis3dwb_rst_batch_counter_get (some devCtx)) d).1 ((iis3dwb_rst_batch_counter_get (some devCtx)) d).2.2 ∧
    GetterRun d ((iis3dwb_batch_counter_threshold_get (some devCtx)) d).1 ((iis3dwb_batch_counter_threshold_get (some devCtx)) d).2.2 ∧
    GetterRun d ((iis3dwb_fifo_data_level_get (some devCtx) lvl0) d).1 ((iis3dwb_fifo_data_level_get (some devCtx) lvl0) d).2.2 ∧
    GetterRun d ((iis3dwb_fifo_status_get (some devCtx)) d).1 ((iis3dwb_fifo_status_get (some devCtx)) d).2.2 := by
  refine ⟨?_, ?_, ?_, ?_, ?_, ?_, ?_, ?_, ?_, ?_, ?_, ?_, ?_, ?_, ?_, ?_, ?_, ?_, ?_, ?_, ?_,
    ?_, ?_, ?_, ?_, ?_, ?_, ?_, ?_, ?_, ?_, ?_, ?_, ?_, ?_, ?_, ?_, ?_, ?_, ?_, ?_, ?_, ?_, ?_,
    ?_, ?_, ?_, ?_, ?_, ?_, ?_, ?_, ?_, ?_, ?_, ?_⟩
  · unfold iis3dwb_xl_full_scale_get
    dsimp only
    exact gr_read _ _ _
  · unfold iis3dwb_xl_data_rate_get
    dsimp only
    exact gr_read _ _ _
  · unfold iis3dwb_block_data_update_get
    dsimp only
    exact gr_read _ _ _
  · unfold iis3dwb_xl_offset_weight_get
    dsimp only
    exact gr_read _ _ _
  · unfold iis3dwb_xl_axis_selection_get
    dsimp only
    simp only [apply_ite Prod.fst, apply_ite Prod.snd]
    split_ifs with h1 h2
    · exact gr_read _ _ _
    · exact gr_chain (gr_read _ _ _) (not_not.mp h1) (gr_read _ _ _)
    · exact gr_chain (gr_read _ _ _) (not_not.mp h1) (gr_read _ _ _)
  · unfold iis3dwb_all_sources_get
    dsimp only
    simp only [apply_ite Prod.fst, apply_ite Prod.snd]
    split_ifs with h1 h2
    · exact gr_chain (gr_read _ _ _) h1 (gr_chain (gr_read _ _ _) h2 (gr_read _ _ _))
    · exact gr_chain (gr_read _ _ _) h1 (gr_read _ _ _)
    · exact gr_read _ _ _
  · unfold iis3dwb_status_reg_get
    dsimp only
    exact gr_read _ _ _
  · unfold iis3dwb_xl_flag_data_ready_get
    dsimp only
    exact gr_read _ _ _
  · unfold iis3dwb_temp_flag_data_ready_get
    dsimp only
    exact gr_read _ _ _
  · unfold iis3dwb_usr_offset_block_get
    dsimp only
    exact gr_read _ _ _
  · unfold iis3dwb_xl_usr_offset_x_get
    exact gr_read _ _ _
  · unfold iis3dwb_xl_usr_offset_y_get
    exact gr_read _ _ _
  · unfold iis3dwb_xl_usr_offset_z_get
    exact gr_read _ _ _
  · unfold iis3dwb_timestamp_get
    dsimp only
    exact gr_read _ _ _
  · unfold iis3dwb_timestamp_raw_get
    dsimp only
    exact gr_read _ _ _
  · unfold iis3dwb_rounding_mode_get
    dsimp only
    exact gr_read _ _ _
  · unfold iis3dwb_temperature_raw_get
    dsimp only
    exact gr_read _ _ _
  · unfold iis3dwb_acceleration_raw_get
    dsimp only
    exact gr_read _ _ _
  · unfold iis3dwb_fifo_out_raw_get iis3dwb_fifo_out_multi_raw_get
    exact gr_read _ _ _
  · unfold iis3dwb_fifo_out_multi_raw_get
    exact gr_read _ _ _
  · unfold iis3dwb_fifo_sensor_tag_get
    dsimp only
    exact gr_read _ _ _
  · unfold iis3dwb_odr_cal_reg_get
    dsimp only
    exact gr_read _ _ _
  · unfold iis3dwb_data_ready_mode_get
    dsimp only
    exact gr_read _ _ _
  · unfold iis3dwb_device_id_get
    exact gr_read _ _ _
  · unfold iis3dwb_reset_get
    dsimp only
    exact gr_read _ _ _
  · unfold iis3dwb_auto_increment_get
    dsimp only
    exact gr_read _ _ _
  · unfold iis3dwb_boot_get
    dsimp only
    exact gr_read _ _ _
  · unfold iis3dwb_xl_self_test_get
    dsimp only
    exact gr_read _ _ _
  · unfold iis3dwb_filter_settling_mask_get
    dsimp only
    exact gr_read _ _ _
  · unfold iis3dwb_xl_filt_path_on_out_get
    dsimp only
    simp only [apply_ite Prod.fst, apply_ite Prod.snd]
    split_ifs with h1 h2
    · exact gr_read _ _ _
    · exact gr_chain (gr_read _ _ _) (not_not.mp h1) (gr_read _ _ _)
    · exact gr_chain (gr_read _ _ _) (not_not.mp h1) (gr_read _ _ _)
  · unfold iis3dwb_xl_fast_settling_get
    dsimp only
    exact gr_read _ _ _
  · unfold iis3dwb_xl_hp_path_internal_get
    dsimp only
    exact gr_read _ _ _
  · unfold iis3dwb_sdo_sa0_mode_get
    dsimp only
    exact gr_read _ _ _
  · unfold iis3dwb_spi_mode_get
    dsimp only
    exact gr_read _ _ _
  · unfold iis3dwb_i2c_interface_get
    dsimp only
    exact gr_read _ _ _
  · unfold iis3dwb_pin_int1_route_get
    dsimp only
    simp only [apply_ite Prod.fst, apply_ite Prod.snd]
    split_ifs with h1 h2 h3
    · exact gr_read _ _ _
    · exact gr_chain (gr_read _ _ _) (not_not.mp h1) (gr_read _ _ _)
    · exact gr_chain (gr_read _ _ _) (not_not.mp h1)
        (gr_chain (gr_read _ _ _) (not_not.mp h2) (gr_read _ _ _))
    · exact gr_chain (gr_read _ _ _) (not_not.mp h1)
        (gr_chain (gr_read _ _ _) (not_not.mp h2) (gr_read _ _ _))
  · unfold iis3dwb_pin_int2_route_get
    dsimp only
    simp only [apply_ite Prod.fst, apply_ite Prod.snd]
    split_ifs with h1 h2 h3
    · exact gr_read _ _ _
    · exact gr_chain (gr_read _ _ _) (not_not.mp h1) (gr_read _ _ _)
    · exact gr_chain (gr_read _ _ _) (not_not.mp h1)
        (gr_chain (gr_read _ _ _) (not_not.mp h2) (gr_read _ _ _))
    · exact gr_chain (gr_read _ _ _) (not_not.mp h1)
        (gr_chain (gr_read _ _ _) (not_not.mp h2) (gr_read _ _ _))
  · unfold iis3dwb_pin_mode_get
    dsimp only
    exact gr_read _ _ _
  · unfold iis3dwb_pin_polarity_get
    dsimp only
    exact gr_read _ _ _
  · unfold iis3dwb_all_on_int1_get
    dsimp only
    exact gr_read _ _ _
  · unfold iis3dwb_int_notification_get
    dsimp only
    exact gr_read _ _ _
  · unfold iis3dwb_wkup_ths_weight_get
    dsimp only
    exact gr_read _ _ _
  · unfold iis3dwb_wkup_threshold_get
    dsimp only
    exact gr_read _ _ _
  · unfold iis3dwb_xl_usr_offset_on_wkup_get
    dsimp only
    exact gr_read _ _ _
  · unfold iis3dwb_wkup_dur_get
    dsimp only
    exact gr_read _ _ _
  · unfold iis3dwb_act_sleep_dur_get
    dsimp only
    exact gr_read _ _ _
  · unfold iis3dwb_fifo_watermark_get
    dsimp only
    simp only [apply_ite Prod.fst, apply_ite Prod.snd]
    split_ifs with h1
    · exact gr_read _ _ _
    · exact gr_chain (gr_read _ _ _) (not_not.mp h1) (gr_read _ _ _)
  · unfold iis3dwb_fifo_stop_on_wtm_get
    dsimp only
    exact gr_read _ _ _
  · unfold iis3dwb_fifo_xl_batch_get
    dsimp only
    exact gr_read _ _ _
  · unfold iis3dwb_fifo_mode_get
    dsimp only
    exact gr_read _ _ _
  · unfold iis3dwb_fifo_temp_batch_get
    dsimp only
    exact gr_read _ _ _
  · unfold iis3dwb_fifo_timestamp_batch_get
    dsimp only
    exact gr_read _ _ _
  · unfold iis3dwb_rst_batch_counter_get
    dsimp only
    exact gr_read _ _ _
  · unfold iis3dwb_batch_counter_threshold_get
    dsimp only
    simp only [apply_ite Prod.fst, apply_ite Prod.snd]
    split_ifs with h1 h2
    · exact gr_read _ _ _
    · exact gr_chain (gr_read _ _ _) (not_not.mp h1) (gr_read _ _ _)
    · exact gr_chain (gr_read _ _ _) (not_not.mp h1) (gr_read _ _ _)
  · unfold iis3dwb_fifo_data_level_get
    dsimp only
    simp only [apply_ite Prod.fst, apply_ite Prod.snd]
    split_ifs with h1
    · exact gr_chain (gr_read _ _ _) h1 (gr_read _ _ _)
    · exact gr_read _ _ _
  · unfold iis3dwb_fifo_status_get
    dsimp only
    exact gr_read _ _ _

/-! ## C18: transport errors are never swallowed -/

/-- C18. Transport errors are never swallowed: for every setter (44) and every getter
(56) of the driver, every argument and every device state, whatever statuses the
transport reports, a transaction issued by the operation that returns a non-zero code
is the last transaction the operation issues, and the operation returns that code; so
the first failing transaction ends the operation and its code, which is non-zero, is the
result. In particular `iis3dwb_fifo_watermark_get`, `iis3dwb_batch_counter_threshold_get`,
`iis3dwb_xl_axis_selection_get` and `iis3dwb_all_sources_get` never return 0 when one of
their reads failed. -/
theorem transport_errors_never_swallowed (d : Device) (val : Nat) (buff : List Nat)
    (r1 : iis3dwb_pin_int1_route_t) (r2 : iis3dwb_pin_int2_route_t)
    (src0 : iis3dwb_all_sources_t) (st0 : iis3dwb_status_reg_t) (lvl0 num : Nat) :
    SetterFailsFast (iis3dwb_xl_full_scale_set (some devCtx) val) d ∧
    SetterFailsFast (iis3dwb_xl_data_rate_set (some devCtx) val) d ∧
    SetterFailsFast (iis3dwb_block_data_update_set (some devCtx) val) d ∧
    SetterFailsFast (iis3dwb_xl_offset_weight_set (some devCtx) val) d ∧
    SetterFailsFast (iis3dwb_usr_offset_block_set (some devCtx) val) d ∧
    SetterFailsFast (iis3dwb_timestamp_set (some devCtx) val) d ∧
    SetterFailsFast (iis3dwb_rounding_mode_set (some devCtx) val) d ∧
    SetterFailsFast (iis3dwb_odr_cal_reg_set (some devCtx) val) d ∧
    SetterFailsFast (iis3dwb_data_ready_mode_set (some devCtx) val) d ∧
    SetterFailsFast (iis3dwb_reset_set (some devCtx) val) d ∧
    SetterFailsFast (iis3dwb_auto_increment_set (some devCtx) val) d ∧
    SetterFailsFast (iis3dwb_boot_set (some devCtx) val) d ∧
    SetterFailsFast (iis3dwb_xl_self_test_set (some devCtx) val) d ∧
    SetterFailsFast (iis3dwb_filter_settling_mask_set (some devCtx) val) d ∧
    SetterFailsFast (iis3dwb_xl_fast_settling_set (some devCtx) val) d ∧
    SetterFailsFast (iis3dwb_xl_hp_path_internal_set (some devCtx) val) d ∧
    SetterFailsFast (iis3dwb_sdo_sa0_mode_set (some devCtx) val) d ∧
    SetterFailsFast (iis3dwb_spi_mode_set (some devCtx) val) d ∧
    SetterFailsFast (iis3dwb_i2c_interface_set (some devCtx) val) d ∧
    SetterFailsFast (iis3dwb_pin_mode_set (some devCtx) val) d ∧
    SetterFailsFast (iis3dwb_pin_polarity_set (some devCtx) val) d ∧
    SetterFailsFast (iis3dwb_all_on_int1_set (some devCtx) val) d ∧
    SetterFailsFast (iis3dwb_int_notification_set (some devCtx) val) d ∧
    SetterFailsFast (iis3dwb_wkup_ths_weight_set (some devCtx) val) d ∧
    SetterFailsFast (iis3dwb_xl_usr_offset_on_wkup_set (some devCtx) val) d ∧
    SetterFailsFast (iis3dwb_wkup_dur_set (some devCtx) val) d ∧
    SetterFailsFast (iis3dwb_act_sleep_dur_set (some devCtx) val) d ∧
    SetterFailsFast (iis3dwb_fifo_stop_on_wtm_set (some devCtx) val) d ∧
    SetterFailsFast (iis3dwb_fifo_xl_batch_set (some devCtx) val) d ∧
    SetterFailsFast (iis3dwb_fifo_mode_set (some devCtx) val) d ∧
    SetterFailsFast (iis3dwb_fifo_temp_batch_set (some devCtx) val) d ∧
    SetterFailsFast (iis3dwb_fifo_timestamp_batch_set (some devCtx) val) d ∧
    SetterFailsFast (iis3dwb_rst_batch_counter_set (some devCtx) val) d ∧
    SetterFailsFast (iis3dwb_xl_axis_selection_set (some devCtx) val) d ∧
    SetterFailsFast (iis3dwb_xl_filt_path_on_out_set (some devCtx) val) d ∧
    SetterFailsFast (iis3dwb_wkup_threshold_set (some devCtx) val) d ∧
    SetterFailsFast (iis3dwb_fifo_watermark_set (some devCtx) val) d ∧
    SetterFailsFast (iis3dwb_batch_counter_threshold_set (some devCtx) val) d ∧
    SetterFailsFast (iis3dwb_pin_int1_route_set (some devCtx) r1) d ∧
    SetterFailsFast (iis3dwb_pin_int2_route_set (some devCtx) r2) d ∧
    SetterFailsFast (iis3dwb_xl_usr_offset_x_set (some devCtx) buff) d ∧
    SetterFailsFast (iis3dwb_xl_usr_offset_y_set (some devCtx) buff) d ∧
    SetterFailsFast (iis3dwb_xl_usr_offset_z_set (some devCtx) buff) d ∧
    SetterFailsFast (iis3dwb_timestamp_rst (some devCtx)) d ∧
    GetterFailsFast (iis3dwb_xl_full_scale_get (some devCtx)) d ∧
    GetterFailsFast (iis3dwb_xl_data_rate_get (some devCtx)) d ∧
    GetterFailsFast (iis3dwb_block_data_update_get (some devCtx)) d ∧
    GetterFailsFast (iis3dwb_xl_offset_weight_get (some devCtx)) d ∧
    GetterFailsFast (iis3dwb_xl_axis_selection_get (some devCtx)) d ∧
    GetterFailsFast (iis3dwb_all_sources_get (some devCtx) src0) d ∧
    GetterFailsFast (iis3dwb_status_reg_get (some devCtx) st0) d ∧
    GetterFailsFast (iis3dwb_xl_flag_data_ready_get (some devCtx)) d ∧
    GetterFailsFast (iis3dwb_temp_flag_data_ready_get (some devCtx)) d ∧
    GetterFailsFast (iis3dwb_usr_offset_block_get (some devCtx)) d ∧
    GetterFailsFast (iis3dwb_xl_usr_offset_x_get (some devCtx)) d ∧
    GetterFailsFast (iis3dwb_xl_usr_offset_y_get (some devCtx)) d ∧
    GetterFailsFast (iis3dwb_xl_usr_offset_z_get (some devCtx)) d ∧
    GetterFailsFast (iis3dwb_timestamp_get (some devCtx)) d ∧
    GetterFailsFast (iis3dwb_timestamp_raw_get (some devCtx)) d ∧
    GetterFailsFast (iis3dwb_rounding_mode_get (some devCtx)) d ∧
    GetterFailsFast (iis3dwb_temperature_raw_get (some devCtx)) d ∧
    GetterFailsFast (iis3dwb_acceleration_raw_get (some devCtx)) d ∧
    GetterFailsFast (iis3dwb_fifo_out_raw_get (some devCtx)) d ∧
    GetterFailsFast (iis3dwb_fifo_out_multi_raw_get (some devCtx) num) d ∧
    GetterFailsFast (iis3dwb_fifo_sensor_tag_get (some devCtx)) d ∧
    GetterFailsFast (iis3dwb_odr_cal_reg_get (some devCtx)) d ∧
    GetterFailsFast (iis3dwb_data_ready_mode_get (some devCtx)) d ∧
    GetterFailsFast (iis3dwb_device_id_get (some devCtx)) d ∧
    GetterFailsFast (iis3dwb_reset_get (some devCtx)) d ∧
    GetterFailsFast (iis3dwb_auto_increment_get (some devCtx)) d ∧
    GetterFailsFast (iis3dwb_boot_get (some devCtx)) d ∧
    GetterFailsFast (iis3dwb_xl_self_test_get (some devCtx)) d ∧
    GetterFailsFast (iis3dwb_filter_settling_mask_get (some devCtx)) d ∧
    GetterFailsFast (iis3dwb_xl_filt_path_on_out_get (some devCtx)) d ∧
    GetterFailsFast (iis3dwb_xl_fast_settling_get (some devCtx)) d ∧
    GetterFailsFast (iis3dwb_xl_hp_path_internal_get (some devCtx)) d ∧
    GetterFailsFast (iis3dwb_sdo_sa0_mode_get (some devCtx)) d ∧
    GetterFailsFast (iis3dwb_spi_mode_get (some devCtx)) d ∧
    GetterFailsFast (iis3dwb_i2c_interface_get (some devCtx)) d ∧
    GetterFailsFast (iis3dwb_pin_int1_route_get (some devCtx)) d ∧
    GetterFailsFast (iis3dwb_pin_int2_route_get (some devCtx)) d ∧
    GetterFailsFast (iis3dwb_pin_mode_get (some devCtx)) d ∧
    GetterFailsFast (iis3dwb_pin_polarity_get (some devCtx)) d ∧
    GetterFailsFast (iis3dwb_all_on_int1_get (some devCtx)) d ∧
    GetterFailsFast (iis3dwb_int_notification_get (some devCtx)) d ∧
    GetterFailsFast (iis3dwb_wkup_ths_weight_get (some devCtx)) d ∧
    GetterFailsFast (iis3dwb_wkup_threshold_get (some devCtx)) d ∧
    GetterFailsFast (iis3dwb_xl_usr_offset_on_wkup_get (some devCtx)) d ∧
    GetterFailsFast (iis3dwb_wkup_dur_get (some devCtx)) d ∧
    GetterFailsFast (iis3dwb_act_sleep_dur_get (some devCtx)) d ∧
    GetterFailsFast (iis3dwb_fifo_watermark_get (some devCtx)) d ∧
    GetterFailsFast (iis3dwb_fifo_stop_on_wtm_get (some devCtx)) d ∧
    GetterFailsFast (iis3dwb_fifo_xl_batch_get (some devCtx)) d ∧
    GetterFailsFast (iis3dwb_fifo_mode_get (some devCtx)) d ∧
    GetterFailsFast (iis3dwb_fifo_temp_batch_get (some devCtx)) d ∧
    GetterFailsFast (iis3dwb_fifo_timestamp_batch_get (some devCtx)) d ∧
    GetterFailsFast (iis3dwb_rst_batch_counter_get (some devCtx)) d ∧
    GetterFailsFast (iis3dwb_batch_counter_threshold_get (some devCtx)) d ∧
    GetterFailsFast (iis3dwb_fifo_data_level_get (some devCtx) lvl0) d ∧
    GetterFailsFast (iis3dwb_fifo_status_get (some devCtx)) d := by
  obtain ⟨s1, s2, s3, s4, s5, s6, s7, s8, s9, s10, s11, s12, s13, s14, s15, s16, s17, s18, s19,
    s20, s21, s22, s23, s24, s25, s26, s27, s28, s29, s30, s31, s32, s33, s34, s35, s36, s37,
    s38, s39, s40, s41, s42, s43, s44⟩ :=
    setters_fail_fast d val buff r1 r2
  obtain ⟨g1, g2, g3, g4, g5, g6, g7, g8, g9, g10, g11, g12, g13, g14, g15, g16, g17, g18, g19,
    g20, g21, g22, g23, g24, g25, g26, g27, g28, g29, g30, g31, g32, g33, g34, g35, g36, g37,
    g38, g39, g40, g41, g42, g43, g44, g45, g46, g47, g48, g49, g50, g51, g52, g53, g54, g55,
    g56⟩ :=
    getters_run d src0 st0 lvl0 num
  exact ⟨s1, s2, s3, s4, s5, s6, s7, s8, s9, s10, s11, s12, s13, s14, s15, s16, s17, s18, s19,
    s20, s21, s22, s23, s24, s25, s26, s27, s28, s29, s30, s31, s32, s33, s34, s35, s36, s37,
    s38, s39, s40, s41, s42, s43, s44, g1.1, g2.1, g3.1, g4.1, g5.1, g6.1, g7.1, g8.1, g9.1,
    g10.1, g11.1, g12.1, g13.1, g14.1, g15.1, g16.1, g17.1, g18.1, g19.1, g20.1, g21.1, g22.1,
    g23.1, g24.1, g25.1, g26.1, g27.1, g28.1, g29.1, g30.1, g31.1, g32.1, g33.1, g34.1, g35.1,
    g36.1, g37.1, g38.1, g39.1, g40.1, g41.1, g42.1, g43.1, g44.1, g45.1, g46.1, g47.1, g48.1,
    g49.1, g50.1, g51.1, g52.1, g53.1, g54.1, g55.1, g56.1⟩

/-! ## C19: transaction count of a single-register set -/

/-- C19. Transaction count of a single-register set: for each of the 33 single-register
read-modify-write setters (`iis3dwb_xl_data_rate_set` on CTRL1_XL and
`iis3dwb_fifo_stop_on_wtm_set` on FIFO_CTRL2 among them), every argument and every
device state, on a transport that always succeeds the setter returns 0 and issues exactly
two transactions: a 1-byte read, then a 1-byte write, both at the address of the register
that owns the field. -/
theorem single_register_set_two_transactions (d : Device) (val : Nat) (hok : d.alwaysOk) :
    ReadThenWrite iis3dwb_xl_full_scale_set IIS3DWB_CTRL1_XL val d ∧
    ReadThenWrite iis3dwb_xl_data_rate_set IIS3DWB_CTRL1_XL val d ∧
    ReadThenWrite iis3dwb_block_data_update_set IIS3DWB_CTRL3_C val d ∧
    ReadThenWrite iis3dwb_xl_offset_weight_set IIS3DWB_CTRL6_C val d ∧
    ReadThenWrite iis3dwb_usr_offset_block_set IIS3DWB_CTRL7_C val d ∧
    ReadThenWrite iis3dwb_timestamp_set IIS3DWB_CTRL10_C val d ∧
    ReadThenWrite iis3dwb_rounding_mode_set IIS3DWB_CTRL5_C val d ∧
    ReadThenWrite iis3dwb_odr_cal_reg_set IIS3DWB_INTERNAL_FREQ_FINE val d ∧
    ReadThenWrite iis3dwb_data_ready_mode_set IIS3DWB_COUNTER_BDR_REG1 val d ∧
    ReadThenWrite iis3dwb_reset_set IIS3DWB_CTRL3_C val d ∧
    ReadThenWrite iis3dwb_auto_increment_set IIS3DWB_CTRL3_C val d ∧
    ReadThenWrite iis3dwb_boot_set IIS3DWB_CTRL3_C val d ∧
    ReadThenWrite iis3dwb_xl_self_test_set IIS3DWB_CTRL5_C val d ∧
    ReadThenWrite iis3dwb_filter_settling_mask_set IIS3DWB_CTRL4_C val d ∧
    ReadThenWrite iis3dwb_xl_fast_settling_set IIS3DWB_CTRL8_XL val d ∧
    ReadThenWrite iis3dwb_xl_hp_path_internal_set IIS3DWB_SLOPE_EN val d ∧
    ReadThenWrite iis3dwb_sdo_sa0_mode_set IIS3DWB_PIN_CTRL val d ∧
    ReadThenWrite iis3dwb_spi_mode_set IIS3DWB_CTRL3_C val d ∧
    ReadThenWrite iis3dwb_i2c_interface_set IIS3DWB_CTRL4_C val d ∧
    ReadThenWrite iis3dwb_pin_mode_set IIS3DWB_CTRL3_C val d ∧
    ReadThenWrite iis3dwb_pin_polarity_set IIS3DWB_CTRL3_C val d ∧
    ReadThenWrite iis3dwb_all_on_int1_set IIS3DWB_CTRL4_C val d ∧
    ReadThenWrite iis3dwb_int_notification_set IIS3DWB_SLOPE_EN val d ∧
    ReadThenWrite iis3dwb_wkup_ths_weight_set IIS3DWB_WAKE_UP_DUR val d ∧
    ReadThenWrite iis3dwb_xl_usr_offset_on_wkup_set IIS3DWB_WAKE_UP_THS val d ∧
    ReadThenWrite iis3dwb_wkup_dur_set IIS3DWB_WAKE_UP_DUR val d ∧
    ReadThenWrite iis3dwb_act_sleep_dur_set IIS3DWB_WAKE_UP_DUR val d ∧
    ReadThenWrite iis3dwb_fifo_stop_on_wtm_set IIS3DWB_FIFO_CTRL2 val d ∧
    ReadThenWrite iis3dwb_fifo_xl_batch_set IIS3DWB_FIFO_CTRL3 val d ∧
    ReadThenWrite iis3dwb_fifo_mode_set IIS3DWB_FIFO_CTRL4 val d ∧
    ReadThenWrite iis3dwb_fifo_temp_batch_set IIS3DWB_FIFO_CTRL4 val d ∧
    ReadThenWrite iis3dwb_fifo_timestamp_batch_set IIS3DWB_FIFO_CTRL4 val d ∧
    ReadThenWrite iis3dwb_rst_batch_counter_set IIS3DWB_COUNTER_BDR_REG1 val d := by
  obtain ⟨regs, log, status⟩ := d
  have hs : ∀ n, status n = 0 := hok
  refine ⟨?_, ?_, ?_, ?_, ?_, ?_, ?_, ?_, ?_, ?_, ?_, ?_, ?_, ?_, ?_, ?_, ?_, ?_, ?_, ?_, ?_,
    ?_, ?_, ?_, ?_, ?_, ?_, ?_, ?_, ?_, ?_, ?_, ?_⟩ <;>
  simp [ReadThenWrite, dev_read1 _ _ _ hs, dev_write1 _ _ _ hs,
    iis3dwb_xl_full_scale_set, iis3dwb_xl_data_rate_set, iis3dwb_block_data_update_set,
    iis3dwb_xl_offset_weight_set, iis3dwb_usr_offset_block_set, iis3dwb_timestamp_set,
    iis3dwb_rounding_mode_set, iis3dwb_odr_cal_reg_set, iis3dwb_data_ready_mode_set,
    iis3dwb_reset_set, iis3dwb_auto_increment_set, iis3dwb_boot_set, iis3dwb_xl_self_test_set,
    iis3dwb_filter_settling_mask_set, iis3dwb_xl_fast_settling_set,
    iis3dwb_xl_hp_path_internal_set, iis3dwb_sdo_sa0_mode_set, iis3dwb_spi_mode_set,
    iis3dwb_i2c_interface_set, iis3dwb_pin_mode_set, iis3dwb_pin_polarity_set,
    iis3dwb_all_on_int1_set, iis3dwb_int_notification_set, iis3dwb_wkup_ths_weight_set,
    iis3dwb_xl_usr_offset_on_wkup_set, iis3dwb_wkup_dur_set, iis3dwb_act_sleep_dur_set,
    iis3dwb_fifo_stop_on_wtm_set, iis3dwb_fifo_xl_batch_set, iis3dwb_fifo_mode_set,
    iis3dwb_fifo_temp_batch_set, iis3dwb_fifo_timestamp_batch_set,
    iis3dwb_rst_batch_counter_set]

/-- C19 witness: a device whose registers all hold 0x5A, argument 5. -/
theorem single_register_set_two_transactions_witness :
    ReadThenWrite iis3dwb_xl_data_rate_set IIS3DWB_CTRL1_XL 5 (Device.fresh (fun _ => 0x5A)) ∧
    ReadThenWrite iis3dwb_fifo_stop_on_wtm_set IIS3DWB_FIFO_CTRL2 5
      (Device.fresh (fun _ => 0x5A)) :=
  have h := single_register_set_two_transactions (Device.fresh (fun _ => 0x5A)) 5
    (fresh_alwaysOk _)
  ⟨h.2.1,
    h.2.2.2.2.2.2.2.2.2.2.2.2.2.2.2.2.2.2.2.2.2.2.2.2.2.2.2.1⟩

/-! ## C20: getters do not write -/

/-- C20. Getters do not write: for every getter of the driver (56) and every device
state, whatever statuses the transport reports, the transactions the getter issues are
all reads and the register contents after the call equal those before it; and each
single-register field getter (`iis3dwb_xl_full_scale_get`,
`iis3dwb_block_data_update_get` and `iis3dwb_fifo_mode_get` among them) issues exactly one
transaction, a read of length 1 at the address of the owning register. -/
theorem getters_do_not_write (d : Device) (src0 : iis3dwb_all_sources_t)
    (st0 : iis3dwb_status_reg_t) (lvl0 num : Nat) :
    GetterReadsOnly (iis3dwb_xl_full_scale_get (some devCtx)) d ∧
    GetterReadsOnly (iis3dwb_xl_data_rate_get (some devCtx)) d ∧
    GetterReadsOnly (iis3dwb_block_data_update_get (some devCtx)) d ∧
    GetterReadsOnly (iis3dwb_xl_offset_weight_get (some devCtx)) d ∧
    GetterReadsOnly (iis3dwb_xl_axis_selection_get (some devCtx)) d ∧
    GetterReadsOnly (iis3dwb_all_sources_get (some devCtx) src0) d ∧
    GetterReadsOnly (iis3dwb_status_reg_get (some devCtx) st0) d ∧
    GetterReadsOnly (iis3dwb_xl_flag_data_ready_get (some devCtx)) d ∧
    GetterReadsOnly (iis3dwb_temp_flag_data_ready_get (some devCtx)) d ∧
    GetterReadsOnly (iis3dwb_usr_offset_block_get (some devCtx)) d ∧
    GetterReadsOnly (iis3dwb_xl_usr_offset_x_get (some devCtx)) d ∧
    GetterReadsOnly (iis3dwb_xl_usr_offset_y_get (some devCtx)) d ∧
    GetterReadsOnly (iis3dwb_xl_usr_offset_z_get (some devCtx)) d ∧
    GetterReadsOnly (iis3dwb_timestamp_get (some devCtx)) d ∧
    GetterReadsOnly (iis3dwb_timestamp_raw_get (some devCtx)) d ∧
    GetterReadsOnly (iis3dwb_rounding_mode_get (some devCtx)) d ∧
    GetterReadsOnly (iis3dwb_temperature_raw_get (some devCtx)) d ∧
    GetterReadsOnly (iis3dwb_acceleration_raw_get (some devCtx)) d ∧
    GetterReadsOnly (iis3dwb_fifo_out_raw_get (some devCtx)) d ∧
    GetterReadsOnly (iis3dwb_fifo_out_multi_raw_get (some devCtx) num) d ∧
    GetterReadsOnly (iis3dwb_fifo_sensor_tag_get (some devCtx)) d ∧
    GetterReadsOnly (iis3dwb_odr_cal_reg_get (some devCtx)) d ∧
    GetterReadsOnly (iis3dwb_data_ready_mode_get (some devCtx)) d ∧
    GetterReadsOnly (iis3dwb_device_id_get (some devCtx)) d ∧
    GetterReadsOnly (iis3dwb_reset_get (some devCtx)) d ∧
    GetterReadsOnly (iis3dwb_auto_increment_get (some devCtx)) d ∧
    GetterReadsOnly (iis3dwb_boot_get (some devCtx)) d ∧
    GetterReadsOnly (iis3dwb_xl_self_test_get (some devCtx)) d ∧
    GetterReadsOnly (iis3dwb_filter_settling_mask_get (some devCtx)) d ∧
    GetterReadsOnly (iis3dwb_xl_filt_path_on_out_get (some devCtx)) d ∧
    GetterReadsOnly (iis3dwb_xl_fast_settling_get (some devCtx)) d ∧
    GetterReadsOnly (iis3dwb_xl_hp_path_internal_get (some devCtx)) d ∧
    GetterReadsOnly (iis3dwb_sdo_sa0_mode_get (some devCtx)) d ∧
    GetterReadsOnly (iis3dwb_spi_mode_get (some devCtx)) d ∧
    GetterReadsOnly (iis3dwb_i2c_interface_get (some devCtx)) d ∧
    GetterReadsOnly (iis3dwb_pin_int1_route_get (some devCtx)) d ∧
    GetterReadsOnly (iis3dwb_pin_int2_route_get (some devCtx)) d ∧
    GetterReadsOnly (iis3dwb_pin_mode_get (some devCtx)) d ∧
    GetterReadsOnly (iis3dwb_pin_polarity_get (some devCtx)) d ∧
    GetterReadsOnly (iis3dwb_all_on_int1_get (some devCtx)) d ∧
    GetterReadsOnly (iis3dwb_int_notification_get (some devCtx)) d ∧
    GetterReadsOnly (iis3dwb_wkup_ths_weight_get (some devCtx)) d ∧
    GetterReadsOnly (iis3dwb_wkup_threshold_get (some devCtx)) d ∧
    GetterReadsOnly (iis3dwb_xl_usr_offset_on_wkup_get (some devCtx)) d ∧
    GetterReadsOnly (iis3dwb_wkup_dur_get (some devCtx)) d ∧
    GetterReadsOnly (iis3dwb_act_sleep_dur_get (some devCtx)) d ∧
    GetterReadsOnly (iis3dwb_fifo_watermark_get (some devCtx)) d ∧
    GetterReadsOnly (iis3dwb_fifo_stop_on_wtm_get (some devCtx)) d ∧
    GetterReadsOnly (iis3dwb_fifo_xl_batch_get (some devCtx)) d ∧
    GetterReadsOnly (iis3dwb_fifo_mode_get (some devCtx)) d ∧
    GetterReadsOnly (iis3dwb_fifo_temp_batch_get (some devCtx)) d ∧
    GetterReadsOnly (iis3dwb_fifo_timestamp_batch_get (some devCtx)) d ∧
    GetterReadsOnly (iis3dwb_rst_batch_counter_get (some devCtx)) d ∧
    GetterReadsOnly (iis3dwb_batch_counter_threshold_get (some devCtx)) d ∧
    GetterReadsOnly (iis3dwb_fifo_data_level_get (some devCtx) lvl0) d ∧
    GetterReadsOnly (iis3dwb_fifo_status_get (some devCtx)) d ∧
    GetterSingleRead (iis3dwb_xl_full_scale_get (some devCtx)) IIS3DWB_CTRL1_XL d ∧
    GetterSingleRead (iis3dwb_xl_data_rate_get (some devCtx)) IIS3DWB_CTRL1_XL d ∧
    GetterSingleRead (iis3dwb_block_data_update_get (some devCtx)) IIS3DWB_CTRL3_C d ∧
    GetterSingleRead (iis3dwb_xl_offset_weight_get (some devCtx)) IIS3DWB_CTRL6_C d ∧
    GetterSingleRead (iis3dwb_status_reg_get (some devCtx) st0) IIS3DWB_STATUS_REG d ∧
    GetterSingleRead (iis3dwb_xl_flag_data_ready_get (some devCtx)) IIS3DWB_STATUS_REG d ∧
    GetterSingleRead (iis3dwb_temp_flag_data_ready_get (some devCtx)) IIS3DWB_STATUS_REG d ∧
    GetterSingleRead (iis3dwb_usr_offset_block_get (some devCtx)) IIS3DWB_CTRL7_C d ∧
    GetterSingleRead (iis3dwb_xl_usr_offset_x_get (some devCtx)) IIS3DWB_X_OFS_USR d ∧
    GetterSingleRead (iis3dwb_xl_usr_offset_y_get (some devCtx)) IIS3DWB_Y_OFS_USR d ∧
    GetterSingleRead (iis3dwb_xl_usr_offset_z_get (some devCtx)) IIS3DWB_Z_OFS_USR d ∧
    GetterSingleRead (iis3dwb_timestamp_get (some devCtx)) IIS3DWB_CTRL10_C d ∧
    GetterSingleRead (iis3dwb_rounding_mode_get (some devCtx)) IIS3DWB_CTRL5_C d ∧
    GetterSingleRead (iis3dwb_fifo_sensor_tag_get (some devCtx)) IIS3DWB_FIFO_DATA_OUT_TAG d ∧
    GetterSingleRead (iis3dwb_odr_cal_reg_get (some devCtx)) IIS3DWB_INTERNAL_FREQ_FINE d ∧
    GetterSingleRead (iis3dwb_data_ready_mode_get (some devCtx)) IIS3DWB_COUNTER_BDR_REG1 d ∧
    GetterSingleRead (iis3dwb_device_id_get (some devCtx)) IIS3DWB_WHO_AM_I d ∧
    GetterSingleRead (iis3dwb_reset_get (some devCtx)) IIS3DWB_CTRL3_C d ∧
    GetterSingleRead (iis3dwb_auto_increment_get (some devCtx)) IIS3DWB_CTRL3_C d ∧
    GetterSingleRead (iis3dwb_boot_get (some devCtx)) IIS3DWB_CTRL3_C d ∧
    GetterSingleRead (iis3dwb_xl_self_test_get (some devCtx)) IIS3DWB_CTRL5_C d ∧
    GetterSingleRead (iis3dwb_filter_settling_mask_get (some devCtx)) IIS3DWB_CTRL4_C d ∧
    GetterSingleRead (iis3dwb_xl_fast_settling_get (some devCtx)) IIS3DWB_CTRL8_XL d ∧
    GetterSingleRead (iis3dwb_xl_hp_path_internal_get (some devCtx)) IIS3DWB_SLOPE_EN d ∧
    GetterSingleRead (iis3dwb_sdo_sa0_mode_get (some devCtx)) IIS3DWB_PIN_CTRL d ∧
    GetterSingleRead (iis3dwb_spi_mode_get (some devCtx)) IIS3DWB_CTRL3_C d ∧
    GetterSingleRead (iis3dwb_i2c_interface_get (some devCtx)) IIS3DWB_CTRL4_C d ∧
    GetterSingleRead (iis3dwb_pin_mode_get (some devCtx)) IIS3DWB_CTRL3_C d ∧
    GetterSingleRead (iis3dwb_pin_polarity_get (some devCtx)) IIS3DWB_CTRL3_C d ∧
    GetterSingleRead (iis3dwb_all_on_int1_get (some devCtx)) IIS3DWB_CTRL4_C d ∧
    GetterSingleRead (iis3dwb_int_notification_get (some devCtx)) IIS3DWB_SLOPE_EN d ∧
    GetterSingleRead (iis3dwb_wkup_ths_weight_get (some devCtx)) IIS3DWB_WAKE_UP_DUR d ∧
    GetterSingleRead (iis3dwb_wkup_threshold_get (some devCtx)) IIS3DWB_WAKE_UP_THS d ∧
    GetterSingleRead (iis3dwb_xl_usr_offset_on_wkup_get (some devCtx)) IIS3DWB_WAKE_UP_THS d ∧
    GetterSingleRead (iis3dwb_wkup_dur_get (some devCtx)) IIS3DWB_WAKE_UP_DUR d ∧
    GetterSingleRead (iis3dwb_act_sleep_dur_get (some devCtx)) IIS3DWB_WAKE_UP_DUR d ∧
    GetterSingleRead (iis3dwb_fifo_stop_on_wtm_get (some devCtx)) IIS3DWB_FIFO_CTRL2 d ∧
    GetterSingleRead (iis3dwb_fifo_xl_batch_get (some devCtx)) IIS3DWB_FIFO_CTRL3 d ∧
    GetterSingleRead (iis3dwb_fifo_mode_get (some devCtx)) IIS3DWB_FIFO_CTRL4 d ∧
    GetterSingleRead (iis3dwb_fifo_temp_batch_get (some devCtx)) IIS3DWB_FIFO_CTRL4 d ∧
    GetterSingleRead (iis3dwb_fifo_timestamp_batch_get (some devCtx)) IIS3DWB_FIFO_CTRL4 d ∧
    GetterSingleRead (iis3dwb_rst_batch_counter_get (some devCtx)) IIS3DWB_COUNTER_BDR_REG1 d := by
  obtain ⟨g1, g2, g3, g4, g5, g6, g7, g8, g9, g10, g11, g12, g13, g14, g15, g16, g17, g18, g19,
    g20, g21, g22, g23, g24, g25, g26, g27, g28, g29, g30, g31, g32, g33, g34, g35, g36, g37,
    g38, g39, g40, g41, g42, g43, g44, g45, g46, g47, g48, g49, g50, g51, g52, g53, g54, g55,
    g56⟩ :=
    getters_run d src0 st0 lvl0 num
  obtain ⟨regs, log, status⟩ := d
  refine ⟨g1.2, g2.2, g3.2, g4.2, g5.2, g6.2, g7.2, g8.2, g9.2, g10.2, g11.2, g12.2, g13.2,
    g14.2, g15.2, g16.2, g17.2, g18.2, g19.2, g20.2, g21.2, g22.2, g23.2, g24.2, g25.2, g26.2,
    g27.2, g28.2, g29.2, g30.2, g31.2, g32.2, g33.2, g34.2, g35.2, g36.2, g37.2, g38.2, g39.2,
    g40.2, g41.2, g42.2, g43.2, g44.2, g45.2, g46.2, g47.2, g48.2, g49.2, g50.2, g51.2, g52.2,
    g53.2, g54.2, g55.2, g56.2, ?_, ?_, ?_, ?_, ?_, ?_, ?_, ?_, ?_, ?_, ?_, ?_, ?_, ?_, ?_, ?_,
    ?_, ?_, ?_, ?_, ?_, ?_, ?_, ?_, ?_, ?_, ?_, ?_, ?_, ?_, ?_, ?_, ?_, ?_, ?_, ?_, ?_, ?_, ?_,
    ?_, ?_, ?_⟩ <;>
  · simp only [GetterSingleRead, iis3dwb_read_reg, devCtx, Device.read,
      iis3dwb_xl_full_scale_get, iis3dwb_xl_data_rate_get, iis3dwb_block_data_update_get,
      iis3dwb_xl_offset_weight_get, iis3dwb_status_reg_get, iis3dwb_xl_flag_data_ready_get,
      iis3dwb_temp_flag_data_ready_get, iis3dwb_usr_offset_block_get,
      iis3dwb_xl_usr_offset_x_get, iis3dwb_xl_usr_offset_y_get, iis3dwb_xl_usr_offset_z_get,
      iis3dwb_timestamp_get, iis3dwb_rounding_mode_get, iis3dwb_fifo_sensor_tag_get,
      iis3dwb_odr_cal_reg_get, iis3dwb_data_ready_mode_get, iis3dwb_device_id_get,
      iis3dwb_reset_get, iis3dwb_auto_increment_get, iis3dwb_boot_get,
      iis3dwb_xl_self_test_get, iis3dwb_filter_settling_mask_get,
      iis3dwb_xl_fast_settling_get, iis3dwb_xl_hp_path_internal_get,
      iis3dwb_sdo_sa0_mode_get, iis3dwb_spi_mode_get, iis3dwb_i2c_interface_get,
      iis3dwb_pin_mode_get, iis3dwb_pin_polarity_get, iis3dwb_all_on_int1_get,
      iis3dwb_int_notification_get, iis3dwb_wkup_ths_weight_get, iis3dwb_wkup_threshold_get,
      iis3dwb_xl_usr_offset_on_wkup_get, iis3dwb_wkup_dur_get, iis3dwb_act_sleep_dur_get,
      iis3dwb_fifo_stop_on_wtm_get, iis3dwb_fifo_xl_batch_get, iis3dwb_fifo_mode_get,
      iis3dwb_fifo_temp_batch_get, iis3dwb_fifo_timestamp_batch_get,
      iis3dwb_rst_batch_counter_get]
    split_ifs <;> exact ⟨rfl, rfl⟩

/-! ## What a field holds after it is assigned and the byte is read back -/

theorem ctrl4_c_1ax_after_assign (b v : Nat) (hv : v < 2) :
    (iis3dwb_ctrl4_c_t.ofByte
      (({ iis3dwb_ctrl4_c_t.ofByte b with _1ax_to_3regout := v }).toByte % 256))._1ax_to_3regout
      = v := by
  simp only [iis3dwb_ctrl4_c_t.ofByte, iis3dwb_ctrl4_c_t.toByte]
  omega

theorem ctrl6_c_axis_sel_after_assign (b v : Nat) (hv : v < 4) :
    (iis3dwb_ctrl6_c_t.ofByte
      (({ iis3dwb_ctrl6_c_t.ofByte b with xl_axis_sel := v }).toByte % 256)).xl_axis_sel = v := by
  simp only [iis3dwb_ctrl6_c_t.ofByte, iis3dwb_ctrl6_c_t.toByte]
  omega

theorem wake_up_ths_wk_ths_after_assign (b v : Nat) (hv : v < 64) :
    (iis3dwb_wake_up_ths_t.ofByte
      (({ iis3dwb_wake_up_ths_t.ofByte b with wk_ths := v }).toByte % 256)).wk_ths = v := by
  simp only [iis3dwb_wake_up_ths_t.ofByte, iis3dwb_wake_up_ths_t.toByte]
  omega

theorem wake_up_dur_wake_dur_after_assign (b v : Nat) (hv : v < 4) :
    (iis3dwb_wake_up_dur_t.ofByte
      (({ iis3dwb_wake_up_dur_t.ofByte b with wake_dur := v }).toByte % 256)).wake_dur = v := by
  simp only [iis3dwb_wake_up_dur_t.ofByte, iis3dwb_wake_up_dur_t.toByte]
  omega

theorem wake_up_dur_sleep_dur_after_assign (b v : Nat) (hv : v < 16) :
    (iis3dwb_wake_up_dur_t.ofByte
      (({ iis3dwb_wake_up_dur_t.ofByte b with sleep_dur := v }).toByte % 256)).sleep_dur = v := by
  simp only [iis3dwb_wake_up_dur_t.ofByte, iis3dwb_wake_up_dur_t.toByte]
  omega

theorem freq_fine_after_assign (v : Nat) (hv : v < 256) :
    (iis3dwb_internal_freq_fine_t.ofByte
      (({ freq_fine := v } : iis3dwb_internal_freq_fine_t).toByte % 256)).freq_fine = v := by
  simp only [iis3dwb_internal_freq_fine_t.ofByte, iis3dwb_internal_freq_fine_t.toByte]
  omega

theorem ctrl1_xl_fs_xl_after_assign (b v : Nat) (hv : v < 4) :
    (iis3dwb_ctrl1_xl_t.ofByte
      (({ iis3dwb_ctrl1_xl_t.ofByte b with fs_xl := v }).toByte % 256)).fs_xl = v := by
  simp only [iis3dwb_ctrl1_xl_t.ofByte, iis3dwb_ctrl1_xl_t.toByte]
  omega

theorem fifo_ctrl4_fifo_mode_after_assign (b v : Nat) (hv : v < 8) :
    (iis3dwb_fifo_ctrl4_t.ofByte
      (({ iis3dwb_fifo_ctrl4_t.ofByte b with fifo_mode := v }).toByte % 256)).fifo_mode = v := by
  simp only [iis3dwb_fifo_ctrl4_t.ofByte, iis3dwb_fifo_ctrl4_t.toByte]
  omega

/-! ## Axis selection: what the setter stores and what the getter decodes -/

theorem axis_selection_get_eq (regs : Nat → Nat) (log : List Txn) (status : Nat → Int)
    (hs : ∀ n, status n = 0) :
    iis3dwb_xl_axis_selection_get (some devCtx) ⟨regs, log, status⟩ =
      ((0 : Int),
        xl_axis_sel_of_key
          (((iis3dwb_ctrl4_c_t.ofByte (regs IIS3DWB_CTRL4_C % 256))._1ax_to_3regout <<< 4) +
           (iis3dwb_ctrl6_c_t.ofByte (regs IIS3DWB_CTRL6_C % 256)).xl_axis_sel),
        (⟨regs, log ++ [Txn.read IIS3DWB_CTRL4_C 1, Txn.read IIS3DWB_CTRL6_C 1],
          status⟩ : Device)) := by
  simp only [iis3dwb_xl_axis_selection_get, dev_read1 _ _ _ hs, ne_eq, not_true_eq_false,
    if_false, byteAt_singleton, xl_axis_sel_of_key, List.append_assoc, List.cons_append,
    List.nil_append]

theorem axis_selection_set_eq (regs : Nat → Nat) (log : List Txn) (status : Nat → Int)
    (hs : ∀ n, status n = 0) (val : Nat) :
    iis3dwb_xl_axis_selection_set (some devCtx) val ⟨regs, log, status⟩ =
      ((0 : Int),
        (⟨Function.update
          (Function.update regs IIS3DWB_CTRL4_C
            ({ iis3dwb_ctrl4_c_t.ofByte (regs IIS3DWB_CTRL4_C % 256) with
                _1ax_to_3regout := val / 16 % 2 }).toByte)
          IIS3DWB_CTRL6_C
          ({ iis3dwb_ctrl6_c_t.ofByte (regs IIS3DWB_CTRL6_C % 256) with
              xl_axis_sel := val % 4 }).toByte,
        log ++ [Txn.read IIS3DWB_CTRL4_C 1,
          Txn.write IIS3DWB_CTRL4_C
            [({ iis3dwb_ctrl4_c_t.ofByte (regs IIS3DWB_CTRL4_C % 256) with
                _1ax_to_3regout := val / 16 % 2 }).toByte] 1,
          Txn.read IIS3DWB_CTRL6_C 1,
          Txn.write IIS3DWB_CTRL6_C
            [({ iis3dwb_ctrl6_c_t.ofByte (regs IIS3DWB_CTRL6_C % 256) with
                xl_axis_sel := val % 4 }).toByte] 1],
        status⟩ : Device)) := by
  have e1 : ((val % 256 &&& 0x10) >>> 4) % 2 = val / 16 % 2 := by rw [and_10_shr]; omega
  have e2 : val % 256 % 4 = val % 4 := by omega
  have ne : IIS3DWB_CTRL6_C ≠ IIS3DWB_CTRL4_C := by decide
  simp only [iis3dwb_xl_axis_selection_set, dev_read1 _ _ _ hs, dev_write1 _ _ _ hs, if_true,
    byteAt_singleton, e1, e2, Function.update_noteq ne, List.append_assoc,
    List.cons_append, List.nil_append]

/-! ## C11: axis-selection round trip -/

/-- C11. Axis-selection round trip: for every declared variant `v` of
`iis3dwb_xl_axis_sel_t` and every device state (so every initial content of CTRL4_C and
CTRL6_C), on a transport that always succeeds, `iis3dwb_xl_axis_selection_set v` returns 0
and the following `iis3dwb_xl_axis_selection_get` returns status 0 and the value `v`. -/
theorem axis_selection_round_trip (d : Device) (v : iis3dwb_xl_axis_sel_t)
    (hok : d.alwaysOk) :
    setThenGet iis3dwb_xl_axis_selection_set iis3dwb_xl_axis_selection_get v.toNat d =
      (0, 0, v) := by
  obtain ⟨regs, log, status⟩ := d
  have hs : ∀ n, status n = 0 := hok
  have ne : IIS3DWB_CTRL4_C ≠ IIS3DWB_CTRL6_C := by decide
  simp only [setThenGet, axis_selection_set_eq regs log status hs, axis_selection_get_eq _ _ _ hs,
    Function.update_same, Function.update_noteq ne,
    ctrl4_c_1ax_after_assign _ _ (Nat.mod_lt _ (by decide : 0 < 2)),
    ctrl6_c_axis_sel_after_assign _ _ (Nat.mod_lt _ (by decide : 0 < 4))]
  cases v <;> decide

/-- C11 witness: `IIS3DWB_ONLY_Y_ON_ALL_OUT_REG` (0x12) on a device whose registers all
hold 0xFF. -/
theorem axis_selection_round_trip_witness :
    (Device.fresh (fun _ => 0xFF)).alwaysOk ∧
    setThenGet iis3dwb_xl_axis_selection_set iis3dwb_xl_axis_selection_get
      iis3dwb_xl_axis_sel_t.IIS3DWB_ONLY_Y_ON_ALL_OUT_REG.toNat (Device.fresh (fun _ => 0xFF)) =
      (0, 0, iis3dwb_xl_axis_sel_t.IIS3DWB_ONLY_Y_ON_ALL_OUT_REG) :=
  ⟨fresh_alwaysOk _, axis_selection_round_trip (Device.fresh (fun _ => 0xFF))
    iis3dwb_xl_axis_sel_t.IIS3DWB_ONLY_Y_ON_ALL_OUT_REG (fresh_alwaysOk _)⟩

/-! ## C12: round trip of numeric single-register fields -/

/-- C12. Round trip of numeric fields: for every device state and every `v`, on a
transport that always succeeds, the setter called with `v` returns 0 and the matching
getter then returns status 0 and `v`, for `wkup_threshold` when `v < 64` (6-bit `wk_ths`),
`wkup_dur` when `v < 4` (2-bit `wake_dur`), `act_sleep_dur` when `v < 16` (4-bit
`sleep_dur`), `odr_cal_reg` when `v < 256` (8-bit `freq_fine`) and `xl_full_scale` when
`v < 4` (2-bit `fs_xl`; the getter returns the variant whose numeric value is `v`). -/
theorem numeric_field_round_trips (d : Device) (v : Nat) (hok : d.alwaysOk) :
    (v < 64 →
      setThenGet iis3dwb_wkup_threshold_set iis3dwb_wkup_threshold_get v d = (0, 0, v)) ∧
    (v < 4 → setThenGet iis3dwb_wkup_dur_set iis3dwb_wkup_dur_get v d = (0, 0, v)) ∧
    (v < 16 → setThenGet iis3dwb_act_sleep_dur_set iis3dwb_act_sleep_dur_get v d = (0, 0, v)) ∧
    (v < 256 → setThenGet iis3dwb_odr_cal_reg_set iis3dwb_odr_cal_reg_get v d = (0, 0, v)) ∧
    (v < 4 →
      (setThenGet iis3dwb_xl_full_scale_set iis3dwb_xl_full_scale_get v d).1 = 0 ∧
      (setThenGet iis3dwb_xl_full_scale_set iis3dwb_xl_full_scale_get v d).2.1 = 0 ∧
      (setThenGet iis3dwb_xl_full_scale_set iis3dwb_xl_full_scale_get v d).2.2.toNat = v) := by
  obtain ⟨regs, log, status⟩ := d
  have hs : ∀ n, status n = 0 := hok
  have ne : IIS3DWB_WAKE_UP_THS ≠ IIS3DWB_INTERRUPTS_EN := by decide
  refine ⟨fun hv => ?_, fun hv => ?_, fun hv => ?_, fun hv => ?_, fun hv => ?_⟩
  · have e : v % 256 % 64 = v := by omega
    simp only [setThenGet, iis3dwb_wkup_threshold_set, iis3dwb_wkup_threshold_get,
      dev_read1 _ _ _ hs, dev_write1 _ _ _ hs, if_true, byteAt_singleton, e,
      Function.update_same, Function.update_noteq ne, wake_up_ths_wk_ths_after_assign _ _ hv]
  · have e : v % 256 % 4 = v := by omega
    simp only [setThenGet, iis3dwb_wkup_dur_set, iis3dwb_wkup_dur_get,
      dev_read1 _ _ _ hs, dev_write1 _ _ _ hs, if_true, byteAt_singleton, e,
      Function.update_same, wake_up_dur_wake_dur_after_assign _ _ hv]
  · have e : v % 256 % 16 = v := by omega
    simp only [setThenGet, iis3dwb_act_sleep_dur_set, iis3dwb_act_sleep_dur_get,
      dev_read1 _ _ _ hs, dev_write1 _ _ _ hs, if_true, byteAt_singleton, e,
      Function.update_same, wake_up_dur_sleep_dur_after_assign _ _ hv]
  · have e : v % 256 % 256 = v := by omega
    simp only [setThenGet, iis3dwb_odr_cal_reg_set, iis3dwb_odr_cal_reg_get,
      dev_read1 _ _ _ hs, dev_write1 _ _ _ hs, if_true, byteAt_singleton, e,
      Function.update_same, freq_fine_after_assign _ hv]
  · have e : v % 256 % 4 = v := by omega
    simp only [setThenGet, iis3dwb_xl_full_scale_set, iis3dwb_xl_full_scale_get,
      dev_read1 _ _ _ hs, dev_write1 _ _ _ hs, if_true, byteAt_singleton, e,
      Function.update_same, ctrl1_xl_fs_xl_after_assign _ _ hv, true_and]
    interval_cases v <;> decide

/-- C12 witness: the value 3 on a device whose registers all hold 0xA5. -/
theorem numeric_field_round_trips_witness :
    (Device.fresh (fun _ => 0xA5)).alwaysOk ∧
    setThenGet iis3dwb_wkup_threshold_set iis3dwb_wkup_threshold_get 3
      (Device.fresh (fun _ => 0xA5)) = (0, 0, 3) ∧
    setThenGet iis3dwb_wkup_dur_set iis3dwb_wkup_dur_get 3
      (Device.fresh (fun _ => 0xA5)) = (0, 0, 3) ∧
    setThenGet iis3dwb_act_sleep_dur_set iis3dwb_act_sleep_dur_get 3
      (Device.fresh (fun _ => 0xA5)) = (0, 0, 3) ∧
    setThenGet iis3dwb_odr_cal_reg_set iis3dwb_odr_cal_reg_get 3
      (Device.fresh (fun _ => 0xA5)) = (0, 0, 3) ∧
    (setThenGet iis3dwb_xl_full_scale_set iis3dwb_xl_full_scale_get 3
      (Device.fresh (fun _ => 0xA5))).2.2.toNat = 3 :=
  have h := numeric_field_round_trips (Device.fresh (fun _ => 0xA5)) 3 (fresh_alwaysOk _)
  ⟨fresh_alwaysOk _, h.1 (by decide), h.2.1 (by decide), h.2.2.1 (by decide),
    h.2.2.2.1 (by decide), (h.2.2.2.2 (by decide)).2.2⟩

/-! ## A single-byte read that the transport accepts -/

theorem dev_read1_at (regs : Nat → Nat) (log : List Txn) (status : Nat → Int)
    (h : status log.length = 0) (reg : Nat) :
    iis3dwb_read_reg (some devCtx) reg 1 ⟨regs, log, status⟩ =
      (0, [regs reg], ⟨regs, log ++ [Txn.read reg 1], status⟩) := by
  simp [iis3dwb_read_reg, devCtx, Device.read, h, List.range_succ]

/-! ## C14: enumerated getters and their default variant -/

/-- C14. Enumeration default fallback: for every device state in which the transport
accepts the next transaction, each of the 19 single-register enumerated getters returns
status 0, returns the declared variant whose numeric value is the raw field value when
there is one, and returns its default variant when the raw value matches no declared
variant. In particular `iis3dwb_fifo_mode_get` gives `IIS3DWB_BYPASS_MODE` for raw 2 and
5, `iis3dwb_xl_data_rate_get` gives `IIS3DWB_XL_ODR_OFF` for every raw value other than 0
and 5, `iis3dwb_fifo_xl_batch_get` gives `IIS3DWB_XL_NOT_BATCHED` for every raw value
other than 0 and 10, `iis3dwb_xl_self_test_get` gives `IIS3DWB_XL_ST_DISABLE` for raw 3,
and `iis3dwb_fifo_temp_batch_get` gives `IIS3DWB_TEMP_NOT_BATCHED` for raw 1 and 2. -/
theorem enum_getters_default_fallback (d : Device) (hread : d.status d.log.length = 0) :
    DecodesWithDefault iis3dwb_fs_xl_t.toNat .IIS3DWB_2g iis3dwb_xl_full_scale_get
      (iis3dwb_ctrl1_xl_t.ofByte (d.regs IIS3DWB_CTRL1_XL % 256)).fs_xl d ∧
    DecodesWithDefault iis3dwb_odr_xl_t.toNat .IIS3DWB_XL_ODR_OFF iis3dwb_xl_data_rate_get
      (iis3dwb_ctrl1_xl_t.ofByte (d.regs IIS3DWB_CTRL1_XL % 256)).xl_en d ∧
    DecodesWithDefault iis3dwb_usr_off_w_t.toNat .IIS3DWB_LSb_1mg iis3dwb_xl_offset_weight_get
      (iis3dwb_ctrl6_c_t.ofByte (d.regs IIS3DWB_CTRL6_C % 256)).usr_off_w d ∧
    DecodesWithDefault iis3dwb_rounding_t.toNat .IIS3DWB_NO_ROUND iis3dwb_rounding_mode_get
      (iis3dwb_ctrl5_c_t.ofByte (d.regs IIS3DWB_CTRL5_C % 256)).rounding d ∧
    DecodesWithDefault iis3dwb_fifo_tag_t.toNat .IIS3DWB_XL_TAG iis3dwb_fifo_sensor_tag_get
      (iis3dwb_fifo_data_out_tag_t.ofByte (d.regs IIS3DWB_FIFO_DATA_OUT_TAG % 256)).tag_sensor d ∧
    DecodesWithDefault iis3dwb_dataready_pulsed_t.toNat .IIS3DWB_DRDY_LATCHED iis3dwb_data_ready_mode_get
      (iis3dwb_counter_bdr_reg1_t.ofByte (d.regs IIS3DWB_COUNTER_BDR_REG1 % 256)).dataready_pulsed d ∧
    DecodesWithDefault iis3dwb_st_xl_t.toNat .IIS3DWB_XL_ST_DISABLE iis3dwb_xl_self_test_get
      (iis3dwb_ctrl5_c_t.ofByte (d.regs IIS3DWB_CTRL5_C % 256)).st_xl d ∧
    DecodesWithDefault iis3dwb_slope_fds_t.toNat .IIS3DWB_USE_SLOPE iis3dwb_xl_hp_path_internal_get
      (iis3dwb_slope_en_t.ofByte (d.regs IIS3DWB_SLOPE_EN % 256)).slope_fds d ∧
    DecodesWithDefault iis3dwb_sdo_pu_en_t.toNat .IIS3DWB_PULL_UP_DISC iis3dwb_sdo_sa0_mode_get
      (iis3dwb_pin_ctrl_t.ofByte (d.regs IIS3DWB_PIN_CTRL % 256)).sdo_pu_en d ∧
    DecodesWithDefault iis3dwb_sim_t.toNat .IIS3DWB_SPI_4_WIRE iis3dwb_spi_mode_get
      (iis3dwb_ctrl3_c_t.ofByte (d.regs IIS3DWB_CTRL3_C % 256)).sim d ∧
    DecodesWithDefault iis3dwb_i2c_disable_t.toNat .IIS3DWB_I2C_ENABLE iis3dwb_i2c_interface_get
      (iis3dwb_ctrl4_c_t.ofByte (d.regs IIS3DWB_CTRL4_C % 256)).i2c_disable d ∧
    DecodesWithDefault iis3dwb_pp_od_t.toNat .IIS3DWB_PUSH_PULL iis3dwb_pin_mode_get
      (iis3dwb_ctrl3_c_t.ofByte (d.regs IIS3DWB_CTRL3_C % 256)).pp_od d ∧
    DecodesWithDefault iis3dwb_h_lactive_t.toNat .IIS3DWB_ACTIVE_HIGH iis3dwb_pin_polarity_get
      (iis3dwb_ctrl3_c_t.ofByte (d.regs IIS3DWB_CTRL3_C % 256)).h_lactive d ∧
    DecodesWithDefault iis3dwb_lir_t.toNat .IIS3DWB_INT_PULSED iis3dwb_int_notification_get
      (iis3dwb_slope_en_t.ofByte (d.regs IIS3DWB_SLOPE_EN % 256)).lir d ∧
    DecodesWithDefault iis3dwb_wake_ths_w_t.toNat .IIS3DWB_LSb_FS_DIV_64 iis3dwb_wkup_ths_weight_get
      (iis3dwb_wake_up_dur_t.ofByte (d.regs IIS3DWB_WAKE_UP_DUR % 256)).wake_ths_w d ∧
    DecodesWithDefault iis3dwb_bdr_xl_t.toNat .IIS3DWB_XL_NOT_BATCHED iis3dwb_fifo_xl_batch_get
      (iis3dwb_fifo_ctrl3_t.ofByte (d.regs IIS3DWB_FIFO_CTRL3 % 256)).bdr_xl d ∧
    DecodesWithDefault iis3dwb_fifo_mode_t.toNat .IIS3DWB_BYPASS_MODE iis3dwb_fifo_mode_get
      (iis3dwb_fifo_ctrl4_t.ofByte (d.regs IIS3DWB_FIFO_CTRL4 % 256)).fifo_mode d ∧
    DecodesWithDefault iis3dwb_odr_t_batch_t.toNat .IIS3DWB_TEMP_NOT_BATCHED iis3dwb_fifo_temp_batch_get
      (iis3dwb_fifo_ctrl4_t.ofByte (d.regs IIS3DWB_FIFO_CTRL4 % 256)).odr_t_batch d ∧
    DecodesWithDefault iis3dwb_fifo_timestamp_batch_t.toNat .IIS3DWB_NO_DECIMATION iis3dwb_fifo_timestamp_batch_get
      (iis3dwb_fifo_ctrl4_t.ofByte (d.regs IIS3DWB_FIFO_CTRL4 % 256)).odr_ts_batch d ∧
    ((iis3dwb_fifo_ctrl4_t.ofByte (d.regs IIS3DWB_FIFO_CTRL4 % 256)).fifo_mode = 2 ∨
      (iis3dwb_fifo_ctrl4_t.ofByte (d.regs IIS3DWB_FIFO_CTRL4 % 256)).fifo_mode = 5 →
      (iis3dwb_fifo_mode_get (some devCtx) d).2.1 = .IIS3DWB_BYPASS_MODE) ∧
    ((iis3dwb_ctrl1_xl_t.ofByte (d.regs IIS3DWB_CTRL1_XL % 256)).xl_en ≠ 0 →
      (iis3dwb_ctrl1_xl_t.ofByte (d.regs IIS3DWB_CTRL1_XL % 256)).xl_en ≠ 5 →
      (iis3dwb_xl_data_rate_get (some devCtx) d).2.1 = .IIS3DWB_XL_ODR_OFF) ∧
    ((iis3dwb_fifo_ctrl3_t.ofByte (d.regs IIS3DWB_FIFO_CTRL3 % 256)).bdr_xl ≠ 0 →
      (iis3dwb_fifo_ctrl3_t.ofByte (d.regs IIS3DWB_FIFO_CTRL3 % 256)).bdr_xl ≠ 10 →
      (iis3dwb_fifo_xl_batch_get (some devCtx) d).2.1 = .IIS3DWB_XL_NOT_BATCHED) ∧
    ((iis3dwb_ctrl5_c_t.ofByte (d.regs IIS3DWB_CTRL5_C % 256)).st_xl = 3 →
      (iis3dwb_xl_self_test_get (some devCtx) d).2.1 = .IIS3DWB_XL_ST_DISABLE) ∧
    ((iis3dwb_fifo_ctrl4_t.ofByte (d.regs IIS3DWB_FIFO_CTRL4 % 256)).odr_t_batch = 1 ∨
      (iis3dwb_fifo_ctrl4_t.ofByte (d.regs IIS3DWB_FIFO_CTRL4 % 256)).odr_t_batch = 2 →
      (iis3dwb_fifo_temp_batch_get (some devCtx) d).2.1 = .IIS3DWB_TEMP_NOT_BATCHED) := by
  obtain ⟨regs, log, status⟩ := d
  have hr : status log.length = 0 := hread
  refine ⟨?_, ?_, ?_, ?_, ?_, ?_, ?_, ?_, ?_, ?_, ?_, ?_, ?_, ?_, ?_, ?_, ?_, ?_, ?_, ?_, ?_, ?_, ?_, ?_⟩
  · simp only [DecodesWithDefault, iis3dwb_xl_full_scale_get, dev_read1_at _ _ _ hr,
      byteAt_singleton]
    refine ⟨trivial, fun e he => ?_, fun h => ?_⟩
    · rw [← he]
      cases e <;> decide
    · have hn : ∀ e : iis3dwb_fs_xl_t,
          ¬ (iis3dwb_ctrl1_xl_t.ofByte (regs IIS3DWB_CTRL1_XL % 256)).fs_xl = e.toNat :=
        fun e hk => h e hk.symm
      simp only [hn, if_false]
  · simp only [DecodesWithDefault, iis3dwb_xl_data_rate_get, dev_read1_at _ _ _ hr,
      byteAt_singleton]
    refine ⟨trivial, fun e he => ?_, fun h => ?_⟩
    · rw [← he]
      cases e <;> decide
    · have hn : ∀ e : iis3dwb_odr_xl_t,
          ¬ (iis3dwb_ctrl1_xl_t.ofByte (regs IIS3DWB_CTRL1_XL % 256)).xl_en = e.toNat :=
        fun e hk => h e hk.symm
      simp only [hn, if_false]
  · simp only [DecodesWithDefault, iis3dwb_xl_offset_weight_get, dev_read1_at _ _ _ hr,
      byteAt_singleton]
    refine ⟨trivial, fun e he => ?_, fun h => ?_⟩
    · rw [← he]
      cases e <;> decide
    · have hn : ∀ e : iis3dwb_usr_off_w_t,
          ¬ (iis3dwb_ctrl6_c_t.ofByte (regs IIS3DWB_CTRL6_C % 256)).usr_off_w = e.toNat :=
        fun e hk => h e hk.symm
      simp only [hn, if_false]
  · simp only [DecodesWithDefault, iis3dwb_rounding_mode_get, dev_read1_at _ _ _ hr,
      byteAt_singleton]
    refine ⟨trivial, fun e he => ?_, fun h => ?_⟩
    · rw [← he]
      cases e <;> decide
    · have hn : ∀ e : iis3dwb_rounding_t,
          ¬ (iis3dwb_ctrl5_c_t.ofByte (regs IIS3DWB_CTRL5_C % 256)).rounding = e.toNat :=
        fun e hk => h e hk.symm
      simp only [hn, if_false]
  · simp only [DecodesWithDefault, iis3dwb_fifo_sensor_tag_get, dev_read1_at _ _ _ hr,
      byteAt_singleton]
    refine ⟨trivial, fun e he => ?_, fun h => ?_⟩
    · rw [← he]
      cases e <;> decide
    · have hn : ∀ e : iis3dwb_fifo_tag_t,
          ¬ (iis3dwb_fifo_data_out_tag_t.ofByte (regs IIS3DWB_FIFO_DATA_OUT_TAG % 256)).tag_sensor = e.toNat :=
        fun e hk => h e hk.symm
      simp only [hn, if_false]
  · simp only [DecodesWithDefault, iis3dwb_data_ready_mode_get, dev_read1_at _ _ _ hr,
      byteAt_singleton]
    refine ⟨trivial, fun e he => ?_, fun h => ?_⟩
    · rw [← he]
      cases e <;> decide
    · have hn : ∀ e : iis3dwb_dataready_pulsed_t,
          ¬ (iis3dwb_counter_bdr_reg1_t.ofByte (regs IIS3DWB_COUNTER_BDR_REG1 % 256)).dataready_pulsed = e.toNat :=
        fun e hk => h e hk.symm
      simp only [hn, if_false]
  · simp only [DecodesWithDefault, iis3dwb_xl_self_test_get, dev_read1_at _ _ _ hr,
      byteAt_singleton]
    refine ⟨trivial, fun e he => ?_, fun h => ?_⟩
    · rw [← he]
      cases e <;> decide
    · have hn : ∀ e : iis3dwb_st_xl_t,
          ¬ (iis3dwb_ctrl5_c_t.ofByte (regs IIS3DWB_CTRL5_C % 256)).st_xl = e.toNat :=
        fun e hk => h e hk.symm
      simp only [hn, if_false]
  · simp only [DecodesWithDefault, iis3dwb_xl_hp_path_internal_get, dev_read1_at _ _ _ hr,
      byteAt_singleton]
    refine ⟨trivial, fun e he => ?_, fun h => ?_⟩
    · rw [← he]
      cases e <;> decide
    · have hn : ∀ e : iis3dwb_slope_fds_t,
          ¬ (iis3dwb_slope_en_t.ofByte (regs IIS3DWB_SLOPE_EN % 256)).slope_fds = e.toNat :=
        fun e hk => h e hk.symm
      simp only [hn, if_false]
  · simp only [DecodesWithDefault, iis3dwb_sdo_sa0_mode_get, dev_read1_at _ _ _ hr,
      byteAt_singleton]
    refine ⟨trivial, fun e he => ?_, fun h => ?_⟩
    · rw [← he]
      cases e <;> decide
    · have hn : ∀ e : iis3dwb_sdo_pu_en_t,
          ¬ (iis3dwb_pin_ctrl_t.ofByte (regs IIS3DWB_PIN_CTRL % 256)).sdo_pu_en = e.toNat :=
        fun e hk => h e hk.symm
      simp only [hn, if_false]
  · simp only [DecodesWithDefault, iis3dwb_spi_mode_get, dev_read1_at _ _ _ hr,
      byteAt_singleton]
    refine ⟨trivial, fun e he => ?_, fun h => ?_⟩
    · rw [← he]
      cases e <;> decide
    · have hn : ∀ e : iis3dwb_sim_t,
          ¬ (iis3dwb_ctrl3_c_t.ofByte (regs IIS3DWB_CTRL3_C % 256)).sim = e.toNat :=
        fun e hk => h e hk.symm
      simp only [hn, if_false]
  · simp only [DecodesWithDefault, iis3dwb_i2c_interface_get, dev_read1_at _ _ _ hr,
      byteAt_singleton]
    refine ⟨trivial, fun e he => ?_, fun h => ?_⟩
    · rw [← he]
      cases e <;> decide
    · have hn : ∀ e : iis3dwb_i2c_disable_t,
          ¬ (iis3dwb_ctrl4_c_t.ofByte (regs IIS3DWB_CTRL4_C % 256)).i2c_disable = e.toNat :=
        fun e hk => h e hk.symm
      simp only [hn, if_false]
  · simp only [DecodesWithDefault, iis3dwb_pin_mode_get, dev_read1_at _ _ _ hr,
      byteAt_singleton]
    refine ⟨trivial, fun e he => ?_, fun h => ?_⟩
    · rw [← he]
      cases e <;> decide
    · have hn : ∀ e : iis3dwb_pp_od_t,
          ¬ (iis3dwb_ctrl3_c_t.ofByte (regs IIS3DWB_CTRL3_C % 256)).pp_od = e.toNat :=
        fun e hk => h e hk.symm
      simp only [hn, if_false]
  · simp only [DecodesWithDefault, iis3dwb_pin_polarity_get, dev_read1_at _ _ _ hr,
      byteAt_singleton]
    refine ⟨trivial, fun e he => ?_, fun h => ?_⟩
    · rw [← he]
      cases e <;> decide
    · have hn : ∀ e : iis3dwb_h_lactive_t,
          ¬ (iis3dwb_ctrl3_c_t.ofByte (regs IIS3DWB_CTRL3_C % 256)).h_lactive = e.toNat :=
        fun e hk => h e hk.symm
      simp only [hn, if_false]
  · simp only [DecodesWithDefault, iis3dwb_int_notification_get, dev_read1_at _ _ _ hr,
      byteAt_singleton]
    refine ⟨trivial, fun e he => ?_, fun h => ?_⟩
    · rw [← he]
      cases e <;> decide
    · have hn : ∀ e : iis3dwb_lir_t,
          ¬ (iis3dwb_slope_en_t.ofByte (regs IIS3DWB_SLOPE_EN % 256)).lir = e.toNat :=
        fun e hk => h e hk.symm
      simp only [hn, if_false]
  · simp only [DecodesWithDefault, iis3dwb_wkup_ths_weight_get, dev_read1_at _ _ _ hr,
      byteAt_singleton]
    refine ⟨trivial, fun e he => ?_, fun h => ?_⟩
    · rw [← he]
      cases e <;> decide
    · have hn : ∀ e : iis3dwb_wake_ths_w_t,
          ¬ (iis3dwb_wake_up_dur_t.ofByte (regs IIS3DWB_WAKE_UP_DUR % 256)).wake_ths_w = e.toNat :=
        fun e hk => h e hk.symm
      simp only [hn, if_false]
  · simp only [DecodesWithDefault, iis3dwb_fifo_xl_batch_get, dev_read1_at _ _ _ hr,
      byteAt_singleton]
    refine ⟨trivial, fun e he => ?_, fun h => ?_⟩
    · rw [← he]
      cases e <;> decide
    · have hn : ∀ e : iis3dwb_bdr_xl_t,
          ¬ (iis3dwb_fifo_ctrl3_t.ofByte (regs IIS3DWB_FIFO_CTRL3 % 256)).bdr_xl = e.toNat :=
        fun e hk => h e hk.symm
      simp only [hn, if_false]
  · simp only [DecodesWithDefault, iis3dwb_fifo_mode_get, dev_read1_at _ _ _ hr,
      byteAt_singleton]
    refine ⟨trivial, fun e he => ?_, fun h => ?_⟩
    · rw [← he]
      cases e <;> decide
    · have hn : ∀ e : iis3dwb_fifo_mode_t,
          ¬ (iis3dwb_fifo_ctrl4_t.ofByte (regs IIS3DWB_FIFO_CTRL4 % 256)).fifo_mode = e.toNat :=
        fun e hk => h e hk.symm
      simp only [hn, if_false]
  · simp only [DecodesWithDefault, iis3dwb_fifo_temp_batch_get, dev_read1_at _ _ _ hr,
      byteAt_singleton]
    refine ⟨trivial, fun e he => ?_, fun h => ?_⟩
    · rw [← he]
      cases e <;> decide
    · have hn : ∀ e : iis3dwb_odr_t_batch_t,
          ¬ (iis3dwb_fifo_ctrl4_t.ofByte (regs IIS3DWB_FIFO_CTRL4 % 256)).odr_t_batch = e.toNat :=
        fun e hk => h e hk.symm
      simp only [hn, if_false]
  · simp only [DecodesWithDefault, iis3dwb_fifo_timestamp_batch_get, dev_read1_at _ _ _ hr,
      byteAt_singleton]
    refine ⟨trivial, fun e he => ?_, fun h => ?_⟩
    · rw [← he]
      cases e <;> decide
    · have hn : ∀ e : iis3dwb_fifo_timestamp_batch_t,
          ¬ (iis3dwb_fifo_ctrl4_t.ofByte (regs IIS3DWB_FIFO_CTRL4 % 256)).odr_ts_batch = e.toNat :=
        fun e hk => h e hk.symm
      simp only [hn, if_false]
  · simp only [iis3dwb_fifo_mode_get, dev_read1_at _ _ _ hr, byteAt_singleton]
    rintro (h | h) <;> rw [h] <;> decide
  · simp only [iis3dwb_xl_data_rate_get, dev_read1_at _ _ _ hr, byteAt_singleton,
      iis3dwb_odr_xl_t.toNat]
    intro h0 h5
    simp only [h0, h5, if_false]
  · simp only [iis3dwb_fifo_xl_batch_get, dev_read1_at _ _ _ hr, byteAt_singleton,
      iis3dwb_bdr_xl_t.toNat]
    intro h0 h10
    simp only [h0, h10, if_false]
  · simp only [iis3dwb_xl_self_test_get, dev_read1_at _ _ _ hr, byteAt_singleton]
    intro h
    rw [h]
    decide
  · simp only [iis3dwb_fifo_temp_batch_get, dev_read1_at _ _ _ hr, byteAt_singleton]
    rintro (h | h) <;> rw [h] <;> decide

/-- C14 witness: on a device whose registers all hold 0x02 the raw `fifo_mode` is 2, no
declared variant, and `iis3dwb_fifo_mode_get` returns `IIS3DWB_BYPASS_MODE`. -/
theorem enum_getters_default_fallback_witness :
    (Device.fresh (fun _ => 0x02)).status (Device.fresh (fun _ => 0x02)).log.length = 0 ∧
    (iis3dwb_fifo_mode_get (some devCtx) (Device.fresh (fun _ => 0x02))).2.1 =
      iis3dwb_fifo_mode_t.IIS3DWB_BYPASS_MODE :=
  have h := enum_getters_default_fallback (Device.fresh (fun _ => 0x02)) rfl
  ⟨rfl, h.2.2.2.2.2.2.2.2.2.2.2.2.2.2.2.2.2.2.2.1 (Or.inl (by decide))⟩

/-! ## C13: FIFO mode round trip -/

/-- C13 (the claim as stated fails). On a device whose registers all hold 0 and a
transport that succeeds, `iis3dwb_fifo_mode_set 2` returns 0 and stores 2 in `fifo_mode`
of FIFO_CTRL4, and the following `iis3dwb_fifo_mode_get` returns status 0 and
`IIS3DWB_BYPASS_MODE`, whose numeric value is 0, not 2. -/
theorem fifo_mode_round_trip_counterexample :
    (iis3dwb_fifo_mode_set (some devCtx) 2 (Device.fresh (fun _ => 0))).2.regs
      IIS3DWB_FIFO_CTRL4 = 2 ∧
    setThenGet iis3dwb_fifo_mode_set iis3dwb_fifo_mode_get 2 (Device.fresh (fun _ => 0)) =
      (0, 0, iis3dwb_fifo_mode_t.IIS3DWB_BYPASS_MODE) ∧
    (setThenGet iis3dwb_fifo_mode_set iis3dwb_fifo_mode_get 2
      (Device.fresh (fun _ => 0))).2.2.toNat ≠ 2 := by
  decide

/-- C13 (amended). For every `v` in [0, 7] and every device state, on a transport that
always succeeds, `iis3dwb_fifo_mode_set v` returns 0 and the following
`iis3dwb_fifo_mode_get` returns status 0; the value it returns has numeric value `v` when
`v` is one of the declared values 0, 1, 3, 4, 6, 7, and is `IIS3DWB_BYPASS_MODE` when `v`
is 2 or 5. -/
theorem fifo_mode_round_trip (d : Device) (v : Nat) (hok : d.alwaysOk) (hv : v ≤ 7) :
    (setThenGet iis3dwb_fifo_mode_set iis3dwb_fifo_mode_get v d).1 = 0 ∧
    (setThenGet iis3dwb_fifo_mode_set iis3dwb_fifo_mode_get v d).2.1 = 0 ∧
    (v ≠ 2 → v ≠ 5 →
      (setThenGet iis3dwb_fifo_mode_set iis3dwb_fifo_mode_get v d).2.2.toNat = v) ∧
    (v = 2 ∨ v = 5 →
      (setThenGet iis3dwb_fifo_mode_set iis3dwb_fifo_mode_get v d).2.2 =
        iis3dwb_fifo_mode_t.IIS3DWB_BYPASS_MODE) := by
  obtain ⟨regs, log, status⟩ := d
  have hs : ∀ n, status n = 0 := hok
  have e : v % 256 % 8 = v := by omega
  have hv8 : v < 8 := by omega
  simp only [setThenGet, iis3dwb_fifo_mode_set, iis3dwb_fifo_mode_get,
    dev_read1 _ _ _ hs, dev_write1 _ _ _ hs, if_true, byteAt_singleton, e,
    Function.update_same, fifo_ctrl4_fifo_mode_after_assign _ _ hv8, true_and]
  interval_cases v <;> decide

/-- C13 witness: `IIS3DWB_STREAM_MODE` (6) and the undeclared value 5, on a device whose
registers all hold 0xFF. -/
theorem fifo_mode_round_trip_witness :
    (Device.fresh (fun _ => 0xFF)).alwaysOk ∧ 6 ≤ 7 ∧ 5 ≤ 7 ∧
    (setThenGet iis3dwb_fifo_mode_set iis3dwb_fifo_mode_get 6
      (Device.fresh (fun _ => 0xFF))).2.2.toNat = 6 ∧
    (setThenGet iis3dwb_fifo_mode_set iis3dwb_fifo_mode_get 5
      (Device.fresh (fun _ => 0xFF))).2.2 = iis3dwb_fifo_mode_t.IIS3DWB_BYPASS_MODE :=
  ⟨fresh_alwaysOk _, by decide, by decide,
    (fifo_mode_round_trip (Device.fresh (fun _ => 0xFF)) 6 (fresh_alwaysOk _)
      (by decide)).2.2.1 (by decide) (by decide),
    (fifo_mode_round_trip (Device.fresh (fun _ => 0xFF)) 5 (fresh_alwaysOk _)
      (by decide)).2.2.2 (Or.inr rfl)⟩

/-! ## C15: transaction order of the two-register setters -/

/-- C15 (the claim as stated fails). On a device whose registers all hold 0 and a
transport that succeeds, the transactions of
`iis3dwb_xl_axis_selection_set (IIS3DWB_ONLY_X_ON_ALL_OUT_REG)` are read CTRL4_C, write
CTRL4_C, read CTRL6_C, write CTRL6_C, and those of
`iis3dwb_xl_filt_path_on_out_set (IIS3DWB_LP_ODR_DIV_10)` are read CTRL1_XL, write
CTRL1_XL, read CTRL8_XL, write CTRL8_XL: the first register is written before the second
is read, so neither sequence is read, read, write, write. -/
theorem two_register_set_order_counterexample :
    issuedBy (Device.fresh (fun _ => 0))
      (iis3dwb_xl_axis_selection_set (some devCtx)
        iis3dwb_xl_axis_sel_t.IIS3DWB_ONLY_X_ON_ALL_OUT_REG.toNat
        (Device.fresh (fun _ => 0))).2 =
      [Txn.read IIS3DWB_CTRL4_C 1, Txn.write IIS3DWB_CTRL4_C [0x01] 1,
        Txn.read IIS3DWB_CTRL6_C 1, Txn.write IIS3DWB_CTRL6_C [0x01] 1] ∧
    isReadReadWriteWrite (issuedBy (Device.fresh (fun _ => 0))
      (iis3dwb_xl_axis_selection_set (some devCtx)
        iis3dwb_xl_axis_sel_t.IIS3DWB_ONLY_X_ON_ALL_OUT_REG.toNat
        (Device.fresh (fun _ => 0))).2) = false ∧
    issuedBy (Device.fresh (fun _ => 0))
      (iis3dwb_xl_filt_path_on_out_set (some devCtx)
        iis3dwb_filt_xl_en_t.IIS3DWB_LP_ODR_DIV_10.toNat (Device.fresh (fun _ => 0))).2 =
      [Txn.read IIS3DWB_CTRL1_XL 1, Txn.write IIS3DWB_CTRL1_XL [0x02] 1,
        Txn.read IIS3DWB_CTRL8_XL 1, Txn.write IIS3DWB_CTRL8_XL [0x20] 1] ∧
    isReadReadWriteWrite (issuedBy (Device.fresh (fun _ => 0))
      (iis3dwb_xl_filt_path_on_out_set (some devCtx)
        iis3dwb_filt_xl_en_t.IIS3DWB_LP_ODR_DIV_10.toNat
        (Device.fresh (fun _ => 0))).2) = false := by
  decide

/-- C15 (amended). In `iis3dwb_xl_axis_selection_set` (CTRL4_C, then CTRL6_C) and in
`iis3dwb_xl_filt_path_on_out_set` (CTRL1_XL, then CTRL8_XL), for every argument and every
device state, on a transport that always succeeds, each register is read before it is
written and the first register is written before the second is read: the call returns 0
and its transactions are read, write of the first register, then read, write of the
second, each of one byte, each write carrying the byte the register holds afterwards. -/
theorem two_register_set_order (d : Device) (val : Nat) (hok : d.alwaysOk) :
    (iis3dwb_xl_axis_selection_set (some devCtx) val d).1 = 0 ∧
    (iis3dwb_xl_axis_selection_set (some devCtx) val d).2.log = d.log ++
      [Txn.read IIS3DWB_CTRL4_C 1,
        Txn.write IIS3DWB_CTRL4_C
          [(iis3dwb_xl_axis_selection_set (some devCtx) val d).2.regs IIS3DWB_CTRL4_C] 1,
        Txn.read IIS3DWB_CTRL6_C 1,
        Txn.write IIS3DWB_CTRL6_C
          [(iis3dwb_xl_axis_selection_set (some devCtx) val d).2.regs IIS3DWB_CTRL6_C] 1] ∧
    (iis3dwb_xl_filt_path_on_out_set (some devCtx) val d).1 = 0 ∧
    (iis3dwb_xl_filt_path_on_out_set (some devCtx) val d).2.log = d.log ++
      [Txn.read IIS3DWB_CTRL1_XL 1,
        Txn.write IIS3DWB_CTRL1_XL
          [(iis3dwb_xl_filt_path_on_out_set (some devCtx) val d).2.regs IIS3DWB_CTRL1_XL] 1,
        Txn.read IIS3DWB_CTRL8_XL 1,
        Txn.write IIS3DWB_CTRL8_XL
          [(iis3dwb_xl_filt_path_on_out_set (some devCtx) val d).2.regs IIS3DWB_CTRL8_XL] 1] := by
  obtain ⟨regs, log, status⟩ := d
  have hs : ∀ n, status n = 0 := hok
  have n46 : IIS3DWB_CTRL4_C ≠ IIS3DWB_CTRL6_C := by decide
  have n18 : IIS3DWB_CTRL1_XL ≠ IIS3DWB_CTRL8_XL := by decide
  simp only [axis_selection_set_eq regs log status hs, filt_path_set_eq regs log status hs,
    Function.update_same, Function.update_noteq n46, Function.update_noteq n18, and_self]

/-- C15 witness: argument 0x12 on a device whose registers all hold 0xFF. -/
theorem two_register_set_order_witness :
    (Device.fresh (fun _ => 0xFF)).alwaysOk ∧
    (iis3dwb_xl_axis_selection_set (some devCtx) 0x12 (Device.fresh (fun _ => 0xFF))).2.log =
      (Device.fresh (fun _ => 0xFF)).log ++
      [Txn.read IIS3DWB_CTRL4_C 1,
        Txn.write IIS3DWB_CTRL4_C
          [(iis3dwb_xl_axis_selection_set (some devCtx) 0x12
            (Device.fresh (fun _ => 0xFF))).2.regs IIS3DWB_CTRL4_C] 1,
        Txn.read IIS3DWB_CTRL6_C 1,
        Txn.write IIS3DWB_CTRL6_C
          [(iis3dwb_xl_axis_selection_set (some devCtx) 0x12
            (Device.fresh (fun _ => 0xFF))).2.regs IIS3DWB_CTRL6_C] 1] :=
  ⟨fresh_alwaysOk _,
    (two_register_set_order (Device.fresh (fun _ => 0xFF)) 0x12 (fresh_alwaysOk _)).2.1⟩

/-! ## C16: access order of the FIFO watermark -/

/-- C16 (the claim as stated fails). On a device whose registers all hold 0 and a
transport that succeeds, `iis3dwb_fifo_watermark_get` reads FIFO_CTRL2 (0x08) first and
FIFO_CTRL1 (0x07) second: its transactions are not read FIFO_CTRL1, read FIFO_CTRL2. -/
theorem fifo_watermark_access_order_counterexample :
    issuedBy (Device.fresh (fun _ => 0))
      (iis3dwb_fifo_watermark_get (some devCtx) (Device.fresh (fun _ => 0))).2.2 =
      [Txn.read 0x08 1, Txn.read 0x07 1] ∧
    issuedBy (Device.fresh (fun _ => 0))
      (iis3dwb_fifo_watermark_get (some devCtx) (Device.fresh (fun _ => 0))).2.2 ≠
      [Txn.read IIS3DWB_FIFO_CTRL1 1, Txn.read IIS3DWB_FIFO_CTRL2 1] := by
  decide

/-- C16 (amended). For every device state and every argument, on a transport that always
succeeds: `iis3dwb_fifo_watermark_get` returns 0, reads the high register FIFO_CTRL2
(0x08) and then the low register FIFO_CTRL1 (0x07), and the value it returns is
(bit 0 of FIFO_CTRL2) * 256 + FIFO_CTRL1; `iis3dwb_fifo_watermark_set` returns 0, reads
FIFO_CTRL2, then writes FIFO_CTRL1 and then FIFO_CTRL2. -/
theorem fifo_watermark_access_order (d : Device) (val : Nat) (hok : d.alwaysOk) :
    (iis3dwb_fifo_watermark_get (some devCtx) d).1 = 0 ∧
    (iis3dwb_fifo_watermark_get (some devCtx) d).2.2.log =
      d.log ++ [Txn.read IIS3DWB_FIFO_CTRL2 1, Txn.read IIS3DWB_FIFO_CTRL1 1] ∧
    (iis3dwb_fifo_watermark_get (some devCtx) d).2.1 =
      bitOf (d.regs IIS3DWB_FIFO_CTRL2 % 256) 0 * 256 + d.regs IIS3DWB_FIFO_CTRL1 % 256 ∧
    (iis3dwb_fifo_watermark_set (some devCtx) val d).1 = 0 ∧
    (iis3dwb_fifo_watermark_set (some devCtx) val d).2.log = d.log ++
      [Txn.read IIS3DWB_FIFO_CTRL2 1,
        Txn.write IIS3DWB_FIFO_CTRL1
          [(iis3dwb_fifo_watermark_set (some devCtx) val d).2.regs IIS3DWB_FIFO_CTRL1] 1,
        Txn.write IIS3DWB_FIFO_CTRL2
          [(iis3dwb_fifo_watermark_set (some devCtx) val d).2.regs IIS3DWB_FIFO_CTRL2] 1] := by
  obtain ⟨regs, log, status⟩ := d
  have hs : ∀ n, status n = 0 := hok
  have ne : IIS3DWB_FIFO_CTRL1 ≠ IIS3DWB_FIFO_CTRL2 := by decide
  refine ⟨?_, ?_, ?_, ?_, ?_⟩
  · simp only [iis3dwb_fifo_watermark_get, dev_read1 _ _ _ hs, ne_eq, not_true_eq_false,
      if_false]
  · simp only [iis3dwb_fifo_watermark_get, dev_read1 _ _ _ hs, ne_eq, not_true_eq_false,
      if_false, List.append_assoc, List.cons_append, List.nil_append]
  · simp only [iis3dwb_fifo_watermark_get, dev_read1 _ _ _ hs, ne_eq, not_true_eq_false,
      if_false, byteAt_singleton, iis3dwb_fifo_ctrl1_t.ofByte, iis3dwb_fifo_ctrl2_t.ofByte,
      Nat.shiftLeft_eq, bitOf]
    omega
  · simp only [iis3dwb_fifo_watermark_set, dev_read1 _ _ _ hs, dev_write1 _ _ _ hs, if_true]
  · simp only [iis3dwb_fifo_watermark_set, dev_read1 _ _ _ hs, dev_write1 _ _ _ hs, if_true,
      Function.update_same, Function.update_noteq ne, List.append_assoc, List.cons_append,
      List.nil_append]

/-- C16 witness: watermark 300 on a device whose registers all hold 0xFF. -/
theorem fifo_watermark_access_order_witness :
    (Device.fresh (fun _ => 0xFF)).alwaysOk ∧
    (iis3dwb_fifo_watermark_get (some devCtx) (Device.fresh (fun _ => 0xFF))).2.2.log =
      (Device.fresh (fun _ => 0xFF)).log ++
        [Txn.read IIS3DWB_FIFO_CTRL2 1, Txn.read IIS3DWB_FIFO_CTRL1 1] ∧
    (iis3dwb_fifo_watermark_get (some devCtx) (Device.fresh (fun _ => 0xFF))).2.1 =
      bitOf ((Device.fresh (fun _ => 0xFF)).regs IIS3DWB_FIFO_CTRL2 % 256) 0 * 256 +
        (Device.fresh (fun _ => 0xFF)).regs IIS3DWB_FIFO_CTRL1 % 256 :=
  have h := fifo_watermark_access_order (Device.fresh (fun _ => 0xFF)) 300 (fresh_alwaysOk _)
  ⟨fresh_alwaysOk _, h.2.1, h.2.2.1⟩

/-! ## C17: size of the FIFO burst read -/

/-- C17 (the claim as stated fails). For the record count N = 9363, which the 16-bit
`num` parameter represents, N * 7 = 65541 does not fit the 16-bit `len` parameter of
`iis3dwb_read_reg`: on a device whose registers all hold 0,
`iis3dwb_fifo_out_multi_raw_get` issues one read at FIFO_DATA_OUT_TAG whose length
argument is 5, not 65541. -/
theorem fifo_burst_length_counterexample :
    9363 ≤ 65535 ∧ 9363 * 7 = 65541 ∧
    issuedBy (Device.fresh (fun _ => 0))
      (iis3dwb_fifo_out_multi_raw_get (some devCtx) 9363 (Device.fresh (fun _ => 0))).2.2 =
      [Txn.read 0x78 5] ∧
    issuedBy (Device.fresh (fun _ => 0))
      (iis3dwb_fifo_out_multi_raw_get (some devCtx) 9363 (Device.fresh (fun _ => 0))).2.2 ≠
      [Txn.read IIS3DWB_FIFO_DATA_OUT_TAG (9363 * 7)] := by
  decide

/-- C17 (amended). For every record count N with 0 <= N <= 9362, so that N * 7 fits the
16-bit `len` parameter, `iis3dwb_fifo_out_multi_raw_get` is exactly one call of the
transport read at FIFO_DATA_OUT_TAG (0x78) with length argument N * 7, and
`iis3dwb_fifo_out_raw_get` is exactly one call of the transport read at the same
address with length 7; both return what the transport returns. On a device, each appends
that single read to the log and returns the status the transport reports for it. -/
theorem fifo_burst_length {σ : Type} (c : stmdev_ctx_t σ) (s : σ) (d : Device) (N : Nat)
    (hN : N ≤ 9362) :
    iis3dwb_fifo_out_multi_raw_get (some c) N s =
      c.read_reg s IIS3DWB_FIFO_DATA_OUT_TAG (N * 7) ∧
    iis3dwb_fifo_out_raw_get (some c) s = c.read_reg s IIS3DWB_FIFO_DATA_OUT_TAG 7 ∧
    (iis3dwb_fifo_out_multi_raw_get (some devCtx) N d).2.2.log =
      d.log ++ [Txn.read 0x78 (N * 7)] ∧
    (iis3dwb_fifo_out_multi_raw_get (some devCtx) N d).1 = d.status d.log.length ∧
    (iis3dwb_fifo_out_raw_get (some devCtx) d).2.2.log = d.log ++ [Txn.read 0x78 7] ∧
    (iis3dwb_fifo_out_raw_get (some devCtx) d).1 = d.status d.log.length := by
  have e : (sizeof_iis3dwb_fifo_out_raw_t * N) % 65536 = N * 7 := by
    simp only [sizeof_iis3dwb_fifo_out_raw_t]
    omega
  have e1 : (sizeof_iis3dwb_fifo_out_raw_t * 1) % 65536 = 7 := by decide
  obtain ⟨regs, log, status⟩ := d
  simp only [iis3dwb_fifo_out_raw_get, iis3dwb_fifo_out_multi_raw_get, e, e1,
    iis3dwb_read_reg, devCtx, Device.read, IIS3DWB_FIFO_DATA_OUT_TAG, true_and]
  refine ⟨?_, ?_, ?_, ?_⟩ <;> split_ifs with h <;> simp [h]

/-- C17 witness: 512 records. -/
theorem fifo_burst_length_witness :
    512 ≤ 9362 ∧
    (iis3dwb_fifo_out_multi_raw_get (some devCtx) 512 (Device.fresh (fun _ => 0))).2.2.log =
      (Device.fresh (fun _ => 0)).log ++ [Txn.read 0x78 (512 * 7)] ∧
    (iis3dwb_fifo_out_raw_get (some devCtx) (Device.fresh (fun _ => 0))).2.2.log =
      (Device.fresh (fun _ => 0)).log ++ [Txn.read 0x78 7] :=
  have h := fifo_burst_length devCtx (Device.fresh (fun _ => 0)) (Device.fresh (fun _ => 0)) 512
    (by decide)
  ⟨by decide, h.2.2.1, h.2.2.2.2.1⟩

/-! ## Single-byte transactions under a given status -/

theorem dev_write1_at (regs : Nat → Nat) (log : List Txn) (status : Nat → Int)
    (h : status log.length = 0) (reg x : Nat) :
    iis3dwb_write_reg (some devCtx) reg [x] 1 ⟨regs, log, status⟩ =
      (0, ⟨Function.update regs reg x, log ++ [Txn.write reg [x] 1], status⟩) := by
  simp only [iis3dwb_write_reg, devCtx, Device.write, h, if_true, List.take_succ_cons,
    List.take_zero]
  congr 2
  funext a
  by_cases ha : a = reg
  · subst ha
    simp
  · have : ¬ (reg ≤ a ∧ a < reg + 1) := by omega
    simp [Function.update, ha, this]

theorem dev_read1_fail (regs : Nat → Nat) (log : List Txn) (status : Nat → Int) (e : Int)
    (he : e ≠ 0) (h : status log.length = e) (reg : Nat) :
    iis3dwb_read_reg (some devCtx) reg 1 ⟨regs, log, status⟩ =
      (e, [], ⟨regs, log ++ [Txn.read reg 1], status⟩) := by
  simp [iis3dwb_read_reg, devCtx, Device.read, h, he]

theorem dev_write1_fail (regs : Nat → Nat) (log : List Txn) (status : Nat → Int) (e : Int)
    (he : e ≠ 0) (h : status log.length = e) (reg x : Nat) :
    iis3dwb_write_reg (some devCtx) reg [x] 1 ⟨regs, log, status⟩ =
      (e, ⟨regs, log ++ [Txn.write reg [x] 1], status⟩) := by
  simp [iis3dwb_write_reg, devCtx, Device.write, h, he]

/-! ## C21: partial update on a mid-sequence failure -/

/-- C21. Partial update on a mid-sequence failure. Let the transport accept the next two
transactions of the device `d`. In `iis3dwb_xl_axis_selection_set val` these are the read
and the write of CTRL4_C; if the read of CTRL6_C that follows fails with code `e`, or
that read succeeds and the write of CTRL6_C fails with code `e`, the call returns `e`,
bit 0 of CTRL4_C (`_1ax_to_3regout`) is bit 4 of `val`, the other bits of CTRL4_C are
those it held, and CTRL6_C is unchanged. In `iis3dwb_fifo_watermark_set val` these are
the read of FIFO_CTRL2 and the write of FIFO_CTRL1; if the write of FIFO_CTRL2 that
follows fails with code `e`, the call returns `e`, FIFO_CTRL1 holds the low byte of `val`
and FIFO_CTRL2 is unchanged. -/
theorem partial_update_on_failure (d : Device) (val : Nat) (e : Int) (he : e ≠ 0)
    (h0 : d.status d.log.length = 0) (h1 : d.status (d.log.length + 1) = 0) :
    ((d.status (d.log.length + 2) = e ∨
        (d.status (d.log.length + 2) = 0 ∧ d.status (d.log.length + 3) = e)) →
      (iis3dwb_xl_axis_selection_set (some devCtx) val d).1 = e ∧
      (iis3dwb_xl_axis_selection_set (some devCtx) val d).2.regs IIS3DWB_CTRL4_C % 2 =
        bitOf val 4 ∧
      (iis3dwb_xl_axis_selection_set (some devCtx) val d).2.regs IIS3DWB_CTRL4_C / 2 =
        d.regs IIS3DWB_CTRL4_C % 256 / 2 ∧
      (iis3dwb_xl_axis_selection_set (some devCtx) val d).2.regs IIS3DWB_CTRL6_C =
        d.regs IIS3DWB_CTRL6_C) ∧
    (d.status (d.log.length + 2) = e →
      (iis3dwb_fifo_watermark_set (some devCtx) val d).1 = e ∧
      (iis3dwb_fifo_watermark_set (some devCtx) val d).2.regs IIS3DWB_FIFO_CTRL1 =
        val % 256 ∧
      (iis3dwb_fifo_watermark_set (some devCtx) val d).2.regs IIS3DWB_FIFO_CTRL2 =
        d.regs IIS3DWB_FIFO_CTRL2) := by
  obtain ⟨regs, log, status⟩ := d
  have g0 : status log.length = 0 := h0
  have g1 : status (log ++ [Txn.read IIS3DWB_CTRL4_C 1]).length = 0 := by
    simpa using h1
  have k1 : status (log ++ [Txn.read IIS3DWB_FIFO_CTRL2 1]).length = 0 := by
    simpa using h1
  have e1 : ((val % 256 &&& 0x10) >>> 4) % 2 = val / 16 % 2 := by rw [and_10_shr]; omega
  have n64 : IIS3DWB_CTRL6_C ≠ IIS3DWB_CTRL4_C := by decide
  have n21 : IIS3DWB_FIFO_CTRL2 ≠ IIS3DWB_FIFO_CTRL1 := by decide
  have b4 : ∀ b : Nat,
      ({ iis3dwb_ctrl4_c_t.ofByte b with _1ax_to_3regout := val / 16 % 2 }).toByte % 2 =
        bitOf val 4 ∧
      ({ iis3dwb_ctrl4_c_t.ofByte (b % 256) with _1ax_to_3regout := val / 16 % 2 }).toByte / 2 =
        b % 256 / 2 := by
    intro b
    simp only [iis3dwb_ctrl4_c_t.ofByte, iis3dwb_ctrl4_c_t.toByte, bitOf]
    constructor <;> omega
  refine ⟨fun hf => ?_, fun hf => ?_⟩
  · rcases hf with h2 | ⟨h2, h3⟩
    · have g2 : ∀ x, status (log ++ [Txn.read IIS3DWB_CTRL4_C 1] ++
          [Txn.write IIS3DWB_CTRL4_C [x] 1]).length = e := by
        intro x
        simpa using h2
      simp only [iis3dwb_xl_axis_selection_set, dev_read1_at _ _ _ g0, dev_write1_at _ _ _ g1,
        dev_read1_fail _ _ _ e he (g2 _), if_true, if_neg he, byteAt_singleton, e1,
        Function.update_same, Function.update_noteq n64, (b4 _).1, (b4 _).2, and_self]
    · have g2 : ∀ x, status (log ++ [Txn.read IIS3DWB_CTRL4_C 1] ++
          [Txn.write IIS3DWB_CTRL4_C [x] 1]).length = 0 := by
        intro x
        simpa using h2
      have g3 : ∀ x, status (log ++ [Txn.read IIS3DWB_CTRL4_C 1] ++
          [Txn.write IIS3DWB_CTRL4_C [x] 1] ++ [Txn.read IIS3DWB_CTRL6_C 1]).length = e := by
        intro x
        simpa using h3
      simp only [iis3dwb_xl_axis_selection_set, dev_read1_at _ _ _ g0, dev_write1_at _ _ _ g1,
        dev_read1_at _ _ _ (g2 _), dev_write1_fail _ _ _ e he (g3 _), if_true,
        byteAt_singleton, e1, Function.update_same, Function.update_noteq n64, (b4 _).1,
        (b4 _).2, and_self]
  · have g2 : ∀ x, status (log ++ [Txn.read IIS3DWB_FIFO_CTRL2 1] ++
        [Txn.write IIS3DWB_FIFO_CTRL1 [x] 1]).length = e := by
      intro x
      simpa using hf
    simp only [iis3dwb_fifo_watermark_set, dev_read1_at _ _ _ g0, dev_write1_at _ _ _ k1,
      dev_write1_fail _ _ _ e he (g2 _), if_true, Function.update_same,
      Function.update_noteq n21, iis3dwb_fifo_ctrl1_t.toByte, and_00FF, true_and, and_true]
    omega

/-- C21 witness: registers all holding 0xFF, argument 0x0123, the third transaction
failing with code -7. -/
theorem partial_update_on_failure_witness :
    ((iis3dwb_xl_axis_selection_set (some devCtx) 0x0123
        (Device.failingAt (fun _ => 0xFF) 2 (-7))).1 = -7 ∧
      (iis3dwb_xl_axis_selection_set (some devCtx) 0x0123
        (Device.failingAt (fun _ => 0xFF) 2 (-7))).2.regs IIS3DWB_CTRL4_C % 2 =
        bitOf 0x0123 4 ∧
      (iis3dwb_xl_axis_selection_set (some devCtx) 0x0123
        (Device.failingAt (fun _ => 0xFF) 2 (-7))).2.regs IIS3DWB_CTRL4_C / 2 =
        (Device.failingAt (fun _ => 0xFF) 2 (-7)).regs IIS3DWB_CTRL4_C % 256 / 2 ∧
      (iis3dwb_xl_axis_selection_set (some devCtx) 0x0123
        (Device.failingAt (fun _ => 0xFF) 2 (-7))).2.regs IIS3DWB_CTRL6_C =
        (Device.failingAt (fun _ => 0xFF) 2 (-7)).regs IIS3DWB_CTRL6_C) ∧
    ((iis3dwb_fifo_watermark_set (some devCtx) 0x0123
        (Device.failingAt (fun _ => 0xFF) 2 (-7))).1 = -7 ∧
      (iis3dwb_fifo_watermark_set (some devCtx) 0x0123
        (Device.failingAt (fun _ => 0xFF) 2 (-7))).2.regs IIS3DWB_FIFO_CTRL1 = 0x0123 % 256 ∧
      (iis3dwb_fifo_watermark_set (some devCtx) 0x0123
        (Device.failingAt (fun _ => 0xFF) 2 (-7))).2.regs IIS3DWB_FIFO_CTRL2 =
        (Device.failingAt (fun _ => 0xFF) 2 (-7)).regs IIS3DWB_FIFO_CTRL2) :=
  have h := partial_update_on_failure (Device.failingAt (fun _ => 0xFF) 2 (-7)) 0x0123 (-7)
    (by decide) rfl rfl
  ⟨h.1 (Or.inl rfl), h.2 rfl⟩

/-! ## C22: the watermark bit and `stop_on_wtm` in FIFO_CTRL2 -/

/-- C22. Field isolation in FIFO_CTRL2: for every device state and all arguments `w` and
`s`, on a transport that always succeeds, `iis3dwb_fifo_watermark_set w` returns 0 and
leaves bits 7 to 1 of FIFO_CTRL2 (`stop_on_wtm` and the reserved bits 6-1) as they were,
and `iis3dwb_fifo_stop_on_wtm_set s` returns 0 and leaves the status and the value
returned by `iis3dwb_fifo_watermark_get` as they were. -/
theorem fifo_ctrl2_field_isolation (d : Device) (w s : Nat) (hok : d.alwaysOk) :
    (iis3dwb_fifo_watermark_set (some devCtx) w d).1 = 0 ∧
    (iis3dwb_fifo_watermark_set (some devCtx) w d).2.regs IIS3DWB_FIFO_CTRL2 / 2 =
      d.regs IIS3DWB_FIFO_CTRL2 % 256 / 2 ∧
    (∀ k, 1 ≤ k → k < 8 →
      bitOf ((iis3dwb_fifo_watermark_set (some devCtx) w d).2.regs IIS3DWB_FIFO_CTRL2) k =
        bitOf (d.regs IIS3DWB_FIFO_CTRL2) k) ∧
    (iis3dwb_fifo_stop_on_wtm_set (some devCtx) s d).1 = 0 ∧
    (iis3dwb_fifo_watermark_get (some devCtx)
      (iis3dwb_fifo_stop_on_wtm_set (some devCtx) s d).2).1 = 0 ∧
    (iis3dwb_fifo_watermark_get (some devCtx)
      (iis3dwb_fifo_stop_on_wtm_set (some devCtx) s d).2).2.1 =
      (iis3dwb_fifo_watermark_get (some devCtx) d).2.1 := by
  obtain ⟨regs, log, status⟩ := d
  have hs : ∀ n, status n = 0 := hok
  have n21 : IIS3DWB_FIFO_CTRL2 ≠ IIS3DWB_FIFO_CTRL1 := by decide
  have n12 : IIS3DWB_FIFO_CTRL1 ≠ IIS3DWB_FIFO_CTRL2 := by decide
  have hw : ∀ b v : Nat,
      ({ iis3dwb_fifo_ctrl2_t.ofByte (b % 256) with wtm := v % 2 }).toByte / 2 =
        b % 256 / 2 := by
    intro b v
    simp only [iis3dwb_fifo_ctrl2_t.ofByte, iis3dwb_fifo_ctrl2_t.toByte]
    omega
  have hst : ∀ b v : Nat,
      (iis3dwb_fifo_ctrl2_t.ofByte
        (({ iis3dwb_fifo_ctrl2_t.ofByte (b % 256) with stop_on_wtm := v % 2 }).toByte
          % 256)).wtm = (iis3dwb_fifo_ctrl2_t.ofByte (b % 256)).wtm := by
    intro b v
    simp only [iis3dwb_fifo_ctrl2_t.ofByte, iis3dwb_fifo_ctrl2_t.toByte]
    omega
  have ew : ((0x0100 &&& w) >>> 8) % 256 % 2 = (w / 256) % 2 := by
    rw [and_0100_shr]
    omega
  have es : s % 256 % 2 = s % 2 := by omega
  have key : (iis3dwb_fifo_watermark_set (some devCtx) w ⟨regs, log, status⟩).2.regs
      IIS3DWB_FIFO_CTRL2 / 2 = regs IIS3DWB_FIFO_CTRL2 % 256 / 2 := by
    simp only [iis3dwb_fifo_watermark_set, dev_read1 _ _ _ hs, dev_write1 _ _ _ hs, if_true,
      byteAt_singleton, Function.update_same, ew, hw]
  refine ⟨?_, key, ?_, ?_, ?_, ?_⟩
  · simp only [iis3dwb_fifo_watermark_set, dev_read1 _ _ _ hs, dev_write1 _ _ _ hs, if_true]
  · intro k h1 h8
    have hk : ∀ x : Nat, bitOf x k = bitOf (x / 2) (k - 1) := by
      intro x
      obtain ⟨j, rfl⟩ : ∃ j, k = j + 1 := ⟨k - 1, by omega⟩
      simp only [bitOf, Nat.add_sub_cancel, Nat.pow_succ, Nat.mul_comm (2 ^ j) 2,
        Nat.div_div_eq_div_mul]
    have hm : bitOf (regs IIS3DWB_FIFO_CTRL2) k = bitOf (regs IIS3DWB_FIFO_CTRL2 % 256) k := by
      simp only [bitOf]
      interval_cases k <;> omega
    rw [hk, key, hm, ← hk]
  · simp only [iis3dwb_fifo_stop_on_wtm_set, dev_read1 _ _ _ hs, dev_write1 _ _ _ hs, if_true]
  · simp only [iis3dwb_fifo_stop_on_wtm_set, iis3dwb_fifo_watermark_get, dev_read1 _ _ _ hs,
      dev_write1 _ _ _ hs, if_true, ne_eq, not_true_eq_false, if_false]
  · simp only [iis3dwb_fifo_stop_on_wtm_set, iis3dwb_fifo_watermark_get, dev_read1 _ _ _ hs,
      dev_write1 _ _ _ hs, if_true, ne_eq, not_true_eq_false, if_false, byteAt_singleton,
      Function.update_same, Function.update_noteq n12, es, hst]

/-- C22 witness: registers all holding 0xFF, watermark 0x0100, `stop_on_wtm` 0. -/
theorem fifo_ctrl2_field_isolation_witness :
    (Device.fresh (fun _ => 0xFF)).alwaysOk ∧
    (iis3dwb_fifo_watermark_set (some devCtx) 0x0100
      (Device.fresh (fun _ => 0xFF))).2.regs IIS3DWB_FIFO_CTRL2 / 2 =
      (Device.fresh (fun _ => 0xFF)).regs IIS3DWB_FIFO_CTRL2 % 256 / 2 ∧
    (iis3dwb_fifo_watermark_get (some devCtx)
      (iis3dwb_fifo_stop_on_wtm_set (some devCtx) 0 (Device.fresh (fun _ => 0xFF))).2).2.1 =
      (iis3dwb_fifo_watermark_get (some devCtx) (Device.fresh (fun _ => 0xFF))).2.1 :=
  have h := fifo_ctrl2_field_isolation (Device.fresh (fun _ => 0xFF)) 0x0100 0
    (fresh_alwaysOk _)
  ⟨fresh_alwaysOk _, h.2.1, h.2.2.2.2.2⟩

/-! ## C23: switch keys of the two-register getters -/

/-- C23. Switch-key bit weighting of the two-register getters. Let the transport accept
the next two transactions of the device `d`, which holds c4 in CTRL4_C, c6 in CTRL6_C, c1
in CTRL1_XL and c8 in CTRL8_XL. `iis3dwb_xl_axis_selection_get` returns status 0 and
decodes the key 16 * (c4 mod 2) + (c6 mod 4): it returns the variant whose numeric value
is the key, and `IIS3DWB_ENABLE_ALL` when no variant has that value, which is the case of
the key 0x10. `iis3dwb_xl_filt_path_on_out_get` returns status 0 and decodes the key
128 * (bit 1 of c1) + 32 * (bit 4 of c8) + 16 * (bit 2 of c8) + (bits 7-5 of c8): it
returns the variant other than `IIS3DWB_SLOPE_ODR_DIV_4` whose numeric value is the key,
and `IIS3DWB_HP_REF_MODE` when no such variant has that value. -/
theorem two_register_getter_keys (d : Device)
    (h0 : d.status d.log.length = 0) (h1 : d.status (d.log.length + 1) = 0) :
    (iis3dwb_xl_axis_selection_get (some devCtx) d).1 = 0 ∧
    (∀ v : iis3dwb_xl_axis_sel_t,
      v.toNat = 16 * (d.regs IIS3DWB_CTRL4_C % 2) + d.regs IIS3DWB_CTRL6_C % 4 →
      (iis3dwb_xl_axis_selection_get (some devCtx) d).2.1 = v) ∧
    ((∀ v : iis3dwb_xl_axis_sel_t,
        v.toNat ≠ 16 * (d.regs IIS3DWB_CTRL4_C % 2) + d.regs IIS3DWB_CTRL6_C % 4) →
      (iis3dwb_xl_axis_selection_get (some devCtx) d).2.1 =
        iis3dwb_xl_axis_sel_t.IIS3DWB_ENABLE_ALL) ∧
    (16 * (d.regs IIS3DWB_CTRL4_C % 2) + d.regs IIS3DWB_CTRL6_C % 4 = 0x10 →
      (iis3dwb_xl_axis_selection_get (some devCtx) d).2.1 =
        iis3dwb_xl_axis_sel_t.IIS3DWB_ENABLE_ALL) ∧
    (iis3dwb_xl_filt_path_on_out_get (some devCtx) d).1 = 0 ∧
    (∀ v : iis3dwb_filt_xl_en_t, v ≠ iis3dwb_filt_xl_en_t.IIS3DWB_SLOPE_ODR_DIV_4 →
      v.toNat = 128 * bitOf (d.regs IIS3DWB_CTRL1_XL) 1 + 32 * bitOf (d.regs IIS3DWB_CTRL8_XL) 4 +
        16 * bitOf (d.regs IIS3DWB_CTRL8_XL) 2 + d.regs IIS3DWB_CTRL8_XL / 32 % 8 →
      (iis3dwb_xl_filt_path_on_out_get (some devCtx) d).2.1 = v) ∧
    ((∀ v : iis3dwb_filt_xl_en_t, v ≠ iis3dwb_filt_xl_en_t.IIS3DWB_SLOPE_ODR_DIV_4 →
        v.toNat ≠ 128 * bitOf (d.regs IIS3DWB_CTRL1_XL) 1 +
          32 * bitOf (d.regs IIS3DWB_CTRL8_XL) 4 + 16 * bitOf (d.regs IIS3DWB_CTRL8_XL) 2 +
          d.regs IIS3DWB_CTRL8_XL / 32 % 8) →
      (iis3dwb_xl_filt_path_on_out_get (some devCtx) d).2.1 =
        iis3dwb_filt_xl_en_t.IIS3DWB_HP_REF_MODE) := by
  obtain ⟨regs, log, status⟩ := d
  have g0 : status log.length = 0 := h0
  have g1 : ∀ r, status (log ++ [Txn.read r 1]).length = 0 := by
    intro r
    simpa using h1
  have ka : ((iis3dwb_ctrl4_c_t.ofByte (regs IIS3DWB_CTRL4_C % 256))._1ax_to_3regout <<< 4) +
      (iis3dwb_ctrl6_c_t.ofByte (regs IIS3DWB_CTRL6_C % 256)).xl_axis_sel =
      16 * (regs IIS3DWB_CTRL4_C % 2) + regs IIS3DWB_CTRL6_C % 4 := by
    simp only [iis3dwb_ctrl4_c_t.ofByte, iis3dwb_ctrl6_c_t.ofByte, Nat.shiftLeft_eq]
    omega
  have kf : ((iis3dwb_ctrl1_xl_t.ofByte (regs IIS3DWB_CTRL1_XL % 256)).lpf2_xl_en <<< 7) +
      ((iis3dwb_ctrl8_xl_t.ofByte (regs IIS3DWB_CTRL8_XL % 256)).hp_ref_mode_xl <<< 5) +
      ((iis3dwb_ctrl8_xl_t.ofByte (regs IIS3DWB_CTRL8_XL % 256)).fds <<< 4) +
      (iis3dwb_ctrl8_xl_t.ofByte (regs IIS3DWB_CTRL8_XL % 256)).hpcf_xl =
      128 * bitOf (regs IIS3DWB_CTRL1_XL) 1 + 32 * bitOf (regs IIS3DWB_CTRL8_XL) 4 +
        16 * bitOf (regs IIS3DWB_CTRL8_XL) 2 + regs IIS3DWB_CTRL8_XL / 32 % 8 := by
    simp only [iis3dwb_ctrl1_xl_t.ofByte, iis3dwb_ctrl8_xl_t.ofByte, Nat.shiftLeft_eq, bitOf]
    omega
  simp only [iis3dwb_xl_axis_selection_get, iis3dwb_xl_filt_path_on_out_get,
    dev_read1_at _ _ _ g0, dev_read1_at _ _ _ (g1 _), ne_eq, not_true_eq_false, if_false,
    byteAt_singleton, ka, kf, true_and]
  generalize 16 * (regs IIS3DWB_CTRL4_C % 2) + regs IIS3DWB_CTRL6_C % 4 = ka
  generalize 128 * bitOf (regs IIS3DWB_CTRL1_XL) 1 + 32 * bitOf (regs IIS3DWB_CTRL8_XL) 4 +
    16 * bitOf (regs IIS3DWB_CTRL8_XL) 2 + regs IIS3DWB_CTRL8_XL / 32 % 8 = kf
  refine ⟨fun v hv => ?_, fun h => ?_, fun h => ?_, fun v hne hv => ?_, fun h => ?_⟩
  · subst hv
    cases v <;> decide
  · have hn : ∀ v : iis3dwb_xl_axis_sel_t, ¬ ka = v.toNat := fun v hk => h v hk.symm
    simp only [hn, if_false]
  · subst h
    decide
  · subst hv
    cases v
    · exact absurd rfl hne
    all_goals decide
  · have hn : ∀ v : iis3dwb_filt_xl_en_t, v ≠ iis3dwb_filt_xl_en_t.IIS3DWB_SLOPE_ODR_DIV_4 →
        ¬ kf = v.toNat := fun v hv hk => h v hv hk.symm
    simp only [hn .IIS3DWB_HP_REF_MODE (by decide), hn .IIS3DWB_HP_ODR_DIV_10 (by decide), hn
      .IIS3DWB_HP_ODR_DIV_20 (by decide), hn .IIS3DWB_HP_ODR_DIV_45 (by decide), hn
      .IIS3DWB_HP_ODR_DIV_100 (by decide), hn .IIS3DWB_HP_ODR_DIV_200 (by decide), hn
      .IIS3DWB_HP_ODR_DIV_400 (by decide), hn .IIS3DWB_HP_ODR_DIV_800 (by decide), hn
      .IIS3DWB_LP_6k3Hz (by decide), hn .IIS3DWB_LP_ODR_DIV_4 (by decide), hn
      .IIS3DWB_LP_ODR_DIV_10 (by decide), hn .IIS3DWB_LP_ODR_DIV_20 (by decide), hn
      .IIS3DWB_LP_ODR_DIV_45 (by decide), hn .IIS3DWB_LP_ODR_DIV_100 (by decide), hn
      .IIS3DWB_LP_ODR_DIV_200 (by decide), hn .IIS3DWB_LP_ODR_DIV_400 (by decide), hn
      .IIS3DWB_LP_ODR_DIV_800 (by decide), if_false]

/-- C23 witness: CTRL4_C = 0x01 and CTRL6_C = 0x02 give the key 0x12; CTRL4_C = 0x01 and
CTRL6_C = 0x00 give the key 0x10. -/
theorem two_register_getter_keys_witness :
    (iis3dwb_xl_axis_selection_get (some devCtx)
      (Device.fresh (fun a => if a = IIS3DWB_CTRL4_C then 0x01 else 0x02))).2.1 =
      iis3dwb_xl_axis_sel_t.IIS3DWB_ONLY_Y_ON_ALL_OUT_REG ∧
    (iis3dwb_xl_axis_selection_get (some devCtx)
      (Device.fresh (fun a => if a = IIS3DWB_CTRL4_C then 0x01 else 0x00))).2.1 =
      iis3dwb_xl_axis_sel_t.IIS3DWB_ENABLE_ALL :=
  ⟨(two_register_getter_keys
      (Device.fresh (fun a => if a = IIS3DWB_CTRL4_C then 0x01 else 0x02)) rfl rfl).2.1
      iis3dwb_xl_axis_sel_t.IIS3DWB_ONLY_Y_ON_ALL_OUT_REG (by decide),
    (two_register_getter_keys
      (Device.fresh (fun a => if a = IIS3DWB_CTRL4_C then 0x01 else 0x00)) rfl
      rfl).2.2.2.1 (by decide)⟩

/-! ## C24, C25: raw temperature and raw acceleration -/

theorem toInt16_word (b0 b1 : Nat) (h0 : b0 < 256) (h1 : b1 < 256) :
    toInt16 (toInt16 (b1 % 256 : Nat) * 256 + toInt16 (b0 % 256 : Nat)) =
      twosComplement16 (256 * b1 + b0) := by
  simp only [toInt16, twosComplement16]
  split_ifs <;> omega

/-- C24. Raw temperature: whenever the 2-byte transport read at OUT_TEMP_L (0x20)
returns status 0 and the bytes `b0` (OUT_TEMP_L) and `b1` (OUT_TEMP_H),
`iis3dwb_temperature_raw_get` returns status 0 and the signed 16-bit value of the
little-endian word: 256 * b1 + b0 when that is below 32768, and 256 * b1 + b0 - 65536
otherwise. -/
theorem temperature_raw_twos_complement {σ : Type} (c : stmdev_ctx_t σ) (s s1 : σ)
    (b0 b1 : Nat) (h0 : b0 < 256) (h1 : b1 < 256)
    (hr : c.read_reg s 0x20 2 = (0, [b0, b1], s1)) :
    iis3dwb_temperature_raw_get (some c) s =
      (0, if 256 * b1 + b0 < 32768 then (256 * b1 + b0 : Int) else 256 * b1 + b0 - 65536,
        s1) := by
  have e := toInt16_word b0 b1 h0 h1
  simp only [twosComplement16, Nat.cast_add, Nat.cast_mul, Nat.cast_ofNat] at e
  simp only [iis3dwb_temperature_raw_get, iis3dwb_read_reg, IIS3DWB_OUT_TEMP_L, hr, byteAt,
    List.getD_cons_zero, List.getD_cons_succ, e]

/-- C24 witness: on a device, the bytes 0xFF, 0xFF give -1 and the bytes 0x00, 0x80 give
-32768. -/
theorem temperature_raw_twos_complement_witness :
    iis3dwb_temperature_raw_get (some devCtx) (Device.fresh (fun _ => 0xFF)) =
      (0, -1, ⟨fun _ => 0xFF, [Txn.read 0x20 2], fun _ => 0⟩) ∧
    iis3dwb_temperature_raw_get (some devCtx)
      (Device.fresh (fun a => if a = 0x21 then 0x80 else 0x00)) =
      (0, -32768, ⟨fun a => if a = 0x21 then 0x80 else 0x00, [Txn.read 0x20 2], fun _ => 0⟩) :=
  ⟨temperature_raw_twos_complement devCtx (Device.fresh (fun _ => 0xFF))
      ⟨fun _ => 0xFF, [Txn.read 0x20 2], fun _ => 0⟩ 0xFF 0xFF (by decide) (by decide) rfl,
    temperature_raw_twos_complement devCtx
      (Device.fresh (fun a => if a = 0x21 then 0x80 else 0x00))
      ⟨fun a => if a = 0x21 then 0x80 else 0x00, [Txn.read 0x20 2], fun _ => 0⟩ 0x00 0x80
      (by decide) (by decide) rfl⟩

/-- C25. Raw acceleration: whenever the 6-byte transport read at OUTX_L_A (0x28) returns
status 0 and the bytes `b0` .. `b5`, `iis3dwb_acceleration_raw_get` returns status 0 and
the three values X, Y, Z, where X is the signed 16-bit two's-complement value of the word
256 * b1 + b0, Y that of 256 * b3 + b2 and Z that of 256 * b5 + b4: each value is a
function of its own two bytes. -/
theorem acceleration_raw_twos_complement {σ : Type} (c : stmdev_ctx_t σ) (s s1 : σ)
    (b0 b1 b2 b3 b4 b5 : Nat) (h0 : b0 < 256) (h1 : b1 < 256) (h2 : b2 < 256)
    (h3 : b3 < 256) (h4 : b4 < 256) (h5 : b5 < 256)
    (hr : c.read_reg s 0x28 6 = (0, [b0, b1, b2, b3, b4, b5], s1)) :
    iis3dwb_acceleration_raw_get (some c) s =
      (0, (twosComplement16 (256 * b1 + b0), twosComplement16 (256 * b3 + b2),
        twosComplement16 (256 * b5 + b4)), s1) := by
  simp only [iis3dwb_acceleration_raw_get, iis3dwb_read_reg, IIS3DWB_OUTX_L_A, hr, byteAt,
    List.getD_cons_zero, List.getD_cons_succ, toInt16_word b0 b1 h0 h1,
    toInt16_word b2 b3 h2 h3, toInt16_word b4 b5 h4 h5]

/-- C25 witness: on a device holding 0x34, 0x12, 0xFF, 0xFF, 0x00, 0x80 from 0x28 on, the
values are 0x1234, -1 and -32768. -/
theorem acceleration_raw_twos_complement_witness :
    iis3dwb_acceleration_raw_get (some devCtx)
      (Device.fresh (fun a => [0x34, 0x12, 0xFF, 0xFF, 0x00, 0x80].getD (a - 0x28) 0)) =
      (0, (twosComplement16 (256 * 0x12 + 0x34), twosComplement16 (256 * 0xFF + 0xFF),
        twosComplement16 (256 * 0x80 + 0x00)),
        ⟨fun a => [0x34, 0x12, 0xFF, 0xFF, 0x00, 0x80].getD (a - 0x28) 0, [Txn.read 0x28 6],
          fun _ => 0⟩) ∧
    twosComplement16 (256 * 0x12 + 0x34) = 0x1234 ∧
    twosComplement16 (256 * 0xFF + 0xFF) = -1 ∧
    twosComplement16 (256 * 0x80 + 0x00) = -32768 :=
  ⟨acceleration_raw_twos_complement devCtx
      (Device.fresh (fun a => [0x34, 0x12, 0xFF, 0xFF, 0x00, 0x80].getD (a - 0x28) 0))
      ⟨fun a => [0x34, 0x12, 0xFF, 0xFF, 0x00, 0x80].getD (a - 0x28) 0, [Txn.read 0x28 6],
        fun _ => 0⟩ 0x34 0x12 0xFF 0xFF 0x00 0x80 (by decide) (by decide) (by decide)
      (by decide) (by decide) (by decide) rfl,
    by decide, by decide, by decide⟩

/-! ## The declarations and the overlays -/

/-- In every layout other than `iis3dwb_ctrl5_c_t`, every declared field is placed on
the same bits by both allocation orders. -/
theorem same_lookup_under_both_orders :
    ∀ l ∈ registerLayouts, l.1 ≠ "iis3dwb_ctrl5_c_t" → ∀ f ∈ l.2.1,
      (placeMsbFirst 0 l.2.2).lookup f.1 = (placeLsbFirst 0 l.2.1).lookup f.1 := by
  decide

/-- Each overlay `ofByte` reads every field of its layout from the bits on which the
least-significant-bit-first allocation places the field in the `DRV_LITTLE_ENDIAN`
declaration; a field placed outside the byte reads as 0. -/
theorem overlay_reads_declared_fields (b : Nat) :
    (iis3dwb_pin_ctrl_t.ofByte b).not_used_01 =
      (readField (placeLsbFirst 0 iis3dwb_pin_ctrl_t.declLE) "not_used_01" b).getD 0 ∧
    (iis3dwb_pin_ctrl_t.ofByte b).sdo_pu_en =
      (readField (placeLsbFirst 0 iis3dwb_pin_ctrl_t.declLE) "sdo_pu_en" b).getD 0 ∧
    (iis3dwb_pin_ctrl_t.ofByte b).not_used_02 =
      (readField (placeLsbFirst 0 iis3dwb_pin_ctrl_t.declLE) "not_used_02" b).getD 0 ∧
    (iis3dwb_fifo_ctrl1_t.ofByte b).wtm =
      (readField (placeLsbFirst 0 iis3dwb_fifo_ctrl1_t.decl) "wtm" b).getD 0 ∧
    (iis3dwb_fifo_ctrl2_t.ofByte b).wtm =
      (readField (placeLsbFirst 0 iis3dwb_fifo_ctrl2_t.declLE) "wtm" b).getD 0 ∧
    (iis3dwb_fifo_ctrl2_t.ofByte b).not_used_01 =
      (readField (placeLsbFirst 0 iis3dwb_fifo_ctrl2_t.declLE) "not_used_01" b).getD 0 ∧
    (iis3dwb_fifo_ctrl2_t.ofByte b).stop_on_wtm =
      (readField (placeLsbFirst 0 iis3dwb_fifo_ctrl2_t.declLE) "stop_on_wtm" b).getD 0 ∧
    (iis3dwb_fifo_ctrl3_t.ofByte b).bdr_xl =
      (readField (placeLsbFirst 0 iis3dwb_fifo_ctrl3_t.declLE) "bdr_xl" b).getD 0 ∧
    (iis3dwb_fifo_ctrl3_t.ofByte b).not_used_01 =
      (readField (placeLsbFirst 0 iis3dwb_fifo_ctrl3_t.declLE) "not_used_01" b).getD 0 ∧
    (iis3dwb_fifo_ctrl4_t.ofByte b).fifo_mode =
      (readField (placeLsbFirst 0 iis3dwb_fifo_ctrl4_t.declLE) "fifo_mode" b).getD 0 ∧
    (iis3dwb_fifo_ctrl4_t.ofByte b).not_used_01 =
      (readField (placeLsbFirst 0 iis3dwb_fifo_ctrl4_t.declLE) "not_used_01" b).getD 0 ∧
    (iis3dwb_fifo_ctrl4_t.ofByte b).odr_t_batch =
      (readField (placeLsbFirst 0 iis3dwb_fifo_ctrl4_t.declLE) "odr_t_batch" b).getD 0 ∧
    (iis3dwb_fifo_ctrl4_t.ofByte b).odr_ts_batch =
      (readField (placeLsbFirst 0 iis3dwb_fifo_ctrl4_t.declLE) "odr_ts_batch" b).getD 0 ∧
    (iis3dwb_counter_bdr_reg1_t.ofByte b).cnt_bdr_th =
      (readField (placeLsbFirst 0 iis3dwb_counter_bdr_reg1_t.declLE) "cnt_bdr_th" b).getD 0 ∧
    (iis3dwb_counter_bdr_reg1_t.ofByte b).not_used_01 =
      (readField (placeLsbFirst 0 iis3dwb_counter_bdr_reg1_t.declLE) "not_used_01" b).getD 0 ∧
    (iis3dwb_counter_bdr_reg1_t.ofByte b).rst_counter_bdr =
      (readField (placeLsbFirst 0 iis3dwb_counter_bdr_reg1_t.declLE) "rst_counter_bdr" b).getD 0 ∧
    (iis3dwb_counter_bdr_reg1_t.ofByte b).dataready_pulsed =
      (readField (placeLsbFirst 0 iis3dwb_counter_bdr_reg1_t.declLE) "dataready_pulsed" b).getD 0 ∧
    (iis3dwb_counter_bdr_reg2_t.ofByte b).cnt_bdr_th =
      (readField (placeLsbFirst 0 iis3dwb_counter_bdr_reg2_t.decl) "cnt_bdr_th" b).getD 0 ∧
    (iis3dwb_int1_ctrl_t.ofByte b).int1_drdy_xl =
      (readField (placeLsbFirst 0 iis3dwb_int1_ctrl_t.declLE) "int1_drdy_xl" b).getD 0 ∧
    (iis3dwb_int1_ctrl_t.ofByte b).not_used_01 =
      (readField (placeLsbFirst 0 iis3dwb_int1_ctrl_t.declLE) "not_used_01" b).getD 0 ∧
    (iis3dwb_int1_ctrl_t.ofByte b).int1_boot =
      (readField (placeLsbFirst 0 iis3dwb_int1_ctrl_t.declLE) "int1_boot" b).getD 0 ∧
    (iis3dwb_int1_ctrl_t.ofByte b).int1_fifo_th =
      (readField (placeLsbFirst 0 iis3dwb_int1_ctrl_t.declLE) "int1_fifo_th" b).getD 0 ∧
    (iis3dwb_int1_ctrl_t.ofByte b).int1_fifo_ovr =
      (readField (placeLsbFirst 0 iis3dwb_int1_ctrl_t.declLE) "int1_fifo_ovr" b).getD 0 ∧
    (iis3dwb_int1_ctrl_t.ofByte b).int1_fifo_full =
      (readField (placeLsbFirst 0 iis3dwb_int1_ctrl_t.declLE) "int1_fifo_full" b).getD 0 ∧
    (iis3dwb_int1_ctrl_t.ofByte b).int1_cnt_bdr =
      (readField (placeLsbFirst 0 iis3dwb_int1_ctrl_t.declLE) "int1_cnt_bdr" b).getD 0 ∧
    (iis3dwb_int1_ctrl_t.ofByte b).not_used_02 =
      (readField (placeLsbFirst 0 iis3dwb_int1_ctrl_t.declLE) "not_used_02" b).getD 0 ∧
    (iis3dwb_int2_ctrl_t.ofByte b).int2_drdy_xl =
      (readField (placeLsbFirst 0 iis3dwb_int2_ctrl_t.declLE) "int2_drdy_xl" b).getD 0 ∧
    (iis3dwb_int2_ctrl_t.ofByte b).not_used_01 =
      (readField (placeLsbFirst 0 iis3dwb_int2_ctrl_t.declLE) "not_used_01" b).getD 0 ∧
    (iis3dwb_int2_ctrl_t.ofByte b).int2_drdy_temp =
      (readField (placeLsbFirst 0 iis3dwb_int2_ctrl_t.declLE) "int2_drdy_temp" b).getD 0 ∧
    (iis3dwb_int2_ctrl_t.ofByte b).int2_fifo_th =
      (readField (placeLsbFirst 0 iis3dwb_int2_ctrl_t.declLE) "int2_fifo_th" b).getD 0 ∧
    (iis3dwb_int2_ctrl_t.ofByte b).int2_fifo_ovr =
      (readField (placeLsbFirst 0 iis3dwb_int2_ctrl_t.declLE) "int2_fifo_ovr" b).getD 0 ∧
    (iis3dwb_int2_ctrl_t.ofByte b).int2_fifo_full =
      (readField (placeLsbFirst 0 iis3dwb_int2_ctrl_t.declLE) "int2_fifo_full" b).getD 0 ∧
    (iis3dwb_int2_ctrl_t.ofByte b).int2_cnt_bdr =
      (readField (placeLsbFirst 0 iis3dwb_int2_ctrl_t.declLE) "int2_cnt_bdr" b).getD 0 ∧
    (iis3dwb_int2_ctrl_t.ofByte b).not_used_02 =
      (readField (placeLsbFirst 0 iis3dwb_int2_ctrl_t.declLE) "not_used_02" b).getD 0 ∧
    (iis3dwb_ctrl1_xl_t.ofByte b).not_used_01 =
      (readField (placeLsbFirst 0 iis3dwb_ctrl1_xl_t.declLE) "not_used_01" b).getD 0 ∧
    (iis3dwb_ctrl1_xl_t.ofByte b).lpf2_xl_en =
      (readField (placeLsbFirst 0 iis3dwb_ctrl1_xl_t.declLE) "lpf2_xl_en" b).getD 0 ∧
    (iis3dwb_ctrl1_xl_t.ofByte b).fs_xl =
      (readField (placeLsbFirst 0 iis3dwb_ctrl1_xl_t.declLE) "fs_xl" b).getD 0 ∧
    (iis3dwb_ctrl1_xl_t.ofByte b).not_used_02 =
      (readField (placeLsbFirst 0 iis3dwb_ctrl1_xl_t.declLE) "not_used_02" b).getD 0 ∧
    (iis3dwb_ctrl1_xl_t.ofByte b).xl_en =
      (readField (placeLsbFirst 0 iis3dwb_ctrl1_xl_t.declLE) "xl_en" b).getD 0 ∧
    (iis3dwb_ctrl3_c_t.ofByte b).sw_reset =
      (readField (placeLsbFirst 0 iis3dwb_ctrl3_c_t.declLE) "sw_reset" b).getD 0 ∧
    (iis3dwb_ctrl3_c_t.ofByte b).not_used_01 =
      (readField (placeLsbFirst 0 iis3dwb_ctrl3_c_t.declLE) "not_used_01" b).getD 0 ∧
    (iis3dwb_ctrl3_c_t.ofByte b).if_inc =
      (readField (placeLsbFirst 0 iis3dwb_ctrl3_c_t.declLE) "if_inc" b).getD 0 ∧
    (iis3dwb_ctrl3_c_t.ofByte b).sim =
      (readField (placeLsbFirst 0 iis3dwb_ctrl3_c_t.declLE) "sim" b).getD 0 ∧
    (iis3dwb_ctrl3_c_t.ofByte b).pp_od =
      (readField (placeLsbFirst 0 iis3dwb_ctrl3_c_t.declLE) "pp_od" b).getD 0 ∧
    (iis3dwb_ctrl3_c_t.ofByte b).h_lactive =
      (readField (placeLsbFirst 0 iis3dwb_ctrl3_c_t.declLE) "h_lactive" b).getD 0 ∧
    (iis3dwb_ctrl3_c_t.ofByte b).bdu =
      (readField (placeLsbFirst 0 iis3dwb_ctrl3_c_t.declLE) "bdu" b).getD 0 ∧
    (iis3dwb_ctrl3_c_t.ofByte b).boot =
      (readField (placeLsbFirst 0 iis3dwb_ctrl3_c_t.declLE) "boot" b).getD 0 ∧
    (iis3dwb_ctrl4_c_t.ofByte b)._1ax_to_3regout =
      (readField (placeLsbFirst 0 iis3dwb_ctrl4_c_t.declLE) "_1ax_to_3regout" b).getD 0 ∧
    (iis3dwb_ctrl4_c_t.ofByte b).lpf1_sel_g =
      (readField (placeLsbFirst 0 iis3dwb_ctrl4_c_t.declLE) "lpf1_sel_g" b).getD 0 ∧
    (iis3dwb_ctrl4_c_t.ofByte b).i2c_disable =
      (readField (placeLsbFirst 0 iis3dwb_ctrl4_c_t.declLE) "i2c_disable" b).getD 0 ∧
    (iis3dwb_ctrl4_c_t.ofByte b).drdy_mask =
      (readField (placeLsbFirst 0 iis3dwb_ctrl4_c_t.declLE) "drdy_mask" b).getD 0 ∧
    (iis3dwb_ctrl4_c_t.ofByte b).not_used_02 =
      (readField (placeLsbFirst 0 iis3dwb_ctrl4_c_t.declLE) "not_used_02" b).getD 0 ∧
    (iis3dwb_ctrl4_c_t.ofByte b).int2_on_int1 =
      (readField (placeLsbFirst 0 iis3dwb_ctrl4_c_t.declLE) "int2_on_int1" b).getD 0 ∧
    (iis3dwb_ctrl4_c_t.ofByte b).not_used_03 =
      (readField (placeLsbFirst 0 iis3dwb_ctrl4_c_t.declLE) "not_used_03" b).getD 0 ∧
    (iis3dwb_ctrl5_c_t.ofByte b).st_xl =
      (readField (placeLsbFirst 0 iis3dwb_ctrl5_c_t.declLE) "st_xl" b).getD 0 ∧
    (iis3dwb_ctrl5_c_t.ofByte b).not_used_01 =
      (readField (placeLsbFirst 0 iis3dwb_ctrl5_c_t.declLE) "not_used_01" b).getD 0 ∧
    (iis3dwb_ctrl5_c_t.ofByte b).rounding =
      (readField (placeLsbFirst 0 iis3dwb_ctrl5_c_t.declLE) "rounding" b).getD 0 ∧
    (iis3dwb_ctrl5_c_t.ofByte b).not_used_02 =
      (readField (placeLsbFirst 0 iis3dwb_ctrl5_c_t.declLE) "not_used_02" b).getD 0 ∧
    (iis3dwb_ctrl5_c_t.ofByte b).i2c_disable =
      (readField (placeLsbFirst 0 iis3dwb_ctrl5_c_t.declLE) "i2c_disable" b).getD 0 ∧
    (iis3dwb_ctrl6_c_t.ofByte b).xl_axis_sel =
      (readField (placeLsbFirst 0 iis3dwb_ctrl6_c_t.declLE) "xl_axis_sel" b).getD 0 ∧
    (iis3dwb_ctrl6_c_t.ofByte b).not_used_01 =
      (readField (placeLsbFirst 0 iis3dwb_ctrl6_c_t.declLE) "not_used_01" b).getD 0 ∧
    (iis3dwb_ctrl6_c_t.ofByte b).usr_off_w =
      (readField (placeLsbFirst 0 iis3dwb_ctrl6_c_t.declLE) "usr_off_w" b).getD 0 ∧
    (iis3dwb_ctrl6_c_t.ofByte b).not_used_02 =
      (readField (placeLsbFirst 0 iis3dwb_ctrl6_c_t.declLE) "not_used_02" b).getD 0 ∧
    (iis3dwb_ctrl7_c_t.ofByte b).not_used_01 =
      (readField (placeLsbFirst 0 iis3dwb_ctrl7_c_t.declLE) "not_used_01" b).getD 0 ∧
    (iis3dwb_ctrl7_c_t.ofByte b).usr_off_on_out =
      (readField (placeLsbFirst 0 iis3dwb_ctrl7_c_t.declLE) "usr_off_on_out" b).getD 0 ∧
    (iis3dwb_ctrl7_c_t.ofByte b).not_used_02 =
      (readField (placeLsbFirst 0 iis3dwb_ctrl7_c_t.declLE) "not_used_02" b).getD 0 ∧
    (iis3dwb_ctrl8_xl_t.ofByte b).not_used_01 =
      (readField (placeLsbFirst 0 iis3dwb_ctrl8_xl_t.declLE) "not_used_01" b).getD 0 ∧
    (iis3dwb_ctrl8_xl_t.ofByte b).fds =
      (readField (placeLsbFirst 0 iis3dwb_ctrl8_xl_t.declLE) "fds" b).getD 0 ∧
    (iis3dwb_ctrl8_xl_t.ofByte b).fastsettl_mode_xl =
      (readField (placeLsbFirst 0 iis3dwb_ctrl8_xl_t.declLE) "fastsettl_mode_xl" b).getD 0 ∧
    (iis3dwb_ctrl8_xl_t.ofByte b).hp_ref_mode_xl =
      (readField (placeLsbFirst 0 iis3dwb_ctrl8_xl_t.declLE) "hp_ref_mode_xl" b).getD 0 ∧
    (iis3dwb_ctrl8_xl_t.ofByte b).hpcf_xl =
      (readField (placeLsbFirst 0 iis3dwb_ctrl8_xl_t.declLE) "hpcf_xl" b).getD 0 ∧
    (iis3dwb_ctrl10_c_t.ofByte b).not_used_01 =
      (readField (placeLsbFirst 0 iis3dwb_ctrl10_c_t.declLE) "not_used_01" b).getD 0 ∧
    (iis3dwb_ctrl10_c_t.ofByte b).timestamp_en =
      (readField (placeLsbFirst 0 iis3dwb_ctrl10_c_t.declLE) "timestamp_en" b).getD 0 ∧
    (iis3dwb_ctrl10_c_t.ofByte b).not_used_02 =
      (readField (placeLsbFirst 0 iis3dwb_ctrl10_c_t.declLE) "not_used_02" b).getD 0 ∧
    (iis3dwb_all_int_src_t.ofByte b).not_used_01 =
      (readField (placeLsbFirst 0 iis3dwb_all_int_src_t.declLE) "not_used_01" b).getD 0 ∧
    (iis3dwb_all_int_src_t.ofByte b).wu_ia =
      (readField (placeLsbFirst 0 iis3dwb_all_int_src_t.declLE) "wu_ia" b).getD 0 ∧
    (iis3dwb_all_int_src_t.ofByte b).not_used_02 =
      (readField (placeLsbFirst 0 iis3dwb_all_int_src_t.declLE) "not_used_02" b).getD 0 ∧
    (iis3dwb_all_int_src_t.ofByte b).sleep_change =
      (readField (placeLsbFirst 0 iis3dwb_all_int_src_t.declLE) "sleep_change" b).getD 0 ∧
    (iis3dwb_all_int_src_t.ofByte b).not_used_03 =
      (readField (placeLsbFirst 0 iis3dwb_all_int_src_t.declLE) "not_used_03" b).getD 0 ∧
    (iis3dwb_all_int_src_t.ofByte b).timestamp_endcount =
      (readField (placeLsbFirst 0 iis3dwb_all_int_src_t.declLE) "timestamp_endcount" b).getD 0 ∧
    (iis3dwb_wake_up_src_t.ofByte b).z_wu =
      (readField (placeLsbFirst 0 iis3dwb_wake_up_src_t.declLE) "z_wu" b).getD 0 ∧
    (iis3dwb_wake_up_src_t.ofByte b).y_wu =
      (readField (placeLsbFirst 0 iis3dwb_wake_up_src_t.declLE) "y_wu" b).getD 0 ∧
    (iis3dwb_wake_up_src_t.ofByte b).x_wu =
      (readField (placeLsbFirst 0 iis3dwb_wake_up_src_t.declLE) "x_wu" b).getD 0 ∧
    (iis3dwb_wake_up_src_t.ofByte b).wu_ia =
      (readField (placeLsbFirst 0 iis3dwb_wake_up_src_t.declLE) "wu_ia" b).getD 0 ∧
    (iis3dwb_wake_up_src_t.ofByte b).sleep_state_ia =
      (readField (placeLsbFirst 0 iis3dwb_wake_up_src_t.declLE) "sleep_state_ia" b).getD 0 ∧
    (iis3dwb_wake_up_src_t.ofByte b).not_used_01 =
      (readField (placeLsbFirst 0 iis3dwb_wake_up_src_t.declLE) "not_used_01" b).getD 0 ∧
    (iis3dwb_wake_up_src_t.ofByte b).sleep_change_ia =
      (readField (placeLsbFirst 0 iis3dwb_wake_up_src_t.declLE) "sleep_change_ia" b).getD 0 ∧
    (iis3dwb_wake_up_src_t.ofByte b).not_used_02 =
      (readField (placeLsbFirst 0 iis3dwb_wake_up_src_t.declLE) "not_used_02" b).getD 0 ∧
    (iis3dwb_status_reg_t.ofByte b).xlda =
      (readField (placeLsbFirst 0 iis3dwb_status_reg_t.declLE) "xlda" b).getD 0 ∧
    (iis3dwb_status_reg_t.ofByte b).not_used_01 =
      (readField (placeLsbFirst 0 iis3dwb_status_reg_t.declLE) "not_used_01" b).getD 0 ∧
    (iis3dwb_status_reg_t.ofByte b).tda =
      (readField (placeLsbFirst 0 iis3dwb_status_reg_t.declLE) "tda" b).getD 0 ∧
    (iis3dwb_status_reg_t.ofByte b).not_used_02 =
      (readField (placeLsbFirst 0 iis3dwb_status_reg_t.declLE) "not_used_02" b).getD 0 ∧
    (iis3dwb_fifo_status1_t.ofByte b).diff_fifo =
      (readField (placeLsbFirst 0 iis3dwb_fifo_status1_t.decl) "diff_fifo" b).getD 0 ∧
    (iis3dwb_fifo_status2_t.ofByte b).diff_fifo =
      (readField (placeLsbFirst 0 iis3dwb_fifo_status2_t.declLE) "diff_fifo" b).getD 0 ∧
    (iis3dwb_fifo_status2_t.ofByte b).not_used_01 =
      (readField (placeLsbFirst 0 iis3dwb_fifo_status2_t.declLE) "not_used_01" b).getD 0 ∧
    (iis3dwb_fifo_status2_t.ofByte b).fifo_ovr_latched =
      (readField (placeLsbFirst 0 iis3dwb_fifo_status2_t.declLE) "fifo_ovr_latched" b).getD 0 ∧
    (iis3dwb_fifo_status2_t.ofByte b).counter_bdr_ia =
      (readField (placeLsbFirst 0 iis3dwb_fifo_status2_t.declLE) "counter_bdr_ia" b).getD 0 ∧
    (iis3dwb_fifo_status2_t.ofByte b).fifo_full_ia =
      (readField (placeLsbFirst 0 iis3dwb_fifo_status2_t.declLE) "fifo_full_ia" b).getD 0 ∧
    (iis3dwb_fifo_status2_t.ofByte b).fifo_ovr_ia =
      (readField (placeLsbFirst 0 iis3dwb_fifo_status2_t.declLE) "fifo_ovr_ia" b).getD 0 ∧
    (iis3dwb_fifo_status2_t.ofByte b).fifo_wtm_ia =
      (readField (placeLsbFirst 0 iis3dwb_fifo_status2_t.declLE) "fifo_wtm_ia" b).getD 0 ∧
    (iis3dwb_slope_en_t.ofByte b).lir =
      (readField (placeLsbFirst 0 iis3dwb_slope_en_t.declLE) "lir" b).getD 0 ∧
    (iis3dwb_slope_en_t.ofByte b).not_used_01 =
      (readField (placeLsbFirst 0 iis3dwb_slope_en_t.declLE) "not_used_01" b).getD 0 ∧
    (iis3dwb_slope_en_t.ofByte b).slope_fds =
      (readField (placeLsbFirst 0 iis3dwb_slope_en_t.declLE) "slope_fds" b).getD 0 ∧
    (iis3dwb_slope_en_t.ofByte b).sleep_status_on_int =
      (readField (placeLsbFirst 0 iis3dwb_slope_en_t.declLE) "sleep_status_on_int" b).getD 0 ∧
    (iis3dwb_slope_en_t.ofByte b).not_used_02 =
      (readField (placeLsbFirst 0 iis3dwb_slope_en_t.declLE) "not_used_02" b).getD 0 ∧
    (iis3dwb_interrupts_en_t.ofByte b).not_used_01 =
      (readField (placeLsbFirst 0 iis3dwb_interrupts_en_t.declLE) "not_used_01" b).getD 0 ∧
    (iis3dwb_interrupts_en_t.ofByte b).interrupts_enable =
      (readField (placeLsbFirst 0 iis3dwb_interrupts_en_t.declLE) "interrupts_enable" b).getD 0 ∧
    (iis3dwb_wake_up_ths_t.ofByte b).wk_ths =
      (readField (placeLsbFirst 0 iis3dwb_wake_up_ths_t.declLE) "wk_ths" b).getD 0 ∧
    (iis3dwb_wake_up_ths_t.ofByte b).usr_off_on_wu =
      (readField (placeLsbFirst 0 iis3dwb_wake_up_ths_t.declLE) "usr_off_on_wu" b).getD 0 ∧
    (iis3dwb_wake_up_ths_t.ofByte b).not_used_01 =
      (readField (placeLsbFirst 0 iis3dwb_wake_up_ths_t.declLE) "not_used_01" b).getD 0 ∧
    (iis3dwb_wake_up_dur_t.ofByte b).sleep_dur =
      (readField (placeLsbFirst 0 iis3dwb_wake_up_dur_t.declLE) "sleep_dur" b).getD 0 ∧
    (iis3dwb_wake_up_dur_t.ofByte b).wake_ths_w =
      (readField (placeLsbFirst 0 iis3dwb_wake_up_dur_t.declLE) "wake_ths_w" b).getD 0 ∧
    (iis3dwb_wake_up_dur_t.ofByte b).wake_dur =
      (readField (placeLsbFirst 0 iis3dwb_wake_up_dur_t.declLE) "wake_dur" b).getD 0 ∧
    (iis3dwb_wake_up_dur_t.ofByte b).not_used_01 =
      (readField (placeLsbFirst 0 iis3dwb_wake_up_dur_t.declLE) "not_used_01" b).getD 0 ∧
    (iis3dwb_md1_cfg_t.ofByte b).not_used_01 =
      (readField (placeLsbFirst 0 iis3dwb_md1_cfg_t.declLE) "not_used_01" b).getD 0 ∧
    (iis3dwb_md1_cfg_t.ofByte b).int1_wu =
      (readField (placeLsbFirst 0 iis3dwb_md1_cfg_t.declLE) "int1_wu" b).getD 0 ∧
    (iis3dwb_md1_cfg_t.ofByte b).not_used_02 =
      (readField (placeLsbFirst 0 iis3dwb_md1_cfg_t.declLE) "not_used_02" b).getD 0 ∧
    (iis3dwb_md1_cfg_t.ofByte b).int1_sleep_change =
      (readField (placeLsbFirst 0 iis3dwb_md1_cfg_t.declLE) "int1_sleep_change" b).getD 0 ∧
    (iis3dwb_md2_cfg_t.ofByte b).int2_timestamp =
      (readField (placeLsbFirst 0 iis3dwb_md2_cfg_t.declLE) "int2_timestamp" b).getD 0 ∧
    (iis3dwb_md2_cfg_t.ofByte b).not_used_01 =
      (readField (placeLsbFirst 0 iis3dwb_md2_cfg_t.declLE) "not_used_01" b).getD 0 ∧
    (iis3dwb_md2_cfg_t.ofByte b).int2_wu =
      (readField (placeLsbFirst 0 iis3dwb_md2_cfg_t.declLE) "int2_wu" b).getD 0 ∧
    (iis3dwb_md2_cfg_t.ofByte b).not_used_02 =
      (readField (placeLsbFirst 0 iis3dwb_md2_cfg_t.declLE) "not_used_02" b).getD 0 ∧
    (iis3dwb_md2_cfg_t.ofByte b).int2_sleep_change =
      (readField (placeLsbFirst 0 iis3dwb_md2_cfg_t.declLE) "int2_sleep_change" b).getD 0 ∧
    (iis3dwb_internal_freq_fine_t.ofByte b).freq_fine =
      (readField (placeLsbFirst 0 iis3dwb_internal_freq_fine_t.decl) "freq_fine" b).getD 0 ∧
    (iis3dwb_fifo_data_out_tag_t.ofByte b).tag_parity =
      (readField (placeLsbFirst 0 iis3dwb_fifo_data_out_tag_t.declLE) "tag_parity" b).getD 0 ∧
    (iis3dwb_fifo_data_out_tag_t.ofByte b).tag_cnt =
      (readField (placeLsbFirst 0 iis3dwb_fifo_data_out_tag_t.declLE) "tag_cnt" b).getD 0 ∧
    (iis3dwb_fifo_data_out_tag_t.ofByte b).tag_sensor =
      (readField (placeLsbFirst 0 iis3dwb_fifo_data_out_tag_t.declLE) "tag_sensor" b).getD 0 := by
  refine ⟨?_, ?_, ?_, ?_, ?_, ?_, ?_, ?_, ?_, ?_, ?_, ?_, ?_, ?_, ?_, ?_, ?_, ?_, ?_, ?_, ?_,
    ?_, ?_, ?_, ?_, ?_, ?_, ?_, ?_, ?_, ?_, ?_, ?_, ?_, ?_, ?_, ?_, ?_, ?_, ?_, ?_, ?_, ?_, ?_,
    ?_, ?_, ?_, ?_, ?_, ?_, ?_, ?_, ?_, ?_, ?_, ?_, ?_, ?_, ?_, ?_, ?_, ?_, ?_, ?_, ?_, ?_, ?_,
    ?_, ?_, ?_, ?_, ?_, ?_, ?_, ?_, ?_, ?_, ?_, ?_, ?_, ?_, ?_, ?_, ?_, ?_, ?_, ?_, ?_, ?_, ?_,
    ?_, ?_, ?_, ?_, ?_, ?_, ?_, ?_, ?_, ?_, ?_, ?_, ?_, ?_, ?_, ?_, ?_, ?_, ?_, ?_, ?_, ?_, ?_,
    ?_, ?_, ?_, ?_, ?_, ?_, ?_, ?_, ?_, ?_, ?_, ?_, ?_, ?_⟩
  · show _ = fieldBits b 0 6
    simp [iis3dwb_pin_ctrl_t.ofByte, fieldBits]
  · show _ = fieldBits b 6 1
    simp [iis3dwb_pin_ctrl_t.ofByte, fieldBits]
  · show _ = fieldBits b 7 1
    simp [iis3dwb_pin_ctrl_t.ofByte, fieldBits]
  · show _ = fieldBits b 0 8
    simp [iis3dwb_fifo_ctrl1_t.ofByte, fieldBits]
  · show _ = fieldBits b 0 1
    simp [iis3dwb_fifo_ctrl2_t.ofByte, fieldBits]
  · show _ = fieldBits b 1 6
    simp [iis3dwb_fifo_ctrl2_t.ofByte, fieldBits]
  · show _ = fieldBits b 7 1
    simp [iis3dwb_fifo_ctrl2_t.ofByte, fieldBits]
  · show _ = fieldBits b 0 4
    simp [iis3dwb_fifo_ctrl3_t.ofByte, fieldBits]
  · show _ = fieldBits b 4 4
    simp [iis3dwb_fifo_ctrl3_t.ofByte, fieldBits]
  · show _ = fieldBits b 0 3
    simp [iis3dwb_fifo_ctrl4_t.ofByte, fieldBits]
  · show _ = fieldBits b 3 1
    simp [iis3dwb_fifo_ctrl4_t.ofByte, fieldBits]
  · show _ = fieldBits b 4 2
    simp [iis3dwb_fifo_ctrl4_t.ofByte, fieldBits]
  · show _ = fieldBits b 6 2
    simp [iis3dwb_fifo_ctrl4_t.ofByte, fieldBits]
  · show _ = fieldBits b 0 3
    simp [iis3dwb_counter_bdr_reg1_t.ofByte, fieldBits]
  · show _ = fieldBits b 3 3
    simp [iis3dwb_counter_bdr_reg1_t.ofByte, fieldBits]
  · show _ = fieldBits b 6 1
    simp [iis3dwb_counter_bdr_reg1_t.ofByte, fieldBits]
  · show _ = fieldBits b 7 1
    simp [iis3dwb_counter_bdr_reg1_t.ofByte, fieldBits]
  · show _ = fieldBits b 0 8
    simp [iis3dwb_counter_bdr_reg2_t.ofByte, fieldBits]
  · show _ = fieldBits b 0 1
    simp [iis3dwb_int1_ctrl_t.ofByte, fieldBits]
  · show _ = fieldBits b 1 1
    simp [iis3dwb_int1_ctrl_t.ofByte, fieldBits]
  · show _ = fieldBits b 2 1
    simp [iis3dwb_int1_ctrl_t.ofByte, fieldBits]
  · show _ = fieldBits b 3 1
    simp [iis3dwb_int1_ctrl_t.ofByte, fieldBits]
  · show _ = fieldBits b 4 1
    simp [iis3dwb_int1_ctrl_t.ofByte, fieldBits]
  · show _ = fieldBits b 5 1
    simp [iis3dwb_int1_ctrl_t.ofByte, fieldBits]
  · show _ = fieldBits b 6 1
    simp [iis3dwb_int1_ctrl_t.ofByte, fieldBits]
  · show _ = fieldBits b 7 1
    simp [iis3dwb_int1_ctrl_t.ofByte, fieldBits]
  · show _ = fieldBits b 0 1
    simp [iis3dwb_int2_ctrl_t.ofByte, fieldBits]
  · show _ = fieldBits b 1 1
    simp [iis3dwb_int2_ctrl_t.ofByte, fieldBits]
  · show _ = fieldBits b 2 1
    simp [iis3dwb_int2_ctrl_t.ofByte, fieldBits]
  · show _ = fieldBits b 3 1
    simp [iis3dwb_int2_ctrl_t.ofByte, fieldBits]
  · show _ = fieldBits b 4 1
    simp [iis3dwb_int2_ctrl_t.ofByte, fieldBits]
  · show _ = fieldBits b 5 1
    simp [iis3dwb_int2_ctrl_t.ofByte, fieldBits]
  · show _ = fieldBits b 6 1
    simp [iis3dwb_int2_ctrl_t.ofByte, fieldBits]
  · show _ = fieldBits b 7 1
    simp [iis3dwb_int2_ctrl_t.ofByte, fieldBits]
  · show _ = fieldBits b 0 1
    simp [iis3dwb_ctrl1_xl_t.ofByte, fieldBits]
  · show _ = fieldBits b 1 1
    simp [iis3dwb_ctrl1_xl_t.ofByte, fieldBits]
  · show _ = fieldBits b 2 2
    simp [iis3dwb_ctrl1_xl_t.ofByte, fieldBits]
  · show _ = fieldBits b 4 1
    simp [iis3dwb_ctrl1_xl_t.ofByte, fieldBits]
  · show _ = fieldBits b 5 3
    simp [iis3dwb_ctrl1_xl_t.ofByte, fieldBits]
  · show _ = fieldBits b 0 1
    simp [iis3dwb_ctrl3_c_t.ofByte, fieldBits]
  · show _ = fieldBits b 1 1
    simp [iis3dwb_ctrl3_c_t.ofByte, fieldBits]
  · show _ = fieldBits b 2 1
    simp [iis3dwb_ctrl3_c_t.ofByte, fieldBits]
  · show _ = fieldBits b 3 1
    simp [iis3dwb_ctrl3_c_t.ofByte, fieldBits]
  · show _ = fieldBits b 4 1
    simp [iis3dwb_ctrl3_c_t.ofByte, fieldBits]
  · show _ = fieldBits b 5 1
    simp [iis3dwb_ctrl3_c_t.ofByte, fieldBits]
  · show _ = fieldBits b 6 1
    simp [iis3dwb_ctrl3_c_t.ofByte, fieldBits]
  · show _ = fieldBits b 7 1
    simp [iis3dwb_ctrl3_c_t.ofByte, fieldBits]
  · show _ = fieldBits b 0 1
    simp [iis3dwb_ctrl4_c_t.ofByte, fieldBits]
  · show _ = fieldBits b 1 1
    simp [iis3dwb_ctrl4_c_t.ofByte, fieldBits]
  · show _ = fieldBits b 2 1
    simp [iis3dwb_ctrl4_c_t.ofByte, fieldBits]
  · show _ = fieldBits b 3 1
    simp [iis3dwb_ctrl4_c_t.ofByte, fieldBits]
  · show _ = fieldBits b 4 1
    simp [iis3dwb_ctrl4_c_t.ofByte, fieldBits]
  · show _ = fieldBits b 5 1
    simp [iis3dwb_ctrl4_c_t.ofByte, fieldBits]
  · show _ = fieldBits b 6 2
    simp [iis3dwb_ctrl4_c_t.ofByte, fieldBits]
  · show _ = fieldBits b 0 2
    simp [iis3dwb_ctrl5_c_t.ofByte, fieldBits]
  · show _ = fieldBits b 2 3
    simp [iis3dwb_ctrl5_c_t.ofByte, fieldBits]
  · show _ = fieldBits b 5 2
    simp [iis3dwb_ctrl5_c_t.ofByte, fieldBits]
  · show _ = fieldBits b 7 1
    simp [iis3dwb_ctrl5_c_t.ofByte, fieldBits]
  · rfl
  · show _ = fieldBits b 0 2
    simp [iis3dwb_ctrl6_c_t.ofByte, fieldBits]
  · show _ = fieldBits b 2 1
    simp [iis3dwb_ctrl6_c_t.ofByte, fieldBits]
  · show _ = fieldBits b 3 1
    simp [iis3dwb_ctrl6_c_t.ofByte, fieldBits]
  · show _ = fieldBits b 4 4
    simp [iis3dwb_ctrl6_c_t.ofByte, fieldBits]
  · show _ = fieldBits b 0 1
    simp [iis3dwb_ctrl7_c_t.ofByte, fieldBits]
  · show _ = fieldBits b 1 1
    simp [iis3dwb_ctrl7_c_t.ofByte, fieldBits]
  · show _ = fieldBits b 2 6
    simp [iis3dwb_ctrl7_c_t.ofByte, fieldBits]
  · show _ = fieldBits b 0 2
    simp [iis3dwb_ctrl8_xl_t.ofByte, fieldBits]
  · show _ = fieldBits b 2 1
    simp [iis3dwb_ctrl8_xl_t.ofByte, fieldBits]
  · show _ = fieldBits b 3 1
    simp [iis3dwb_ctrl8_xl_t.ofByte, fieldBits]
  · show _ = fieldBits b 4 1
    simp [iis3dwb_ctrl8_xl_t.ofByte, fieldBits]
  · show _ = fieldBits b 5 3
    simp [iis3dwb_ctrl8_xl_t.ofByte, fieldBits]
  · show _ = fieldBits b 0 5
    simp [iis3dwb_ctrl10_c_t.ofByte, fieldBits]
  · show _ = fieldBits b 5 1
    simp [iis3dwb_ctrl10_c_t.ofByte, fieldBits]
  · show _ = fieldBits b 6 2
    simp [iis3dwb_ctrl10_c_t.ofByte, fieldBits]
  · show _ = fieldBits b 0 1
    simp [iis3dwb_all_int_src_t.ofByte, fieldBits]
  · show _ = fieldBits b 1 1
    simp [iis3dwb_all_int_src_t.ofByte, fieldBits]
  · show _ = fieldBits b 2 3
    simp [iis3dwb_all_int_src_t.ofByte, fieldBits]
  · show _ = fieldBits b 5 1
    simp [iis3dwb_all_int_src_t.ofByte, fieldBits]
  · show _ = fieldBits b 6 1
    simp [iis3dwb_all_int_src_t.ofByte, fieldBits]
  · show _ = fieldBits b 7 1
    simp [iis3dwb_all_int_src_t.ofByte, fieldBits]
  · show _ = fieldBits b 0 1
    simp [iis3dwb_wake_up_src_t.ofByte, fieldBits]
  · show _ = fieldBits b 1 1
    simp [iis3dwb_wake_up_src_t.ofByte, fieldBits]
  · show _ = fieldBits b 2 1
    simp [iis3dwb_wake_up_src_t.ofByte, fieldBits]
  · show _ = fieldBits b 3 1
    simp [iis3dwb_wake_up_src_t.ofByte, fieldBits]
  · show _ = fieldBits b 4 1
    simp [iis3dwb_wake_up_src_t.ofByte, fieldBits]
  · show _ = fieldBits b 5 1
    simp [iis3dwb_wake_up_src_t.ofByte, fieldBits]
  · show _ = fieldBits b 6 1
    simp [iis3dwb_wake_up_src_t.ofByte, fieldBits]
  · show _ = fieldBits b 7 1
    simp [iis3dwb_wake_up_src_t.ofByte, fieldBits]
  · show _ = fieldBits b 0 1
    simp [iis3dwb_status_reg_t.ofByte, fieldBits]
  · show _ = fieldBits b 1 1
    simp [iis3dwb_status_reg_t.ofByte, fieldBits]
  · show _ = fieldBits b 2 1
    simp [iis3dwb_status_reg_t.ofByte, fieldBits]
  · show _ = fieldBits b 3 5
    simp [iis3dwb_status_reg_t.ofByte, fieldBits]
  · show _ = fieldBits b 0 8
    simp [iis3dwb_fifo_status1_t.ofByte, fieldBits]
  · show _ = fieldBits b 0 2
    simp [iis3dwb_fifo_status2_t.ofByte, fieldBits]
  · show _ = fieldBits b 2 1
    simp [iis3dwb_fifo_status2_t.ofByte, fieldBits]
  · show _ = fieldBits b 3 1
    simp [iis3dwb_fifo_status2_t.ofByte, fieldBits]
  · show _ = fieldBits b 4 1
    simp [iis3dwb_fifo_status2_t.ofByte, fieldBits]
  · show _ = fieldBits b 5 1
    simp [iis3dwb_fifo_status2_t.ofByte, fieldBits]
  · show _ = fieldBits b 6 1
    simp [iis3dwb_fifo_status2_t.ofByte, fieldBits]
  · show _ = fieldBits b 7 1
    simp [iis3dwb_fifo_status2_t.ofByte, fieldBits]
  · show _ = fieldBits b 0 1
    simp [iis3dwb_slope_en_t.ofByte, fieldBits]
  · show _ = fieldBits b 1 3
    simp [iis3dwb_slope_en_t.ofByte, fieldBits]
  · show _ = fieldBits b 4 1
    simp [iis3dwb_slope_en_t.ofByte, fieldBits]
  · show _ = fieldBits b 5 1
    simp [iis3dwb_slope_en_t.ofByte, fieldBits]
  · show _ = fieldBits b 6 2
    simp [iis3dwb_slope_en_t.ofByte, fieldBits]
  · show _ = fieldBits b 0 7
    simp [iis3dwb_interrupts_en_t.ofByte, fieldBits]
  · show _ = fieldBits b 7 1
    simp [iis3dwb_interrupts_en_t.ofByte, fieldBits]
  · show _ = fieldBits b 0 6
    simp [iis3dwb_wake_up_ths_t.ofByte, fieldBits]
  · show _ = fieldBits b 6 1
    simp [iis3dwb_wake_up_ths_t.ofByte, fieldBits]
  · show _ = fieldBits b 7 1
    simp [iis3dwb_wake_up_ths_t.ofByte, fieldBits]
  · show _ = fieldBits b 0 4
    simp [iis3dwb_wake_up_dur_t.ofByte, fieldBits]
  · show _ = fieldBits b 4 1
    simp [iis3dwb_wake_up_dur_t.ofByte, fieldBits]
  · show _ = fieldBits b 5 2
    simp [iis3dwb_wake_up_dur_t.ofByte, fieldBits]
  · show _ = fieldBits b 7 1
    simp [iis3dwb_wake_up_dur_t.ofByte, fieldBits]
  · show _ = fieldBits b 0 5
    simp [iis3dwb_md1_cfg_t.ofByte, fieldBits]
  · show _ = fieldBits b 5 1
    simp [iis3dwb_md1_cfg_t.ofByte, fieldBits]
  · show _ = fieldBits b 6 1
    simp [iis3dwb_md1_cfg_t.ofByte, fieldBits]
  · show _ = fieldBits b 7 1
    simp [iis3dwb_md1_cfg_t.ofByte, fieldBits]
  · show _ = fieldBits b 0 1
    simp [iis3dwb_md2_cfg_t.ofByte, fieldBits]
  · show _ = fieldBits b 1 4
    simp [iis3dwb_md2_cfg_t.ofByte, fieldBits]
  · show _ = fieldBits b 5 1
    simp [iis3dwb_md2_cfg_t.ofByte, fieldBits]
  · show _ = fieldBits b 6 1
    simp [iis3dwb_md2_cfg_t.ofByte, fieldBits]
  · show _ = fieldBits b 7 1
    simp [iis3dwb_md2_cfg_t.ofByte, fieldBits]
  · show _ = fieldBits b 0 8
    simp [iis3dwb_internal_freq_fine_t.ofByte, fieldBits]
  · show _ = fieldBits b 0 1
    simp [iis3dwb_fifo_data_out_tag_t.ofByte, fieldBits]
  · show _ = fieldBits b 1 2
    simp [iis3dwb_fifo_data_out_tag_t.ofByte, fieldBits]
  · show _ = fieldBits b 3 5
    simp [iis3dwb_fifo_data_out_tag_t.ofByte, fieldBits]

/-! ## C29, C30: the declared layouts -/

/-- C29 (the code at the failing layout). `iis3dwb_ctrl5_c_t` declares field widths
2 + 3 + 2 + 1 + 1 = 9 under either byte order: after `not_used_02`, which completes the
8 bits, it declares a further 1-bit field `i2c_disable`. Every other layout of the
register map declares widths that sum to exactly 8 under both byte orders, and under the
least-significant-bit-first allocation each of its bits 0 to 7 belongs to exactly one
field. -/
theorem ctrl5_c_declares_nine_bits :
    widthSum iis3dwb_ctrl5_c_t.declLE = 9 ∧ widthSum iis3dwb_ctrl5_c_t.declBE = 9 ∧
    ("iis3dwb_ctrl5_c_t", iis3dwb_ctrl5_c_t.declLE, iis3dwb_ctrl5_c_t.declBE) ∈
      registerLayouts ∧
    registerLayouts.length = 30 ∧
    (∀ l ∈ registerLayouts, l.1 ≠ "iis3dwb_ctrl5_c_t" →
      widthSum l.2.1 = 8 ∧ widthSum l.2.2 = 8 ∧
      ∀ i < 8, ((placeLsbFirst 0 l.2.1).filter
        (fun p => match p.2.1 with
          | some lo => decide (lo ≤ i ∧ i < lo + p.2.2)
          | none => false)).length = 1) := by
  decide

/-- C30 (the code at the failing layout). Every layout of the register map declares,
under `DRV_BIG_ENDIAN`, the fields of its `DRV_LITTLE_ENDIAN` declaration with the same
widths in reversed order, and for every layout other than `iis3dwb_ctrl5_c_t` every
field has the same bit position under both conventions, so that it reads the same value
from every byte. In `iis3dwb_ctrl5_c_t`, which declares 9 bits, `rounding` occupies bits
6-5 when allocated least significant bit first and bits 5-4 when allocated most
significant bit first, `i2c_disable` lies outside the byte in the first case and on bit
7 in the second, and `st_xl` occupies bits 1-0 in the first case and does not fit the
byte in the second. -/
theorem ctrl5_c_positions_differ_between_byte_orders :
    (∀ l ∈ registerLayouts, l.2.2 = l.2.1.reverse) ∧
    (∀ l ∈ registerLayouts, l.1 ≠ "iis3dwb_ctrl5_c_t" →
      placeMsbFirst 0 l.2.2 = (placeLsbFirst 0 l.2.1).reverse) ∧
    (∀ l ∈ registerLayouts, l.1 ≠ "iis3dwb_ctrl5_c_t" → ∀ f ∈ l.2.1, ∀ b,
      readField (placeMsbFirst 0 l.2.2) f.1 b = readField (placeLsbFirst 0 l.2.1) f.1 b) ∧
    (placeLsbFirst 0 iis3dwb_ctrl5_c_t.declLE).lookup "rounding" = some (some 5, 2) ∧
    (placeMsbFirst 0 iis3dwb_ctrl5_c_t.declBE).lookup "rounding" = some (some 4, 2) ∧
    (placeLsbFirst 0 iis3dwb_ctrl5_c_t.declLE).lookup "i2c_disable" = some (none, 1) ∧
    (placeMsbFirst 0 iis3dwb_ctrl5_c_t.declBE).lookup "i2c_disable" = some (some 7, 1) ∧
    (placeLsbFirst 0 iis3dwb_ctrl5_c_t.declLE).lookup "st_xl" = some (some 0, 2) ∧
    (placeMsbFirst 0 iis3dwb_ctrl5_c_t.declBE).lookup "st_xl" = some (none, 2) ∧
    readField (placeLsbFirst 0 iis3dwb_ctrl5_c_t.declLE) "rounding" 0x20 = some 1 ∧
    readField (placeMsbFirst 0 iis3dwb_ctrl5_c_t.declBE) "rounding" 0x20 = some 2 := by
  refine ⟨by decide, by decide, ?_, by decide, by decide, by decide, by decide, by decide,
    by decide, by decide, by decide⟩
  intro l hl hne f hf b
  simp only [readField, same_lookup_under_both_orders l hl hne f hf]

/-! ## C31: decoding of the FIFO status -/

/-- C31. FIFO status decoding: whenever the 2-byte transport read at FIFO_STATUS1 (0x3A)
returns status 0 and the bytes `s1` (FIFO_STATUS1) and `s2` (FIFO_STATUS2),
`iis3dwb_fifo_status_get` returns status 0 with `fifo_level` = (s2 mod 4) * 256 + s1,
which is at most 1023, `fifo_th` = bit 7 of s2, `fifo_full` = bit 5 of s2, `fifo_bdr` =
bit 4 of s2, and `fifo_ovr` = 1 when bit 6 or bit 3 of s2 is set and 0 otherwise. -/
theorem fifo_status_decoding {σ : Type} (c : stmdev_ctx_t σ) (s t : σ) (s1 s2 : Nat)
    (h1 : s1 < 256) (h2 : s2 < 256) (hr : c.read_reg s 0x3A 2 = (0, [s1, s2], t)) :
    (iis3dwb_fifo_status_get (some c) s).1 = 0 ∧
    (iis3dwb_fifo_status_get (some c) s).2.2 = t ∧
    (iis3dwb_fifo_status_get (some c) s).2.1.fifo_level = (s2 % 4) * 256 + s1 ∧
    (iis3dwb_fifo_status_get (some c) s).2.1.fifo_level ≤ 1023 ∧
    (iis3dwb_fifo_status_get (some c) s).2.1.fifo_th = bitOf s2 7 ∧
    (iis3dwb_fifo_status_get (some c) s).2.1.fifo_full = bitOf s2 5 ∧
    (iis3dwb_fifo_status_get (some c) s).2.1.fifo_bdr = bitOf s2 4 ∧
    (iis3dwb_fifo_status_get (some c) s).2.1.fifo_ovr =
      (if bitOf s2 6 = 1 ∨ bitOf s2 3 = 1 then 1 else 0) := by
  have eb : ∀ a b : Nat, a < 2 → b < 2 → (a ||| b) % 2 = if a = 1 ∨ b = 1 then 1 else 0 := by
    intro a b ha hb
    interval_cases a <;> interval_cases b <;> decide
  have e3 : s2 % 256 % 65536 &&& 0x03 = s2 % 4 := by
    have := Nat.and_pow_two_sub_one_eq_mod (s2 % 256 % 65536) 2
    simp only [Nat.reducePow, Nat.add_one_sub_one] at this
    rw [show (0x03 : Nat) = 3 from rfl, this]
    omega
  simp only [iis3dwb_fifo_status_get, iis3dwb_read_reg, IIS3DWB_FIFO_STATUS1, hr, byteAt,
    bytecpy, List.getD_cons_zero, List.getD_cons_succ, iis3dwb_fifo_status2_t.ofByte, e3,
    eb _ _ (Nat.mod_lt _ (by decide : 0 < 2)) (Nat.mod_lt _ (by decide : 0 < 2)), bitOf,
    true_and]
  refine ⟨?_, ?_, ?_, ?_, ?_, ?_⟩
  · omega
  · omega
  · omega
  · omega
  · omega
  · have a6 : s2 % 256 / 64 % 2 = s2 / 2 ^ 6 % 2 := by omega
    have a3 : s2 % 256 / 8 % 2 = s2 / 2 ^ 3 % 2 := by omega
    rw [a6, a3]

/-- C31 witness: on a device holding 0x34 in FIFO_STATUS1 and 0xCA in FIFO_STATUS2 the
level is 0x234, and the watermark, overrun and latched-overrun flags are set. -/
theorem fifo_status_decoding_witness :
    (iis3dwb_fifo_status_get (some devCtx)
      (Device.fresh (fun a => if a = 0x3A then 0x34 else 0xCA))).2.1 =
      ⟨0x234, 0, 0, 1, 1⟩ ∧
    (iis3dwb_fifo_status_get (some devCtx)
      (Device.fresh (fun a => if a = 0x3A then 0x34 else 0xCA))).2.1.fifo_level =
      (0xCA % 4) * 256 + 0x34 :=
  ⟨by decide,
    (fifo_status_decoding devCtx (Device.fresh (fun a => if a = 0x3A then 0x34 else 0xCA))
      ⟨fun a => if a = 0x3A then 0x34 else 0xCA, [Txn.read 0x3A 2], fun _ => 0⟩ 0x34 0xCA
      (by decide) (by decide) rfl).2.2.1⟩

/-! ## C39: timestamp reset -/

/-- C39. Timestamp reset: `iis3dwb_timestamp_rst` is exactly one call of the transport
write, of the single byte 0xAA at TIMESTAMP2 (0x42), and returns what that call returns;
on every device state it appends that one write, and no read, to the log and returns the
status the transport reports for it. -/
theorem timestamp_rst_single_write {σ : Type} (c : stmdev_ctx_t σ) (s : σ) (d : Device) :
    iis3dwb_timestamp_rst (some c) s = c.write_reg s 0x42 [0xAA] 1 ∧
    (iis3dwb_timestamp_rst (some devCtx) d).2.log = d.log ++ [Txn.write 0x42 [0xAA] 1] ∧
    (iis3dwb_timestamp_rst (some devCtx) d).1 = d.status d.log.length := by
  obtain ⟨regs, log, status⟩ := d
  simp only [iis3dwb_timestamp_rst, iis3dwb_write_reg, IIS3DWB_TIMESTAMP2, devCtx, Device.write,
    true_and]
  constructor <;> split_ifs with h <;> simp [h]

/-! ## C38: the two FIFO level accessors -/

/-- C38. The two FIFO level accessors agree: for every device state and every prior
content `lvl0` of the caller's variable, on a transport that always succeeds,
`iis3dwb_fifo_data_level_get` (two 1-byte reads) and `iis3dwb_fifo_status_get` (one 2-byte
read) both return status 0, and the value of the first equals the `fifo_level` of the
second, both being (FIFO_STATUS2 mod 4) * 256 + FIFO_STATUS1. -/
theorem fifo_level_accessors_agree (d : Device) (lvl0 : Nat) (hok : d.alwaysOk) :
    (iis3dwb_fifo_data_level_get (some devCtx) lvl0 d).1 = 0 ∧
    (iis3dwb_fifo_status_get (some devCtx) d).1 = 0 ∧
    (iis3dwb_fifo_data_level_get (some devCtx) lvl0 d).2.2.log =
      d.log ++ [Txn.read 0x3A 1, Txn.read 0x3B 1] ∧
    (iis3dwb_fifo_status_get (some devCtx) d).2.2.log = d.log ++ [Txn.read 0x3A 2] ∧
    (iis3dwb_fifo_data_level_get (some devCtx) lvl0 d).2.1 =
      (iis3dwb_fifo_status_get (some devCtx) d).2.1.fifo_level ∧
    (iis3dwb_fifo_data_level_get (some devCtx) lvl0 d).2.1 =
      (d.regs 0x3B % 256 % 4) * 256 + d.regs 0x3A % 256 := by
  obtain ⟨regs, log, status⟩ := d
  have hs : ∀ n, status n = 0 := hok
  have e3 : ∀ x : Nat, x % 256 % 65536 &&& 0x03 = x % 4 := by
    intro x
    have := Nat.and_pow_two_sub_one_eq_mod (x % 256 % 65536) 2
    simp only [Nat.reducePow, Nat.add_one_sub_one] at this
    rw [show (0x03 : Nat) = 3 from rfl, this]
    omega
  have r2 : iis3dwb_read_reg (some devCtx) 0x3A 2 ⟨regs, log, status⟩ =
      (0, [regs 0x3A, regs 0x3B], ⟨regs, log ++ [Txn.read 0x3A 2], status⟩) := by
    simp [iis3dwb_read_reg, devCtx, Device.read, hs, List.range_succ]
  simp only [iis3dwb_fifo_data_level_get, iis3dwb_fifo_status_get, r2, dev_read1 _ _ _ hs,
    if_true, byteAt_singleton, byteAt, List.getD_cons_zero, List.getD_cons_succ,
    iis3dwb_fifo_status1_t.ofByte, iis3dwb_fifo_status2_t.ofByte, e3, Nat.shiftLeft_eq,
    IIS3DWB_FIFO_STATUS1, IIS3DWB_FIFO_STATUS2, List.append_assoc, List.cons_append,
    List.nil_append, true_and]
  constructor <;> omega

/-- C38 witness: FIFO_STATUS1 = 0x34, FIFO_STATUS2 = 0xCA. -/
theorem fifo_level_accessors_agree_witness :
    (Device.fresh (fun a => if a = 0x3A then 0x34 else 0xCA)).alwaysOk ∧
    (iis3dwb_fifo_data_level_get (some devCtx) 0
      (Device.fresh (fun a => if a = 0x3A then 0x34 else 0xCA))).2.1 =
      (iis3dwb_fifo_status_get (some devCtx)
        (Device.fresh (fun a => if a = 0x3A then 0x34 else 0xCA))).2.1.fifo_level :=
  ⟨fresh_alwaysOk _,
    (fifo_level_accessors_agree (Device.fresh (fun a => if a = 0x3A then 0x34 else 0xCA)) 0
      (fresh_alwaysOk _)).2.2.2.2.1⟩

/-! ## C37: truncation to the field width -/

/-- C37. Out-of-range values are truncated to the field width: for every device state
and all values `w`, `t`, `v`, on a transport that always succeeds,
`iis3dwb_fifo_watermark_set w` followed by `iis3dwb_fifo_watermark_get` returns statuses 0
and `w mod 512`, and leaves what `iis3dwb_fifo_stop_on_wtm_get` returns unchanged;
`iis3dwb_batch_counter_threshold_set t` followed by `iis3dwb_batch_counter_threshold_get`
returns statuses 0 and `t mod 2048`; `iis3dwb_wkup_threshold_set v` followed by
`iis3dwb_wkup_threshold_get` returns statuses 0 and `v mod 64`, and leaves what
`iis3dwb_xl_usr_offset_on_wkup_get` returns unchanged. -/
theorem out_of_range_values_truncated (d : Device) (w t v : Nat) (hok : d.alwaysOk) :
    setThenGet iis3dwb_fifo_watermark_set iis3dwb_fifo_watermark_get w d = (0, 0, w % 512) ∧
    (iis3dwb_fifo_stop_on_wtm_get (some devCtx)
      (iis3dwb_fifo_watermark_set (some devCtx) w d).2).2.1 =
      (iis3dwb_fifo_stop_on_wtm_get (some devCtx) d).2.1 ∧
    setThenGet iis3dwb_batch_counter_threshold_set iis3dwb_batch_counter_threshold_get t d =
      (0, 0, t % 2048) ∧
    setThenGet iis3dwb_wkup_threshold_set iis3dwb_wkup_threshold_get v d = (0, 0, v % 64) ∧
    (iis3dwb_xl_usr_offset_on_wkup_get (some devCtx)
      (iis3dwb_wkup_threshold_set (some devCtx) v d).2).2.1 =
      (iis3dwb_xl_usr_offset_on_wkup_get (some devCtx) d).2.1 := by
  obtain ⟨regs, log, status⟩ := d
  have hs : ∀ n, status n = 0 := hok
  have n12 : IIS3DWB_FIFO_CTRL1 ≠ IIS3DWB_FIFO_CTRL2 := by decide
  have n21 : IIS3DWB_FIFO_CTRL2 ≠ IIS3DWB_FIFO_CTRL1 := by decide
  have nb12 : IIS3DWB_COUNTER_BDR_REG1 ≠ IIS3DWB_COUNTER_BDR_REG2 := by decide
  have nti : IIS3DWB_WAKE_UP_THS ≠ IIS3DWB_INTERRUPTS_EN := by decide
  have ew : ((0x0100 &&& w) >>> 8) % 256 % 2 = w / 256 % 2 := by rw [and_0100_shr]; omega
  have et : ((0x0700 &&& t) >>> 8) % 256 % 256 = t / 256 % 8 := by rw [and_0700_shr]; omega
  have ev : v % 256 % 64 = v % 64 := by omega
  refine ⟨?_, ?_, ?_, ?_, ?_⟩
  · simp only [setThenGet, iis3dwb_fifo_watermark_set, iis3dwb_fifo_watermark_get,
      dev_read1 _ _ _ hs, dev_write1 _ _ _ hs, if_true, ne_eq, not_true_eq_false, if_false,
      byteAt_singleton, Function.update_same, Function.update_noteq n12, ew, and_00FF,
      iis3dwb_fifo_ctrl1_t.ofByte, iis3dwb_fifo_ctrl1_t.toByte, iis3dwb_fifo_ctrl2_t.ofByte,
      iis3dwb_fifo_ctrl2_t.toByte, Nat.shiftLeft_eq, Prod.mk.injEq, true_and]
    omega
  · simp only [iis3dwb_fifo_watermark_set, iis3dwb_fifo_stop_on_wtm_get,
      dev_read1 _ _ _ hs, dev_write1 _ _ _ hs, if_true, byteAt_singleton,
      Function.update_same, ew, iis3dwb_fifo_ctrl2_t.ofByte, iis3dwb_fifo_ctrl2_t.toByte]
    omega
  · simp only [setThenGet, iis3dwb_batch_counter_threshold_set,
      iis3dwb_batch_counter_threshold_get, dev_read1 _ _ _ hs, dev_write1 _ _ _ hs, if_true,
      ne_eq, not_true_eq_false, if_false, byteAt_singleton, Function.update_same,
      Function.update_noteq nb12, et, and_00FF, iis3dwb_counter_bdr_reg1_t.ofByte,
      iis3dwb_counter_bdr_reg2_t.ofByte, iis3dwb_counter_bdr_reg2_t.toByte, Nat.shiftLeft_eq,
      Prod.mk.injEq, true_and]
    omega
  · simp only [setThenGet, iis3dwb_wkup_threshold_set, iis3dwb_wkup_threshold_get,
      dev_read1 _ _ _ hs, dev_write1 _ _ _ hs, if_true, byteAt_singleton, ev,
      Function.update_same, Function.update_noteq nti,
      wake_up_ths_wk_ths_after_assign _ _ (Nat.mod_lt v (by decide : 0 < 64))]
  · simp only [iis3dwb_wkup_threshold_set, iis3dwb_xl_usr_offset_on_wkup_get,
      dev_read1 _ _ _ hs, dev_write1 _ _ _ hs, if_true, byteAt_singleton, ev,
      Function.update_same, Function.update_noteq nti, iis3dwb_wake_up_ths_t.ofByte,
      iis3dwb_wake_up_ths_t.toByte]
    omega

/-- C37 witness: registers all holding 0xFF, `w = 0xFFFF`, `t = 0xFFFF`, `v = 0xFF`. -/
theorem out_of_range_values_truncated_witness :
    (Device.fresh (fun _ => 0xFF)).alwaysOk ∧
    setThenGet iis3dwb_fifo_watermark_set iis3dwb_fifo_watermark_get 0xFFFF
      (Device.fresh (fun _ => 0xFF)) = (0, 0, 0xFFFF % 512) ∧
    setThenGet iis3dwb_batch_counter_threshold_set iis3dwb_batch_counter_threshold_get 0xFFFF
      (Device.fresh (fun _ => 0xFF)) = (0, 0, 0xFFFF % 2048) ∧
    setThenGet iis3dwb_wkup_threshold_set iis3dwb_wkup_threshold_get 0xFF
      (Device.fresh (fun _ => 0xFF)) = (0, 0, 0xFF % 64) :=
  have h := out_of_range_values_truncated (Device.fresh (fun _ => 0xFF)) 0xFFFF 0xFFFF 0xFF
    (fresh_alwaysOk _)
  ⟨fresh_alwaysOk _, h.1, h.2.2.1, h.2.2.2.1⟩

/-! ## C32: the wake-up threshold setter -/

/-- C32. Wake-up threshold set also enables interrupts. For every `val` and every device
state: on a transport that always succeeds, `iis3dwb_wkup_threshold_set val` returns 0,
issues read 0x5B, write 0x5B, read 0x58, write 0x58 in that order, leaves WAKE_UP_THS with
bits 5-0 equal to `val mod 64` and bits 7-6 as they were, and leaves INTERRUPTS_EN with
bit 7 equal to 1 and bits 6-0 as they were. If the read of WAKE_UP_THS fails with code
`e`, the call returns `e` after that single read; if the read succeeds and the write of
WAKE_UP_THS fails with code `e`, the call returns `e` after the read and the write of
0x5B: in both cases INTERRUPTS_EN is neither read nor written, and it keeps its content. -/
theorem wkup_threshold_set_enables_interrupts (d : Device) (val : Nat) :
    (d.alwaysOk →
      (iis3dwb_wkup_threshold_set (some devCtx) val d).1 = 0 ∧
      (iis3dwb_wkup_threshold_set (some devCtx) val d).2.log = d.log ++
        [Txn.read 0x5B 1,
          Txn.write 0x5B [(iis3dwb_wkup_threshold_set (some devCtx) val d).2.regs 0x5B] 1,
          Txn.read 0x58 1,
          Txn.write 0x58 [(iis3dwb_wkup_threshold_set (some devCtx) val d).2.regs 0x58] 1] ∧
      (iis3dwb_wkup_threshold_set (some devCtx) val d).2.regs 0x5B % 64 = val % 64 ∧
      (iis3dwb_wkup_threshold_set (some devCtx) val d).2.regs 0x5B / 64 =
        d.regs 0x5B % 256 / 64 ∧
      (iis3dwb_wkup_threshold_set (some devCtx) val d).2.regs 0x58 / 128 = 1 ∧
      (iis3dwb_wkup_threshold_set (some devCtx) val d).2.regs 0x58 % 128 =
        d.regs 0x58 % 128) ∧
    (∀ e : Int, e ≠ 0 → d.status d.log.length = e →
      (iis3dwb_wkup_threshold_set (some devCtx) val d).1 = e ∧
      (iis3dwb_wkup_threshold_set (some devCtx) val d).2.log = d.log ++ [Txn.read 0x5B 1] ∧
      (iis3dwb_wkup_threshold_set (some devCtx) val d).2.regs 0x58 = d.regs 0x58) ∧
    (∀ e : Int, e ≠ 0 → d.status d.log.length = 0 → d.status (d.log.length + 1) = e →
      (iis3dwb_wkup_threshold_set (some devCtx) val d).1 = e ∧
      (∃ x, (iis3dwb_wkup_threshold_set (some devCtx) val d).2.log =
        d.log ++ [Txn.read 0x5B 1, Txn.write 0x5B [x] 1]) ∧
      (iis3dwb_wkup_threshold_set (some devCtx) val d).2.regs 0x58 = d.regs 0x58) := by
  obtain ⟨regs, log, status⟩ := d
  have nti : IIS3DWB_WAKE_UP_THS ≠ IIS3DWB_INTERRUPTS_EN := by decide
  have ev : val % 256 % 64 = val % 64 := by omega
  have bt : ∀ b : Nat,
      ({ iis3dwb_wake_up_ths_t.ofByte (b % 256) with wk_ths := val % 64 }).toByte % 64 =
        val % 64 ∧
      ({ iis3dwb_wake_up_ths_t.ofByte (b % 256) with wk_ths := val % 64 }).toByte / 64 =
        b % 256 / 64 := by
    intro b
    simp only [iis3dwb_wake_up_ths_t.ofByte, iis3dwb_wake_up_ths_t.toByte]
    constructor <;> omega
  have bi : ∀ b : Nat,
      ({ iis3dwb_interrupts_en_t.ofByte (b % 256) with
          interrupts_enable := PROPERTY_ENABLE % 2 }).toByte / 128 = 1 ∧
      ({ iis3dwb_interrupts_en_t.ofByte (b % 256) with
          interrupts_enable := PROPERTY_ENABLE % 2 }).toByte % 128 = b % 128 := by
    intro b
    simp only [iis3dwb_interrupts_en_t.ofByte, iis3dwb_interrupts_en_t.toByte, PROPERTY_ENABLE]
    constructor <;> omega
  refine ⟨fun hok => ?_, fun e he h0 => ?_, fun e he h0 h1 => ?_⟩
  · have hs : ∀ n, status n = 0 := hok
    simp only [iis3dwb_wkup_threshold_set, dev_read1 _ _ _ hs, dev_write1 _ _ _ hs, if_true,
      byteAt_singleton, ev, Function.update_same, Function.update_noteq nti,
      IIS3DWB_WAKE_UP_THS, IIS3DWB_INTERRUPTS_EN, List.append_assoc, List.cons_append,
      List.nil_append, true_and]
    have nti2 : (0x5B : Nat) ≠ 0x58 := by decide
    simp only [Function.update_same, Function.update_noteq nti2, true_and]
    exact ⟨(bt _).1, (bt _).2, (bi _).1, (bi _).2⟩
  · have g0 : status log.length = e := h0
    simp only [iis3dwb_wkup_threshold_set, dev_read1_fail _ _ _ e he g0, if_neg he,
      IIS3DWB_WAKE_UP_THS, and_self]
  · have g0 : status log.length = 0 := h0
    have g1 : status (log ++ [Txn.read IIS3DWB_WAKE_UP_THS 1]).length = e := by
      simpa using h1
    simp only [iis3dwb_wkup_threshold_set, dev_read1_at _ _ _ g0,
      dev_write1_fail _ _ _ e he g1, if_true, if_neg he, List.append_assoc, List.cons_append,
      List.nil_append, true_and]
    exact ⟨⟨_, rfl⟩, trivial⟩

/-- C32 witness: registers all holding 0x7F, `val = 0xC5`, on a transport that succeeds,
and the same call on a transport that fails the first transaction or the second. -/
theorem wkup_threshold_set_enables_interrupts_witness :
    (iis3dwb_wkup_threshold_set (some devCtx) 0xC5 (Device.fresh (fun _ => 0x7F))).2.regs 0x5B
        % 64 = 0xC5 % 64 ∧
    (iis3dwb_wkup_threshold_set (some devCtx) 0xC5 (Device.fresh (fun _ => 0x7F))).2.regs 0x58
        / 128 = 1 ∧
    (iis3dwb_wkup_threshold_set (some devCtx) 0xC5
      (Device.failingAt (fun _ => 0x7F) 0 (-3))).2.log =
      (Device.failingAt (fun _ => 0x7F) 0 (-3)).log ++ [Txn.read 0x5B 1] ∧
    (iis3dwb_wkup_threshold_set (some devCtx) 0xC5
      (Device.failingAt (fun _ => 0x7F) 1 (-3))).1 = -3 :=
  ⟨((wkup_threshold_set_enables_interrupts (Device.fresh (fun _ => 0x7F)) 0xC5).1
      (fresh_alwaysOk _)).2.2.1,
    ((wkup_threshold_set_enables_interrupts (Device.fresh (fun _ => 0x7F)) 0xC5).1
      (fresh_alwaysOk _)).2.2.2.2.1,
    ((wkup_threshold_set_enables_interrupts (Device.failingAt (fun _ => 0x7F) 0 (-3)) 0xC5).2.1
      (-3) (by decide) rfl).2.1,
    ((wkup_threshold_set_enables_interrupts (Device.failingAt (fun _ => 0x7F) 1 (-3)) 0xC5).2.2
      (-3) (by decide) rfl rfl).1⟩

/-! ## Overlay laws for the interrupt-routing registers -/

theorem int1_ctrl_ofByte_toByte (r : iis3dwb_int1_ctrl_t) (h : r.WF) :
    iis3dwb_int1_ctrl_t.ofByte (r.toByte % 256) = r := by
  obtain ⟨a0, a1, a2, a3, a4, a5, a6, a7⟩ := r
  simp only [iis3dwb_int1_ctrl_t.WF] at h
  obtain ⟨h0, h1, h2, h3, h4, h5, h6, h7⟩ := h
  simp only [iis3dwb_int1_ctrl_t.ofByte, iis3dwb_int1_ctrl_t.toByte,
    iis3dwb_int1_ctrl_t.mk.injEq]
  refine ⟨?_, ?_, ?_, ?_, ?_, ?_, ?_, ?_⟩ <;> omega

theorem int2_ctrl_ofByte_toByte (r : iis3dwb_int2_ctrl_t) (h : r.WF) :
    iis3dwb_int2_ctrl_t.ofByte (r.toByte % 256) = r := by
  obtain ⟨a0, a1, a2, a3, a4, a5, a6, a7⟩ := r
  simp only [iis3dwb_int2_ctrl_t.WF] at h
  obtain ⟨h0, h1, h2, h3, h4, h5, h6, h7⟩ := h
  simp only [iis3dwb_int2_ctrl_t.ofByte, iis3dwb_int2_ctrl_t.toByte,
    iis3dwb_int2_ctrl_t.mk.injEq]
  refine ⟨?_, ?_, ?_, ?_, ?_, ?_, ?_, ?_⟩ <;> omega

theorem md1_cfg_ofByte_toByte (r : iis3dwb_md1_cfg_t) (h : r.WF) :
    iis3dwb_md1_cfg_t.ofByte (r.toByte % 256) = r := by
  obtain ⟨a0, a1, a2, a3⟩ := r
  simp only [iis3dwb_md1_cfg_t.WF] at h
  obtain ⟨h0, h1, h2, h3⟩ := h
  simp only [iis3dwb_md1_cfg_t.ofByte, iis3dwb_md1_cfg_t.toByte, iis3dwb_md1_cfg_t.mk.injEq]
  refine ⟨?_, ?_, ?_, ?_⟩ <;> omega

theorem md2_cfg_ofByte_toByte (r : iis3dwb_md2_cfg_t) (h : r.WF) :
    iis3dwb_md2_cfg_t.ofByte (r.toByte % 256) = r := by
  obtain ⟨a0, a1, a2, a3, a4⟩ := r
  simp only [iis3dwb_md2_cfg_t.WF] at h
  obtain ⟨h0, h1, h2, h3, h4⟩ := h
  simp only [iis3dwb_md2_cfg_t.ofByte, iis3dwb_md2_cfg_t.toByte, iis3dwb_md2_cfg_t.mk.injEq]
  refine ⟨?_, ?_, ?_, ?_, ?_⟩ <;> omega

theorem slope_en_ofByte_toByte (r : iis3dwb_slope_en_t) (h : r.WF) :
    iis3dwb_slope_en_t.ofByte (r.toByte % 256) = r := by
  obtain ⟨a0, a1, a2, a3, a4⟩ := r
  simp only [iis3dwb_slope_en_t.WF] at h
  obtain ⟨h0, h1, h2, h3, h4⟩ := h
  simp only [iis3dwb_slope_en_t.ofByte, iis3dwb_slope_en_t.toByte, iis3dwb_slope_en_t.mk.injEq]
  refine ⟨?_, ?_, ?_, ?_, ?_⟩ <;> omega

theorem int1_ctrl_routed_WF (b : Nat) (v : iis3dwb_pin_int1_route_t) :
    (int1_ctrl_routed b v).WF := by
  simp only [int1_ctrl_routed, iis3dwb_int1_ctrl_t.WF, iis3dwb_int1_ctrl_t.ofByte]
  refine ⟨?_, ?_, ?_, ?_, ?_, ?_, ?_, ?_⟩ <;> omega

theorem md1_cfg_routed_WF (b : Nat) (v : iis3dwb_pin_int1_route_t) :
    (md1_cfg_routed b v).WF := by
  simp only [md1_cfg_routed, iis3dwb_md1_cfg_t.WF, iis3dwb_md1_cfg_t.ofByte]
  refine ⟨?_, ?_, ?_, ?_⟩ <;> omega

theorem int2_ctrl_routed_WF (b : Nat) (v : iis3dwb_pin_int2_route_t) :
    (int2_ctrl_routed b v).WF := by
  simp only [int2_ctrl_routed, iis3dwb_int2_ctrl_t.WF, iis3dwb_int2_ctrl_t.ofByte]
  refine ⟨?_, ?_, ?_, ?_, ?_, ?_, ?_, ?_⟩ <;> omega

theorem md2_cfg_routed_WF (b : Nat) (v : iis3dwb_pin_int2_route_t) :
    (md2_cfg_routed b v).WF := by
  simp only [md2_cfg_routed, iis3dwb_md2_cfg_t.WF, iis3dwb_md2_cfg_t.ofByte]
  refine ⟨?_, ?_, ?_, ?_, ?_⟩ <;> omega

theorem slope_en_routed_WF (b ss : Nat) : (slope_en_routed b ss).WF := by
  simp only [slope_en_routed, iis3dwb_slope_en_t.WF, iis3dwb_slope_en_t.ofByte]
  refine ⟨?_, ?_, ?_, ?_, ?_⟩ <;> omega

/-! ## Interrupt routing: what the setters store and what the getters decode -/

theorem pin_int1_route_set_eq (regs : Nat → Nat) (log : List Txn) (status : Nat → Int)
    (hs : ∀ n, status n = 0) (v : iis3dwb_pin_int1_route_t) :
    iis3dwb_pin_int1_route_set (some devCtx) v ⟨regs, log, status⟩ =
      ((0 : Int),
        (⟨Function.update (Function.update (Function.update regs
            IIS3DWB_INT1_CTRL (int1_ctrl_routed (regs IIS3DWB_INT1_CTRL % 256) v).toByte)
            IIS3DWB_MD1_CFG (md1_cfg_routed (regs IIS3DWB_MD1_CFG % 256) v).toByte)
            IIS3DWB_SLOPE_EN
            (slope_en_routed (regs IIS3DWB_SLOPE_EN % 256) v.sleep_status).toByte,
          log ++ [Txn.read IIS3DWB_INT1_CTRL 1, Txn.read IIS3DWB_MD1_CFG 1,
            Txn.read IIS3DWB_SLOPE_EN 1,
            Txn.write IIS3DWB_INT1_CTRL
              [(int1_ctrl_routed (regs IIS3DWB_INT1_CTRL % 256) v).toByte] 1,
            Txn.write IIS3DWB_MD1_CFG [(md1_cfg_routed (regs IIS3DWB_MD1_CFG % 256) v).toByte] 1,
            Txn.write IIS3DWB_SLOPE_EN
              [(slope_en_routed (regs IIS3DWB_SLOPE_EN % 256) v.sleep_status).toByte] 1],
          status⟩ : Device)) := by
  simp only [iis3dwb_pin_int1_route_set, dev_read1 _ _ _ hs, dev_write1 _ _ _ hs, ne_eq,
    not_true_eq_false, if_false, byteAt_singleton, int1_ctrl_routed, md1_cfg_routed,
    slope_en_routed, List.append_assoc, List.cons_append, List.nil_append]

theorem pin_int2_route_set_eq (regs : Nat → Nat) (log : List Txn) (status : Nat → Int)
    (hs : ∀ n, status n = 0) (v : iis3dwb_pin_int2_route_t) :
    iis3dwb_pin_int2_route_set (some devCtx) v ⟨regs, log, status⟩ =
      ((0 : Int),
        (⟨Function.update (Function.update (Function.update regs
            IIS3DWB_INT2_CTRL (int2_ctrl_routed (regs IIS3DWB_INT2_CTRL % 256) v).toByte)
            IIS3DWB_MD2_CFG (md2_cfg_routed (regs IIS3DWB_MD2_CFG % 256) v).toByte)
            IIS3DWB_SLOPE_EN
            (slope_en_routed (regs IIS3DWB_SLOPE_EN % 256) v.sleep_status).toByte,
          log ++ [Txn.read IIS3DWB_INT2_CTRL 1, Txn.read IIS3DWB_MD2_CFG 1,
            Txn.read IIS3DWB_SLOPE_EN 1,
            Txn.write IIS3DWB_INT2_CTRL
              [(int2_ctrl_routed (regs IIS3DWB_INT2_CTRL % 256) v).toByte] 1,
            Txn.write IIS3DWB_MD2_CFG [(md2_cfg_routed (regs IIS3DWB_MD2_CFG % 256) v).toByte] 1,
            Txn.write IIS3DWB_SLOPE_EN
              [(slope_en_routed (regs IIS3DWB_SLOPE_EN % 256) v.sleep_status).toByte] 1],
          status⟩ : Device)) := by
  simp only [iis3dwb_pin_int2_route_set, dev_read1 _ _ _ hs, dev_write1 _ _ _ hs, ne_eq,
    not_true_eq_false, if_false, byteAt_singleton, int2_ctrl_routed, md2_cfg_routed,
    slope_en_routed, List.append_assoc, List.cons_append, List.nil_append]

theorem pin_int1_route_get_eq (regs : Nat → Nat) (log : List Txn) (status : Nat → Int)
    (hs : ∀ n, status n = 0) :
    iis3dwb_pin_int1_route_get (some devCtx) ⟨regs, log, status⟩ =
      ((0 : Int),
        pin_int1_route_of (iis3dwb_int1_ctrl_t.ofByte (regs IIS3DWB_INT1_CTRL % 256))
          (iis3dwb_md1_cfg_t.ofByte (regs IIS3DWB_MD1_CFG % 256))
          (iis3dwb_slope_en_t.ofByte (regs IIS3DWB_SLOPE_EN % 256)),
        (⟨regs, log ++ [Txn.read IIS3DWB_INT1_CTRL 1, Txn.read IIS3DWB_MD1_CFG 1,
          Txn.read IIS3DWB_SLOPE_EN 1], status⟩ : Device)) := by
  simp only [iis3dwb_pin_int1_route_get, dev_read1 _ _ _ hs, ne_eq, not_true_eq_false,
    if_false, byteAt_singleton, pin_int1_route_of, List.append_assoc, List.cons_append,
    List.nil_append]

theorem pin_int2_route_get_eq (regs : Nat → Nat) (log : List Txn) (status : Nat → Int)
    (hs : ∀ n, status n = 0) :
    iis3dwb_pin_int2_route_get (some devCtx) ⟨regs, log, status⟩ =
      ((0 : Int),
        pin_int2_route_of (iis3dwb_int2_ctrl_t.ofByte (regs IIS3DWB_INT2_CTRL % 256))
          (iis3dwb_md2_cfg_t.ofByte (regs IIS3DWB_MD2_CFG % 256))
          (iis3dwb_slope_en_t.ofByte (regs IIS3DWB_SLOPE_EN % 256)),
        (⟨regs, log ++ [Txn.read IIS3DWB_INT2_CTRL 1, Txn.read IIS3DWB_MD2_CFG 1,
          Txn.read IIS3DWB_SLOPE_EN 1], status⟩ : Device)) := by
  simp only [iis3dwb_pin_int2_route_get, dev_read1 _ _ _ hs, ne_eq, not_true_eq_false,
    if_false, byteAt_singleton, pin_int2_route_of, List.append_assoc, List.cons_append,
    List.nil_append]

theorem pin_int1_route_of_routed (b1 b2 b3 : Nat) (v : iis3dwb_pin_int1_route_t) (hv : v.WF) :
    pin_int1_route_of (int1_ctrl_routed b1 v) (md1_cfg_routed b2 v)
        (slope_en_routed b3 v.sleep_status) =
      if v.sleep_status = 1 then { v with sleep_change := 0 } else v := by
  obtain ⟨a0, a1, a2, a3, a4, a5, a6, sc, ss⟩ := v
  simp only [iis3dwb_pin_int1_route_t.WF] at hv
  obtain ⟨h0, h1, h2, h3, h4, h5, h6, h7, h8⟩ := hv
  simp only [pin_int1_route_of, int1_ctrl_routed, md1_cfg_routed, slope_en_routed,
    PROPERTY_ENABLE, PROPERTY_DISABLE, Nat.mod_mod, Nat.mod_eq_of_lt h0, Nat.mod_eq_of_lt h1,
    Nat.mod_eq_of_lt h2, Nat.mod_eq_of_lt h3, Nat.mod_eq_of_lt h4, Nat.mod_eq_of_lt h5,
    Nat.mod_eq_of_lt h6]
  interval_cases sc <;> interval_cases ss <;> simp

theorem pin_int2_route_of_routed (b1 b2 b3 : Nat) (v : iis3dwb_pin_int2_route_t) (hv : v.WF) :
    pin_int2_route_of (int2_ctrl_routed b1 v) (md2_cfg_routed b2 v)
        (slope_en_routed b3 v.sleep_status) =
      if v.sleep_status = 1 then { v with sleep_change := 0 } else v := by
  obtain ⟨a0, a1, a2, a3, a4, a5, a6, a7, sc, ss⟩ := v
  simp only [iis3dwb_pin_int2_route_t.WF] at hv
  obtain ⟨h0, h1, h2, h3, h4, h5, h6, h7, h8, h9⟩ := hv
  simp only [pin_int2_route_of, int2_ctrl_routed, md2_cfg_routed, slope_en_routed,
    PROPERTY_ENABLE, PROPERTY_DISABLE, Nat.mod_mod, Nat.mod_eq_of_lt h0, Nat.mod_eq_of_lt h1,
    Nat.mod_eq_of_lt h2, Nat.mod_eq_of_lt h3, Nat.mod_eq_of_lt h4, Nat.mod_eq_of_lt h5,
    Nat.mod_eq_of_lt h6, Nat.mod_eq_of_lt h7]
  interval_cases sc <;> interval_cases ss <;> simp

theorem pin_int1_get_after_set (d : Device) (v : iis3dwb_pin_int1_route_t) (hok : d.alwaysOk)
    (hv : v.WF) :
    (iis3dwb_pin_int1_route_set (some devCtx) v d).1 = 0 ∧
    (iis3dwb_pin_int1_route_get (some devCtx)
      (iis3dwb_pin_int1_route_set (some devCtx) v d).2).1 = 0 ∧
    (iis3dwb_pin_int1_route_get (some devCtx)
      (iis3dwb_pin_int1_route_set (some devCtx) v d).2).2.1 =
      if v.sleep_status = 1 then { v with sleep_change := 0 } else v := by
  obtain ⟨regs, log, status⟩ := d
  have hs : ∀ n, status n = 0 := hok
  have n1 : IIS3DWB_INT1_CTRL ≠ IIS3DWB_MD1_CFG := by decide
  have n2 : IIS3DWB_INT1_CTRL ≠ IIS3DWB_SLOPE_EN := by decide
  have n3 : IIS3DWB_MD1_CFG ≠ IIS3DWB_SLOPE_EN := by decide
  rw [pin_int1_route_set_eq regs log status hs v]
  simp only [pin_int1_route_get_eq _ _ _ hs, Function.update_same, Function.update_noteq n1,
    Function.update_noteq n2, Function.update_noteq n3,
    int1_ctrl_ofByte_toByte _ (int1_ctrl_routed_WF _ _),
    md1_cfg_ofByte_toByte _ (md1_cfg_routed_WF _ _),
    slope_en_ofByte_toByte _ (slope_en_routed_WF _ _), pin_int1_route_of_routed _ _ _ v hv,
    true_and]

theorem pin_int2_get_after_set (d : Device) (v : iis3dwb_pin_int2_route_t) (hok : d.alwaysOk)
    (hv : v.WF) :
    (iis3dwb_pin_int2_route_set (some devCtx) v d).1 = 0 ∧
    (iis3dwb_pin_int2_route_get (some devCtx)
      (iis3dwb_pin_int2_route_set (some devCtx) v d).2).1 = 0 ∧
    (iis3dwb_pin_int2_route_get (some devCtx)
      (iis3dwb_pin_int2_route_set (some devCtx) v d).2).2.1 =
      if v.sleep_status = 1 then { v with sleep_change := 0 } else v := by
  obtain ⟨regs, log, status⟩ := d
  have hs : ∀ n, status n = 0 := hok
  have n1 : IIS3DWB_INT2_CTRL ≠ IIS3DWB_MD2_CFG := by decide
  have n2 : IIS3DWB_INT2_CTRL ≠ IIS3DWB_SLOPE_EN := by decide
  have n3 : IIS3DWB_MD2_CFG ≠ IIS3DWB_SLOPE_EN := by decide
  rw [pin_int2_route_set_eq regs log status hs v]
  simp only [pin_int2_route_get_eq _ _ _ hs, Function.update_same, Function.update_noteq n1,
    Function.update_noteq n2, Function.update_noteq n3,
    int2_ctrl_ofByte_toByte _ (int2_ctrl_routed_WF _ _),
    md2_cfg_ofByte_toByte _ (md2_cfg_routed_WF _ _),
    slope_en_ofByte_toByte _ (slope_en_routed_WF _ _), pin_int2_route_of_routed _ _ _ v hv,
    true_and]

/-! ## C33: interrupt-route round trip -/

/-- C33. Interrupt-route round trip: for every `iis3dwb_pin_int1_route_t` value `v1` and
`iis3dwb_pin_int2_route_t` value `v2` (1-bit fields) and every device state, on a transport
that always succeeds, `iis3dwb_pin_int1_route_set v1` and the following
`iis3dwb_pin_int1_route_get` return status 0, and the value returned equals `v1` in all
fields if and only if `v1.sleep_status = 0` or `v1.sleep_change = 0`; when both are 1 the
value returned has `sleep_status = 1`, `sleep_change = 0` and all other fields equal to
those of `v1`. The same holds for `iis3dwb_pin_int2_route_set v2` and
`iis3dwb_pin_int2_route_get`. -/
theorem pin_route_round_trip (d : Device) (v1 : iis3dwb_pin_int1_route_t)
    (v2 : iis3dwb_pin_int2_route_t) (hok : d.alwaysOk) (h1 : v1.WF) (h2 : v2.WF) :
    (iis3dwb_pin_int1_route_set (some devCtx) v1 d).1 = 0 ∧
    (iis3dwb_pin_int1_route_get (some devCtx)
      (iis3dwb_pin_int1_route_set (some devCtx) v1 d).2).1 = 0 ∧
    ((iis3dwb_pin_int1_route_get (some devCtx)
        (iis3dwb_pin_int1_route_set (some devCtx) v1 d).2).2.1 = v1 ↔
      (v1.sleep_status = 0 ∨ v1.sleep_change = 0)) ∧
    (v1.sleep_status = 1 → v1.sleep_change = 1 →
      (iis3dwb_pin_int1_route_get (some devCtx)
        (iis3dwb_pin_int1_route_set (some devCtx) v1 d).2).2.1 =
        { v1 with sleep_status := 1, sleep_change := 0 }) ∧
    (iis3dwb_pin_int2_route_set (some devCtx) v2 d).1 = 0 ∧
    (iis3dwb_pin_int2_route_get (some devCtx)
      (iis3dwb_pin_int2_route_set (some devCtx) v2 d).2).1 = 0 ∧
    ((iis3dwb_pin_int2_route_get (some devCtx)
        (iis3dwb_pin_int2_route_set (some devCtx) v2 d).2).2.1 = v2 ↔
      (v2.sleep_status = 0 ∨ v2.sleep_change = 0)) ∧
    (v2.sleep_status = 1 → v2.sleep_change = 1 →
      (iis3dwb_pin_int2_route_get (some devCtx)
        (iis3dwb_pin_int2_route_set (some devCtx) v2 d).2).2.1 =
        { v2 with sleep_status := 1, sleep_change := 0 }) := by
  obtain ⟨s1, g1, e1⟩ := pin_int1_get_after_set d v1 hok h1
  obtain ⟨s2, g2, e2⟩ := pin_int2_get_after_set d v2 hok h2
  refine ⟨s1, g1, ?_, ?_, s2, g2, ?_, ?_⟩
  · rw [e1]
    obtain ⟨a0, a1, a2, a3, a4, a5, a6, sc, ss⟩ := v1
    simp only [iis3dwb_pin_int1_route_t.WF] at h1
    obtain ⟨-, -, -, -, -, -, -, hsc, hss⟩ := h1
    interval_cases sc <;> interval_cases ss <;> simp
  · intro hss hsc
    rw [e1, if_pos hss]
    obtain ⟨a0, a1, a2, a3, a4, a5, a6, sc, ss⟩ := v1
    simp only at hss
    subst hss
    rfl
  · rw [e2]
    obtain ⟨a0, a1, a2, a3, a4, a5, a6, a7, sc, ss⟩ := v2
    simp only [iis3dwb_pin_int2_route_t.WF] at h2
    obtain ⟨-, -, -, -, -, -, -, -, hsc, hss⟩ := h2
    interval_cases sc <;> interval_cases ss <;> simp
  · intro hss hsc
    rw [e2, if_pos hss]
    obtain ⟨a0, a1, a2, a3, a4, a5, a6, a7, sc, ss⟩ := v2
    simp only at hss
    subst hss
    rfl

/-- C33 witness: on a device whose registers all hold 0xFF, a request with every field 1
reads back with `sleep_change = 0`, for INT1 and for INT2. -/
theorem pin_route_round_trip_witness :
    (Device.fresh (fun _ => 0xFF)).alwaysOk ∧
    (iis3dwb_pin_int1_route_get (some devCtx)
      (iis3dwb_pin_int1_route_set (some devCtx) ⟨1, 1, 1, 1, 1, 1, 1, 1, 1⟩
        (Device.fresh (fun _ => 0xFF))).2).2.1 = ⟨1, 1, 1, 1, 1, 1, 1, 0, 1⟩ ∧
    (iis3dwb_pin_int2_route_get (some devCtx)
      (iis3dwb_pin_int2_route_set (some devCtx) ⟨1, 1, 1, 1, 1, 1, 1, 1, 1, 1⟩
        (Device.fresh (fun _ => 0xFF))).2).2.1 = ⟨1, 1, 1, 1, 1, 1, 1, 1, 0, 1⟩ :=
  have h := pin_route_round_trip (Device.fresh (fun _ => 0xFF)) ⟨1, 1, 1, 1, 1, 1, 1, 1, 1⟩
    ⟨1, 1, 1, 1, 1, 1, 1, 1, 1, 1⟩ (fresh_alwaysOk _) (by simp [iis3dwb_pin_int1_route_t.WF])
    (by simp [iis3dwb_pin_int2_route_t.WF])
  ⟨fresh_alwaysOk _, h.2.2.2.1 rfl rfl, h.2.2.2.2.2.2.2 rfl rfl⟩

/-! ## C35: order and frame of the INT1 route setter -/

/-- C35. Interrupt-route set reads everything before writing and preserves unrelated
bits. For every route value `v` and every device state: on a transport that always
succeeds, `iis3dwb_pin_int1_route_set v` returns 0 and issues the reads of INT1_CTRL,
MD1_CFG, SLOPE_EN and then the writes of INT1_CTRL, MD1_CFG, SLOPE_EN, in that order; it
leaves bits 1 and 7 of INT1_CTRL, bits 4-0 and bit 6 of MD1_CFG and bits 0 (`lir`) and 4
(`slope_fds`) of SLOPE_EN as they were, sets bit 7 of MD1_CFG (`int1_sleep_change`) to
`v.sleep_change` OR `v.sleep_status` and bit 5 of SLOPE_EN (`sleep_status_on_int`) to
`v.sleep_status`. If the first, the second or the third read fails with code `e`, the
call returns `e`, no write is issued and the registers are unchanged. -/
theorem pin_int1_route_set_order_and_frame (d : Device) (v : iis3dwb_pin_int1_route_t) :
    (d.alwaysOk →
      (iis3dwb_pin_int1_route_set (some devCtx) v d).1 = 0 ∧
      (iis3dwb_pin_int1_route_set (some devCtx) v d).2.log = d.log ++
        [Txn.read IIS3DWB_INT1_CTRL 1, Txn.read IIS3DWB_MD1_CFG 1, Txn.read IIS3DWB_SLOPE_EN 1,
          Txn.write IIS3DWB_INT1_CTRL
            [(iis3dwb_pin_int1_route_set (some devCtx) v d).2.regs IIS3DWB_INT1_CTRL] 1,
          Txn.write IIS3DWB_MD1_CFG
            [(iis3dwb_pin_int1_route_set (some devCtx) v d).2.regs IIS3DWB_MD1_CFG] 1,
          Txn.write IIS3DWB_SLOPE_EN
            [(iis3dwb_pin_int1_route_set (some devCtx) v d).2.regs IIS3DWB_SLOPE_EN] 1] ∧
      bitOf ((iis3dwb_pin_int1_route_set (some devCtx) v d).2.regs IIS3DWB_INT1_CTRL) 1 =
        bitOf (d.regs IIS3DWB_INT1_CTRL) 1 ∧
      bitOf ((iis3dwb_pin_int1_route_set (some devCtx) v d).2.regs IIS3DWB_INT1_CTRL) 7 =
        bitOf (d.regs IIS3DWB_INT1_CTRL) 7 ∧
      (iis3dwb_pin_int1_route_set (some devCtx) v d).2.regs IIS3DWB_MD1_CFG % 32 =
        d.regs IIS3DWB_MD1_CFG % 32 ∧
      bitOf ((iis3dwb_pin_int1_route_set (some devCtx) v d).2.regs IIS3DWB_MD1_CFG) 6 =
        bitOf (d.regs IIS3DWB_MD1_CFG) 6 ∧
      bitOf ((iis3dwb_pin_int1_route_set (some devCtx) v d).2.regs IIS3DWB_SLOPE_EN) 0 =
        bitOf (d.regs IIS3DWB_SLOPE_EN) 0 ∧
      bitOf ((iis3dwb_pin_int1_route_set (some devCtx) v d).2.regs IIS3DWB_SLOPE_EN) 4 =
        bitOf (d.regs IIS3DWB_SLOPE_EN) 4 ∧
      bitOf ((iis3dwb_pin_int1_route_set (some devCtx) v d).2.regs IIS3DWB_MD1_CFG) 7 =
        (v.sleep_change ||| v.sleep_status) % 2 ∧
      bitOf ((iis3dwb_pin_int1_route_set (some devCtx) v d).2.regs IIS3DWB_SLOPE_EN) 5 =
        v.sleep_status % 2) ∧
    (∀ e : Int, e ≠ 0 → d.status d.log.length = e →
      (iis3dwb_pin_int1_route_set (some devCtx) v d).1 = e ∧
      (iis3dwb_pin_int1_route_set (some devCtx) v d).2.regs = d.regs ∧
      (iis3dwb_pin_int1_route_set (some devCtx) v d).2.log =
        d.log ++ [Txn.read IIS3DWB_INT1_CTRL 1]) ∧
    (∀ e : Int, e ≠ 0 → d.status d.log.length = 0 → d.status (d.log.length + 1) = e →
      (iis3dwb_pin_int1_route_set (some devCtx) v d).1 = e ∧
      (iis3dwb_pin_int1_route_set (some devCtx) v d).2.regs = d.regs ∧
      (iis3dwb_pin_int1_route_set (some devCtx) v d).2.log =
        d.log ++ [Txn.read IIS3DWB_INT1_CTRL 1, Txn.read IIS3DWB_MD1_CFG 1]) ∧
    (∀ e : Int, e ≠ 0 → d.status d.log.length = 0 → d.status (d.log.length + 1) = 0 →
      d.status (d.log.length + 2) = e →
      (iis3dwb_pin_int1_route_set (some devCtx) v d).1 = e ∧
      (iis3dwb_pin_int1_route_set (some devCtx) v d).2.regs = d.regs ∧
      (iis3dwb_pin_int1_route_set (some devCtx) v d).2.log =
        d.log ++ [Txn.read IIS3DWB_INT1_CTRL 1, Txn.read IIS3DWB_MD1_CFG 1,
          Txn.read IIS3DWB_SLOPE_EN 1]) := by
  obtain ⟨regs, log, status⟩ := d
  have n1 : IIS3DWB_INT1_CTRL ≠ IIS3DWB_MD1_CFG := by decide
  have n2 : IIS3DWB_INT1_CTRL ≠ IIS3DWB_SLOPE_EN := by decide
  have n3 : IIS3DWB_MD1_CFG ≠ IIS3DWB_SLOPE_EN := by decide
  have bi : ∀ b : Nat,
      bitOf (int1_ctrl_routed (b % 256) v).toByte 1 = bitOf b 1 ∧
      bitOf (int1_ctrl_routed (b % 256) v).toByte 7 = bitOf b 7 := by
    intro b
    simp only [int1_ctrl_routed, iis3dwb_int1_ctrl_t.ofByte, iis3dwb_int1_ctrl_t.toByte]
    rw [bitOf_pack8 _ _ _ _ _ _ _ _ 1 (by decide), bitOf_pack8 _ _ _ _ _ _ _ _ 7 (by decide)]
    simp only [bitOf, List.getD_cons_zero, List.getD_cons_succ]
    constructor <;> omega
  have bm : ∀ b : Nat,
      (md1_cfg_routed (b % 256) v).toByte % 32 = b % 32 ∧
      bitOf (md1_cfg_routed (b % 256) v).toByte 6 = bitOf b 6 ∧
      bitOf (md1_cfg_routed (b % 256) v).toByte 7 =
        (v.sleep_change ||| v.sleep_status) % 2 := by
    intro b
    simp only [md1_cfg_routed, iis3dwb_md1_cfg_t.ofByte, iis3dwb_md1_cfg_t.toByte, bitOf]
    generalize (v.sleep_change ||| v.sleep_status) = x
    refine ⟨?_, ?_, ?_⟩ <;> omega
  have bs : ∀ b : Nat,
      bitOf (slope_en_routed (b % 256) v.sleep_status).toByte 0 = bitOf b 0 ∧
      bitOf (slope_en_routed (b % 256) v.sleep_status).toByte 4 = bitOf b 4 ∧
      bitOf (slope_en_routed (b % 256) v.sleep_status).toByte 5 = v.sleep_status % 2 := by
    intro b
    simp only [slope_en_routed, iis3dwb_slope_en_t.ofByte, iis3dwb_slope_en_t.toByte, bitOf]
    refine ⟨?_, ?_, ?_⟩ <;> omega
  refine ⟨fun hok => ?_, fun e he h0 => ?_, fun e he h0 h1 => ?_, fun e he h0 h1 h2 => ?_⟩
  · have hs : ∀ n, status n = 0 := hok
    rw [pin_int1_route_set_eq regs log status hs v]
    simp only [Function.update_same, Function.update_noteq n1, Function.update_noteq n2,
      Function.update_noteq n3, true_and]
    exact ⟨(bi _).1, (bi _).2, (bm _).1, (bm _).2.1, (bs _).1, (bs _).2.1, (bm _).2.2,
      (bs _).2.2⟩
  · have g0 : status log.length = e := h0
    simp only [iis3dwb_pin_int1_route_set, dev_read1_fail _ _ _ e he g0, ne_eq, he,
      not_false_eq_true, if_true, and_self]
  · have g0 : status log.length = 0 := h0
    have g1 : status (log ++ [Txn.read IIS3DWB_INT1_CTRL 1]).length = e := by
      simpa using h1
    simp only [iis3dwb_pin_int1_route_set, dev_read1_at _ _ _ g0, dev_read1_fail _ _ _ e he g1,
      ne_eq, he, not_false_eq_true, not_true_eq_false, if_true, if_false]
    simp only [List.append_assoc, List.cons_append, List.nil_append, and_self]
  · have g0 : status log.length = 0 := h0
    have g1 : status (log ++ [Txn.read IIS3DWB_INT1_CTRL 1]).length = 0 := by
      simpa using h1
    have g2 : status (log ++ [Txn.read IIS3DWB_INT1_CTRL 1] ++
        [Txn.read IIS3DWB_MD1_CFG 1]).length = e := by
      simpa using h2
    simp only [iis3dwb_pin_int1_route_set, dev_read1_at _ _ _ g0, dev_read1_at _ _ _ g1,
      dev_read1_fail _ _ _ e he g2, ne_eq, he, not_false_eq_true, not_true_eq_false, if_true,
      if_false]
    simp only [List.append_assoc, List.cons_append, List.nil_append, and_self]

/-- C35 witness: a request with `sleep_status` only, on a device whose registers all hold
0xFF, with a transport that succeeds and with one that fails the third read. -/
theorem pin_int1_route_set_order_and_frame_witness :
    bitOf ((iis3dwb_pin_int1_route_set (some devCtx) ⟨0, 0, 0, 0, 0, 0, 0, 0, 1⟩
      (Device.fresh (fun _ => 0xFF))).2.regs IIS3DWB_MD1_CFG) 7 = (0 ||| 1) % 2 ∧
    (iis3dwb_pin_int1_route_set (some devCtx) ⟨0, 0, 0, 0, 0, 0, 0, 0, 1⟩
      (Device.failingAt (fun _ => 0xFF) 2 (-4))).2.log =
      (Device.failingAt (fun _ => 0xFF) 2 (-4)).log ++
        [Txn.read IIS3DWB_INT1_CTRL 1, Txn.read IIS3DWB_MD1_CFG 1,
          Txn.read IIS3DWB_SLOPE_EN 1] :=
  ⟨((pin_int1_route_set_order_and_frame (Device.fresh (fun _ => 0xFF))
      ⟨0, 0, 0, 0, 0, 0, 0, 0, 1⟩).1 (fresh_alwaysOk _)).2.2.2.2.2.2.2.2.1,
    ((pin_int1_route_set_order_and_frame (Device.failingAt (fun _ => 0xFF) 2 (-4))
      ⟨0, 0, 0, 0, 0, 0, 0, 0, 1⟩).2.2.2 (-4) (by decide) rfl rfl rfl).2.2⟩

/-! ## C34: the sleep-status bit shared by the INT1 and INT2 routes -/

theorem pin_int1_route_of_frame (i : iis3dwb_int1_ctrl_t) (m : iis3dwb_md1_cfg_t)
    (s t : iis3dwb_slope_en_t) :
    (pin_int1_route_of i m s).drdy_xl = (pin_int1_route_of i m t).drdy_xl ∧
    (pin_int1_route_of i m s).boot = (pin_int1_route_of i m t).boot ∧
    (pin_int1_route_of i m s).fifo_th = (pin_int1_route_of i m t).fifo_th ∧
    (pin_int1_route_of i m s).fifo_ovr = (pin_int1_route_of i m t).fifo_ovr ∧
    (pin_int1_route_of i m s).fifo_full = (pin_int1_route_of i m t).fifo_full ∧
    (pin_int1_route_of i m s).fifo_bdr = (pin_int1_route_of i m t).fifo_bdr ∧
    (pin_int1_route_of i m s).wake_up = (pin_int1_route_of i m t).wake_up := by
  simp only [pin_int1_route_of]
  refine ⟨?_, ?_, ?_, ?_, ?_, ?_, ?_⟩ <;> split_ifs <;> rfl

/-- C34. The INT1 and INT2 routes share one sleep-status bit. There are a device state
(registers all 0) and route values `v1` (only `sleep_status` = 1) and `v2` (all 0) such
that, on a transport that always succeeds, `iis3dwb_pin_int1_route_set v1` followed at
once by `iis3dwb_pin_int1_route_get` returns `v1`, while after a further
`iis3dwb_pin_int2_route_set v2` the INT1 get returns a different value, with
`sleep_status` = 0 and `sleep_change` = 1. On the fields `drdy_xl`, `boot`, `fifo_th`,
`fifo_ovr`, `fifo_full`, `fifo_bdr` and `wake_up`, for every device state and every `v`,
the INT1 get returns after `iis3dwb_pin_int2_route_set v` what it returns before. -/
theorem int1_int2_share_sleep_status (d : Device) (v : iis3dwb_pin_int2_route_t)
    (hok : d.alwaysOk) :
    (∃ (d0 : Device) (v1 : iis3dwb_pin_int1_route_t) (v2 : iis3dwb_pin_int2_route_t),
      d0.alwaysOk ∧ v1.WF ∧ v2.WF ∧
      (iis3dwb_pin_int1_route_get (some devCtx)
        (iis3dwb_pin_int1_route_set (some devCtx) v1 d0).2).2.1 = v1 ∧
      (iis3dwb_pin_int1_route_get (some devCtx)
        (iis3dwb_pin_int2_route_set (some devCtx) v2
          (iis3dwb_pin_int1_route_set (some devCtx) v1 d0).2).2).2.1 ≠ v1 ∧
      (iis3dwb_pin_int1_route_get (some devCtx)
        (iis3dwb_pin_int2_route_set (some devCtx) v2
          (iis3dwb_pin_int1_route_set (some devCtx) v1 d0).2).2).2.1 =
        { v1 with sleep_status := 0, sleep_change := 1 }) ∧
    (iis3dwb_pin_int2_route_set (some devCtx) v d).1 = 0 ∧
    (iis3dwb_pin_int1_route_get (some devCtx)
      (iis3dwb_pin_int2_route_set (some devCtx) v d).2).1 = 0 ∧
    (iis3dwb_pin_int1_route_get (some devCtx)
      (iis3dwb_pin_int2_route_set (some devCtx) v d).2).2.1.drdy_xl =
      (iis3dwb_pin_int1_route_get (some devCtx) d).2.1.drdy_xl ∧
    (iis3dwb_pin_int1_route_get (some devCtx)
      (iis3dwb_pin_int2_route_set (some devCtx) v d).2).2.1.boot =
      (iis3dwb_pin_int1_route_get (some devCtx) d).2.1.boot ∧
    (iis3dwb_pin_int1_route_get (some devCtx)
      (iis3dwb_pin_int2_route_set (some devCtx) v d).2).2.1.fifo_th =
      (iis3dwb_pin_int1_route_get (some devCtx) d).2.1.fifo_th ∧
    (iis3dwb_pin_int1_route_get (some devCtx)
      (iis3dwb_pin_int2_route_set (some devCtx) v d).2).2.1.fifo_ovr =
      (iis3dwb_pin_int1_route_get (some devCtx) d).2.1.fifo_ovr ∧
    (iis3dwb_pin_int1_route_get (some devCtx)
      (iis3dwb_pin_int2_route_set (some devCtx) v d).2).2.1.fifo_full =
      (iis3dwb_pin_int1_route_get (some devCtx) d).2.1.fifo_full ∧
    (iis3dwb_pin_int1_route_get (some devCtx)
      (iis3dwb_pin_int2_route_set (some devCtx) v d).2).2.1.fifo_bdr =
      (iis3dwb_pin_int1_route_get (some devCtx) d).2.1.fifo_bdr ∧
    (iis3dwb_pin_int1_route_get (some devCtx)
      (iis3dwb_pin_int2_route_set (some devCtx) v d).2).2.1.wake_up =
      (iis3dwb_pin_int1_route_get (some devCtx) d).2.1.wake_up := by
  refine ⟨⟨Device.fresh (fun _ => 0), ⟨0, 0, 0, 0, 0, 0, 0, 0, 1⟩,
    ⟨0, 0, 0, 0, 0, 0, 0, 0, 0, 0⟩, fresh_alwaysOk _,
    by simp [iis3dwb_pin_int1_route_t.WF], by simp [iis3dwb_pin_int2_route_t.WF],
    by decide, by decide, by decide⟩, ?_⟩
  obtain ⟨regs, log, status⟩ := d
  have hs : ∀ n, status n = 0 := hok
  have n1 : IIS3DWB_INT1_CTRL ≠ IIS3DWB_INT2_CTRL := by decide
  have n2 : IIS3DWB_INT1_CTRL ≠ IIS3DWB_MD2_CFG := by decide
  have n3 : IIS3DWB_INT1_CTRL ≠ IIS3DWB_SLOPE_EN := by decide
  have n4 : IIS3DWB_MD1_CFG ≠ IIS3DWB_INT2_CTRL := by decide
  have n5 : IIS3DWB_MD1_CFG ≠ IIS3DWB_MD2_CFG := by decide
  have n6 : IIS3DWB_MD1_CFG ≠ IIS3DWB_SLOPE_EN := by decide
  rw [pin_int2_route_set_eq regs log status hs v]
  simp only [pin_int1_route_get_eq _ _ _ hs, Function.update_same, Function.update_noteq n1,
    Function.update_noteq n2, Function.update_noteq n3, Function.update_noteq n4,
    Function.update_noteq n5, Function.update_noteq n6, true_and]
  exact pin_int1_route_of_frame _ _ _ _

/-- C34 witness: the frame at registers all 0xFF and an INT2 request with every field 1. -/
theorem int1_int2_share_sleep_status_witness :
    (Device.fresh (fun _ => 0xFF)).alwaysOk ∧
    (iis3dwb_pin_int1_route_get (some devCtx)
      (iis3dwb_pin_int2_route_set (some devCtx) ⟨1, 1, 1, 1, 1, 1, 1, 1, 1, 1⟩
        (Device.fresh (fun _ => 0xFF))).2).2.1.wake_up =
      (iis3dwb_pin_int1_route_get (some devCtx) (Device.fresh (fun _ => 0xFF))).2.1.wake_up :=
  ⟨fresh_alwaysOk _,
    (int1_int2_share_sleep_status (Device.fresh (fun _ => 0xFF))
      ⟨1, 1, 1, 1, 1, 1, 1, 1, 1, 1⟩ (fresh_alwaysOk _)).2.2.2.2.2.2.2.2.2⟩

/-! ## Overlay laws for CTRL3_C and FIFO_CTRL4 -/

theorem ctrl3_c_ofByte_WF (b : Nat) : (iis3dwb_ctrl3_c_t.ofByte b).WF := by
  simp only [iis3dwb_ctrl3_c_t.WF, iis3dwb_ctrl3_c_t.ofByte]
  refine ⟨?_, ?_, ?_, ?_, ?_, ?_, ?_, ?_⟩ <;> omega

theorem ctrl3_c_ofByte_toByte (r : iis3dwb_ctrl3_c_t) (h : r.WF) :
    iis3dwb_ctrl3_c_t.ofByte (r.toByte % 256) = r := by
  obtain ⟨a0, a1, a2, a3, a4, a5, a6, a7⟩ := r
  simp only [iis3dwb_ctrl3_c_t.WF] at h
  obtain ⟨h0, h1, h2, h3, h4, h5, h6, h7⟩ := h
  simp only [iis3dwb_ctrl3_c_t.ofByte, iis3dwb_ctrl3_c_t.toByte, iis3dwb_ctrl3_c_t.mk.injEq]
  refine ⟨?_, ?_, ?_, ?_, ?_, ?_, ?_, ?_⟩ <;> omega

theorem fifo_ctrl4_ofByte_WF (b : Nat) : (iis3dwb_fifo_ctrl4_t.ofByte b).WF := by
  simp only [iis3dwb_fifo_ctrl4_t.WF, iis3dwb_fifo_ctrl4_t.ofByte]
  refine ⟨?_, ?_, ?_, ?_⟩ <;> omega

theorem fifo_ctrl4_ofByte_toByte (r : iis3dwb_fifo_ctrl4_t) (h : r.WF) :
    iis3dwb_fifo_ctrl4_t.ofByte (r.toByte % 256) = r := by
  obtain ⟨a0, a1, a2, a3⟩ := r
  simp only [iis3dwb_fifo_ctrl4_t.WF] at h
  obtain ⟨h0, h1, h2, h3⟩ := h
  simp only [iis3dwb_fifo_ctrl4_t.ofByte, iis3dwb_fifo_ctrl4_t.toByte,
    iis3dwb_fifo_ctrl4_t.mk.injEq]
  refine ⟨?_, ?_, ?_, ?_⟩ <;> omega

/-! ## C36: order of two setters of one register -/

/-- The three pairs of single-register setters named in C36 commute: for every device
state and all arguments `a`, `b`, on a transport that always succeeds, the two calls
return 0 in either order and leave the same register contents. -/
theorem named_setter_pairs_commute (d : Device) (a b : Nat) (hok : d.alwaysOk) :
    (iis3dwb_auto_increment_set (some devCtx) b
        (iis3dwb_block_data_update_set (some devCtx) a d).2).2.regs =
      (iis3dwb_block_data_update_set (some devCtx) a
        (iis3dwb_auto_increment_set (some devCtx) b d).2).2.regs ∧
    (iis3dwb_xl_data_rate_set (some devCtx) b
        (iis3dwb_xl_full_scale_set (some devCtx) a d).2).2.regs =
      (iis3dwb_xl_full_scale_set (some devCtx) a
        (iis3dwb_xl_data_rate_set (some devCtx) b d).2).2.regs ∧
    (iis3dwb_fifo_temp_batch_set (some devCtx) b
        (iis3dwb_fifo_mode_set (some devCtx) a d).2).2.regs =
      (iis3dwb_fifo_mode_set (some devCtx) a
        (iis3dwb_fifo_temp_batch_set (some devCtx) b d).2).2.regs ∧
    (iis3dwb_auto_increment_set (some devCtx) b
        (iis3dwb_block_data_update_set (some devCtx) a d).2).1 = 0 ∧
    (iis3dwb_block_data_update_set (some devCtx) a
        (iis3dwb_auto_increment_set (some devCtx) b d).2).1 = 0 ∧
    (iis3dwb_xl_data_rate_set (some devCtx) b
        (iis3dwb_xl_full_scale_set (some devCtx) a d).2).1 = 0 ∧
    (iis3dwb_xl_full_scale_set (some devCtx) a
        (iis3dwb_xl_data_rate_set (some devCtx) b d).2).1 = 0 ∧
    (iis3dwb_fifo_temp_batch_set (some devCtx) b
        (iis3dwb_fifo_mode_set (some devCtx) a d).2).1 = 0 ∧
    (iis3dwb_fifo_mode_set (some devCtx) a
        (iis3dwb_fifo_temp_batch_set (some devCtx) b d).2).1 = 0 := by
  obtain ⟨regs, log, status⟩ := d
  have hs : ∀ n, status n = 0 := hok
  have w3 := ctrl3_c_ofByte_WF (regs IIS3DWB_CTRL3_C % 256)
  have w1 := ctrl1_xl_ofByte_WF (regs IIS3DWB_CTRL1_XL % 256)
  have w4 := fifo_ctrl4_ofByte_WF (regs IIS3DWB_FIFO_CTRL4 % 256)
  have r3a := ctrl3_c_ofByte_toByte
    { iis3dwb_ctrl3_c_t.ofByte (regs IIS3DWB_CTRL3_C % 256) with bdu := a % 256 % 2 }
    ⟨w3.1, w3.2.1, w3.2.2.1, w3.2.2.2.1, w3.2.2.2.2.1, w3.2.2.2.2.2.1,
      Nat.mod_lt _ (by decide), w3.2.2.2.2.2.2.2⟩
  have r3b := ctrl3_c_ofByte_toByte
    { iis3dwb_ctrl3_c_t.ofByte (regs IIS3DWB_CTRL3_C % 256) with if_inc := b % 256 % 2 }
    ⟨w3.1, w3.2.1, Nat.mod_lt _ (by decide), w3.2.2.2.1, w3.2.2.2.2.1, w3.2.2.2.2.2.1,
      w3.2.2.2.2.2.2.1, w3.2.2.2.2.2.2.2⟩
  have r1a := ctrl1_xl_ofByte_toByte
    { iis3dwb_ctrl1_xl_t.ofByte (regs IIS3DWB_CTRL1_XL % 256) with fs_xl := a % 256 % 4 }
    ⟨w1.1, w1.2.1, Nat.mod_lt _ (by decide), w1.2.2.2.1, w1.2.2.2.2⟩
  have r1b := ctrl1_xl_ofByte_toByte
    { iis3dwb_ctrl1_xl_t.ofByte (regs IIS3DWB_CTRL1_XL % 256) with xl_en := b % 256 % 8 }
    ⟨w1.1, w1.2.1, w1.2.2.1, w1.2.2.2.1, Nat.mod_lt _ (by decide)⟩
  have r4a := fifo_ctrl4_ofByte_toByte
    { iis3dwb_fifo_ctrl4_t.ofByte (regs IIS3DWB_FIFO_CTRL4 % 256) with
      fifo_mode := a % 256 % 8 }
    ⟨Nat.mod_lt _ (by decide), w4.2.1, w4.2.2.1, w4.2.2.2⟩
  have r4b := fifo_ctrl4_ofByte_toByte
    { iis3dwb_fifo_ctrl4_t.ofByte (regs IIS3DWB_FIFO_CTRL4 % 256) with
      odr_t_batch := b % 256 % 4 }
    ⟨w4.1, w4.2.1, Nat.mod_lt _ (by decide), w4.2.2.2⟩
  simp only [iis3dwb_auto_increment_set, iis3dwb_block_data_update_set,
    iis3dwb_xl_data_rate_set, iis3dwb_xl_full_scale_set, iis3dwb_fifo_temp_batch_set,
    iis3dwb_fifo_mode_set, dev_read1 _ _ _ hs, dev_write1 _ _ _ hs, if_true,
    byteAt_singleton, Function.update_same, Function.update_idem, r3a, r3b, r1a, r1b, r4a,
    r4b, and_self]

/-- C36 (the code at the failing input). On a device whose registers all hold 0 and a
transport that succeeds, `iis3dwb_data_ready_mode_set (IIS3DWB_DRDY_PULSED)` and
`iis3dwb_batch_counter_threshold_set (0)`, which own the fields `dataready_pulsed` (bit 7)
and `cnt_bdr_th` (bits 2-0) of COUNTER_BDR_REG1, all return 0 but do not commute: with the
threshold set last COUNTER_BDR_REG1 holds 0x00, with the data-ready mode set last it
holds 0x80, and `iis3dwb_data_ready_mode_get` gives LATCHED in the first case and PULSED in
the second. -/
theorem counter_bdr_reg1_setters_do_not_commute :
    (iis3dwb_data_ready_mode_set (some devCtx)
      iis3dwb_dataready_pulsed_t.IIS3DWB_DRDY_PULSED.toNat (Device.fresh (fun _ => 0))).1 = 0 ∧
    (iis3dwb_batch_counter_threshold_set (some devCtx) 0
      (iis3dwb_data_ready_mode_set (some devCtx)
        iis3dwb_dataready_pulsed_t.IIS3DWB_DRDY_PULSED.toNat
        (Device.fresh (fun _ => 0))).2).1 = 0 ∧
    (iis3dwb_batch_counter_threshold_set (some devCtx) 0 (Device.fresh (fun _ => 0))).1 = 0 ∧
    (iis3dwb_data_ready_mode_set (some devCtx)
      iis3dwb_dataready_pulsed_t.IIS3DWB_DRDY_PULSED.toNat
      (iis3dwb_batch_counter_threshold_set (some devCtx) 0
        (Device.fresh (fun _ => 0))).2).1 = 0 ∧
    (iis3dwb_batch_counter_threshold_set (some devCtx) 0
      (iis3dwb_data_ready_mode_set (some devCtx)
        iis3dwb_dataready_pulsed_t.IIS3DWB_DRDY_PULSED.toNat
        (Device.fresh (fun _ => 0))).2).2.regs IIS3DWB_COUNTER_BDR_REG1 = 0x00 ∧
    (iis3dwb_data_ready_mode_set (some devCtx)
      iis3dwb_dataready_pulsed_t.IIS3DWB_DRDY_PULSED.toNat
      (iis3dwb_batch_counter_threshold_set (some devCtx) 0
        (Device.fresh (fun _ => 0))).2).2.regs IIS3DWB_COUNTER_BDR_REG1 = 0x80 ∧
    (iis3dwb_data_ready_mode_get (some devCtx)
      (iis3dwb_batch_counter_threshold_set (some devCtx) 0
        (iis3dwb_data_ready_mode_set (some devCtx)
          iis3dwb_dataready_pulsed_t.IIS3DWB_DRDY_PULSED.toNat
          (Device.fresh (fun _ => 0))).2).2).2.1 =
      iis3dwb_dataready_pulsed_t.IIS3DWB_DRDY_LATCHED ∧
    (iis3dwb_data_ready_mode_get (some devCtx)
      (iis3dwb_data_ready_mode_set (some devCtx)
        iis3dwb_dataready_pulsed_t.IIS3DWB_DRDY_PULSED.toNat
        (iis3dwb_batch_counter_threshold_set (some devCtx) 0
          (Device.fresh (fun _ => 0))).2).2).2.1 =
      iis3dwb_dataready_pulsed_t.IIS3DWB_DRDY_PULSED := by
  decide

/-! ## Status getters that store into the caller's structure -/

/-- With a null context `iis3dwb_all_sources_get` and `iis3dwb_status_reg_get` return -1 and
leave the caller's structure as it was. -/
theorem status_getters_null_context (src0 : iis3dwb_all_sources_t) (st0 : iis3dwb_status_reg_t)
    (d : Device) :
    iis3dwb_all_sources_get none src0 d = (-1, src0, d) ∧
    iis3dwb_status_reg_get none st0 d = (-1, st0, d) := by
  constructor
  · simp [iis3dwb_all_sources_get, iis3dwb_read_reg, storedInto]
  · simp [iis3dwb_status_reg_get, iis3dwb_read_reg, storedInto]

/-- When its second read fails, `iis3dwb_all_sources_get` has stored the first register
into `all_int_src` and leaves `wake_up_src` and `status_reg` as the caller had them. -/
theorem all_sources_get_second_read_fails (regs : Nat → Nat) (log : List Txn)
    (status : Nat → Int) (e : Int) (he : e ≠ 0) (h0 : status log.length = 0)
    (h1 : status (log.length + 1) = e) (src0 : iis3dwb_all_sources_t) :
    ((iis3dwb_all_sources_get (some devCtx) src0 ⟨regs, log, status⟩).1 = e) ∧
    ((iis3dwb_all_sources_get (some devCtx) src0 ⟨regs, log, status⟩).2.1 =
      { src0 with
        all_int_src := iis3dwb_all_int_src_t.ofByte (regs IIS3DWB_ALL_INT_SRC % 256) }) := by
  have g : status (log ++ [Txn.read IIS3DWB_ALL_INT_SRC 1]).length = e := by simpa using h1
  simp only [iis3dwb_all_sources_get, dev_read1_at _ _ _ h0, dev_read1_fail _ _ _ e he g,
    storedInto, if_pos, if_neg he]
  simp

/-- When its read fails, `iis3dwb_status_reg_get` leaves the caller's structure as it
was; when it succeeds, the structure is the overlay of STATUS_REG. -/
theorem status_reg_get_stores (regs : Nat → Nat) (log : List Txn) (status : Nat → Int)
    (st0 : iis3dwb_status_reg_t) :
    (∀ e : Int, e ≠ 0 → status log.length = e →
      iis3dwb_status_reg_get (some devCtx) st0 ⟨regs, log, status⟩ =
        (e, st0, ⟨regs, log ++ [Txn.read IIS3DWB_STATUS_REG 1], status⟩)) ∧
    (status log.length = 0 →
      iis3dwb_status_reg_get (some devCtx) st0 ⟨regs, log, status⟩ =
        (0, iis3dwb_status_reg_t.ofByte (regs IIS3DWB_STATUS_REG % 256),
          ⟨regs, log ++ [Txn.read IIS3DWB_STATUS_REG 1], status⟩)) := by
  constructor
  · intro e he h
    simp only [iis3dwb_status_reg_get, dev_read1_fail _ _ _ e he h, storedInto]
  · intro h
    simp only [iis3dwb_status_reg_get, dev_read1_at _ _ _ h, storedInto]

/-! ## Single-precision rounding -/

theorem roundNearestEven_intCast (n : ℤ) : roundNearestEven (n : ℚ) = n := by
  simp [roundNearestEven]

theorem roundNearestEven_of_near (s : ℚ) (m : ℤ) (h : |s - m| < 1 / 2) :
    roundNearestEven s = m := by
  have h1 := abs_lt.mp h
  have hf : (⌊s⌋ : ℚ) ≤ s := Int.floor_le s
  have hf2 : s < (⌊s⌋ : ℚ) + 1 := Int.lt_floor_add_one s
  by_cases hc : s - ⌊s⌋ < 1 / 2
  · have hm : ⌊s⌋ = m := by
      have a1 : ((⌊s⌋ : ℤ) : ℚ) < (m : ℚ) + 1 := by linarith [h1.1, h1.2]
      have a2 : ((m : ℤ) : ℚ) < (⌊s⌋ : ℚ) + 1 := by linarith [h1.1, h1.2]
      have b1 : ⌊s⌋ < m + 1 := by exact_mod_cast a1
      have b2 : m < ⌊s⌋ + 1 := by exact_mod_cast a2
      omega
    unfold roundNearestEven
    rw [if_pos hc]
    exact hm
  · have hc2 : 1 / 2 < s - ⌊s⌋ := by
      rcases lt_or_eq_of_le (not_lt.mp hc) with h3 | h3
      · exact h3
      · exfalso
        have a1 : ((⌊s⌋ : ℤ) : ℚ) < (m : ℚ) := by linarith [h1.1, h1.2]
        have a2 : ((m : ℤ) : ℚ) < (⌊s⌋ : ℚ) + 1 := by linarith [h1.1, h1.2]
        have b1 : ⌊s⌋ < m := by exact_mod_cast a1
        have b2 : m < ⌊s⌋ + 1 := by exact_mod_cast a2
        omega
    have hm : ⌊s⌋ + 1 = m := by
      have a1 : ((⌊s⌋ : ℤ) : ℚ) < (m : ℚ) := by linarith [h1.1, h1.2]
      have a2 : ((m : ℤ) : ℚ) < (⌊s⌋ : ℚ) + 2 := by linarith [h1.1, h1.2]
      have b1 : ⌊s⌋ < m := by exact_mod_cast a1
      have b2 : m < ⌊s⌋ + 2 := by exact_mod_cast a2
      omega
    unfold roundNearestEven
    rw [if_neg hc, if_pos hc2]
    exact hm

theorem roundNearestEven_error (s : ℚ) : |(roundNearestEven s : ℚ) - s| ≤ 1 / 2 := by
  have hf : (⌊s⌋ : ℚ) ≤ s := Int.floor_le s
  have hf2 : s < (⌊s⌋ : ℚ) + 1 := Int.lt_floor_add_one s
  rw [abs_le]
  unfold roundNearestEven
  split_ifs with h1 h2 h3
  · constructor <;> linarith
  · push_cast
    constructor <;> linarith
  · constructor <;> linarith
  · push_cast
    constructor <;> linarith

theorem ulpExp32_ge (x : ℚ) : -149 ≤ ulpExp32 x := le_max_right _ _

theorem ulpExp32_le (x : ℚ) (k : ℤ) (hx : x ≠ 0) (hk : -149 ≤ k)
    (h : |x| < 2 ^ (k + 24)) : ulpExp32 x ≤ k := by
  have hpos : 0 < |x| := abs_pos.mpr hx
  have h2 : |x| < ((2 : ℕ) : ℚ) ^ (k + 24) := by simpa using h
  have := (Int.lt_zpow_iff_log_lt (by norm_num : 1 < 2) hpos).mp h2
  unfold ulpExp32
  exact max_le (by omega) hk

theorem ulpExp32_eq (x : ℚ) (k : ℤ) (hk : -149 ≤ k) (hlo : 2 ^ (k + 23) ≤ |x|)
    (hhi : |x| < 2 ^ (k + 24)) : ulpExp32 x = k := by
  have hpos : 0 < |x| := lt_of_lt_of_le (by positivity) hlo
  have h1 : ((2 : ℕ) : ℚ) ^ (k + 23) ≤ |x| := by simpa using hlo
  have h2 : |x| < ((2 : ℕ) : ℚ) ^ (k + 24) := by simpa using hhi
  have a := (Int.zpow_le_iff_le_log (by norm_num : 1 < 2) hpos).mp h1
  have b := (Int.lt_zpow_iff_log_lt (by norm_num : 1 < 2) hpos).mp h2
  unfold ulpExp32
  have : Int.log 2 |x| - 23 = k := by omega
  rw [this]
  exact max_eq_left hk

theorem roundF32_zero : roundF32 0 = 0 := by
  simp [roundF32, roundNearestEven]

/-- A number `m * 2 ^ k` with `|m| < 2 ^ 24` and `k ≥ -149` is a single-precision value:
rounding leaves it as it is. -/
theorem roundF32_of_representable (m k : ℤ) (hm : |m| < 2 ^ 24) (hk : -149 ≤ k) :
    roundF32 ((m : ℚ) * 2 ^ k) = (m : ℚ) * 2 ^ k := by
  by_cases h0 : m = 0
  · subst h0
    simp [roundF32_zero]
  have hx : (m : ℚ) * 2 ^ k ≠ 0 := by
    apply mul_ne_zero
    · exact_mod_cast h0
    · positivity
  have habs : |(m : ℚ) * 2 ^ k| < 2 ^ (k + 24) := by
    rw [abs_mul, abs_of_pos (by positivity : (0 : ℚ) < 2 ^ k), zpow_add₀ (by norm_num), mul_comm]
    apply mul_lt_mul_of_pos_left _ (by positivity)
    have : ((|m| : ℤ) : ℚ) < ((2 ^ 24 : ℤ) : ℚ) := by exact_mod_cast hm
    rw [Int.cast_abs] at this
    refine lt_of_lt_of_le this ?_
    norm_num
  have he := ulpExp32_le _ k hx hk habs
  obtain ⟨j, hj⟩ : ∃ j : ℕ, k = ulpExp32 ((m : ℚ) * 2 ^ k) + j :=
    ⟨(k - ulpExp32 ((m : ℚ) * 2 ^ k)).toNat, by omega⟩
  have hs : (m : ℚ) * 2 ^ k / 2 ^ ulpExp32 ((m : ℚ) * 2 ^ k) = ((m * 2 ^ j : ℤ) : ℚ) := by
    rw [div_eq_iff (by positivity)]
    conv_lhs => rw [hj]
    rw [zpow_add₀ (by norm_num)]
    push_cast
    rw [zpow_natCast]
    ring
  unfold roundF32
  rw [hs, roundNearestEven_intCast, ← hs]
  field_simp

/-- The single-precision value nearest to `x` when `x` lies in the binade of unit `2 ^ k`
and is nearer to `m * 2 ^ k` than half a unit. -/
theorem roundF32_of_near (x : ℚ) (k m : ℤ) (hk : -149 ≤ k) (hlo : 2 ^ (k + 23) ≤ |x|)
    (hhi : |x| < 2 ^ (k + 24)) (hm : |x / 2 ^ k - m| < 1 / 2) :
    roundF32 x = (m : ℚ) * 2 ^ k := by
  unfold roundF32
  rw [ulpExp32_eq x k hk hlo hhi, roundNearestEven_of_near _ m hm]

/-- The rounding error is at most half a unit in the last place. -/
theorem roundF32_error (x : ℚ) (k : ℤ) (hk : -149 ≤ k) (h : |x| < 2 ^ (k + 24)) :
    |roundF32 x - x| ≤ 2 ^ k / 2 := by
  by_cases hx : x = 0
  · subst hx
    rw [roundF32_zero]
    simp only [sub_self, abs_zero]
    positivity
  have he := ulpExp32_le x k hx hk h
  have hr := roundNearestEven_error (x / 2 ^ ulpExp32 x)
  have hp : (0 : ℚ) < 2 ^ ulpExp32 x := by positivity
  have e1 : roundF32 x - x =
      ((roundNearestEven (x / 2 ^ ulpExp32 x) : ℚ) - x / 2 ^ ulpExp32 x) * 2 ^ ulpExp32 x := by
    unfold roundF32
    field_simp
  rw [e1, abs_mul, abs_of_pos hp]
  have hle : (2 : ℚ) ^ ulpExp32 x ≤ 2 ^ k := zpow_le_zpow_right₀ (by norm_num) he
  calc _ ≤ 1 / 2 * (2 : ℚ) ^ ulpExp32 x := mul_le_mul_of_nonneg_right hr hp.le
    _ ≤ 1 / 2 * 2 ^ k := mul_le_mul_of_nonneg_left hle (by norm_num)
    _ = 2 ^ k / 2 := by ring

theorem roundNearestEven_tie (m : ℤ) :
    roundNearestEven ((m : ℚ) + 1 / 2) = if m % 2 = 0 then m else m + 1 := by
  have hf : ⌊(m : ℚ) + 1 / 2⌋ = m := by
    rw [Int.floor_eq_iff]
    constructor <;> linarith
  unfold roundNearestEven
  rw [hf]
  have e : (m : ℚ) + 1 / 2 - m = 1 / 2 := by ring
  rw [e, if_neg (lt_irrefl _), if_neg (lt_irrefl _)]

/-- The relative rounding error of a number in the normal range is at most `2 ^ (-24)`. -/
theorem roundF32_rel_error (x : ℚ) (h : x = 0 ∨ 2 ^ (-126 : ℤ) ≤ |x|) :
    |roundF32 x - x| ≤ |x| * 2 ^ (-24 : ℤ) := by
  rcases h with h | h
  · subst h
    simp [roundF32_zero]
  have hpos : 0 < |x| := lt_of_lt_of_le (by positivity) h
  have h1 : ((2 : ℕ) : ℚ) ^ (-126 : ℤ) ≤ |x| := by simpa using h
  have a := (Int.zpow_le_iff_le_log (by norm_num : 1 < 2) hpos).mp h1
  have lo := Int.zpow_log_le_self (by norm_num : 1 < 2) hpos
  have hi := Int.lt_zpow_succ_log_self (by norm_num : 1 < 2) |x|
  have lo2 : (2 : ℚ) ^ Int.log 2 |x| ≤ |x| := by simpa using lo
  have hi2 : |x| < (2 : ℚ) ^ (Int.log 2 |x| - 23 + 24) := by
    have e : Int.log 2 |x| - 23 + 24 = Int.log 2 |x| + 1 := by ring
    rw [e]
    simpa using hi
  have hr := roundF32_error x (Int.log 2 |x| - 23) (by omega) hi2
  have e2 : (2 : ℚ) ^ (Int.log 2 |x| - 23) / 2 = 2 ^ Int.log 2 |x| * 2 ^ (-24 : ℤ) := by
    rw [show Int.log 2 |x| - 23 = Int.log 2 |x| + (-23) by ring, zpow_add₀ (by norm_num)]
    norm_num
    ring
  rw [e2] at hr
  exact hr.trans (mul_le_mul_of_nonneg_right lo2 (by positivity))

theorem floatOfInt_of_small (n : ℤ) (h : |n| < 2 ^ 24) : floatOfInt n = n := by
  have := roundF32_of_representable n 0 h (by norm_num)
  simpa [floatOfInt] using this

theorem floatLit_0_061 : floatLit 0.061 = 16374563 / 2 ^ 28 := by
  have := roundF32_of_near 0.061 (-28) 16374563 (by norm_num)
    (by norm_num [abs_of_pos]) (by norm_num [abs_of_pos]) (by norm_num [abs_lt])
  rw [floatLit, this]
  norm_num

theorem floatLit_0_122 : floatLit 0.122 = 16374563 / 2 ^ 27 := by
  have := roundF32_of_near 0.122 (-27) 16374563 (by norm_num)
    (by norm_num [abs_of_pos]) (by norm_num [abs_of_pos]) (by norm_num [abs_lt])
  rw [floatLit, this]
  norm_num

theorem floatLit_0_244 : floatLit 0.244 = 16374563 / 2 ^ 26 := by
  have := roundF32_of_near 0.244 (-26) 16374563 (by norm_num)
    (by norm_num [abs_of_pos]) (by norm_num [abs_of_pos]) (by norm_num [abs_lt])
  rw [floatLit, this]
  norm_num

theorem floatLit_0_488 : floatLit 0.488 = 16374563 / 2 ^ 25 := by
  have := roundF32_of_near 0.488 (-25) 16374563 (by norm_num)
    (by norm_num [abs_of_pos]) (by norm_num [abs_of_pos]) (by norm_num [abs_lt])
  rw [floatLit, this]
  norm_num

theorem floatLit_256 : floatLit 256.0 = 256 := by
  have := roundF32_of_representable 256 0 (by norm_num) (by norm_num)
  rw [floatLit]
  norm_num at this ⊢
  exact this

theorem floatLit_25 : floatLit 25.0 = 25 := by
  have := roundF32_of_representable 25 0 (by norm_num) (by norm_num)
  rw [floatLit]
  norm_num at this ⊢
  exact this

theorem floatLit_25000 : floatLit 25000.0 = 25000 := by
  have := roundF32_of_representable 25000 0 (by norm_num) (by norm_num)
  rw [floatLit]
  norm_num at this ⊢
  exact this

/-- The product of a small integer with a single-precision constant `c` that stands for the
decimal `d`: one rounding of `lsb * c`, within `2 ^ (-23)` of `lsb * d` relative to its
magnitude when `c` is that near to `d`. -/
theorem scaled_by_constant (lsb : ℤ) (c d : ℚ) (hs : |lsb| < 2 ^ 24) (hc : floatLit d = c)
    (hc0 : 2 ^ (-126 : ℤ) ≤ c) (hd : 0 < d) (hcd : c / 16777216 + |c - d| ≤ d / 8388608) :
    floatMul (floatOfInt lsb) (floatLit d) = roundF32 ((lsb : ℚ) * c) ∧
    |floatMul (floatOfInt lsb) (floatLit d) - (lsb : ℚ) * d| ≤
      |(lsb : ℚ) * d| * 2 ^ (-23 : ℤ) := by
  have hv : floatMul (floatOfInt lsb) (floatLit d) = roundF32 ((lsb : ℚ) * c) := by
    rw [floatMul, floatOfInt_of_small lsb hs, hc]
  refine ⟨hv, ?_⟩
  rw [hv]
  have hcpos : 0 < c := lt_of_lt_of_le (by positivity) hc0
  have e24 : (2 : ℚ) ^ (-24 : ℤ) = 1 / 16777216 := by norm_num
  have e23 : (2 : ℚ) ^ (-23 : ℤ) = 1 / 8388608 := by norm_num
  have r : |roundF32 ((lsb : ℚ) * c) - (lsb : ℚ) * c| ≤ |(lsb : ℚ) * c| * 2 ^ (-24 : ℤ) := by
    apply roundF32_rel_error
    by_cases h0 : lsb = 0
    · left
      simp [h0]
    · right
      have : (1 : ℤ) ≤ |lsb| := Int.one_le_abs h0
      have habs : (1 : ℚ) ≤ |(lsb : ℚ)| := by exact_mod_cast this
      rw [abs_mul, abs_of_pos hcpos]
      calc (2 : ℚ) ^ (-126 : ℤ) ≤ c := hc0
        _ = 1 * c := (one_mul c).symm
        _ ≤ |(lsb : ℚ)| * c := mul_le_mul_of_nonneg_right habs hcpos.le
  rw [e24, abs_mul, abs_of_pos hcpos] at r
  rw [e23, abs_mul, abs_of_pos hd]
  have tri : |roundF32 ((lsb : ℚ) * c) - (lsb : ℚ) * d| ≤
      |roundF32 ((lsb : ℚ) * c) - (lsb : ℚ) * c| + |(lsb : ℚ)| * |c - d| := by
    have : roundF32 ((lsb : ℚ) * c) - (lsb : ℚ) * d =
        (roundF32 ((lsb : ℚ) * c) - (lsb : ℚ) * c) + (lsb : ℚ) * (c - d) := by ring
    rw [this]
    refine (abs_add _ _).trans ?_
    rw [abs_mul]
  have key := mul_le_mul_of_nonneg_left hcd (abs_nonneg (lsb : ℚ))
  have e1 : |(lsb : ℚ)| * (c / 16777216 + |c - d|) =
      |(lsb : ℚ)| * c * (1 / 16777216) + |(lsb : ℚ)| * |c - d| := by ring
  have e2 : |(lsb : ℚ)| * (d / 8388608) = |(lsb : ℚ)| * d * (1 / 8388608) := by ring
  rw [e1, e2] at key
  linarith

theorem from_fs2g_to_mg_rounded (lsb : ℤ) (h1 : -32768 ≤ lsb) (h2 : lsb ≤ 32767) :
    iis3dwb_from_fs2g_to_mg lsb = roundF32 ((lsb : ℚ) * (16374563 / 2 ^ 28)) ∧
    |iis3dwb_from_fs2g_to_mg lsb - (lsb : ℚ) * 0.061| ≤ |(lsb : ℚ) * 0.061| * 2 ^ (-23 : ℤ) :=
  scaled_by_constant lsb _ 0.061 (by rw [abs_lt]; constructor <;> omega) floatLit_0_061
    (by norm_num) (by norm_num) (by norm_num [abs_of_pos])

theorem from_fs4g_to_mg_rounded (lsb : ℤ) (h1 : -32768 ≤ lsb) (h2 : lsb ≤ 32767) :
    iis3dwb_from_fs4g_to_mg lsb = roundF32 ((lsb : ℚ) * (16374563 / 2 ^ 27)) ∧
    |iis3dwb_from_fs4g_to_mg lsb - (lsb : ℚ) * 0.122| ≤ |(lsb : ℚ) * 0.122| * 2 ^ (-23 : ℤ) :=
  scaled_by_constant lsb _ 0.122 (by rw [abs_lt]; constructor <;> omega) floatLit_0_122
    (by norm_num) (by norm_num) (by norm_num [abs_of_pos])

theorem from_fs8g_to_mg_rounded (lsb : ℤ) (h1 : -32768 ≤ lsb) (h2 : lsb ≤ 32767) :
    iis3dwb_from_fs8g_to_mg lsb = roundF32 ((lsb : ℚ) * (16374563 / 2 ^ 26)) ∧
    |iis3dwb_from_fs8g_to_mg lsb - (lsb : ℚ) * 0.244| ≤ |(lsb : ℚ) * 0.244| * 2 ^ (-23 : ℤ) :=
  scaled_by_constant lsb _ 0.244 (by rw [abs_lt]; constructor <;> omega) floatLit_0_244
    (by norm_num) (by norm_num) (by norm_num [abs_of_pos])

theorem from_fs16g_to_mg_rounded (lsb : ℤ) (h1 : -32768 ≤ lsb) (h2 : lsb ≤ 32767) :
    iis3dwb_from_fs16g_to_mg lsb = roundF32 ((lsb : ℚ) * (16374563 / 2 ^ 25)) ∧
    |iis3dwb_from_fs16g_to_mg lsb - (lsb : ℚ) * 0.488| ≤ |(lsb : ℚ) * 0.488| * 2 ^ (-23 : ℤ) :=
  scaled_by_constant lsb _ 0.488 (by rw [abs_lt]; constructor <;> omega) floatLit_0_488
    (by norm_num) (by norm_num) (by norm_num [abs_of_pos])

theorem from_fs2g_to_mg_1000 : iis3dwb_from_fs2g_to_mg 1000 = 61 := by
  rw [(from_fs2g_to_mg_rounded 1000 (by norm_num) (by norm_num)).1,
    roundF32_of_near _ (-18) 15990784 (by norm_num) (by norm_num [abs_of_pos])
      (by norm_num [abs_of_pos]) (by norm_num [abs_lt])]
  norm_num

theorem from_fs16g_to_mg_1000 : iis3dwb_from_fs16g_to_mg 1000 = 488 := by
  rw [(from_fs16g_to_mg_rounded 1000 (by norm_num) (by norm_num)).1,
    roundF32_of_near _ (-15) 15990784 (by norm_num) (by norm_num [abs_of_pos])
      (by norm_num [abs_of_pos]) (by norm_num [abs_lt])]
  norm_num

theorem from_fs_to_mg_at_one :
    iis3dwb_from_fs2g_to_mg 1 = 16374563 / 2 ^ 28 ∧
    iis3dwb_from_fs4g_to_mg 1 = 16374563 / 2 ^ 27 ∧
    iis3dwb_from_fs8g_to_mg 1 = 16374563 / 2 ^ 26 ∧
    iis3dwb_from_fs16g_to_mg 1 = 16374563 / 2 ^ 25 := by
  have a := roundF32_of_representable 16374563 (-28) (by norm_num) (by norm_num)
  have b := roundF32_of_representable 16374563 (-27) (by norm_num) (by norm_num)
  have c := roundF32_of_representable 16374563 (-26) (by norm_num) (by norm_num)
  have d := roundF32_of_representable 16374563 (-25) (by norm_num) (by norm_num)
  rw [(from_fs2g_to_mg_rounded 1 (by norm_num) (by norm_num)).1,
    (from_fs4g_to_mg_rounded 1 (by norm_num) (by norm_num)).1,
    (from_fs8g_to_mg_rounded 1 (by norm_num) (by norm_num)).1,
    (from_fs16g_to_mg_rounded 1 (by norm_num) (by norm_num)).1]
  norm_num at a b c d ⊢
  exact ⟨a, b, c, d⟩

theorem from_lsb_to_celsius_value (lsb : ℤ) (h1 : -32768 ≤ lsb) (h2 : lsb ≤ 32767) :
    iis3dwb_from_lsb_to_celsius lsb = (lsb : ℚ) / 256 + 25 := by
  have hs : |lsb| < 2 ^ 24 := by rw [abs_lt]; constructor <;> omega
  have hs2 : |lsb + 6400| < 2 ^ 24 := by rw [abs_lt]; constructor <;> omega
  have q := roundF32_of_representable lsb (-8) hs (by norm_num)
  have a := roundF32_of_representable (lsb + 6400) (-8) hs2 (by norm_num)
  have e1 : (lsb : ℚ) / 256 = (lsb : ℚ) * 2 ^ (-8 : ℤ) := by norm_num; ring
  have e2 : (lsb : ℚ) * 2 ^ (-8 : ℤ) + 25 = ((lsb + 6400 : ℤ) : ℚ) * 2 ^ (-8 : ℤ) := by
    push_cast; norm_num; ring
  unfold iis3dwb_from_lsb_to_celsius floatAdd floatDiv
  rw [floatOfInt_of_small lsb hs, floatLit_256, floatLit_25, e1, q, e2, a]

theorem from_lsb_to_nsec_small (lsb : ℤ) (h1 : -5368 ≤ lsb) (h2 : lsb ≤ 5368) :
    iis3dwb_from_lsb_to_nsec lsb = (lsb : ℚ) * 25000 := by
  have hs : |lsb| < 2 ^ 24 := by rw [abs_lt]; constructor <;> omega
  have hs2 : |lsb * 3125| < 2 ^ 24 := by rw [abs_lt]; constructor <;> omega
  have a := roundF32_of_representable (lsb * 3125) 3 hs2 (by norm_num)
  have e : (lsb : ℚ) * 25000 = ((lsb * 3125 : ℤ) : ℚ) * 2 ^ (3 : ℤ) := by
    push_cast; norm_num; ring
  unfold iis3dwb_from_lsb_to_nsec floatMul
  rw [floatOfInt_of_small lsb hs, floatLit_25000, e, a]

theorem from_lsb_to_nsec_5369 : iis3dwb_from_lsb_to_nsec 5369 = 134224992 := by
  have hu : ulpExp32 ((5369 : ℚ) * 25000) = 4 :=
    ulpExp32_eq _ 4 (by norm_num) (by norm_num [abs_of_pos]) (by norm_num [abs_of_pos])
  have hs : (5369 : ℚ) * 25000 / 2 ^ (4 : ℤ) = ((8389062 : ℤ) : ℚ) + 1 / 2 := by norm_num
  have f := floatOfInt_of_small 5369 (by norm_num)
  unfold iis3dwb_from_lsb_to_nsec floatMul
  rw [f, floatLit_25000]
  unfold roundF32
  push_cast
  rw [hu, hs, roundNearestEven_tie]
  norm_num

theorem floatOfInt_16777217 : floatOfInt 16777217 = 16777216 := by
  have hu : ulpExp32 (16777217 : ℚ) = 1 :=
    ulpExp32_eq _ 1 (by norm_num) (by norm_num [abs_of_pos]) (by norm_num [abs_of_pos])
  have hs : (16777217 : ℚ) / 2 ^ (1 : ℤ) = ((8388608 : ℤ) : ℚ) + 1 / 2 := by norm_num
  unfold floatOfInt roundF32
  push_cast
  rw [hu, hs, roundNearestEven_tie]
  norm_num

theorem from_lsb_to_nsec_16777217 : iis3dwb_from_lsb_to_nsec 16777217 = 419430400000 := by
  have a := roundF32_of_representable 3125 27 (by norm_num) (by norm_num)
  have e : (16777216 : ℚ) * 25000 = ((3125 : ℤ) : ℚ) * 2 ^ (27 : ℤ) := by norm_num
  unfold iis3dwb_from_lsb_to_nsec floatMul
  rw [floatOfInt_16777217, floatLit_25000, e, a]
  norm_num

/-- The result of `iis3dwb_from_lsb_to_nsec` is within `2 ^ (-22)` of `lsb * 25000`,
relative to its magnitude, over the whole signed 32-bit range. -/
theorem from_lsb_to_nsec_near (lsb : ℤ) (h1 : -2147483648 ≤ lsb) (h2 : lsb ≤ 2147483647) :
    |iis3dwb_from_lsb_to_nsec lsb - (lsb : ℚ) * 25000| ≤ |(lsb : ℚ) * 25000| * 2 ^ (-22 : ℤ) := by
  by_cases h0 : lsb = 0
  · subst h0
    have := from_lsb_to_nsec_small 0 (by norm_num) (by norm_num)
    rw [this]
    simp
  have habs : (1 : ℚ) ≤ |(lsb : ℚ)| := by
    have : (1 : ℤ) ≤ |lsb| := Int.one_le_abs h0
    exact_mod_cast this
  have r1 : |roundF32 (lsb : ℚ) - lsb| ≤ |(lsb : ℚ)| * 2 ^ (-24 : ℤ) :=
    roundF32_rel_error _ (Or.inr (le_trans (by norm_num) habs))
  have e24 : (2 : ℚ) ^ (-24 : ℤ) = 1 / 16777216 := by norm_num
  have e22 : (2 : ℚ) ^ (-22 : ℤ) = 1 / 4194304 := by norm_num
  rw [e24] at r1
  set L := roundF32 (lsb : ℚ) with hL
  have hLlo : (1 / 2 : ℚ) ≤ |L| := by
    have t := abs_sub_abs_le_abs_sub (lsb : ℚ) L
    rw [abs_sub_comm] at t
    linarith
  have hLhi : |L| ≤ |(lsb : ℚ)| * (1 + 1 / 16777216) := by
    have t := abs_sub_abs_le_abs_sub L (lsb : ℚ)
    linarith
  have r2 : |roundF32 (L * 25000) - L * 25000| ≤ |L * 25000| * 2 ^ (-24 : ℤ) := by
    apply roundF32_rel_error _ (Or.inr _)
    rw [abs_mul, abs_of_pos (by norm_num : (0 : ℚ) < 25000)]
    refine le_trans (by norm_num) (mul_le_mul_of_nonneg_right hLlo (by norm_num))
  rw [e24, abs_mul, abs_of_pos (by norm_num : (0 : ℚ) < 25000)] at r2
  unfold iis3dwb_from_lsb_to_nsec floatMul floatOfInt
  rw [floatLit_25000, ← hL, e22, abs_mul, abs_of_pos (by norm_num : (0 : ℚ) < 25000)]
  have tri : |roundF32 (L * 25000) - (lsb : ℚ) * 25000| ≤
      |roundF32 (L * 25000) - L * 25000| + |L - lsb| * 25000 := by
    have : roundF32 (L * 25000) - (lsb : ℚ) * 25000 =
        (roundF32 (L * 25000) - L * 25000) + (L - lsb) * 25000 := by ring
    rw [this]
    refine (abs_add _ _).trans ?_
    rw [abs_mul, abs_of_pos (by norm_num : (0 : ℚ) < 25000)]
  linarith [abs_nonneg (lsb : ℚ), abs_nonneg L]

/-! ## C26: acceleration conversions -/

/-- C26 (the claim as stated fails). At `lsb = 1` none of the four conversions returns
`lsb` times the decimal constant: `iis3dwb_from_fs2g_to_mg 1` is `16374563 / 2 ^ 28`, the
single-precision constant `0.061f`, which is not `0.061`; likewise for 0.122, 0.244 and
0.488. -/
theorem from_fs_to_mg_single_precision_counterexample :
    ((-32768 : ℤ) ≤ 1 ∧ (1 : ℤ) ≤ 32767) ∧
    (iis3dwb_from_fs2g_to_mg 1 = 16374563 / 268435456 ∧
      iis3dwb_from_fs2g_to_mg 1 ≠ ((1 : ℤ) : ℚ) * 0.061) ∧
    (iis3dwb_from_fs4g_to_mg 1 = 16374563 / 134217728 ∧
      iis3dwb_from_fs4g_to_mg 1 ≠ ((1 : ℤ) : ℚ) * 0.122) ∧
    (iis3dwb_from_fs8g_to_mg 1 = 16374563 / 67108864 ∧
      iis3dwb_from_fs8g_to_mg 1 ≠ ((1 : ℤ) : ℚ) * 0.244) ∧
    (iis3dwb_from_fs16g_to_mg 1 = 16374563 / 33554432 ∧
      iis3dwb_from_fs16g_to_mg 1 ≠ ((1 : ℤ) : ℚ) * 0.488) := by
  obtain ⟨a, b, c, d⟩ := from_fs_to_mg_at_one
  rw [a, b, c, d]
  norm_num

/-- C26 (amended). For every signed 16-bit `lsb`, `iis3dwb_from_fs2g_to_mg lsb` is the
single-precision rounding of `lsb * 0.061f`, where `0.061f = 16374563 / 2 ^ 28` is the
single-precision constant, and differs from `lsb * 0.061` by at most `2 ^ (-23)` of its
magnitude; likewise `iis3dwb_from_fs4g_to_mg` with `0.122f = 16374563 / 2 ^ 27`,
`iis3dwb_from_fs8g_to_mg` with `0.244f = 16374563 / 2 ^ 26` and `iis3dwb_from_fs16g_to_mg`
with `0.488f = 16374563 / 2 ^ 25`. In particular `iis3dwb_from_fs2g_to_mg 1000 = 61` and
`iis3dwb_from_fs16g_to_mg 1000 = 488` exactly. -/
theorem from_fs_to_mg_single_precision :
    (∀ lsb : ℤ, -32768 ≤ lsb → lsb ≤ 32767 →
      (iis3dwb_from_fs2g_to_mg lsb = roundF32 ((lsb : ℚ) * (16374563 / 2 ^ 28)) ∧
        |iis3dwb_from_fs2g_to_mg lsb - (lsb : ℚ) * 0.061| ≤
          |(lsb : ℚ) * 0.061| * 2 ^ (-23 : ℤ)) ∧
      (iis3dwb_from_fs4g_to_mg lsb = roundF32 ((lsb : ℚ) * (16374563 / 2 ^ 27)) ∧
        |iis3dwb_from_fs4g_to_mg lsb - (lsb : ℚ) * 0.122| ≤
          |(lsb : ℚ) * 0.122| * 2 ^ (-23 : ℤ)) ∧
      (iis3dwb_from_fs8g_to_mg lsb = roundF32 ((lsb : ℚ) * (16374563 / 2 ^ 26)) ∧
        |iis3dwb_from_fs8g_to_mg lsb - (lsb : ℚ) * 0.244| ≤
          |(lsb : ℚ) * 0.244| * 2 ^ (-23 : ℤ)) ∧
      (iis3dwb_from_fs16g_to_mg lsb = roundF32 ((lsb : ℚ) * (16374563 / 2 ^ 25)) ∧
        |iis3dwb_from_fs16g_to_mg lsb - (lsb : ℚ) * 0.488| ≤
          |(lsb : ℚ) * 0.488| * 2 ^ (-23 : ℤ))) ∧
    iis3dwb_from_fs2g_to_mg 1000 = 61 ∧
    iis3dwb_from_fs16g_to_mg 1000 = 488 :=
  ⟨fun lsb h1 h2 => ⟨from_fs2g_to_mg_rounded lsb h1 h2, from_fs4g_to_mg_rounded lsb h1 h2,
      from_fs8g_to_mg_rounded lsb h1 h2, from_fs16g_to_mg_rounded lsb h1 h2⟩,
    from_fs2g_to_mg_1000, from_fs16g_to_mg_1000⟩

/-- C26 witness: the most negative sample, -32768, on the 2 g and 16 g scales. -/
theorem from_fs_to_mg_single_precision_witness :
    ((-32768 : ℤ) ≤ -32768 ∧ (-32768 : ℤ) ≤ 32767) ∧
    iis3dwb_from_fs2g_to_mg (-32768) =
      roundF32 (((-32768 : ℤ) : ℚ) * (16374563 / 2 ^ 28)) ∧
    |iis3dwb_from_fs16g_to_mg (-32768) - ((-32768 : ℤ) : ℚ) * 0.488| ≤
      |((-32768 : ℤ) : ℚ) * 0.488| * 2 ^ (-23 : ℤ) :=
  ⟨⟨by decide, by decide⟩,
    (from_fs_to_mg_single_precision.1 (-32768) (by decide) (by decide)).1.1,
    (from_fs_to_mg_single_precision.1 (-32768) (by decide) (by decide)).2.2.2.2⟩

/-! ## C27: temperature conversion -/

/-- C27. For every signed 16-bit `lsb`, `iis3dwb_from_lsb_to_celsius lsb` is exactly
`lsb / 256 + 25` (no step of the single-precision computation rounds); it is 25 at 0 and
26 at 256, and it is strictly increasing in `lsb` over the signed 16-bit range. -/
theorem from_lsb_to_celsius_exact :
    (∀ lsb : ℤ, -32768 ≤ lsb → lsb ≤ 32767 →
      iis3dwb_from_lsb_to_celsius lsb = (lsb : ℚ) / 256 + 25) ∧
    iis3dwb_from_lsb_to_celsius 0 = 25 ∧
    iis3dwb_from_lsb_to_celsius 256 = 26 ∧
    (∀ a b : ℤ, -32768 ≤ a → a < b → b ≤ 32767 →
      iis3dwb_from_lsb_to_celsius a < iis3dwb_from_lsb_to_celsius b) := by
  refine ⟨from_lsb_to_celsius_value, ?_, ?_, ?_⟩
  · rw [from_lsb_to_celsius_value 0 (by norm_num) (by norm_num)]
    norm_num
  · rw [from_lsb_to_celsius_value 256 (by norm_num) (by norm_num)]
    norm_num
  · intro a b ha hab hb
    rw [from_lsb_to_celsius_value a ha (by omega), from_lsb_to_celsius_value b (by omega) hb]
    have : (a : ℚ) < b := by exact_mod_cast hab
    linarith

/-- C27 witness: the value at -32768 and the step from 32766 to 32767. -/
theorem from_lsb_to_celsius_exact_witness :
    ((-32768 : ℤ) ≤ -32768 ∧ (-32768 : ℤ) ≤ 32767 ∧
      iis3dwb_from_lsb_to_celsius (-32768) = ((-32768 : ℤ) : ℚ) / 256 + 25) ∧
    ((-32768 : ℤ) ≤ 32766 ∧ (32766 : ℤ) < 32767 ∧ (32767 : ℤ) ≤ 32767 ∧
      iis3dwb_from_lsb_to_celsius 32766 < iis3dwb_from_lsb_to_celsius 32767) :=
  ⟨⟨by decide, by decide,
      from_lsb_to_celsius_exact.1 (-32768) (by decide) (by decide)⟩,
    ⟨by decide, by decide, by decide,
      from_lsb_to_celsius_exact.2.2.2 32766 32767 (by decide) (by decide) (by decide)⟩⟩

/-! ## C28: timestamp conversion -/

/-- C28 (the claim as stated fails). `iis3dwb_from_lsb_to_nsec 5369` is 134224992, not
`5369 * 25000 = 134225000`, which is no single-precision value; and
`iis3dwb_from_lsb_to_nsec 16777217` is 419430400000, not 419430425000, because the
conversion of 16777217 to `float_t` already gives 16777216. -/
theorem from_lsb_to_nsec_exact_range_counterexample :
    ((-2147483648 : ℤ) ≤ 5369 ∧ (5369 : ℤ) ≤ 2147483647) ∧
    iis3dwb_from_lsb_to_nsec 5369 = 134224992 ∧
    iis3dwb_from_lsb_to_nsec 5369 ≠ ((5369 : ℤ) : ℚ) * 25000 ∧
    ((-2147483648 : ℤ) ≤ 16777217 ∧ (16777217 : ℤ) ≤ 2147483647) ∧
    iis3dwb_from_lsb_to_nsec 16777217 = 419430400000 ∧
    iis3dwb_from_lsb_to_nsec 16777217 ≠ ((16777217 : ℤ) : ℚ) * 25000 := by
  rw [from_lsb_to_nsec_5369, from_lsb_to_nsec_16777217]
  norm_num

/-- C28 (amended). For every tick count `lsb` with `-5368 ≤ lsb ≤ 5368`,
`iis3dwb_from_lsb_to_nsec lsb` is exactly `lsb * 25000`; in particular it is 25000 at 1 and
0 at 0. Over the whole signed 32-bit range it is within `2 ^ (-22)` of `lsb * 25000`,
relative to its magnitude. -/
theorem from_lsb_to_nsec_exact_range :
    (∀ lsb : ℤ, -5368 ≤ lsb → lsb ≤ 5368 →
      iis3dwb_from_lsb_to_nsec lsb = (lsb : ℚ) * 25000) ∧
    iis3dwb_from_lsb_to_nsec 1 = 25000 ∧
    iis3dwb_from_lsb_to_nsec 0 = 0 ∧
    (∀ lsb : ℤ, -2147483648 ≤ lsb → lsb ≤ 2147483647 →
      |iis3dwb_from_lsb_to_nsec lsb - (lsb : ℚ) * 25000| ≤
        |(lsb : ℚ) * 25000| * 2 ^ (-22 : ℤ)) := by
  refine ⟨from_lsb_to_nsec_small, ?_, ?_, from_lsb_to_nsec_near⟩
  · rw [from_lsb_to_nsec_small 1 (by norm_num) (by norm_num)]
    norm_num
  · rw [from_lsb_to_nsec_small 0 (by norm_num) (by norm_num)]
    norm_num

/-- C28 witness: 5368 ticks, the last exact count, and the largest 32-bit count. -/
theorem from_lsb_to_nsec_exact_range_witness :
    (((-5368 : ℤ) ≤ 5368 ∧ (5368 : ℤ) ≤ 5368) ∧
      iis3dwb_from_lsb_to_nsec 5368 = ((5368 : ℤ) : ℚ) * 25000) ∧
    (((-2147483648 : ℤ) ≤ 2147483647 ∧ (2147483647 : ℤ) ≤ 2147483647) ∧
      |iis3dwb_from_lsb_to_nsec 2147483647 - ((2147483647 : ℤ) : ℚ) * 25000| ≤
        |((2147483647 : ℤ) : ℚ) * 25000| * 2 ^ (-22 : ℤ)) :=
  ⟨⟨⟨by decide, by decide⟩,
      from_lsb_to_nsec_exact_range.1 5368 (by decide) (by decide)⟩,
    ⟨⟨by decide, by decide⟩,
      from_lsb_to_nsec_exact_range.2.2.2 2147483647 (by decide) (by decide)⟩⟩
